import Mathlib

/-!
# Music-reactive LED lighting engine: embedding and verified properties

Shallow embedding of the Block B (musical-event detection, lighting switcher)
and Block C (segment / effect compositor) code of `YamahaLightingEsp32`.

Conventions of the embedding
* `float` / `double` values are rationals (`ℚ`). The functions whose outcome the
  rounding of the binary formats decides round every operation like the target
  does, with `f32` (binary32) and `f64` (binary64), each operation on its own
  (no fused multiply-add, no wider intermediate format): the layering of
  `LightEffect::get_led_output`, `LightSegment::apply_dimming`, the transition
  timer of `LightScene::update`, the totals of
  `PerformerSwitchDetector::calc_feature` and the volume comparison of
  `SonghookDetector::calc_feature`. The other operations are the exact ones.
  Infinities and NaN are not values of the embedding.
* `int` is `Int`; the subtractions of `LightSegment::apply_dimming` wrap to 32
  bits (`wrap32`) like the target's, no other modelled path relies on the width.
* `static_cast<int>(x)` is truncation toward zero (`truncToInt`), `std::floor`
  is `Int.floor`.
* `std::map<K, V>` is an association list kept in ascending key order
  (`mapSet` inserts in order, `mapFind` looks a key up); `std::string` keys are
  ordered lexicographically by character code like `std::string::operator<`.
* `std::vector<T>` / `std::deque<T>` are `List T`.
* Member functions that mutate `this` return the new object state.
* A call that can throw returns an `Option` (`none` for the exception); the
  command handler returns a `HandlerResult` that names the exception leaving
  the call.
* A `std::regex` pattern is a list of `RegexItem`s matched against the whole
  address by the backtracking matcher `regex_match_items`.
-/

namespace Lighting

/-! ## Numeric helpers -/

/-- The conversion `static_cast<int>(x)` of a floating value: truncation toward zero. -/
def truncToInt (q : ℚ) : Int := Int.tdiv q.num q.den

/-- The call `std::max(lo, std::min(hi, x))` on `int`. -/
def clampInt (lo hi x : Int) : Int := max lo (min hi x)

/-- The call `std::max(lo, std::min(hi, x))` on floating values. -/
def clampQ (lo hi x : ℚ) : ℚ := max lo (min hi x)

/-! ## Binary floating point (IEEE 754)

The values of `float` and `double` objects are rationals. Where the rounding of an
operation decides an outcome the properties speak about, the operation is followed by
`f32` (binary32, `float`) or `f64` (binary64, `double`): rounding to the nearest
representable value, ties to the even significand, subnormals included. Infinities and
NaN are not values of the embedding: a result beyond the largest finite value is rounded
like any other and does not become infinite. -/

/-- The power `2 ^ e` for an integer exponent. -/
def pow2 (e : Int) : ℚ :=
  if 0 ≤ e then ((2 ^ e.toNat : Nat) : ℚ) else 1 / ((2 ^ (-e).toNat : Nat) : ℚ)

/-- Binary logarithm by repeated halving, at most `fuel` times. -/
def log2Fuel : Nat → Nat → Nat
  | 0, _ => 0
  | fuel + 1, n => if n < 2 then 0 else log2Fuel fuel (n / 2) + 1

/-- The binary logarithm `⌊log₂ n⌋` of a positive natural number (`0` for `n = 0`). -/
def log2Nat (n : Nat) : Nat := log2Fuel n n

/-- Rounding to the nearest integer, ties to the even integer. -/
def roundHalfEven (q : ℚ) : Int :=
  if q - (⌊q⌋ : ℚ) < 1 / 2 then ⌊q⌋
  else if 1 / 2 < q - (⌊q⌋ : ℚ) then ⌊q⌋ + 1
  else if ⌊q⌋ % 2 = 0 then ⌊q⌋
  else ⌊q⌋ + 1

/-- The binary exponent of a non-zero rational: the integer `e` with
`2 ^ e ≤ |q| < 2 ^ (e + 1)`. -/
def binade (q : ℚ) : Int :=
  if pow2 ((log2Nat q.num.natAbs : Int) - (log2Nat q.den : Int)) ≤ |q|
  then (log2Nat q.num.natAbs : Int) - (log2Nat q.den : Int)
  else (log2Nat q.num.natAbs : Int) - (log2Nat q.den : Int) - 1

/-- Rounding to the binary format with `p` digits of precision and least exponent `emin`:
to the nearest multiple of the unit in the last place of the argument, ties to even. -/
def fround (p : Nat) (emin : Int) (q : ℚ) : ℚ :=
  if q = 0 then 0
  else (roundHalfEven (q / pow2 (max (binade q) emin - ((p : Int) - 1))) : ℚ)
    * pow2 (max (binade q) emin - ((p : Int) - 1))

/-- Rounding to `float` (binary32). -/
def f32 (q : ℚ) : ℚ := fround 24 (-126) q

/-- Rounding to `double` (binary64). -/
def f64 (q : ℚ) : ℚ := fround 53 (-1022) q

/-- The `int` a 32-bit two's-complement register holds for the integer `n`: the result of
an `int` operation whose mathematical result is `n`. -/
def wrap32 (n : Int) : Int := (n + 2 ^ 31) % 2 ^ 32 - 2 ^ 31

/-! ## `std::map` as an ordered association list -/

/-- Lexicographic comparison of character sequences by character code. -/
def lexLt : List Char → List Char → Bool
  | [], [] => false
  | [], _ :: _ => true
  | _ :: _, [] => false
  | a :: as, b :: bs =>
    if a.toNat < b.toNat then true
    else if b.toNat < a.toNat then false
    else lexLt as bs

/-- Key order of a `std::map`. -/
class MapKey (κ : Type) where
  /-- The strict order `operator<` on keys. -/
  klt : κ → κ → Bool

instance : MapKey String := ⟨fun a b => lexLt a.data b.data⟩

instance : MapKey Int := ⟨fun a b => decide (a < b)⟩

/-- The lookup `m.find(k)`: the mapped value, if the key is present. -/
def mapFind {κ β : Type} [DecidableEq κ] (k : κ) : List (κ × β) → Option β
  | [] => none
  | (k', v) :: t => if k' = k then some v else mapFind k t

/-- The assignment `m[k] = v`: replaces the value of `k` or inserts `k` at its place
in key order. -/
def mapSet {κ β : Type} [DecidableEq κ] [MapKey κ] (k : κ) (v : β) :
    List (κ × β) → List (κ × β)
  | [] => [(k, v)]
  | (k', v') :: t =>
    if k' = k then (k, v) :: t
    else if MapKey.klt k k' then (k, v) :: (k', v') :: t
    else (k', v') :: mapSet k v t

/-! ## Block B value type (`blockb_types.hpp`) -/

/-- The variant `blockb_output_type` (alias `blockb_any_type`). -/
inductive blockb_any_type where
  | double (v : ℚ)
  | bool (v : Bool)
  | string (v : String)
  | vec_double (v : List ℚ)
  | int (v : Int)
  | vec_int (v : List Int)
  deriving DecidableEq

/-- Struct `BlockBOutputData`: an address-tagged command. -/
structure BlockBOutputData where
  address : String
  data : blockb_any_type
  deriving DecidableEq

/-! ## FrameHistory (`frame_history.cpp`) -/

/-- Class `FrameHistory`: per-key bounded deques. -/
structure FrameHistory where
  maxlen : Nat
  data : List (String × List blockb_any_type)

namespace FrameHistory

/-- Constructor `FrameHistory(maxlen)`. -/
def new (maxlen : Nat) : FrameHistory := { maxlen := maxlen, data := [] }

/-- Method `FrameHistory::get`: a copy of the key's sequence, empty for a missing key. -/
def get (h : FrameHistory) (key : String) : List blockb_any_type :=
  match mapFind key h.data with
  | none => []
  | some q => q

/-- Method `FrameHistory::append`. -/
def append (h : FrameHistory) (key : String) (value : blockb_any_type) : FrameHistory :=
  -- if (data.find(key) == data.end()) data[key] = deque()
  let d0 := match mapFind key h.data with
    | none => mapSet key [] h.data
    | some _ => h.data
  -- data[key].push_back(value)
  let q1 := (match mapFind key d0 with | none => [] | some q => q) ++ [value]
  let d1 := mapSet key q1 d0
  -- if (data[key].size() > maxlen) data[key].pop_front()
  if q1.length > h.maxlen then { h with data := mapSet key q1.tail d1 }
  else { h with data := d1 }

/-- Method `FrameHistory::size`: the length of the first key's sequence. -/
def size (h : FrameHistory) : Nat :=
  match h.data with
  | [] => 0
  | (_, q) :: _ => q.length

/-- Method `FrameHistory::keys`. -/
def keys (h : FrameHistory) : List String := h.data.map Prod.fst

/-- A sequence of `append` calls, in order. -/
def appendAll (h : FrameHistory) (ops : List (String × blockb_any_type)) : FrameHistory :=
  ops.foldl (fun acc op => acc.append op.1 op.2) h

end FrameHistory

/-! ## LightSwitchFlgMaker (`light_switch_flg_maker.cpp`) -/

/-- Element access `v[i]` of a `std::vector` with an `int` index. An index outside the
vector is undefined behaviour in the source; the embedding yields `d` there. -/
def vecAt {α : Type} (v : List α) (i : Int) (d : α) : α :=
  if 0 ≤ i then v.getD i.toNat d else d

/-- The read `m[key]` of a `std::map<std::string, bool>`: a missing key reads as the
value-initialised `false`. -/
def flagOf (m : List (String × Bool)) (key : String) : Bool :=
  match mapFind key m with
  | some b => b
  | none => false

/-- The test used by every `determine_*` method: the value under `key` when it holds the
`bool` alternative, `false` otherwise (a missing key reads as a default `double`). -/
def boolFlagOf (m : List (String × blockb_any_type)) (key : String) : Bool :=
  match mapFind key m with
  | some (.bool b) => b
  | _ => false

/-- Class `LightSwitchFlgMaker`. -/
structure LightSwitchFlgMaker where
  light_switch_flgs : List (String × Bool)
  musical_change_flgs : List (String × blockb_any_type)

namespace LightSwitchFlgMaker

/-- Constructor `LightSwitchFlgMaker()`. -/
def new : LightSwitchFlgMaker :=
  { light_switch_flgs :=
      mapSet "color_shift_flg" false (mapSet "effect_change_flg" false
        (mapSet "palette_change_flg" false (mapSet "lighting_scene_change_flg" false
          (mapSet "lighting_end_flg" false (mapSet "lighting_start_flg" false [])))))
    musical_change_flgs := [] }

/-- Method `update_musical_change_flgs`. -/
def update_musical_change_flgs (m : LightSwitchFlgMaker)
    (new_musical_change_flgs : List (String × blockb_any_type)) : LightSwitchFlgMaker :=
  { m with musical_change_flgs := new_musical_change_flgs }

/-- Method `determine_song_start`. -/
def determine_song_start (m : LightSwitchFlgMaker) : Bool :=
  boolFlagOf m.musical_change_flgs "silence_break_flg"

/-- Method `determine_song_end`. -/
def determine_song_end (m : LightSwitchFlgMaker) : Bool :=
  boolFlagOf m.musical_change_flgs "silence_start_flg"

/-- Method `determine_song_change`. -/
def determine_song_change (m : LightSwitchFlgMaker) : Bool :=
  boolFlagOf m.musical_change_flgs "song_alternation_flg"

/-- Method `determine_palette_change`. -/
def determine_palette_change (m : LightSwitchFlgMaker) : Bool :=
  boolFlagOf m.musical_change_flgs "no_change_16beats_flg"

/-- Method `determine_effect_change`. -/
def determine_effect_change (m : LightSwitchFlgMaker) : Bool :=
  boolFlagOf m.musical_change_flgs "no_change_8beats_flg"

/-- Method `determine_color_shift`. -/
def determine_color_shift (m : LightSwitchFlgMaker) : Bool :=
  boolFlagOf m.musical_change_flgs "no_change_4beats_flg"

/-- Method `exec_make_flgs`: the updated maker; the returned map is its
`light_switch_flgs`. -/
def exec_make_flgs (m : LightSwitchFlgMaker) : LightSwitchFlgMaker :=
  let f1 := mapSet "lighting_start_flg" m.determine_song_start m.light_switch_flgs
  let f2 := mapSet "lighting_end_flg" m.determine_song_end f1
  let f3 := mapSet "lighting_scene_change_flg" m.determine_song_change f2
  let f4 := mapSet "palette_change_flg" m.determine_palette_change f3
  let f5 := mapSet "effect_change_flg" m.determine_effect_change f4
  let f6 := mapSet "color_shift_flg" m.determine_color_shift f5
  { m with light_switch_flgs := f6 }

end LightSwitchFlgMaker

/-! ## LightingSwitcher (`lighting_switcher.cpp`) -/

/-- Class `LightingSwitcher`. -/
structure LightingSwitcher where
  genre_id : Int
  tempo : Int
  current_effect_id : Int
  effect_ids : List Int
  palette_ids : List String
  json_name_list : List String
  segment_num : Int
  segment_color_ids : List (List Int)
  light_switch_flgs : List (String × Bool)
  tempo_anchor : List Int
  dimmer_time_ratio_anchor : List ℚ
  light_switch_flg_maker : LightSwitchFlgMaker
  current_palette_index : Int
  current_effect_index : Int

namespace LightingSwitcher

/-- Constructor `LightingSwitcher()`. -/
def new : LightingSwitcher :=
  { genre_id := 1
    tempo := 0
    current_effect_id := 1
    effect_ids := [1, 2, 3, 4, 5, 6, 7, 8]
    palette_ids := ["A", "B", "C", "D", "E"]
    json_name_list :=
      ["test_effects.json", "classic.json", "dance.json", "jazz.json", "pop&rock.json"]
    segment_num := 10
    segment_color_ids := List.replicate 10 (List.replicate 4 (-1))
    light_switch_flgs := []
    tempo_anchor := [60, 80, 100, 120, 140]
    dimmer_time_ratio_anchor := [3, 1, 7 / 10, 1 / 2, 3 / 10]
    light_switch_flg_maker := LightSwitchFlgMaker.new
    current_palette_index := 0
    current_effect_index := 0 }

/-- Method `update_genre`. -/
def update_genre (s : LightingSwitcher) (genre_id : Int) : LightingSwitcher :=
  { s with genre_id := genre_id }

/-- Method `update_tempo`. -/
def update_tempo (s : LightingSwitcher) (tempo : Int) : LightingSwitcher :=
  { s with tempo := tempo }

/-- Method `update_light_switch_flgs`. -/
def update_light_switch_flgs (s : LightingSwitcher)
    (musical_change_flgs : List (String × blockb_any_type)) : LightingSwitcher :=
  let maker := (s.light_switch_flg_maker.update_musical_change_flgs
    musical_change_flgs).exec_make_flgs
  { s with light_switch_flg_maker := maker, light_switch_flgs := maker.light_switch_flgs }

/-- The expression `(index + 1) % v.size()`: the `int` sum is converted to the unsigned
`size_t` (32 bits on the ESP32 target) before the remainder is taken. -/
def nextIndex (index : Int) (size : Nat) : Int :=
  (((index + 1) % (2 ^ 32 : Int)) % (size : Int))

/-- Method `get_next_palette_id`: the new state and the palette id. -/
def get_next_palette_id (s : LightingSwitcher) : LightingSwitcher × String :=
  let idx := nextIndex s.current_palette_index s.palette_ids.length
  ({ s with current_palette_index := idx }, vecAt s.palette_ids idx "")

/-- Method `get_next_effect_id`: the new state and the effect id. -/
def get_next_effect_id (s : LightingSwitcher) : LightingSwitcher × Int :=
  let idx := nextIndex s.current_effect_index s.effect_ids.length
  ({ s with current_effect_index := idx }, vecAt s.effect_ids idx 0)

/-- Body of the `seg_id` loop of the colour-shift branch: shifts the four colour indices
of one segment and pushes its command. -/
def color_shift_step (acc : LightingSwitcher × List BlockBOutputData) (seg_id : Nat) :
    LightingSwitcher × List BlockBOutputData :=
  let s := acc.1
  let seg_colors := (vecAt s.segment_color_ids seg_id []).map (fun c => Int.tmod (c + 1) 5)
  let address := "/scene/1/effect/" ++ toString s.current_effect_id ++ "/segment/"
    ++ toString (seg_id : Int) ++ "/color"
  ({ s with segment_color_ids := s.segment_color_ids.set seg_id seg_colors },
    acc.2 ++ [{ address := address, data := .vec_int seg_colors }])

/-- Method `light_switch_flag`: the new state and the emitted commands (`data_send`). -/
def light_switch_flag (s : LightingSwitcher) : LightingSwitcher × List BlockBOutputData :=
  if flagOf s.light_switch_flgs "lighting_start_flg" then
    let scene_json := vecAt s.json_name_list s.genre_id ""
    (s, [{ address := "/scene/1/load_effects", data := .string scene_json }])
  else if flagOf s.light_switch_flgs "lighting_end_flg" then
    (s, [{ address := "/scene/1/change_effect", data := .int 0 }])
  else if flagOf s.light_switch_flgs "lighting_scene_change_flg" then
    let scene_json := vecAt s.json_name_list s.genre_id ""
    (s, [{ address := "/scene/1/load_effects", data := .string scene_json }])
  else if flagOf s.light_switch_flgs "palette_change_flg" then
    let r := s.get_next_palette_id
    (r.1, [{ address := "/scene/1/change_palette", data := .string r.2 }])
  else if flagOf s.light_switch_flgs "effect_change_flg" then
    let r := s.get_next_effect_id
    ({ r.1 with current_effect_id := r.2 },
      [{ address := "/scene/1/change_effect", data := .int r.2 }])
  else if flagOf s.light_switch_flgs "color_shift_flg" then
    (List.range s.segment_num.toNat).foldl color_shift_step (s, [])
  else
    (s, [])

/-- The command the colour-shift branch emits for segment index `seg_id`, computed from
the state at the beginning of the call. -/
def color_shift_command (s : LightingSwitcher) (seg_id : Nat) : BlockBOutputData :=
  { address := "/scene/1/effect/" ++ toString s.current_effect_id ++ "/segment/"
      ++ toString (seg_id : Int) ++ "/color"
    data := .vec_int ((s.segment_color_ids.getD seg_id []).map (fun c => Int.tmod (c + 1) 5)) }

/-- The invariant the constructor establishes on the fields that no method reassigns, and
on the shape of `segment_color_ids`. -/
def Valid (s : LightingSwitcher) : Prop :=
  s.effect_ids = [1, 2, 3, 4, 5, 6, 7, 8]
  ∧ s.palette_ids = ["A", "B", "C", "D", "E"]
  ∧ s.json_name_list =
      ["test_effects.json", "classic.json", "dance.json", "jazz.json", "pop&rock.json"]
  ∧ s.segment_num = 10
  ∧ s.segment_color_ids.length = 10

instance (s : LightingSwitcher) : Decidable s.Valid := by
  unfold Valid
  infer_instance

end LightingSwitcher

/-! ## Detectors (`songhook_detector.cpp`, `performer_switch_detector.cpp`,
`highlight_detector.cpp`, `song_alternation_detector.cpp`)

Reads that throw in the source (`std::get` on another alternative, `map::at` on a missing
key) or are undefined (an index outside a vector) yield a default value in the embedding.
None of them is reachable through `SectionProgressionDetector` and
`MusicToLightInterpretor`, which always supply the keys with the expected alternatives. -/

/-- The read `std::get<double>(v)`. -/
def asDouble : blockb_any_type → ℚ
  | .double v => v
  | _ => 0

/-- The read `std::get<int>(v)`. -/
def asInt : blockb_any_type → Int
  | .int v => v
  | _ => 0

/-- The read `std::get<bool>(v)`. -/
def asBool : blockb_any_type → Bool
  | .bool v => v
  | _ => false

/-- The read `std::get<std::string>(v)`. -/
def asString : blockb_any_type → String
  | .string v => v
  | _ => ""

/-- The read `std::get<std::vector<double>>(v)`. -/
def asVecDouble : blockb_any_type → List ℚ
  | .vec_double v => v
  | _ => []

/-- The read `m.at(key)` of a `std::map<std::string, blockb_any_type>`. -/
def mapAt (m : List (String × blockb_any_type)) (key : String) : blockb_any_type :=
  match mapFind key m with
  | some v => v
  | none => .double 0

/-- The element `values[values.size() - k]` of a history sequence. -/
def backAt (values : List blockb_any_type) (k : Nat) : blockb_any_type :=
  values.getD (values.length - k) (.double 0)

/-- The `int` value of a `bool` in an arithmetic expression. -/
def boolToInt (b : Bool) : Int := if b then 1 else 0

/-- Class `SonghookDetector`. -/
structure SonghookDetector where
  prev_detect_frame : Int
  cooldown_frames : Int
  features : List (String × blockb_any_type)
  history : FrameHistory

namespace SonghookDetector

/-- Constructor `SonghookDetector()`. -/
def new : SonghookDetector :=
  { prev_detect_frame := -1000
    cooldown_frames := 100
    features := mapSet "hook_score" (.int 0) (mapSet "tempo_stable_flg" (.bool false)
      (mapSet "volume_increase_flg" (.bool false) (mapSet "excitement_rise_flg" (.bool false) [])))
    history := FrameHistory.new 20 }

/-- Method `SonghookDetector::calc_feature`. -/
def calc_feature (d : SonghookDetector) : SonghookDetector :=
  if d.history.size < 20 then
    { d with features := mapSet "hook_score" (.int 0) (mapSet "tempo_stable_flg" (.bool false)
        (mapSet "volume_increase_flg" (.bool false)
          (mapSet "excitement_rise_flg" (.bool false) d.features))) }
  else
    let surround_index_values := d.history.get "surround_index"
    let volume_high_values := d.history.get "volume_high"
    let volume_mid_values := d.history.get "volume_mid"
    let volume_low_values := d.history.get "volume_low"
    let tempo_values := d.history.get "tempo"
    let latest_surround := asDouble (backAt surround_index_values 1)
    let past_surround := asDouble (backAt surround_index_values 11)
    let excitement_rise_flg : Bool := decide (latest_surround - past_surround ≥ 1)
    let vol_now_mean : ℚ := (asDouble (backAt volume_high_values 1)
      + asDouble (backAt volume_mid_values 1) + asDouble (backAt volume_low_values 1)) / 3
    let vol_before_mean : ℚ := (asDouble (backAt volume_high_values 11)
      + asDouble (backAt volume_mid_values 11) + asDouble (backAt volume_low_values 11)) / 3
    -- vol_now_mean > vol_before_mean * 1.1: a binary64 product with the double nearest to 1.1
    let volume_increase_flg : Bool :=
      decide (vol_now_mean > f64 (vol_before_mean * f64 (11 / 10)))
    let recent_tempo : List ℚ :=
      (List.range 10).map (fun i => asDouble (tempo_values.getD (tempo_values.length - 10 + i)
        (.double 0)))
    let avg_tempo : ℚ := recent_tempo.sum / 10
    let tempo_stable_flg : Bool := recent_tempo.all (fun x => decide (¬ (|x - avg_tempo| ≥ 5)))
    let hook_score : Int :=
      (boolToInt excitement_rise_flg + boolToInt volume_increase_flg + boolToInt tempo_stable_flg)
    { d with features := (mapSet "hook_score" (.int hook_score)
        (mapSet "tempo_stable_flg" (.bool tempo_stable_flg)
          (mapSet "volume_increase_flg" (.bool volume_increase_flg)
            (mapSet "excitement_rise_flg" (.bool excitement_rise_flg) d.features)))) }

/-- Method `SonghookDetector::update_state`. -/
def update_state (d : SonghookDetector) (input_frame : List (String × blockb_any_type)) :
    SonghookDetector :=
  let eq_levels := asVecDouble (mapAt input_frame "eq_levels")
  let h1 := d.history.append "tempo" (.double (asDouble (mapAt input_frame "tempo")))
  let h2 := h1.append "surround_index" (.double (vecAt eq_levels 0 0))
  let h3 := h2.append "volume_high" (.double (vecAt eq_levels 1 0))
  let h4 := h3.append "volume_mid" (.double (vecAt eq_levels 2 0))
  let h5 := h4.append "volume_low" (.double (vecAt eq_levels 3 0))
  calc_feature { d with history := h5 }

/-- Method `SonghookDetector::detect_songhook` (it assigns the `mutable` member
`prev_detect_frame`): the flag and the new state. -/
def detect_songhook (d : SonghookDetector) : Bool × SonghookDetector :=
  match mapFind "hook_score" d.features with
  | none => (false, d)
  | some v =>
    let current_frame : Int := ((d.history.get "tempo").length : Int) - 1
    let hook_score := asInt v
    if hook_score ≥ 2 ∧ current_frame - d.prev_detect_frame > d.cooldown_frames then
      (true, { d with prev_detect_frame := current_frame })
    else (false, d)

/-- Method `SonghookDetector::get_songhook_flg`. -/
def get_songhook_flg (d : SonghookDetector) : Bool × SonghookDetector := d.detect_songhook

end SonghookDetector

/-- The test `cos_sim < 0.90` of `PerformerSwitchDetector::calc_feature`, where
`cos_sim = a·b / (‖a‖ ‖b‖)`, decided exactly without extracting the square roots. When
one of the norms is zero the quotient of the source is `0/0`, which compares false. -/
def cos_sim_below_090 (a b : List ℚ) : Bool :=
  let dot : ℚ := vecAt a 0 0 * vecAt b 0 0 + vecAt a 1 0 * vecAt b 1 0 + vecAt a 2 0 * vecAt b 2 0
  let na : ℚ := vecAt a 0 0 ^ 2 + vecAt a 1 0 ^ 2 + vecAt a 2 0 ^ 2
  let nb : ℚ := vecAt b 0 0 ^ 2 + vecAt b 1 0 ^ 2 + vecAt b 2 0 ^ 2
  if na * nb = 0 then false
  else if dot < 0 then true
  else decide (100 * dot ^ 2 < 81 * (na * nb))

/-- Class `PerformerSwitchDetector`. -/
structure PerformerSwitchDetector where
  prev_detect_frame : Int
  cooldown_frames : Int
  features : List (String × blockb_any_type)
  history : FrameHistory

namespace PerformerSwitchDetector

/-- Constructor `PerformerSwitchDetector()`. -/
def new : PerformerSwitchDetector :=
  { prev_detect_frame := -1000
    cooldown_frames := 80
    features := mapSet "switch_score" (.int 0) (mapSet "volume_band_ratio_diff" (.double 0)
      (mapSet "band_balance_shift_flg" (.bool false) []))
    history := FrameHistory.new 15 }

/-- Method `PerformerSwitchDetector::calc_feature`. -/
def calc_feature (d : PerformerSwitchDetector) : PerformerSwitchDetector :=
  if d.history.size < 15 then
    { d with features := (mapSet "switch_score" (.int 0)
        (mapSet "volume_band_ratio_diff" (.double 0)
          (mapSet "band_balance_shift_flg" (.bool false) d.features))) }
  else
    let volume_high_values := d.history.get "volume_high"
    let volume_mid_values := d.history.get "volume_mid"
    let volume_low_values := d.history.get "volume_low"
    let high_now := asDouble (backAt volume_high_values 1)
    let mid_now := asDouble (backAt volume_mid_values 1)
    let low_now := asDouble (backAt volume_low_values 1)
    let high_past := asDouble (backAt volume_high_values 11)
    let mid_past := asDouble (backAt volume_mid_values 11)
    let low_past := asDouble (backAt volume_low_values 11)
    -- double total_now = high_now + mid_now + low_now + 1e-5: three binary64 additions,
    -- from left to right, the last one of the double nearest to 1e-5
    let total_now : ℚ := f64 (f64 (f64 (high_now + mid_now) + low_now) + f64 (1 / 10 ^ 5))
    let total_past : ℚ := f64 (f64 (f64 (high_past + mid_past) + low_past) + f64 (1 / 10 ^ 5))
    let ratio_now : List ℚ := [high_now / total_now + 1 / 10 ^ 5,
      mid_now / total_now + 1 / 10 ^ 5, low_now / total_now + 1 / 10 ^ 5]
    let ratio_past : List ℚ := [high_past / total_past + 1 / 10 ^ 5,
      mid_past / total_past + 1 / 10 ^ 5, low_past / total_past + 1 / 10 ^ 5]
    let band_balance_shift_flg : Bool := cos_sim_below_090 ratio_now ratio_past
    let volume_band_ratio_diff : ℚ :=
      ((List.zipWith (fun x y => |x - y|) ratio_now ratio_past).sum)
    let switch_score : Int :=
      (boolToInt band_balance_shift_flg + (if volume_band_ratio_diff > 3 / 10 then 1 else 0))
    { d with features := (mapSet "switch_score" (.int switch_score)
        (mapSet "volume_band_ratio_diff" (.double volume_band_ratio_diff)
          (mapSet "band_balance_shift_flg" (.bool band_balance_shift_flg) d.features))) }

/-- Method `PerformerSwitchDetector::update_state`. -/
def update_state (d : PerformerSwitchDetector) (input_frame : List (String × blockb_any_type)) :
    PerformerSwitchDetector :=
  let eq_levels := asVecDouble (mapAt input_frame "eq_levels")
  let h1 := d.history.append "volume_high" (.double (vecAt eq_levels 1 0))
  let h2 := h1.append "volume_mid" (.double (vecAt eq_levels 2 0))
  let h3 := h2.append "volume_low" (.double (vecAt eq_levels 3 0))
  calc_feature { d with history := h3 }

/-- Method `PerformerSwitchDetector::detect_performer_switch`: the flag and the new state. -/
def detect_performer_switch (d : PerformerSwitchDetector) : Bool × PerformerSwitchDetector :=
  match mapFind "switch_score" d.features with
  | none => (false, d)
  | some v =>
    let current_frame : Int := ((d.history.get "volume_high").length : Int) - 1
    let switch_score := asInt v
    if switch_score ≥ 2 ∧ current_frame - d.prev_detect_frame > d.cooldown_frames then
      (true, { d with prev_detect_frame := current_frame })
    else (false, d)

/-- Method `PerformerSwitchDetector::get_performer_switch_flg`. -/
def get_performer_switch_flg (d : PerformerSwitchDetector) : Bool × PerformerSwitchDetector :=
  d.detect_performer_switch

end PerformerSwitchDetector

/-- Class `HighlightDetector`. -/
structure HighlightDetector where
  prev_detect_frame : Int
  cooldown_frames : Int
  features : List (String × blockb_any_type)
  history : FrameHistory

namespace HighlightDetector

/-- Constructor `HighlightDetector()`. -/
def new : HighlightDetector :=
  { prev_detect_frame := -1000
    cooldown_frames := 100
    features := mapSet "highlight_score" (.int 0) (mapSet "tempo_confidence" (.double 0)
      (mapSet "long_rise_score" (.int 0) (mapSet "surge_score" (.int 0) [])))
    history := FrameHistory.new 30 }

/-- Method `HighlightDetector::calc_feature`. -/
def calc_feature (d : HighlightDetector) : HighlightDetector :=
  if d.history.size < 30 then
    { d with features := mapSet "highlight_score" (.int 0) (mapSet "tempo_confidence" (.double 0)
        (mapSet "long_rise_score" (.int 0) (mapSet "surge_score" (.int 0) d.features))) }
  else
    let volume_high_values := d.history.get "volume_high"
    let volume_mid_values := d.history.get "volume_mid"
    let volume_low_values := d.history.get "volume_low"
    let tempo_confidence_values := d.history.get "tempo_confidence"
    let latest : Int := (volume_high_values.length : Int) - 1
    let short_past : Int := (volume_high_values.length : Int) - 6
    let long_past : Int := (volume_high_values.length : Int) - 21
    let surge : ℚ := asDouble (vecAt volume_high_values latest (.double 0))
      - asDouble (vecAt volume_high_values short_past (.double 0))
    let surge_score : Int := if surge > 20 then 1 else 0
    let now_total : ℚ := asDouble (vecAt volume_high_values latest (.double 0))
      + asDouble (vecAt volume_mid_values latest (.double 0))
      + asDouble (vecAt volume_low_values latest (.double 0))
    let past_total : ℚ := asDouble (vecAt volume_high_values long_past (.double 0))
      + asDouble (vecAt volume_mid_values long_past (.double 0))
      + asDouble (vecAt volume_low_values long_past (.double 0))
    let long_rise_score : Int := if now_total - past_total > 30 then 1 else 0
    let tempo_conf : ℚ := asDouble (vecAt tempo_confidence_values latest (.double 0))
    let tempo_conf_score : Int := if tempo_conf > 6 / 10 then 1 else 0
    let highlight_score : Int := (surge_score + long_rise_score + tempo_conf_score)
    { d with features := (mapSet "highlight_score" (.int highlight_score)
        (mapSet "tempo_confidence" (.double tempo_conf)
          (mapSet "long_rise_score" (.int long_rise_score)
            (mapSet "surge_score" (.int surge_score) d.features)))) }

/-- Method `HighlightDetector::update_state`. -/
def update_state (d : HighlightDetector) (input_frame : List (String × blockb_any_type)) :
    HighlightDetector :=
  let eq_levels := asVecDouble (mapAt input_frame "eq_levels")
  let tempo_confidence := asDouble (mapAt input_frame "tempo_confidence")
  let h1 := d.history.append "volume_high" (.double (vecAt eq_levels 1 0))
  let h2 := h1.append "volume_mid" (.double (vecAt eq_levels 2 0))
  let h3 := h2.append "volume_low" (.double (vecAt eq_levels 3 0))
  let h4 := h3.append "tempo_confidence" (.double tempo_confidence)
  calc_feature { d with history := h4 }

/-- Method `HighlightDetector::detect_highlight`: the flag and the new state. -/
def detect_highlight (d : HighlightDetector) : Bool × HighlightDetector :=
  match mapFind "highlight_score" d.features with
  | none => (false, d)
  | some v =>
    let current_frame : Int := ((d.history.get "volume_high").length : Int) - 1
    let highlight_score := asInt v
    if highlight_score ≥ 2 ∧ current_frame - d.prev_detect_frame > d.cooldown_frames then
      (true, { d with prev_detect_frame := current_frame })
    else (false, d)

/-- Method `HighlightDetector::get_highlight_flg`. -/
def get_highlight_flg (d : HighlightDetector) : Bool × HighlightDetector := d.detect_highlight

end HighlightDetector

/-- Class `SongAlternationDetector`. -/
structure SongAlternationDetector where
  history : FrameHistory
  prev_detect_frame : Int
  cooldown_frames : Int
  features : List (String × blockb_any_type)

namespace SongAlternationDetector

/-- Constructor `SongAlternationDetector()`. -/
def new : SongAlternationDetector :=
  { history := FrameHistory.new 30
    prev_detect_frame := -1000
    cooldown_frames := 50
    features := mapSet "change_score" (.int 0) (mapSet "surround_change_flg" (.bool false)
      (mapSet "tempo_change_flg" (.bool false) (mapSet "genre_change_flg" (.bool false) []))) }

/-- Method `SongAlternationDetector::calc_feature`. -/
def calc_feature (d : SongAlternationDetector) : SongAlternationDetector :=
  if d.history.size < 30 then
    { d with features := mapSet "change_score" (.int 0) (mapSet "surround_change_flg" (.bool false)
        (mapSet "tempo_change_flg" (.bool false)
          (mapSet "genre_change_flg" (.bool false) d.features))) }
  else
    let genre_id := d.history.get "genre_id"
    let tempo := d.history.get "tempo"
    let surround := d.history.get "surround_index"
    let latest : Int := (genre_id.length : Int) - 1
    let past : Int := (genre_id.length : Int) - 2
    let genre_change_flg : Bool :=
      decide (asString (vecAt genre_id latest (.double 0))
        ≠ asString (vecAt genre_id past (.double 0)))
    let tempo_change_flg : Bool :=
      decide (|asDouble (vecAt tempo latest (.double 0))
        - asDouble (vecAt tempo past (.double 0))| > 20)
    let surround_change_flg : Bool :=
      decide (|asDouble (vecAt surround latest (.double 0))
        - asDouble (vecAt surround past (.double 0))| ≥ 2)
    let change_score : Int :=
      (boolToInt genre_change_flg + boolToInt tempo_change_flg + boolToInt surround_change_flg)
    { d with features := (mapSet "change_score" (.int change_score)
        (mapSet "surround_change_flg" (.bool surround_change_flg)
          (mapSet "tempo_change_flg" (.bool tempo_change_flg)
            (mapSet "genre_change_flg" (.bool genre_change_flg) d.features)))) }

/-- Method `SongAlternationDetector::update_history`. -/
def update_history (d : SongAlternationDetector) (genre : String) (tempo surround_score : ℚ) :
    SongAlternationDetector :=
  let h1 := d.history.append "genre_id" (.string genre)
  let h2 := h1.append "tempo" (.double tempo)
  let h3 := h2.append "surround_index" (.double surround_score)
  calc_feature { d with history := h3 }

/-- Method `SongAlternationDetector::detect_song_alternation`: the flag and the new state. -/
def detect_song_alternation (d : SongAlternationDetector) : Bool × SongAlternationDetector :=
  match mapFind "change_score" d.features with
  | none => (false, d)
  | some v =>
    let current_frame : Int := ((d.history.get "genre_id").length : Int) - 1
    let change_score := asInt v
    if change_score ≥ 2 ∧ current_frame - d.prev_detect_frame > d.cooldown_frames then
      (true, { d with prev_detect_frame := current_frame })
    else (false, d)

/-- Method `SongAlternationDetector::get_change_flg`. -/
def get_change_flg (d : SongAlternationDetector) : Bool × SongAlternationDetector :=
  d.detect_song_alternation

end SongAlternationDetector

/-! ## SectionProgressionDetector (`section_progression_detector.cpp`) -/

/-- Class `SectionProgressionDetector`. -/
structure SectionProgressionDetector where
  songhook_detector : SonghookDetector
  performer_switch_detector : PerformerSwitchDetector
  highlight_detector : HighlightDetector

namespace SectionProgressionDetector

/-- Constructor `SectionProgressionDetector()`. -/
def new : SectionProgressionDetector :=
  { songhook_detector := SonghookDetector.new
    performer_switch_detector := PerformerSwitchDetector.new
    highlight_detector := HighlightDetector.new }

/-- The map `input_frame` that `update_state` builds from its arguments. -/
def input_frame (beat_flg : Bool) (eq_levels : List ℚ) (tempo tempo_confidence : ℚ) :
    List (String × blockb_any_type) :=
  mapSet "tempo_confidence" (.double tempo_confidence) (mapSet "tempo" (.double tempo)
    (mapSet "eq_levels" (.vec_double eq_levels) (mapSet "beat_flg" (.bool beat_flg) [])))

/-- Method `SectionProgressionDetector::update_state`. -/
def update_state (d : SectionProgressionDetector) (beat_flg : Bool) (eq_levels : List ℚ)
    (tempo tempo_confidence : ℚ) : SectionProgressionDetector :=
  let frame := input_frame beat_flg eq_levels tempo tempo_confidence
  { songhook_detector := (d.songhook_detector.update_state frame).calc_feature
    performer_switch_detector := (d.performer_switch_detector.update_state frame).calc_feature
    highlight_detector := (d.highlight_detector.update_state frame).calc_feature }

/-- Method `SectionProgressionDetector::get_songhook_flg`. -/
def get_songhook_flg (d : SectionProgressionDetector) : Bool × SectionProgressionDetector :=
  let r := d.songhook_detector.detect_songhook
  (r.1, { d with songhook_detector := r.2 })

/-- Method `SectionProgressionDetector::get_performer_switch_flg`. -/
def get_performer_switch_flg (d : SectionProgressionDetector) :
    Bool × SectionProgressionDetector :=
  let r := d.performer_switch_detector.detect_performer_switch
  (r.1, { d with performer_switch_detector := r.2 })

/-- Method `SectionProgressionDetector::get_highlight_flg`. -/
def get_highlight_flg (d : SectionProgressionDetector) : Bool × SectionProgressionDetector :=
  let r := d.highlight_detector.detect_highlight
  (r.1, { d with highlight_detector := r.2 })

end SectionProgressionDetector

/-! ## IdleStateDetector (`idle_state_detector.cpp`) -/

/-- Class `IdleStateDetector`. -/
structure IdleStateDetector where
  history : FrameHistory
  beat_counter : Int
  cooldown_beats : List Int
  idle_counters : List (Int × Int)
  idle_flags : List (Int × Bool)

namespace IdleStateDetector

/-- Constructor `IdleStateDetector()`. -/
def new : IdleStateDetector :=
  { history := FrameHistory.new 32
    beat_counter := 0
    cooldown_beats := [4, 8, 16, 32]
    idle_counters := [4, 8, 16, 32].foldl (fun m beat => mapSet beat (0 : Int) m) []
    idle_flags := [4, 8, 16, 32].foldl (fun m beat => mapSet beat false m) [] }

/-- The read `idle_flags[key]` (a missing key reads as `false`). -/
def flag (d : IdleStateDetector) (key : Int) : Bool :=
  match mapFind key d.idle_flags with
  | some b => b
  | none => false

/-- Method `IdleStateDetector::update_idle_state`. The two detectors are passed by
reference and polled through their flag getters, which assign their `mutable`
`prev_detect_frame`; their new states are returned with the tracker's. -/
def update_idle_state (d : IdleStateDetector) (section_detector : SectionProgressionDetector)
    (song_alternation_detector : SongAlternationDetector) (beat_flg : Bool) :
    IdleStateDetector × SectionProgressionDetector × SongAlternationDetector :=
  let history := d.history.append "beat_flg" (.bool beat_flg)
  if history.size < 32 then
    ({ d with
        history := history
        idle_flags := mapSet 32 false (mapSet 16 false (mapSet 8 false
          (mapSet 4 false d.idle_flags))) },
      section_detector, song_alternation_detector)
  else
    let beat_history := history.get "beat_flg"
    let previous_beat : Bool :=
      if beat_history.length ≥ 2 then asBool (backAt beat_history 2) else false
    let d1 : IdleStateDetector :=
      if previous_beat then
        { d with
          history := history
          idle_flags := d.cooldown_beats.foldl (fun m cooldown_beat =>
            mapSet cooldown_beat false m) d.idle_flags }
      else if beat_flg then
        let beat_counter := d.beat_counter + 1
        { d with
          history := history
          idle_flags := d.cooldown_beats.foldl (fun m cooldown_beat =>
            mapSet cooldown_beat
              (decide (beat_counter ≠ 0 ∧ Int.tmod beat_counter cooldown_beat = 0)) m)
            d.idle_flags
          beat_counter := if beat_counter ≥ 32 then 0 else beat_counter }
      else { d with history := history }
    let r1 := section_detector.get_songhook_flg
    let r2 := r1.2.get_performer_switch_flg
    let r3 := r2.2.get_highlight_flg
    let r4 := song_alternation_detector.get_change_flg
    let any_changes : Bool := r1.1 || r2.1 || r3.1 || r4.1
    ({ d1 with beat_counter := if any_changes then 0 else d1.beat_counter }, r3.2, r4.2)

/-- Method `get_no_change_4beats_flg`. -/
def get_no_change_4beats_flg (d : IdleStateDetector) : Bool := d.flag 4

/-- Method `get_no_change_8beats_flg`. -/
def get_no_change_8beats_flg (d : IdleStateDetector) : Bool := d.flag 8

/-- Method `get_no_change_16beats_flg`. -/
def get_no_change_16beats_flg (d : IdleStateDetector) : Bool := d.flag 16

/-- Method `get_no_change_32beats_flg`. -/
def get_no_change_32beats_flg (d : IdleStateDetector) : Bool := d.flag 32

/-- The four `no_change` flags, for 4, 8, 16 and 32 beats. -/
def flags (d : IdleStateDetector) : Bool × Bool × Bool × Bool :=
  (d.get_no_change_4beats_flg, d.get_no_change_8beats_flg, d.get_no_change_16beats_flg,
    d.get_no_change_32beats_flg)

/-- One `update_idle_state` call: the detector objects passed and the beat flag. -/
abbrev Call := SectionProgressionDetector × SongAlternationDetector × Bool

/-- The tracker after a sequence of `update_idle_state` calls on a fresh object. -/
def run (calls : List Call) : IdleStateDetector :=
  calls.foldl (fun d c => (d.update_idle_state c.1 c.2.1 c.2.2).1) new

end IdleStateDetector

/-- What the four flag getters polled by `update_idle_state` return on the given detector
objects: true when any of songhook, performer switch, highlight, song alternation fires. -/
def polled_any_changes (section_detector : SectionProgressionDetector)
    (song_alternation_detector : SongAlternationDetector) : Bool :=
  section_detector.songhook_detector.detect_songhook.1
    || section_detector.performer_switch_detector.detect_performer_switch.1
    || section_detector.highlight_detector.detect_highlight.1
    || song_alternation_detector.detect_song_alternation.1

/-! ## Tempo adaptors (`dimmer_time_adaptor.cpp`, `tempo_classifier.cpp`) -/

/-- The conversion `static_cast<int>(std::round(x))`: nearest integer, halves away from
zero. -/
def roundToInt (q : ℚ) : Int := if 0 ≤ q then ⌊q + 1 / 2⌋ else ⌈q - 1 / 2⌉

/-- Class `DimmerTimeAdaptor`. -/
structure DimmerTimeAdaptor where
  current_period_percentage : ℚ

namespace DimmerTimeAdaptor

/-- Constructor `DimmerTimeAdaptor()`. -/
def new : DimmerTimeAdaptor := { current_period_percentage := 100 }

/-- Method `DimmerTimeAdaptor::calc_feature`. -/
def calc_feature (tempo : ℚ) : ℚ :=
  if tempo ≤ 0 then 100
  else if tempo < 60 then 500
  else if tempo < 80 then 300
  else if tempo < 100 then 200
  else if tempo < 120 then 100
  else if tempo < 140 then 60
  else 30

/-- Method `DimmerTimeAdaptor::update_dimmer_time`. -/
def update_dimmer_time (_d : DimmerTimeAdaptor) (tempo : ℚ) : DimmerTimeAdaptor :=
  { current_period_percentage := calc_feature tempo }

/-- Method `DimmerTimeAdaptor::get_period_percentage`. -/
def get_period_percentage (d : DimmerTimeAdaptor) : Int := roundToInt d.current_period_percentage

end DimmerTimeAdaptor

/-- Class `TempoClassifier`. -/
structure TempoClassifier where
  tempo_class : String

namespace TempoClassifier

/-- Constructor `TempoClassifier()`. -/
def new : TempoClassifier := { tempo_class := "mid" }

/-- Method `TempoClassifier::calc_feature`. -/
def calc_feature (tempo : ℚ) : String :=
  if tempo < 60 then "very_slow"
  else if tempo < 80 then "slow"
  else if tempo < 100 then "mid_slow"
  else if tempo < 120 then "mid"
  else if tempo < 140 then "mid_fast"
  else "fast"

/-- Method `TempoClassifier::update_tempo_class`. -/
def update_tempo_class (_c : TempoClassifier) (tempo : ℚ) : TempoClassifier :=
  { tempo_class := calc_feature tempo }

/-- Method `TempoClassifier::get_class`. -/
def get_class (c : TempoClassifier) : String := c.tempo_class

end TempoClassifier

/-! ## MusicToLightInterpretor (`music_to_light_interpretor.cpp`) -/

/-- Class `MusicToLightInterpretor`. -/
structure MusicToLightInterpretor where
  frame_count : Int
  latest_genre : Int
  latest_tempo : Int
  section_progress_detector : SectionProgressionDetector
  song_alternation_detector : SongAlternationDetector
  idle_state_detector : IdleStateDetector
  dimmer_time_adaptor : DimmerTimeAdaptor
  tempo_classifier : TempoClassifier

/-- The arguments of one `MusicToLightInterpretor::update` call. -/
structure MusicFrame where
  beat_flg : Bool
  eq_levels : List ℚ
  tempo : ℚ
  tempo_confidence : ℚ
  genre : Int
  surround_score : Int

namespace MusicToLightInterpretor

/-- Constructor `MusicToLightInterpretor()`. -/
def new : MusicToLightInterpretor :=
  { frame_count := 0
    latest_genre := 0
    latest_tempo := 0
    section_progress_detector := SectionProgressionDetector.new
    song_alternation_detector := SongAlternationDetector.new
    idle_state_detector := IdleStateDetector.new
    dimmer_time_adaptor := DimmerTimeAdaptor.new
    tempo_classifier := TempoClassifier.new }

/-- Method `MusicToLightInterpretor::update`. -/
def update (s : MusicToLightInterpretor) (beat_flg : Bool) (eq_levels : List ℚ)
    (tempo tempo_confidence : ℚ) (genre surround_score : Int) : MusicToLightInterpretor :=
  let section_detector :=
    s.section_progress_detector.update_state beat_flg eq_levels tempo tempo_confidence
  let alternation_detector :=
    s.song_alternation_detector.update_history (toString genre) tempo (surround_score : ℚ)
  let r := s.idle_state_detector.update_idle_state section_detector alternation_detector beat_flg
  { frame_count := s.frame_count + 1
    latest_genre := genre
    latest_tempo := truncToInt tempo
    section_progress_detector := r.2.1
    song_alternation_detector := r.2.2
    idle_state_detector := r.1
    dimmer_time_adaptor := s.dimmer_time_adaptor.update_dimmer_time tempo
    tempo_classifier := s.tempo_classifier.update_tempo_class tempo }

/-- Method `MusicToLightInterpretor::detect_musical_change_flgs`: the flag map and the new
state (the detector getters assign their `mutable` members). -/
def detect_musical_change_flgs (s : MusicToLightInterpretor) :
    List (String × blockb_any_type) × MusicToLightInterpretor :=
  let r1 := s.section_progress_detector.get_highlight_flg
  let r2 := r1.2.get_songhook_flg
  let r3 := r2.2.get_performer_switch_flg
  let r4 := s.song_alternation_detector.get_change_flg
  let m1 := mapSet "highlight_flg" (.bool r1.1) []
  let m2 := mapSet "songhook_flg" (.bool r2.1) m1
  let m3 := mapSet "performer_switch_flg" (.bool r3.1) m2
  let m4 := mapSet "song_alternation_flg" (.bool r4.1) m3
  let m5 := mapSet "no_change_4beats_flg" (.bool s.idle_state_detector.get_no_change_4beats_flg) m4
  let m6 := mapSet "no_change_8beats_flg" (.bool s.idle_state_detector.get_no_change_8beats_flg) m5
  let m7 :=
    mapSet "no_change_16beats_flg" (.bool s.idle_state_detector.get_no_change_16beats_flg) m6
  let m8 :=
    mapSet "no_change_32beats_flg" (.bool s.idle_state_detector.get_no_change_32beats_flg) m7
  let m9 := mapSet "dimmer_period_percentage" (.int s.dimmer_time_adaptor.get_period_percentage) m8
  let m10 := mapSet "tempo_class" (.string s.tempo_classifier.get_class) m9
  let m11 := mapSet "frame" (.int s.frame_count) m10
  let m12 := mapSet "silence_break_flg" (.bool false) m11
  let m13 := mapSet "silence_start_flg" (.bool false) m12
  (m13, { s with section_progress_detector := r3.2, song_alternation_detector := r4.2 })

/-- Method `get_frame_count`. -/
def get_frame_count (s : MusicToLightInterpretor) : Int := s.frame_count

/-- Method `get_latest_genre`. -/
def get_latest_genre (s : MusicToLightInterpretor) : Int := s.latest_genre

/-- Method `get_latest_tempo`. -/
def get_latest_tempo (s : MusicToLightInterpretor) : Int := s.latest_tempo

/-- One frame of the pipeline, as `MusicDataHandler::music_data_handle` drives the
interpreter: `update` followed by `detect_musical_change_flgs`. -/
def process_frame (s : MusicToLightInterpretor) (f : MusicFrame) :
    List (String × blockb_any_type) × MusicToLightInterpretor :=
  (s.update f.beat_flg f.eq_levels f.tempo f.tempo_confidence f.genre
    f.surround_score).detect_musical_change_flgs

/-- The interpreter after a stream of frames, starting from a fresh object. -/
def run (frames : List MusicFrame) : MusicToLightInterpretor :=
  frames.foldl (fun s f => (s.process_frame f).2) new

end MusicToLightInterpretor

/-! ## The four detectors under one interface -/

/-- The four detector classes. -/
inductive DetectorKind where
  | songhook
  | performer_switch
  | highlight
  | song_alternation
  deriving DecidableEq

/-- The history capacity each detector class is specified with. -/
def DetectorKind.capacity : DetectorKind → Nat
  | .songhook => 20
  | .performer_switch => 15
  | .highlight => 30
  | .song_alternation => 30

/-- The `cooldown_frames` each detector class is specified with. -/
def DetectorKind.cooldown : DetectorKind → Int
  | .songhook => 100
  | .performer_switch => 80
  | .highlight => 100
  | .song_alternation => 50

/-- A detector object of one of the four classes. -/
inductive Detector where
  | songhook (d : SonghookDetector)
  | performer_switch (d : PerformerSwitchDetector)
  | highlight (d : HighlightDetector)
  | song_alternation (d : SongAlternationDetector)

/-- A call on a detector object: its update with the data of one frame, `calc_feature`, or
its detect / flag getter (the result of the getter is not recorded here). -/
inductive DetectorCall where
  | update (f : MusicFrame)
  | calc_feature
  | detect

namespace Detector

/-- A freshly constructed detector of the given class. -/
def new : DetectorKind → Detector
  | .songhook => .songhook SonghookDetector.new
  | .performer_switch => .performer_switch PerformerSwitchDetector.new
  | .highlight => .highlight HighlightDetector.new
  | .song_alternation => .song_alternation SongAlternationDetector.new

/-- The update of the detector with one frame: `update_state(input_frame)` with the map
built by `SectionProgressionDetector::update_state`, for the song-alternation detector
`update_history` with the arguments `MusicToLightInterpretor::update` passes. -/
def update (d : Detector) (f : MusicFrame) : Detector :=
  match d with
  | .songhook x => .songhook (x.update_state
      (SectionProgressionDetector.input_frame f.beat_flg f.eq_levels f.tempo f.tempo_confidence))
  | .performer_switch x => .performer_switch (x.update_state
      (SectionProgressionDetector.input_frame f.beat_flg f.eq_levels f.tempo f.tempo_confidence))
  | .highlight x => .highlight (x.update_state
      (SectionProgressionDetector.input_frame f.beat_flg f.eq_levels f.tempo f.tempo_confidence))
  | .song_alternation x => .song_alternation
      (x.update_history (toString f.genre) f.tempo (f.surround_score : ℚ))

/-- The method `calc_feature` of the detector. -/
def calc_feature : Detector → Detector
  | .songhook x => .songhook x.calc_feature
  | .performer_switch x => .performer_switch x.calc_feature
  | .highlight x => .highlight x.calc_feature
  | .song_alternation x => .song_alternation x.calc_feature

/-- The detect method (equivalently the flag getter) of the detector. -/
def detect : Detector → Bool × Detector
  | .songhook x => (x.detect_songhook.1, .songhook x.detect_songhook.2)
  | .performer_switch x => (x.detect_performer_switch.1, .performer_switch x.detect_performer_switch.2)
  | .highlight x => (x.detect_highlight.1, .highlight x.detect_highlight.2)
  | .song_alternation x =>
    (x.detect_song_alternation.1, .song_alternation x.detect_song_alternation.2)

/-- The score feature of the detector: `hook_score`, `switch_score`, `highlight_score` or
`change_score`. -/
def score : Detector → Int
  | .songhook x => asInt (mapAt x.features "hook_score")
  | .performer_switch x => asInt (mapAt x.features "switch_score")
  | .highlight x => asInt (mapAt x.features "highlight_score")
  | .song_alternation x => asInt (mapAt x.features "change_score")

/-- The member `history` of the detector. -/
def history : Detector → FrameHistory
  | .songhook x => x.history
  | .performer_switch x => x.history
  | .highlight x => x.history
  | .song_alternation x => x.history

/-- The member `prev_detect_frame` of the detector. -/
def prev_detect_frame : Detector → Int
  | .songhook x => x.prev_detect_frame
  | .performer_switch x => x.prev_detect_frame
  | .highlight x => x.prev_detect_frame
  | .song_alternation x => x.prev_detect_frame

/-- The member `cooldown_frames` of the detector. -/
def cooldown_frames : Detector → Int
  | .songhook x => x.cooldown_frames
  | .performer_switch x => x.cooldown_frames
  | .highlight x => x.cooldown_frames
  | .song_alternation x => x.cooldown_frames

/-- The class of the detector. -/
def kind : Detector → DetectorKind
  | .songhook _ => .songhook
  | .performer_switch _ => .performer_switch
  | .highlight _ => .highlight
  | .song_alternation _ => .song_alternation

/-- The state after one call. -/
def call (d : Detector) : DetectorCall → Detector
  | .update f => d.update f
  | .calc_feature => d.calc_feature
  | .detect => d.detect.2

/-- The state after a sequence of calls. -/
def run (d : Detector) (calls : List DetectorCall) : Detector := calls.foldl call d

end Detector

/-- The number of update calls in a sequence of calls. -/
def updateCount : List DetectorCall → Nat
  | [] => 0
  | .update _ :: t => updateCount t + 1
  | _ :: t => updateCount t

/-- Invariant of a detector object after `n` updates: the history has the capacity of
the class and no key holds more than `n` (nor more than capacity) samples, `cooldown_frames`
is the constant of the class, and the score is still 0 while `n` is below the capacity. -/
def Detector.Bounded (d : Detector) (n : Nat) : Prop :=
  d.history.maxlen = d.kind.capacity
  ∧ d.cooldown_frames = d.kind.cooldown
  ∧ (∀ e ∈ d.history.data, e.2.length ≤ n ∧ e.2.length ≤ d.history.maxlen)
  ∧ (n < d.kind.capacity → d.score = 0)

/-- The detector with its member `history` replaced. -/
def Detector.withHistory (d : Detector) (h : FrameHistory) : Detector :=
  match d with
  | .songhook x => .songhook { x with history := h }
  | .performer_switch x => .performer_switch { x with history := h }
  | .highlight x => .highlight { x with history := h }
  | .song_alternation x => .song_alternation { x with history := h }

/-- The history of the detector after the appends its update makes for one frame. -/
def Detector.appended (d : Detector) (f : MusicFrame) : FrameHistory :=
  match d with
  | .songhook x =>
    ((((x.history.append "tempo" (.double f.tempo)).append "surround_index"
      (.double (vecAt f.eq_levels 0 0))).append "volume_high"
      (.double (vecAt f.eq_levels 1 0))).append "volume_mid"
      (.double (vecAt f.eq_levels 2 0))).append "volume_low" (.double (vecAt f.eq_levels 3 0))
  | .performer_switch x =>
    ((x.history.append "volume_high" (.double (vecAt f.eq_levels 1 0))).append "volume_mid"
      (.double (vecAt f.eq_levels 2 0))).append "volume_low" (.double (vecAt f.eq_levels 3 0))
  | .highlight x =>
    (((x.history.append "volume_high" (.double (vecAt f.eq_levels 1 0))).append "volume_mid"
      (.double (vecAt f.eq_levels 2 0))).append "volume_low"
      (.double (vecAt f.eq_levels 3 0))).append "tempo_confidence" (.double f.tempo_confidence)
  | .song_alternation x =>
    ((x.history.append "genre_id" (.string (toString f.genre))).append "tempo"
      (.double f.tempo)).append "surround_index" (.double (f.surround_score : ℚ))

/-- The local `current_frame` of the detect method: index of the latest sample of the
key the method reads. -/
def Detector.current_frame : Detector → Int
  | .songhook x => ((x.history.get "tempo").length : Int) - 1
  | .performer_switch x => ((x.history.get "volume_high").length : Int) - 1
  | .highlight x => ((x.history.get "volume_high").length : Int) - 1
  | .song_alternation x => ((x.history.get "genre_id").length : Int) - 1

/-- The detector with its member `prev_detect_frame` replaced. -/
def Detector.withPrev (d : Detector) (p : Int) : Detector :=
  match d with
  | .songhook x => .songhook { x with prev_detect_frame := p }
  | .performer_switch x => .performer_switch { x with prev_detect_frame := p }
  | .highlight x => .highlight { x with prev_detect_frame := p }
  | .song_alternation x => .song_alternation { x with prev_detect_frame := p }

/-! ## Idle tracker step as the specification words it -/

/-- The effect of one idle-tracker frame on the four flags and on `beat_counter`, in the
words of the specification: `samples` beat samples have been appended including this one,
`previous_beat` is the previous frame's `beat_flg`, `any_changes` tells whether one of
songhook / performer switch / highlight / song alternation fires when polled. -/
def update_idle_state_spec (samples : Nat) (previous_beat beat_flg : Bool) (beat_counter : Int)
    (flags : Bool × Bool × Bool × Bool) (any_changes : Bool) :
    (Bool × Bool × Bool × Bool) × Int :=
  if samples < 32 then ((false, false, false, false), beat_counter)
  else if previous_beat then
    ((false, false, false, false), if any_changes then 0 else beat_counter)
  else if beat_flg then
    ((decide ((beat_counter + 1) % 4 = 0), decide ((beat_counter + 1) % 8 = 0),
        decide ((beat_counter + 1) % 16 = 0), decide ((beat_counter + 1) % 32 = 0)),
      if any_changes then 0 else if beat_counter + 1 ≥ 32 then 0 else beat_counter + 1)
  else (flags, if any_changes then 0 else beat_counter)

/-- The appends the idle tracker has made to its history after the given beat flags. -/
def beat_ops (beats : List Bool) : List (String × blockb_any_type) :=
  beats.map (fun b => ("beat_flg", blockb_any_type.bool b))

/-- Invariant of the idle tracker after calls with the beat flags `beats`. -/
def IdleStateDetector.Tracks (d : IdleStateDetector) (beats : List Bool) : Prop :=
  d.history = (FrameHistory.new 32).appendAll (beat_ops beats)
  ∧ d.cooldown_beats = [4, 8, 16, 32]
  ∧ 0 ≤ d.beat_counter ∧ d.beat_counter ≤ 31
  ∧ (beats.length < 32 → d.beat_counter = 0)

/-! ## Musical-change flags of one frame -/

/-- Whether a flag map reports one of `songhook_flg`, `performer_switch_flg`,
`highlight_flg`, `song_alternation_flg` as true. -/
def reports_musical_change (flags : List (String × blockb_any_type)) : Bool :=
  boolFlagOf flags "songhook_flg" || boolFlagOf flags "performer_switch_flg"
    || boolFlagOf flags "highlight_flg" || boolFlagOf flags "song_alternation_flg"

/-- Whether one of the four detectors fires on frame `f` when first polled after its
update with that frame, the interpreter being in state `s` before the frame. -/
def fires_on_frame (s : MusicToLightInterpretor) (f : MusicFrame) : Bool :=
  polled_any_changes
    (s.section_progress_detector.update_state f.beat_flg f.eq_levels f.tempo f.tempo_confidence)
    (s.song_alternation_detector.update_history (toString f.genre) f.tempo
      (f.surround_score : ℚ))

/-- A frame without beat or change. -/
def frame_calm : MusicFrame :=
  { beat_flg := false
    eq_levels := [0, 10, 10, 10, 0, 0]
    tempo := 120
    tempo_confidence := 1 / 2
    genre := 1
    surround_score := 0 }

/-- A frame with a beat, another genre, a tempo jump of 30 BPM, a higher surround level
and louder bands with another balance. -/
def frame_jump : MusicFrame :=
  { beat_flg := true
    eq_levels := [5, 80, 20, 20, 0, 0]
    tempo := 150
    tempo_confidence := 9 / 10
    genre := 2
    surround_score := 3 }

/-- Twenty-nine calm updates followed by the update with the jump frame: every detector is
warm and sees the change. -/
def calls_fire : List DetectorCall :=
  List.replicate 29 (DetectorCall.update frame_calm) ++ [DetectorCall.update frame_jump]

/-- Two further updates, back to the calm frame and to the jump frame again, with a poll
in between. -/
def calls_again : List DetectorCall :=
  [DetectorCall.update frame_calm, DetectorCall.detect, DetectorCall.update frame_jump]

/-- Fourteen updates, the last one with the jump frame, followed by a poll and a
recomputation of the features. -/
def calls_warm : List DetectorCall :=
  List.replicate 13 (DetectorCall.update frame_calm)
    ++ [DetectorCall.update frame_jump, DetectorCall.detect, DetectorCall.calc_feature]

/-! ## Palettes (`config.hpp`, `config.cpp`) -/

/-- Type `ColorPalette`: a list of RGB colours. -/
abbrev ColorPalette := List (List Int)

/-- Type `PaletteMap`. -/
abbrev PaletteMap := List (String × ColorPalette)

/-- Constant `DEFAULT_COLOR_PALETTES` (`create_default_palettes`). -/
def DEFAULT_COLOR_PALETTES : PaletteMap :=
  [("A", [[255, 0, 0], [0, 255, 0], [0, 0, 255], [255, 255, 0], [0, 255, 255], [255, 0, 255]]),
   ("B", [[255, 128, 0], [128, 0, 255], [0, 128, 255], [255, 0, 128], [128, 255, 0],
          [255, 255, 255]]),
   ("C", [[128, 0, 0], [0, 128, 0], [0, 0, 128], [128, 128, 0], [0, 128, 128], [128, 0, 128]]),
   ("D", [[255, 200, 200], [200, 255, 200], [200, 200, 255], [255, 255, 200], [200, 255, 255],
          [255, 200, 255]]),
   ("E", [[100, 100, 100], [150, 150, 150], [200, 200, 200], [255, 100, 50], [50, 100, 255],
          [150, 255, 150]])]

/-- Function `get_palette`, reading the process-wide `RUNTIME_PALETTE_CACHE` passed as
`cache`. -/
def get_palette (cache : PaletteMap) (palette_id : String) : ColorPalette :=
  match mapFind palette_id cache with
  | some p => p
  | none =>
    match mapFind palette_id DEFAULT_COLOR_PALETTES with
    | some p => p
    | none =>
      match mapFind "A" DEFAULT_COLOR_PALETTES with
      | some p => p
      | none => []

/-- A `std::shared_ptr<LightScene>`: the identity of the scene pointed to. The palettes of
the scene behind a reference are supplied to the functions that dereference it. -/
abbrev SceneRef := Int

/-- The palette an effect or segment resolves for `palette_id`: the scene-local one when
the back-reference is set and the scene has it, the global one otherwise. -/
def resolve_palette (cache : PaletteMap) (palettes_of : SceneRef → PaletteMap)
    (scene : Option SceneRef) (palette_id : String) : ColorPalette :=
  match scene with
  | none => get_palette cache palette_id
  | some r =>
    match mapFind palette_id (palettes_of r) with
    | some p => p
    | none => get_palette cache palette_id

/-! ## Colour utilities (`color_utils.cpp`) -/

namespace color_utils

/-- Function `color_utils::interpolate_colors`. -/
def interpolate_colors (color1 color2 : List Int) (factor : ℚ) : List Int :=
  let r := truncToInt ((vecAt color1 0 0 : ℚ) + ((vecAt color2 0 0 - vecAt color1 0 0 : Int) : ℚ) * factor)
  let g := truncToInt ((vecAt color1 1 0 : ℚ) + ((vecAt color2 1 0 - vecAt color1 1 0 : Int) : ℚ) * factor)
  let b := truncToInt ((vecAt color1 2 0 : ℚ) + ((vecAt color2 2 0 - vecAt color1 2 0 : Int) : ℚ) * factor)
  [clampInt 0 255 r, clampInt 0 255 g, clampInt 0 255 b]

/-- Function `color_utils::apply_brightness`. -/
def apply_brightness (color : List Int) (brightness : ℚ) : List Int :=
  let r := truncToInt ((vecAt color 0 0 : ℚ) * brightness)
  let g := truncToInt ((vecAt color 1 0 : ℚ) * brightness)
  let b := truncToInt ((vecAt color 2 0 : ℚ) * brightness)
  [clampInt 0 255 r, clampInt 0 255 g, clampInt 0 255 b]

end color_utils

/-! ## LightSegment (`light_segment.cpp`) -/

/-- Class `LightSegment`. -/
structure LightSegment where
  segment_ID : Int
  color : List Int
  transparency : List ℚ
  length : List Int
  move_speed : ℚ
  move_range : List Int
  initial_position : Int
  current_position : ℚ
  is_edge_reflect : Bool
  dimmer_time : List Int
  dimmer_time_ratio : ℚ
  time : ℚ
  direction : Int
  gradient : Bool
  fade : Bool
  gradient_colors : List Int
  rgb_color : List (List Int)
  total_length : Int
  scene : Option SceneRef

/-- The first `n` elements of `v`, padded to length `n` with copies of the last element
(`d` when `v` is empty): the "take first n, pad with last value" preparation of
`get_light_data`. -/
def takePad {α : Type} (n : Nat) (d : α) (v : List α) : List α :=
  let w := v.take n
  w ++ List.replicate (n - w.length) (w.getLastD d)

/-- The integers `lo, lo + 1, ..., hi` (empty when `hi < lo`): the values of the counter of
`for (i = lo; i <= hi; ++i)`. -/
def intRange (lo hi : Int) : List Int :=
  (List.range (hi - lo + 1).toNat).map (fun k => lo + (k : Int))

namespace LightSegment

/-- The RGB entry for one colour index: the palette entry, red for an index out of range. -/
def rgb_of_index (palette : ColorPalette) (color_idx : Int) : List Int :=
  if 0 ≤ color_idx ∧ color_idx < (palette.length : Int) then vecAt palette color_idx [255, 0, 0]
  else [255, 0, 0]

/-- Method `LightSegment::calculate_rgb`. -/
def calculate_rgb (s : LightSegment) (cache : PaletteMap) (palettes_of : SceneRef → PaletteMap)
    (palette_name : String) : List (List Int) :=
  let palette := resolve_palette cache palettes_of s.scene palette_name
  let rgb_values := s.color.map (rgb_of_index palette)
  rgb_values ++ List.replicate (4 - rgb_values.length) (rgb_values.getLastD [255, 0, 0])

/-- Constructor `LightSegment(...)`. -/
def new (cache : PaletteMap) (segment_ID : Int) (color : List Int) (transparency : List ℚ)
    (length : List Int) (move_speed : ℚ) (move_range : List Int) (initial_position : Int)
    (is_edge_reflect : Bool) (dimmer_time : List Int) (dimmer_time_ratio : ℚ) : LightSegment :=
  let s0 : LightSegment :=
    { segment_ID := segment_ID
      color := color
      transparency := transparency
      length := length
      move_speed := move_speed
      move_range :=
        if 2 ≤ move_range.length then
          [min (vecAt move_range 0 0) (vecAt move_range 1 0),
           max (vecAt move_range 0 0) (vecAt move_range 1 0)]
        else move_range
      initial_position := initial_position
      current_position := initial_position
      is_edge_reflect := is_edge_reflect
      dimmer_time := dimmer_time
      dimmer_time_ratio := dimmer_time_ratio
      time := 0
      direction := if 0 ≤ move_speed then 1 else -1
      gradient := false
      fade := false
      gradient_colors := [0, -1, -1]
      rgb_color := []
      total_length := 0
      scene := none }
  { s0 with
    rgb_color := s0.calculate_rgb cache (fun _ => []) "A"
    total_length := length.sum }

/-- Method `LightSegment::update_position`. -/
def update_position (s : LightSegment) (fps : Int) : LightSegment :=
  let dt : ℚ := 1 / (fps : ℚ)
  let time := s.time + dt
  let delta := s.move_speed * dt
  let new_position := s.current_position + delta
  let total_length : Int := s.length.sum
  let lo : Int := vecAt s.move_range 0 0
  let hi : Int := vecAt s.move_range 1 0
  if s.is_edge_reflect then
    if new_position < (lo : ℚ) then
      -- reflect off the left edge
      let excess := (lo : ℚ) - new_position
      let reflected := (lo : ℚ) + excess
      { s with
        time := time
        direction := 1
        move_speed := |s.move_speed|
        current_position := max (lo : ℚ) (min reflected ((hi - total_length + 1 : Int) : ℚ)) }
    else if new_position + (total_length : ℚ) - 1 > (hi : ℚ) then
      -- reflect off the right edge
      let excess := new_position + (total_length : ℚ) - 1 - (hi : ℚ)
      let reflected := (hi : ℚ) - (total_length : ℚ) + 1 - excess
      { s with
        time := time
        direction := -1
        move_speed := -|s.move_speed|
        current_position := max (lo : ℚ) (min reflected ((hi - total_length + 1 : Int) : ℚ)) }
    else
      { s with
        time := time
        current_position := max (lo : ℚ) (min new_position ((hi - total_length + 1 : Int) : ℚ)) }
  else
    if new_position < (lo : ℚ) then
      -- wrap from left to right
      let overshoot := (lo : ℚ) - new_position
      let wrapped := (hi : ℚ) - overshoot + 1
      { s with
        time := time
        current_position := max (lo : ℚ) (min wrapped ((hi - total_length + 1 : Int) : ℚ)) }
    else if new_position + (total_length : ℚ) - 1 > (hi : ℚ) then
      -- wrap from right to left
      let overshoot := new_position + (total_length : ℚ) - 1 - (hi : ℚ)
      let wrapped := (lo : ℚ) + overshoot - 1
      { s with
        time := time
        current_position := max (lo : ℚ) (min wrapped ((hi - total_length + 1 : Int) : ℚ)) }
    else
      { s with
        time := time
        current_position := max (lo : ℚ) (min new_position ((hi - total_length + 1 : Int) : ℚ)) }

/-- Method `LightSegment::apply_dimming`. The products `dimmer_time_[k] * ratio` (the
`int` entry converted to `float`) and `time_ * 1000.0f` are binary32 products, rounded
before the conversion to `int`; the differences are 32-bit `int` subtractions (`wrap32`:
an overflow is undefined in the source and wraps on the target), converted to `float`;
the quotient and the difference from `1.0f` are binary32 operations. -/
def apply_dimming (s : LightSegment) : ℚ :=
  if s.fade = false ∨ s.dimmer_time.length < 5 ∨ vecAt s.dimmer_time 4 0 ≤ 0 then 1
  else
    let ratio := s.dimmer_time_ratio
    let cycle_time := truncToInt (f32 (f32 ((vecAt s.dimmer_time 4 0 : Int) : ℚ) * ratio))
    if cycle_time ≤ 0 then 1
    else
      let current_time_ms := Int.tmod (truncToInt (f32 (s.time * 1000))) cycle_time
      let fade_in_start := truncToInt (f32 (f32 ((vecAt s.dimmer_time 0 0 : Int) : ℚ) * ratio))
      let fade_in_end := truncToInt (f32 (f32 ((vecAt s.dimmer_time 1 0 : Int) : ℚ) * ratio))
      let fade_out_start := truncToInt (f32 (f32 ((vecAt s.dimmer_time 2 0 : Int) : ℚ) * ratio))
      let fade_out_end := truncToInt (f32 (f32 ((vecAt s.dimmer_time 3 0 : Int) : ℚ) * ratio))
      if current_time_ms < fade_in_start then 0
      else if current_time_ms < fade_in_end then
        let duration : ℚ := f32 ((wrap32 (fade_in_end - fade_in_start) : Int) : ℚ)
        f32 (f32 ((wrap32 (current_time_ms - fade_in_start) : Int) : ℚ) / max 1 duration)
      else if current_time_ms < fade_out_start then 1
      else if current_time_ms < fade_out_end then
        let duration : ℚ := f32 ((wrap32 (fade_out_end - fade_out_start) : Int) : ℚ)
        f32 (1 - f32 (f32 ((wrap32 (current_time_ms - fade_out_start) : Int) : ℚ)
          / max 1 duration))
      else 0

/-- Body of the `led_idx` loop of `get_light_data`: the entry stored for one LED. -/
def light_entry (s : LightSegment) (base_rgb : List (List Int)) (segment_transparencies : List ℚ)
    (segment_lengths : List Int) (total_segment_length : Int) (brightness : ℚ) (led_idx : Int) :
    Int × (List Int × ℚ) :=
  let relative_pos : ℚ :=
    max 0 (min ((led_idx : ℚ) - s.current_position) ((total_segment_length : ℚ) - 1 / 10 ^ 9))
  let l0 : Int := vecAt segment_lengths 0 0
  let l1 : Int := vecAt segment_lengths 1 0
  let l2 : Int := vecAt segment_lengths 2 0
  let sel : List Int × List Int × ℚ × ℚ × ℚ :=
    if relative_pos < (l0 : ℚ) then
      (vecAt base_rgb 0 [], vecAt base_rgb 1 [], vecAt segment_transparencies 0 0,
        vecAt segment_transparencies 1 0, if 0 < l0 then relative_pos / (l0 : ℚ) else 0)
    else if relative_pos < ((l0 + l1 : Int) : ℚ) then
      (vecAt base_rgb 1 [], vecAt base_rgb 2 [], vecAt segment_transparencies 1 0,
        vecAt segment_transparencies 2 0,
        if 0 < l1 then (relative_pos - (l0 : ℚ)) / (l1 : ℚ) else 0)
    else
      (vecAt base_rgb 2 [], vecAt base_rgb 3 [], vecAt segment_transparencies 2 0,
        vecAt segment_transparencies 3 0,
        if 0 < l2 then (relative_pos - (l0 : ℚ) - (l1 : ℚ)) / (l2 : ℚ) else 0)
  let c1 := sel.1
  let c2 := sel.2.1
  let tr1 := sel.2.2.1
  let tr2 := sel.2.2.2.1
  let t : ℚ := max 0 (min 1 sel.2.2.2.2)
  let interpolated_color := color_utils.interpolate_colors c1 c2 t
  let interpolated_transparency := tr1 + (tr2 - tr1) * t
  let final_color := color_utils.apply_brightness interpolated_color brightness
  (led_idx, (final_color, interpolated_transparency))

/-- Method `LightSegment::get_light_data`: the `std::map` from LED index to
(colour, transparency), as its entries in ascending index order. -/
def get_light_data (s : LightSegment) (palette : ColorPalette) :
    List (Int × (List Int × ℚ)) :=
  let brightness := s.apply_dimming
  let segment_colors := takePad 4 (0 : Int) s.color
  let segment_transparencies := takePad 4 (1 : ℚ) s.transparency
  let segment_lengths := takePad 3 (0 : Int) s.length
  let total_segment_length : Int := segment_lengths.sum
  if total_segment_length ≤ 0 then []
  else
    let base_rgb := segment_colors.map (rgb_of_index palette)
    let start_led : Int := ⌊s.current_position⌋
    let end_led : Int := ⌊s.current_position + (total_segment_length : ℚ) - 1 / 10 ^ 9⌋
    (intRange start_led end_led).map
      (s.light_entry base_rgb segment_transparencies segment_lengths total_segment_length
        brightness)

end LightSegment

/-! ## LightEffect (`light_effect.cpp`) -/

/-- Class `LightEffect`. The member `segments_` is a `std::map` keyed by segment id. -/
structure LightEffect where
  effect_ID : Int
  segments : List (Int × LightSegment)
  led_count : Int
  fps : Int
  time_step : ℚ
  time : ℚ
  current_palette : String
  scene : Option SceneRef

namespace LightEffect

/-- Constructor `LightEffect(effect_ID, led_count, fps)`. -/
def new (effect_ID led_count fps : Int) : LightEffect :=
  { effect_ID := effect_ID
    segments := []
    led_count := led_count
    fps := fps
    time_step := 1 / (fps : ℚ)
    time := 0
    current_palette := "A"
    scene := none }

/-- Method `LightEffect::add_segment` (the value of the `calculate_rgb` call it makes is
discarded by the source). -/
def add_segment (e : LightEffect) (segment_ID : Int) (segment : LightSegment) : LightEffect :=
  { e with segments := mapSet segment_ID segment e.segments }

/-- The vector `sorted_segments` of `get_led_output`: the entries of `segments_` sorted by
ascending segment id (the keys of a `std::map` are distinct, so the order `std::sort`
produces is determined). -/
def sorted_segments (e : LightEffect) : List (Int × LightSegment) :=
  e.segments.insertionSort (fun a b => a.1 ≤ b.1)

/-- Body of the inner loop of `get_led_output`: layers one light-data entry of a segment
over the LED buffers `(led_colors, led_transparency)`. The transparencies are `float`
objects and the colour channels `int`: every operation of the two expressions is a
binary32 operation (the channels are converted to `float` first), and `1e-6f` is the
`float` nearest to `1e-6`. -/
def apply_light_entry (led_count : Int) (buf : List (List Int) × List ℚ)
    (entry : Int × (List Int × ℚ)) : List (List Int) × List ℚ :=
  let led_idx := entry.1
  let segment_color := entry.2.1
  let segment_transparency := entry.2.2
  if 0 ≤ led_idx ∧ led_idx < led_count then
    let current_led_color := vecAt buf.1 led_idx []
    let current_led_transparency := vecAt buf.2 led_idx 0
    -- segment_transparency + current_led_transparency * (1.0f - segment_transparency)
    let final_transparency : ℚ := max 0 (min 1
      (f32 (segment_transparency
        + f32 (current_led_transparency * f32 (1 - segment_transparency)))))
    let final_color : List Int :=
      if final_transparency > f32 (1 / 10 ^ 6) then
        -- (segment_color[i] * segment_transparency + current_led_color[i]
        --   * current_led_transparency * (1.0f - segment_transparency)) / final_transparency
        [0, 1, 2].map (fun i => clampInt 0 255 (truncToInt (f32 (
          f32 (f32 (f32 ((vecAt segment_color i 0 : Int) : ℚ) * segment_transparency)
            + f32 (f32 (f32 ((vecAt current_led_color i 0 : Int) : ℚ)
                * current_led_transparency) * f32 (1 - segment_transparency)))
          / final_transparency))))
      else [0, 0, 0]
    (buf.1.set led_idx.toNat final_color, buf.2.set led_idx.toNat final_transparency)
  else buf

/-- Body of the outer loop of `get_led_output`: layers every entry of one segment. -/
def apply_segment (led_count : Int) (palette : ColorPalette)
    (buf : List (List Int) × List ℚ) (seg : Int × LightSegment) : List (List Int) × List ℚ :=
  (seg.2.get_light_data palette).foldl (apply_light_entry led_count) buf

/-- The final pass of `get_led_output` on one LED: clamps its first three channels. -/
def clamp_led (c : List Int) : List Int :=
  (c.take 3).map (clampInt 0 255) ++ c.drop 3

/-- Method `LightEffect::get_led_output`. A negative `led_count` makes the source's vector
constructor throw; the embedding then returns the empty list. -/
def get_led_output (e : LightEffect) (cache : PaletteMap) (palettes_of : SceneRef → PaletteMap) :
    List (List Int) :=
  let led_colors : List (List Int) := List.replicate e.led_count.toNat [0, 0, 0]
  let led_transparency : List ℚ := List.replicate e.led_count.toNat 0
  let palette := resolve_palette cache palettes_of e.scene e.current_palette
  let buf := e.sorted_segments.foldl (apply_segment e.led_count palette)
    (led_colors, led_transparency)
  buf.1.map clamp_led

end LightEffect

/-! ## Scenario inputs -/

/-- Scenario S6: the switcher after `update_genre(2)` and `update_light_switch_flgs` with
`song_alternation_flg` and `no_change_16beats_flg` true, which sets
`lighting_scene_change_flg` and `palette_change_flg`. -/
def switcher_S6 : LightingSwitcher :=
  (LightingSwitcher.new.update_genre 2).update_light_switch_flgs
    [("no_change_16beats_flg", .bool true), ("song_alternation_flg", .bool true)]

/-- Scenario S4: a segment built with `move_speed = +10`, `move_range = [0, 9]`,
`length = [1, 0, 0]`, position 8 and `is_edge_reflect = true` (other constructor arguments
are the defaults of `config.hpp`). -/
def segment_S4 : LightSegment :=
  LightSegment.new DEFAULT_COLOR_PALETTES 1 [0, 1, 2, 3] [1, 1, 1, 1] [1, 0, 0] 10 [0, 9] 8
    true [0, 100, 200, 100, 0] 1

/-- Scenario S5, palette cache: palette `A` holds the two colours of the scenario. -/
def cache_S5 : PaletteMap := [("A", [[100, 0, 0], [0, 100, 0]])]

/-- Scenario S5: an effect with `led_count = 1` and two one-LED segments at position 0,
segment 1 (`A`) of colour `[100, 0, 0]` and segment 2 (`B`) of colour `[0, 100, 0]`, both
with transparency 0.5. -/
def effect_S5 : LightEffect :=
  ((LightEffect.new 1 1 20).add_segment 2
      (LightSegment.new cache_S5 2 [1, 1, 1, 1] [1 / 2, 1 / 2, 1 / 2, 1 / 2] [1, 0, 0] 0 [0, 0] 0
        true [0, 100, 200, 100, 0] 1)).add_segment 1
      (LightSegment.new cache_S5 1 [0, 0, 0, 0] [1 / 2, 1 / 2, 1 / 2, 1 / 2] [1, 0, 0] 0 [0, 0] 0
        true [0, 100, 200, 100, 0] 1)

/-- An effect on 4 LEDs over the default palettes with one three-section segment lying at
the fractional position 1/2 and one opaque single-LED segment. -/
def effect_two_segments : LightEffect :=
  ((LightEffect.new 3 4 20).add_segment 1
      { LightSegment.new DEFAULT_COLOR_PALETTES 1 [0, 1, 2, 3] [1, 1 / 2, 0, 1] [2, 1, 1] 5
          [0, 3] 0 false [0, 100, 200, 300, 400] 1 with current_position := 1 / 2 }).add_segment 7
      (LightSegment.new DEFAULT_COLOR_PALETTES 7 [4, 4, 4, 4] [1, 1, 1, 1] [1, 0, 0] 0 [0, 3] 3
        true [0, 100, 200, 100, 0] 1)

/-! ## Compositing rule as the specification words it -/

/-- Layering one segment entry `ent = (s, a_s)` over an LED holding `cur = (c, a)`:
`a' = clamp(a_s + a (1 - a_s), 0, 1)`; when `a' > 1e-6` each channel is
`trunc((s[k] a_s + c[k] a (1 - a_s)) / a')` clamped to `[0, 255]`, otherwise black. -/
def layer_spec (cur ent : List Int × ℚ) : List Int × ℚ :=
  let a' : ℚ := clampQ 0 1 (ent.2 + cur.2 * (1 - ent.2))
  (if a' > 1 / 10 ^ 6 then
      [0, 1, 2].map (fun k => clampInt 0 255 (truncToInt
        (((vecAt ent.1 k 0 : ℚ) * ent.2 + (vecAt cur.1 k 0 : ℚ) * cur.2 * (1 - ent.2)) / a')))
    else [0, 0, 0],
   a')

/-- The compositing rule in binary32 arithmetic: the rule of `layer_spec` with every
operation rounded to `float` (the channels are converted to `float`, each product, sum,
difference and quotient is rounded, and the threshold is the `float` `1e-6f`). -/
def layer_f32 (cur ent : List Int × ℚ) : List Int × ℚ :=
  let a' : ℚ := clampQ 0 1 (f32 (ent.2 + f32 (cur.2 * f32 (1 - ent.2))))
  (if a' > f32 (1 / 10 ^ 6) then
      [0, 1, 2].map (fun k => clampInt 0 255 (truncToInt (f32 (
        f32 (f32 (f32 ((vecAt ent.1 k 0 : Int) : ℚ) * ent.2)
          + f32 (f32 (f32 ((vecAt cur.1 k 0 : Int) : ℚ) * cur.2) * f32 (1 - ent.2)))
        / a'))))
    else [0, 0, 0],
   a')

/-- An effect with `led_count = 1` and two one-LED segments at position 0, both of colour
`[255, 0, 0]` and of transparency `0.1f` (the `float` nearest to 0.1). -/
def effect_red_twice : LightEffect :=
  ((LightEffect.new 1 1 20).add_segment 1
      (LightSegment.new [("A", [[255, 0, 0]])] 1 [0, 0, 0, 0]
        [f32 (1 / 10), f32 (1 / 10), f32 (1 / 10), f32 (1 / 10)] [1, 0, 0] 0 [0, 0] 0
        true [0, 100, 200, 100, 0] 1)).add_segment 2
      (LightSegment.new [("A", [[255, 0, 0]])] 2 [0, 0, 0, 0]
        [f32 (1 / 10), f32 (1 / 10), f32 (1 / 10), f32 (1 / 10)] [1, 0, 0] 0 [0, 0] 0
        true [0, 100, 200, 100, 0] 1)

/-- The entries `(colour, transparency)` that the segments of an effect, taken in ascending
`segment_ID` order, produce for LED `i`. -/
def led_entries (e : LightEffect) (cache : PaletteMap) (palettes_of : SceneRef → PaletteMap)
    (i : Nat) : List (List Int × ℚ) :=
  ((e.sorted_segments.flatMap (fun seg =>
      seg.2.get_light_data (resolve_palette cache palettes_of e.scene e.current_palette))).filter
    (fun ent => ent.1 = (i : Int))).map Prod.snd

/-- The content of LED `i` in the buffers `(led_colors, led_transparency)`. -/
def led_cell (buf : List (List Int) × List ℚ) (i : Nat) : List Int × ℚ :=
  (buf.1.getD i [], buf.2.getD i 0)

/-- A colour with exactly three channels, each in `[0, 255]`. -/
def IsRGB (c : List Int) : Prop :=
  c.length = 3 ∧ ∀ x ∈ c, 0 ≤ x ∧ x ≤ 255

/-! ## LightingSwitcher: dimmer adaptation and call sequences -/

namespace LightingSwitcher

/-- Method `LightingSwitcher::calc_dimmer_time_ratio`. -/
def calc_dimmer_time_ratio (s : LightingSwitcher) : ℚ :=
  if s.tempo_anchor = [] ∨ s.dimmer_time_ratio_anchor = [] then 1
  else if s.tempo < vecAt s.tempo_anchor 0 0 then vecAt s.dimmer_time_ratio_anchor 0 0
  else if s.tempo > s.tempo_anchor.getLastD 0 then s.dimmer_time_ratio_anchor.getLastD 0
  else
    match (List.range (s.tempo_anchor.length - 1)).find?
        (fun i => decide (s.tempo ≤ vecAt s.tempo_anchor ((i : Int) + 1) 0)) with
    | none => 1
    | some i =>
      let a : ℚ := (vecAt s.tempo_anchor (i : Int) 0 : Int)
      let b : ℚ := (vecAt s.tempo_anchor ((i : Int) + 1) 0 : Int)
      let t : ℚ := (s.tempo : Int)
      ((b - t) * vecAt s.dimmer_time_ratio_anchor (i : Int) 0
        + (t - a) * vecAt s.dimmer_time_ratio_anchor ((i : Int) + 1) 0) / (b - a)

/-- Method `LightingSwitcher::adopt_dimmer_time_to_tempo`. -/
def adopt_dimmer_time_to_tempo (s : LightingSwitcher) : List BlockBOutputData :=
  (List.range s.segment_num.toNat).map (fun i =>
    { address := "/scene/1/effect/" ++ toString s.current_effect_id ++ "/segment/"
        ++ toString ((i : Int) + 1) ++ "/dimmer_time_ratio"
      data := .double s.calc_dimmer_time_ratio })

/-- Whether `light_switch_flag()` takes its colour-shift branch in this state: the five
flags tested before `color_shift_flg` are false and `color_shift_flg` is true. -/
def takes_color_shift (s : LightingSwitcher) : Bool :=
  !flagOf s.light_switch_flgs "lighting_start_flg"
    && !flagOf s.light_switch_flgs "lighting_end_flg"
    && !flagOf s.light_switch_flgs "lighting_scene_change_flg"
    && !flagOf s.light_switch_flgs "palette_change_flg"
    && !flagOf s.light_switch_flgs "effect_change_flg"
    && flagOf s.light_switch_flgs "color_shift_flg"

end LightingSwitcher

/-- A call of one of the public methods of `LightingSwitcher`. -/
inductive SwitcherCall where
  | update_genre (genre_id : Int)
  | update_tempo (tempo : Int)
  | update_light_switch_flgs (musical_change_flgs : List (String × blockb_any_type))
  | light_switch_flag
  | adopt_dimmer_time_to_tempo

namespace LightingSwitcher

/-- The state after one call and the commands the call returns. -/
def call (s : LightingSwitcher) : SwitcherCall → LightingSwitcher × List BlockBOutputData
  | .update_genre g => (s.update_genre g, [])
  | .update_tempo t => (s.update_tempo t, [])
  | .update_light_switch_flgs m => (s.update_light_switch_flgs m, [])
  | .light_switch_flag => s.light_switch_flag
  | .adopt_dimmer_time_to_tempo => (s, s.adopt_dimmer_time_to_tempo)

/-- The state after a sequence of calls. -/
def run (s : LightingSwitcher) (calls : List SwitcherCall) : LightingSwitcher :=
  calls.foldl (fun acc c => (acc.call c).1) s

/-- The number of `light_switch_flag()` calls in the sequence that take the colour-shift
branch. -/
def shiftCount (s : LightingSwitcher) : List SwitcherCall → Nat
  | [] => 0
  | c :: t =>
    (match c with
      | .light_switch_flag => if s.takes_color_shift then 1 else 0
      | _ => 0) + shiftCount (s.call c).1 t

/-- The colour index every segment stores after `k` colour shifts: the initial -1, then
`(k - 1) mod 5`. -/
def shifted_index (k : Nat) : Int := if k = 0 then -1 else ((k : Int) - 1) % 5

end LightingSwitcher

/-- A switcher that has received the 4-beat idle flag twice and shifted colours each time,
with an effect change to effect 2 in between; the 4-beat flag is set again. -/
def calls_two_shifts : List SwitcherCall :=
  [.update_light_switch_flgs [("no_change_4beats_flg", .bool true)], .light_switch_flag,
   .update_light_switch_flgs [("no_change_8beats_flg", .bool true)], .light_switch_flag,
   .update_light_switch_flgs [("no_change_4beats_flg", .bool true)], .light_switch_flag,
   .update_genre 3, .adopt_dimmer_time_to_tempo]

/-- Invariant of a switcher after `k` colour shifts: the constant tables of the constructor
and the same colour index `shifted_index k` in all four slots of all ten segments. -/
def LightingSwitcher.Shifted (s : LightingSwitcher) (k : Nat) : Prop :=
  s.Valid ∧ s.segment_color_ids
    = List.replicate 10 (List.replicate 4 (LightingSwitcher.shifted_index k))

/-! ## Binary frame output (`config.hpp`, `data_receive_handler.cpp`) -/

/-- Constant `DEFAULT_FPS`. -/
def DEFAULT_FPS : Int := 60

/-- Constant `DEFAULT_LED_SEP_COUNT`: the LED count of each strip group. -/
def DEFAULT_LED_SEP_COUNT : List Int := [205, 0]

/-- Constant `DEFAULT_LED_COUNT`. -/
def DEFAULT_LED_COUNT : Int := vecAt DEFAULT_LED_SEP_COUNT 0 0 + vecAt DEFAULT_LED_SEP_COUNT 1 0

/-- Static function `vector_slicing`: the elements `[start, end)` of `vec`, with `start`
raised to 0 and `end` lowered to the size of `vec`. -/
def vector_slicing (vec : List (List Int)) (start end_ : Int) : List (List Int) :=
  let start' : Int := if start < 0 then 0 else start
  let end' : Int := if end_ > (vec.length : Int) then (vec.length : Int) else end_
  if start' ≥ end' then []
  else (vec.drop start'.toNat).take (end' - start').toNat

/-- The conversion `static_cast<uint8_t>(x)` of an `int`. -/
def toByte (x : Int) : Nat := (x % 256).toNat

/-- The four bytes `make_color_binary` pushes for one LED: `R, G, B, 0` with the channels
clamped, or four zeros for a colour with fewer than three channels. -/
def led_bytes (color : List Int) : List Nat :=
  if color.length ≥ 3 then
    [toByte (clampInt 0 255 (vecAt color 0 0)), toByte (clampInt 0 255 (vecAt color 1 0)),
      toByte (clampInt 0 255 (vecAt color 2 0)), toByte 0]
  else [0, 0, 0, 0]

/-- Body of the group loop of `make_color_binary`, on the pair
`(finished_count_position, response_data_list)`. -/
def make_color_binary_step (colors : List (List Int)) (acc : Int × List (List Nat))
    (sep_count : Int) : Int × List (List Nat) :=
  let sep_colors := vector_slicing colors acc.1 (acc.1 + sep_count)
  let response_data : List Nat :=
    if sep_colors ≠ [] then sep_colors.flatMap led_bytes else [0, 0, 0, 0]
  (acc.1 + sep_count, acc.2 ++ [response_data])

/-- Method `DataReceiveHandler::make_color_binary`. -/
def make_color_binary (colors : List (List Int)) : List (List Nat) :=
  (DEFAULT_LED_SEP_COUNT.foldl (make_color_binary_step colors) (0, [])).2

/-- The value of `finished_count_position` when group `g` is processed: the LED counts of
the groups before it. -/
def group_offset (g : Nat) : Int := (DEFAULT_LED_SEP_COUNT.take g).sum

/-- The LEDs of group `g`: the slice `make_color_binary` takes for it. -/
def group_slice (colors : List (List Int)) (g : Nat) : List (List Int) :=
  vector_slicing colors (group_offset g) (group_offset g + vecAt DEFAULT_LED_SEP_COUNT g 0)

/-! ## Block C value types (`blockc_types.hpp`) -/

/-- Variant `blockc_input_type`: the payload of a command received from Block B; it has the
alternatives of `blockb_any_type` in the same order. -/
abbrev blockc_input_type := blockb_any_type

/-- Struct `BlockCInputData`: an address-tagged command for Block C. -/
structure BlockCInputData where
  address : String
  data : blockc_input_type

/-- Variant `blockc_output_type` (alias `blockc_any_type`). -/
inductive blockc_any_type where
  | int (v : Int)
  | float (v : ℚ)
  | bool (v : Bool)
  | string (v : String)
  | vec_float (v : List ℚ)
  | vec_int (v : List Int)
  | vec_uint8 (v : List Nat)
  | dict (v : List (String × List Int))

/-- Struct `BlockCOutputData`. -/
structure BlockCOutputData where
  address : String
  payload : blockc_any_type

/-- Type `any_type_dict`: a `std::map<std::string, blockc_any_type>`. -/
abbrev any_type_dict := List (String × blockc_any_type)

namespace blockc_any_type

/-- The read `std::get<int>(v)`; `none` when it throws `bad_variant_access`. -/
def get_int : blockc_any_type → Option Int
  | .int v => some v
  | _ => none

/-- The read `std::get<float>(v)`; `none` when it throws. -/
def get_float : blockc_any_type → Option ℚ
  | .float v => some v
  | _ => none

/-- The read `std::get<bool>(v)`; `none` when it throws. -/
def get_bool : blockc_any_type → Option Bool
  | .bool v => some v
  | _ => none

/-- The read `std::get<std::vector<float>>(v)`; `none` when it throws. -/
def get_vec_float : blockc_any_type → Option (List ℚ)
  | .vec_float v => some v
  | _ => none

/-- The read `std::get<std::vector<int>>(v)`; `none` when it throws. -/
def get_vec_int : blockc_any_type → Option (List Int)
  | .vec_int v => some v
  | _ => none

end blockc_any_type

namespace LightSegment

/-- The ordering `{min(r[0], r[1]), max(r[0], r[1])}` applied to a move range with at least
two entries by the constructor and by `update_param`. -/
def ordered_range (move_range : List Int) : List Int :=
  if 2 ≤ move_range.length then
    [min (vecAt move_range 0 0) (vecAt move_range 1 0),
     max (vecAt move_range 0 0) (vecAt move_range 1 0)]
  else move_range

/-- Method `LightSegment::update_param`; `none` when a `std::get` throws
`bad_variant_access`, which happens before any member is assigned. -/
def update_param (s : LightSegment) (cache : PaletteMap) (palettes_of : SceneRef → PaletteMap)
    (param_name : String) (value : blockc_any_type) : Option LightSegment :=
  if param_name = "color" then
    value.get_vec_int.map fun c =>
      let s1 := { s with color := c }
      { s1 with rgb_color := s1.calculate_rgb cache palettes_of "A" }
  else if param_name = "gradient_colors" then
    value.get_vec_int.map fun g =>
      if g ≠ [] ∧ vecAt g 0 0 = 1 then { s with gradient_colors := g, gradient := true }
      else { s with gradient_colors := g }
  else if param_name = "gradient" then
    value.get_bool.map fun b =>
      if b = true ∧ s.gradient_colors ≠ [] ∧ vecAt s.gradient_colors 0 0 = 0 then
        { s with gradient := b, gradient_colors := s.gradient_colors.set 0 1 }
      else { s with gradient := b }
  else if param_name = "move_range" then
    value.get_vec_int.map fun new_range =>
      if 2 ≤ new_range.length then
        let lo := min (vecAt new_range 0 0) (vecAt new_range 1 0)
        let hi := max (vecAt new_range 0 0) (vecAt new_range 1 0)
        { s with
          move_range := [lo, hi]
          current_position :=
            if s.current_position < (lo : ℚ) then (lo : ℚ)
            else if s.current_position > (hi : ℚ) then (hi : ℚ)
            else s.current_position }
      else { s with move_range := new_range }
  else if param_name = "move_speed" then
    value.get_float.map fun v =>
      { s with move_speed := v, direction := if 0 ≤ v then 1 else -1 }
  else if param_name = "time" then
    value.get_float.map fun v => { s with time := v }
  else if param_name = "transparency" then
    value.get_vec_float.map fun v => { s with transparency := v }
  else if param_name = "length" then
    value.get_vec_int.map fun v => { s with length := v, total_length := v.sum }
  else if param_name = "initial_position" then
    value.get_int.map fun v => { s with initial_position := v }
  else if param_name = "is_edge_reflect" then
    value.get_bool.map fun v => { s with is_edge_reflect := v }
  else if param_name = "dimmer_time" then
    value.get_vec_int.map fun v => { s with dimmer_time := v }
  else if param_name = "dimmer_time_ratio" then
    value.get_float.map fun v => { s with dimmer_time_ratio := v }
  else if param_name = "fade" then
    value.get_bool.map fun v => { s with fade := v }
  else some s

/-- Method `LightSegment::to_dict`. -/
def to_dict (s : LightSegment) : any_type_dict :=
  mapSet "gradient_colors" (.vec_int s.gradient_colors) <|
  mapSet "fade" (.bool s.fade) <|
  mapSet "gradient" (.bool s.gradient) <|
  mapSet "dimmer_time_ratio" (.float s.dimmer_time_ratio) <|
  mapSet "dimmer_time" (.vec_int s.dimmer_time) <|
  mapSet "is_edge_reflect" (.bool s.is_edge_reflect) <|
  mapSet "current_position" (.float s.current_position) <|
  mapSet "initial_position" (.int s.initial_position) <|
  mapSet "move_range" (.vec_int s.move_range) <|
  mapSet "move_speed" (.float s.move_speed) <|
  mapSet "length" (.vec_int s.length) <|
  mapSet "transparency" (.vec_float s.transparency) <|
  mapSet "color" (.vec_int s.color) <|
  mapSet "segment_ID" (.int s.segment_ID) []

/-- The read `std::get<T>(data.at(key))` with the getter `get` of `T`; `none` when `at`
throws `out_of_range` or `std::get` throws `bad_variant_access`. -/
def dict_get {α : Type} (data : any_type_dict) (key : String)
    (get : blockc_any_type → Option α) : Option α :=
  (mapFind key data).bind get

/-- The read of an optional key: `dflt` when the key is absent, `std::get<T>` of the entry
otherwise. -/
def dict_get_or {α : Type} (data : any_type_dict) (key : String)
    (get : blockc_any_type → Option α) (dflt : α) : Option α :=
  match mapFind key data with
  | some v => get v
  | none => some dflt

/-- Static method `LightSegment::from_dict`; `none` when it throws. -/
def from_dict (cache : PaletteMap) (data : any_type_dict) : Option LightSegment := do
  let segment_ID ← dict_get data "segment_ID" blockc_any_type.get_int
  let color ← dict_get data "color" blockc_any_type.get_vec_int
  let transparency ← dict_get data "transparency" blockc_any_type.get_vec_float
  let length ← dict_get data "length" blockc_any_type.get_vec_int
  let move_speed ← dict_get data "move_speed" blockc_any_type.get_float
  let move_range ← dict_get data "move_range" blockc_any_type.get_vec_int
  let initial_position ← dict_get data "initial_position" blockc_any_type.get_int
  let is_edge_reflect ← dict_get data "is_edge_reflect" blockc_any_type.get_bool
  let dimmer_time ← dict_get data "dimmer_time" blockc_any_type.get_vec_int
  let dimmer_time_ratio ← dict_get_or data "dimmer_time_ratio" blockc_any_type.get_float 1
  let segment := LightSegment.new cache segment_ID color transparency length move_speed
    move_range initial_position is_edge_reflect dimmer_time dimmer_time_ratio
  let position ← dict_get data "initial_position" blockc_any_type.get_int
  let segment := { segment with current_position := (position : ℚ) }
  let gradient ← dict_get_or data "gradient" blockc_any_type.get_bool segment.gradient
  let segment := { segment with gradient := gradient }
  let fade ← dict_get_or data "fade" blockc_any_type.get_bool segment.fade
  let segment := { segment with fade := fade }
  let gradient_colors ←
    dict_get_or data "gradient_colors" blockc_any_type.get_vec_int segment.gradient_colors
  some { segment with gradient_colors := gradient_colors }

/-- The segment that `from_dict` rebuilds from the dictionary of `s`: the serialized members
of `s`, with the position at `initial_position` and the members the constructor derives. -/
def restored (cache : PaletteMap) (s : LightSegment) : LightSegment :=
  { s with
    current_position := (s.initial_position : ℚ)
    move_range := ordered_range s.move_range
    time := 0
    direction := if 0 ≤ s.move_speed then 1 else -1
    rgb_color := { s with scene := none }.calculate_rgb cache (fun _ => []) "A"
    total_length := s.length.sum
    scene := none }

end LightSegment

/-- Scenario S4 after one frame at 60 fps: the segment has moved and its clock has
advanced. -/
def segment_S4_moved : LightSegment := segment_S4.update_position 60

/-- The removal `m.erase(k)`. -/
def mapErase {κ β : Type} [DecidableEq κ] (k : κ) : List (κ × β) → List (κ × β)
  | [] => []
  | (k', v) :: t => if k' = k then t else (k', v) :: mapErase k t

/-- The key `m.begin()->first` of a non-empty map, `none` for an empty one. -/
def mapFirstKey {κ β : Type} (m : List (κ × β)) : Option κ :=
  match m with
  | [] => none
  | (k, _) :: _ => some k

namespace LightEffect

/-- Method `LightEffect::set_current_palette`. -/
def set_current_palette (e : LightEffect) (palette : String) : LightEffect :=
  { e with current_palette := palette }

/-- Method `LightEffect::set_scene`. -/
def set_scene (e : LightEffect) (scene : Option SceneRef) : LightEffect :=
  { e with scene := scene }

/-- Method `LightEffect::set_palette`: records the palette and hands the scene reference of
the effect to every segment that has none (the values of the `calculate_rgb` calls are
discarded by the source). -/
def set_palette (e : LightEffect) (palette_id : String) : LightEffect :=
  { e with
    current_palette := palette_id
    segments := e.segments.map fun p =>
      (p.1, if e.scene.isSome ∧ p.2.scene.isNone then { p.2 with scene := e.scene } else p.2) }

/-- Method `LightEffect::update_all`: advances the clock of the effect, hands it to every
segment (`update_param("time", time_)` assigns `time_`) and moves the segment. -/
def update_all (e : LightEffect) : LightEffect :=
  let time := e.time + e.time_step
  { e with
    time := time
    segments := e.segments.map fun p =>
      (p.1, ({ p.2 with time := time } : LightSegment).update_position e.fps) }

end LightEffect

/-! ## Scenes (`light_scene.cpp`) -/

/-- Class `LightScene`. -/
structure LightScene where
  scene_ID : Int
  effects : List (Int × LightEffect)
  current_effect_ID : Option Int
  palettes : PaletteMap
  current_palette : String
  next_effect_idx : Option Int
  next_palette_idx : Option String
  fade_in_time : ℚ
  fade_out_time : ℚ
  transition_start_time : ℚ
  effect_transition_active : Bool
  palette_transition_active : Bool

namespace LightScene

/-- Constructor `LightScene(scene_ID)`. -/
def new (scene_ID : Int) : LightScene :=
  { scene_ID := scene_ID
    effects := []
    current_effect_ID := none
    palettes := DEFAULT_COLOR_PALETTES
    current_palette := "A"
    next_effect_idx := none
    next_palette_idx := none
    fade_in_time := 0
    fade_out_time := 0
    transition_start_time := 0
    effect_transition_active := false
    palette_transition_active := false }

/-- Method `LightScene::add_effect`. -/
def add_effect (s : LightScene) (effect_ID : Int) (effect : LightEffect) : LightScene :=
  { s with
    effects := mapSet effect_ID (effect.set_current_palette s.current_palette) s.effects
    current_effect_ID :=
      match s.current_effect_ID with
      | some c => some c
      | none => some effect_ID }

/-- Method `LightScene::remove_effect`. -/
def remove_effect (s : LightScene) (effect_ID : Int) : LightScene :=
  if (mapFind effect_ID s.effects).isSome then
    let effects := mapErase effect_ID s.effects
    if s.current_effect_ID = some effect_ID then
      { s with effects := effects, current_effect_ID := mapFirstKey effects }
    else { s with effects := effects }
  else s

/-- Method `LightScene::set_palette` (the values of the `calculate_rgb` calls are discarded
by the source). -/
def set_palette (s : LightScene) (palette_id : String) : LightScene :=
  if (mapFind palette_id s.palettes).isSome then
    { s with
      current_palette := palette_id
      effects := s.effects.map fun p => (p.1, p.2.set_palette palette_id) }
  else s

/-- Method `LightScene::update_palette`. -/
def update_palette (s : LightScene) (palette_id : String) (colors : ColorPalette) :
    LightScene :=
  if (mapFind palette_id s.palettes).isSome then
    let s1 := { s with palettes := mapSet palette_id colors s.palettes }
    if palette_id = s1.current_palette then s1.set_palette palette_id else s1
  else s

/-- Method `LightScene::update_all_palettes`. -/
def update_all_palettes (s : LightScene) (new_palettes : PaletteMap) : LightScene :=
  let s1 := { s with palettes := new_palettes }
  if (mapFind s1.current_palette s1.palettes).isSome then s1.set_palette s1.current_palette
  else
    match mapFirstKey s1.palettes with
    | some k => ({ s1 with current_palette := k } : LightScene).set_palette k
    | none => s1

/-- Method `LightScene::switch_effect`. -/
def switch_effect (s : LightScene) (effect_ID : Int) : LightScene :=
  if (mapFind effect_ID s.effects).isSome then { s with current_effect_ID := some effect_ID }
  else s

/-- The effect `current_effect_ID` names, when it is set and a key of `effects`. -/
def current_effect (s : LightScene) : Option LightEffect :=
  match s.current_effect_ID with
  | some c => mapFind c s.effects
  | none => none

/-- The statement `transition_start_time += 1.0f / fps` that `update` runs when the current
effect exists: `fps` is an `int` converted to `float`, the quotient and the sum are
binary32 operations. (A frame rate of 0 makes the source divide by zero; the quotient of
the embedding is 0 there.) -/
def advance_timer (s : LightScene) : LightScene :=
  match s.current_effect with
  | some e =>
    { s with
      transition_start_time := f32 (s.transition_start_time + f32 (1 / f32 (e.fps : ℚ))) }
  | none => s

/-- First block of `LightScene::update`: the pending effect transition. The sum
`fade_out_time + fade_in_time` is a binary32 sum. -/
def update_effect_transition (s : LightScene) : LightScene :=
  if s.effect_transition_active then
    let s1 := s.advance_timer
    if s1.transition_start_time ≥ f32 (s1.fade_out_time + s1.fade_in_time) then
      let s2 :=
        match s1.next_effect_idx with
        | some n => if (mapFind n s1.effects).isSome then s1.switch_effect n else s1
        | none => s1
      { s2 with
        effect_transition_active := false
        next_effect_idx := none
        transition_start_time := 0 }
    else s1
  else s

/-- Second block of `LightScene::update`: the pending palette transition. -/
def update_palette_transition (s : LightScene) : LightScene :=
  if s.palette_transition_active then
    let s1 := s.advance_timer
    if s1.transition_start_time ≥ f32 (s1.fade_out_time + s1.fade_in_time) then
      let s2 :=
        match s1.next_palette_idx with
        | some p => s1.set_palette p
        | none => s1
      { s2 with
        palette_transition_active := false
        next_palette_idx := none
        transition_start_time := 0 }
    else s1
  else s

/-- Last block of `LightScene::update`: the current effect advances one frame. -/
def update_current_effect (s : LightScene) : LightScene :=
  match s.current_effect_ID with
  | some c =>
    match mapFind c s.effects with
    | some e => { s with effects := mapSet c e.update_all s.effects }
    | none => s
  | none => s

/-- Method `LightScene::update`. -/
def update (s : LightScene) : LightScene :=
  s.update_effect_transition.update_palette_transition.update_current_effect

/-- Method `LightScene::get_led_output`. -/
def get_led_output (s : LightScene) (cache : PaletteMap) (palettes_of : SceneRef → PaletteMap) :
    List (List Int) :=
  match s.current_effect with
  | some e => e.get_led_output cache palettes_of
  | none => []

/-- Method `LightScene::set_transition_params`. -/
def set_transition_params (s : LightScene) (next_effect_idx : Option Int)
    (next_palette_idx : Option String) (fade_in_time fade_out_time : ℚ) : LightScene :=
  { s with
    next_effect_idx := next_effect_idx
    next_palette_idx := next_palette_idx
    fade_in_time := fade_in_time
    fade_out_time := fade_out_time
    transition_start_time := 0
    effect_transition_active := next_effect_idx.isSome
    palette_transition_active := next_palette_idx.isSome }

/-- Method `LightScene::set_effect_transition`. -/
def set_effect_transition (s : LightScene) (state : Bool) : LightScene :=
  { s with effect_transition_active := state }

/-- Method `LightScene::get_light_effects`: `none` for the null pointer. -/
def get_light_effects (s : LightScene) (effect_id : Int) : Option LightEffect :=
  mapFind effect_id s.effects

end LightScene

/-- One call of a mutating method of `LightScene`. -/
inductive SceneOp where
  | add_effect (effect_ID : Int) (effect : LightEffect)
  | remove_effect (effect_ID : Int)
  | switch_effect (effect_ID : Int)
  | set_palette (palette_id : String)
  | update_palette (palette_id : String) (colors : ColorPalette)
  | update_all_palettes (new_palettes : PaletteMap)
  | set_transition_params (next_effect_idx : Option Int) (next_palette_idx : Option String)
      (fade_in_time fade_out_time : ℚ)
  | update

namespace LightScene

/-- The scene after one method call. -/
def apply (s : LightScene) : SceneOp → LightScene
  | .add_effect effect_ID effect => s.add_effect effect_ID effect
  | .remove_effect effect_ID => s.remove_effect effect_ID
  | .switch_effect effect_ID => s.switch_effect effect_ID
  | .set_palette palette_id => s.set_palette palette_id
  | .update_palette palette_id colors => s.update_palette palette_id colors
  | .update_all_palettes new_palettes => s.update_all_palettes new_palettes
  | .set_transition_params e p fade_in fade_out => s.set_transition_params e p fade_in fade_out
  | .update => s.update

/-- The scene after a sequence of method calls. -/
def run (s : LightScene) (ops : List SceneOp) : LightScene :=
  ops.foldl apply s

/-- The scene after `n` calls of `update`. -/
def updates (s : LightScene) : Nat → LightScene
  | 0 => s
  | n + 1 => (s.updates n).update

/-- The keys of `effects` are in strictly ascending order and `current_effect_ID`, when
set, is one of them. -/
def WellFormed (s : LightScene) : Prop :=
  (s.effects.map Prod.fst).Pairwise (fun a b => a < b)
  ∧ ∀ c, s.current_effect_ID = some c → (mapFind c s.effects).isSome = true

end LightScene

namespace LightScene

/-- An effect transition to `e` is pending and no palette transition is: the timer reads
`t`, the fade times are `fade_in` and `fade_out`, the current effect `c` exists with frame
rate `F`, and `e` is a key of `effects`. -/
def Pending (s : LightScene) (e c F : Int) (fade_in fade_out t : ℚ) : Prop :=
  s.effect_transition_active = true ∧ s.palette_transition_active = false
  ∧ s.next_effect_idx = some e ∧ s.fade_in_time = fade_in ∧ s.fade_out_time = fade_out
  ∧ s.transition_start_time = t ∧ s.current_effect_ID = some c
  ∧ (∃ eff, mapFind c s.effects = some eff ∧ eff.fps = F)
  ∧ (mapFind e s.effects).isSome = true

/-- No transition is pending and the current effect is `e`. -/
def Completed (s : LightScene) (e : Int) : Prop :=
  s.effect_transition_active = false ∧ s.palette_transition_active = false
  ∧ s.current_effect_ID = some e

end LightScene

namespace LightScene

/-- The `float` value of `1.0f / fps` for the frame rate `F`. -/
def timer_step (F : Int) : ℚ := f32 (1 / f32 (F : ℚ))

/-- The transition timer after `n` executions of `transition_start_time += 1.0f / fps`
from 0, at the frame rate `F`. -/
def timer_after (F : Int) : Nat → ℚ
  | 0 => 0
  | n + 1 => f32 (timer_after F n + timer_step F)

end LightScene

/-- A scene with the effects 0 and 1, both of 10 LEDs at 60 frames per second; effect 0 is
the current one. -/
def scene_sixty_fps : LightScene :=
  ((LightScene.new 1).add_effect 0 (LightEffect.new 0 10 60)).add_effect 1
    (LightEffect.new 1 10 60)

/-- A scene with the effects 0 and 1, both of 10 LEDs at `2 ^ 30` frames per second; effect
0 is the current one. -/
def scene_fast_clock : LightScene :=
  ((LightScene.new 1).add_effect 0 (LightEffect.new 0 10 (2 ^ 30))).add_effect 1
    (LightEffect.new 1 10 (2 ^ 30))

/-- A scene with the effects 0 and 1, both of 10 LEDs at 2 frames per second; effect 0 is
the current one. -/
def scene_two_effects : LightScene :=
  ((LightScene.new 1).add_effect 0 (LightEffect.new 0 10 2)).add_effect 1
    (LightEffect.new 1 10 2)

/-! ## Address dispatch (`data_dispatcher.cpp`)

The four `std::regex` patterns (ECMAScript grammar) are sequences of ordinary characters and
of capturing groups `(C+)` over a character class `C`; `std::regex_match` succeeds when the
whole input is matched. A group is greedy: it takes the longest run of class characters with
which the rest of the pattern still matches. The class `\d` holds the decimal digits; the
class `.` holds every character except the line terminators `\n` and `\r`. An address is
matched character by character; a character outside ASCII is several bytes of the
`std::string`, none of which is a digit or a line terminator, so the classes agree on
both readings. -/

/-- One element of a pattern: an ordinary character or a capturing group `(C+)`. -/
inductive RegexItem where
  | char (c : Char)
  | group (cls : Char → Bool)

/-- The character class `\d`. -/
def regex_digit (c : Char) : Bool := decide ('0' ≤ c ∧ c ≤ '9')

/-- The character class `.` of the ECMAScript grammar. -/
def regex_any (c : Char) : Bool := decide (c ≠ '\n' ∧ c ≠ '\r')

/-- The pattern items of a run of ordinary characters. -/
def regex_chars (s : String) : List RegexItem := s.data.map RegexItem.char

/-- The backtracking of a greedy group: with `k` characters left to try, the group takes the
first `k` characters of the input if the continuation `cont` matches what follows, and
otherwise tries `k - 1`; a group takes at least one character. -/
def regex_try_lengths (cont : List Char → Option (List (List Char))) (input : List Char) :
    Nat → Option (List (List Char))
  | 0 => none
  | k + 1 =>
    match cont (input.drop (k + 1)) with
    | some caps => some (input.take (k + 1) :: caps)
    | none => regex_try_lengths cont input k

/-- The match of a whole input against a pattern: the captured groups in order, or `none`
when the input does not match. -/
def regex_match_items : List RegexItem → List Char → Option (List (List Char))
  | [], [] => some []
  | [], _ :: _ => none
  | .char _ :: _, [] => none
  | .char c :: items, x :: xs => if x = c then regex_match_items items xs else none
  | .group cls :: items, input =>
    regex_try_lengths (regex_match_items items) input (input.takeWhile cls).length

/-- The call `std::regex_match(address, matches, pattern)`: on success the sub-matches,
`matches[0]` being the whole address. -/
def regex_match (pattern : List RegexItem) (address : String) : Option (List String) :=
  (regex_match_items pattern address.data).map fun caps => address :: caps.map String.mk

/-- Struct `MatchResult`: the pattern name and the sub-matches (`std::smatch`). -/
structure MatchResult where
  regex_name : String
  /-- Member `matches` of the source. -/
  sub_matches : List String
  deriving DecidableEq

namespace DataDispatcher

/-- Member `regex_patterns` as the constructor fills it. -/
def regex_patterns : List (List RegexItem × String) :=
  [ -- /scene/(\d+)/load_effects
    (regex_chars "/scene/" ++ [.group regex_digit] ++ regex_chars "/load_effects",
      "scene_load_effects"),
    -- /scene/(\d+)/change_effect
    (regex_chars "/scene/" ++ [.group regex_digit] ++ regex_chars "/change_effect",
      "scene_change_effect"),
    -- /scene/(\d+)/change_palette
    (regex_chars "/scene/" ++ [.group regex_digit] ++ regex_chars "/change_palette",
      "scene_change_palette"),
    -- /scene/(\d+)/effect/(\d+)/segment/(\d+)/(.+)
    (regex_chars "/scene/" ++ [.group regex_digit] ++ regex_chars "/effect/"
        ++ [.group regex_digit] ++ regex_chars "/segment/" ++ [.group regex_digit]
        ++ regex_chars "/" ++ [.group regex_any],
      "scene_effect_segment") ]

/-- The loop of `match_pattern` over the remaining patterns. -/
def match_first (address : String) : List (List RegexItem × String) → Option MatchResult
  | [] => none
  | (pattern, name) :: rest =>
    match regex_match pattern address with
    | some ms => some { regex_name := name, sub_matches := ms }
    | none => match_first address rest

/-- Method `DataDispatcher::match_pattern`. -/
def match_pattern (data : BlockCInputData) : Option MatchResult :=
  match_first data.address regex_patterns

end DataDispatcher

/-- A non-empty run of decimal digits: what `(\d+)` matches. -/
def IsDigits (d : List Char) : Prop := d ≠ [] ∧ ∀ c ∈ d, regex_digit c = true

/-- A non-empty run of characters other than line terminators: what `(.+)` matches. -/
def IsRest (r : List Char) : Prop := r ≠ [] ∧ ∀ c ∈ r, regex_any c = true

instance (d : List Char) : Decidable (IsDigits d) := by
  unfold IsDigits
  infer_instance

instance (r : List Char) : Decidable (IsRest r) := by
  unfold IsRest
  infer_instance

/-- The address `/scene/<sid>/<verb>`. -/
def scene_address (sid : List Char) (verb : String) : String :=
  String.mk ("/scene/".data ++ sid ++ '/' :: verb.data)

/-- The address `/scene/<sid>/effect/<eid>/segment/<gid>/<rest>`. -/
def segment_address (sid eid gid rest : List Char) : String :=
  String.mk ("/scene/".data ++ sid ++ "/effect/".data ++ eid ++ "/segment/".data ++ gid
    ++ '/' :: rest)

/-! ## Command handling (`data_receive_handler.cpp`) -/

/-- Constant `DEFAULT_TRANSPARENCY`. -/
def DEFAULT_TRANSPARENCY : List ℚ := [1, 1, 1, 1]

/-- Constant `DEFAULT_LENGTH`. -/
def DEFAULT_LENGTH : List Int := [1, 0, 0]

/-- Constant `DEFAULT_MOVE_SPEED`. -/
def DEFAULT_MOVE_SPEED : ℚ := 0

/-- Constant `DEFAULT_MOVE_RANGE`. -/
def DEFAULT_MOVE_RANGE : List Int := [0, DEFAULT_LED_COUNT - 1]

/-- Constant `DEFAULT_INITIAL_POSITION`. -/
def DEFAULT_INITIAL_POSITION : Int := 0

/-- Constant `DEFAULT_IS_EDGE_REFLECT`. -/
def DEFAULT_IS_EDGE_REFLECT : Bool := true

/-- Constant `DEFAULT_DIMMER_TIME`. -/
def DEFAULT_DIMMER_TIME : List Int := [0, 100, 200, 100, 0]

/-- The number a run of decimal digits denotes. -/
def digits_value (d : List Char) : Nat :=
  d.foldl (fun acc c => 10 * acc + (c.toNat - '0'.toNat)) 0

/-- The call `std::stoi(s)` on a sub-match of `(\d+)`: the number, or `none` when the call
throws `std::out_of_range` because the number exceeds `INT_MAX` (the dispatcher hands it
digit runs only; any other string is mapped to `none` as well). -/
def stoi (s : String) : Option Int :=
  if IsDigits s.data ∧ digits_value s.data ≤ 2147483647 then some (digits_value s.data : Int)
  else none

namespace LightSegment

/-- Method `LightSegment::set_gradient`. -/
def set_gradient (s : LightSegment) (state : Bool) : LightSegment := { s with gradient := state }

/-- Method `LightSegment::set_fade`. -/
def set_fade (s : LightSegment) (state : Bool) : LightSegment := { s with fade := state }

end LightSegment

namespace LightScene

/-- Method `LightScene::set_palette_transition`. -/
def set_palette_transition (s : LightScene) (state : Bool) : LightScene :=
  { s with palette_transition_active := state }

end LightScene

/-- Class `DataReceiveHandler`: the scenes it owns and the binary-output switch (the send
clock and the registered output callbacks are left out; the messages handed to the
callbacks are returned by the methods). -/
structure DataReceiveHandler where
  light_scenes : List (Int × LightScene)
  send_binary_enabled : Bool

/-- The effect of one call of a handler method: the handler afterwards, the messages passed
to `notify_output_callbacks`, and the exception that leaves the call, if any. -/
structure HandlerResult where
  handler : DataReceiveHandler
  outputs : List BlockCOutputData
  thrown : Option String

namespace DataReceiveHandler

/-- A call that returns normally without output. -/
def returned (h : DataReceiveHandler) : HandlerResult :=
  { handler := h, outputs := [], thrown := none }

/-- A call left by the exception `what`, thrown before the handler was changed. -/
def threw (h : DataReceiveHandler) (what : String) : HandlerResult :=
  { handler := h, outputs := [], thrown := some what }

/-- The palettes of the scene a back-reference names: scenes are identified by their key in
`light_scenes`. -/
def palettes_of (h : DataReceiveHandler) : SceneRef → PaletteMap :=
  fun r =>
    match mapFind r h.light_scenes with
    | some scene => scene.palettes
    | none => []

/-- Body of the loop of `create_default_segments`. -/
def create_default_segment (cache : PaletteMap) (effect : LightEffect) (i : Int) : LightEffect :=
  let temp_value := Int.tmod i 6
  let temp := [temp_value, temp_value, temp_value, temp_value]
  let segment := LightSegment.new cache 1 temp DEFAULT_TRANSPARENCY DEFAULT_LENGTH
    DEFAULT_MOVE_SPEED DEFAULT_MOVE_RANGE DEFAULT_INITIAL_POSITION DEFAULT_IS_EDGE_REFLECT
    DEFAULT_DIMMER_TIME 1
  effect.add_segment i ((segment.set_gradient false).set_fade false)

/-- Method `DataReceiveHandler::create_default_segments`. -/
def create_default_segments (cache : PaletteMap) (effect : LightEffect) (count : Int) :
    LightEffect :=
  (intRange 1 count).foldl (create_default_segment cache) effect

/-- Method `DataReceiveHandler::create_default_effects`. -/
def create_default_effects (cache : PaletteMap) (scene : LightScene) (num_effects : Int) :
    LightScene :=
  (intRange 0 num_effects).foldl (fun sc effect_id =>
    sc.add_effect effect_id
      (create_default_segments cache (LightEffect.new effect_id DEFAULT_LED_COUNT DEFAULT_FPS)
        10)) scene

/-- Constructor `DataReceiveHandler(light_scenes)`. -/
def new (cache : PaletteMap) (light_scenes : List (Int × LightScene)) : DataReceiveHandler :=
  if light_scenes.isEmpty then
    { light_scenes := mapSet 1 (create_default_effects cache (LightScene.new 1) 8) []
      send_binary_enabled := true }
  else
    { light_scenes := light_scenes
      send_binary_enabled := true }

/-- Method `scene_load_effects_callback` in the FreeRTOS build, where loading from a file is
answered with a `load_error` message. -/
def scene_load_effects_callback (h : DataReceiveHandler) (data : BlockCInputData)
    (m : MatchResult) : HandlerResult :=
  match stoi (m.sub_matches.getD 1 "") with
  | none => h.threw "std::out_of_range"
  | some scene_id =>
    match data.data with
    | .string _ =>
      { handler := h
        outputs := [{ address := "/scene/" ++ toString scene_id ++ "/load_error"
                      payload := .string "File operations not supported in FreeRTOS" }]
        thrown := none }
    | _ => h.threw "std::bad_variant_access"

/-- Method `scene_change_effect_callback`. -/
def scene_change_effect_callback (h : DataReceiveHandler) (data : BlockCInputData)
    (m : MatchResult) : HandlerResult :=
  match stoi (m.sub_matches.getD 1 "") with
  | none => h.threw "std::out_of_range"
  | some scene_id =>
    match data.data with
    | .int effect_id =>
      match mapFind scene_id h.light_scenes with
      | none => h.returned
      | some scene =>
        match scene.get_light_effects effect_id with
        | none => h.returned
        | some _ =>
          if scene.current_effect_ID = some effect_id then h.returned
          else
            returned { h with
              light_scenes := mapSet scene_id
                ((scene.set_transition_params (some effect_id) none 0 0).set_effect_transition
                  true) h.light_scenes }
    | _ => h.threw "std::bad_variant_access"

/-- Method `scene_change_palette_callback`. -/
def scene_change_palette_callback (h : DataReceiveHandler) (data : BlockCInputData)
    (m : MatchResult) : HandlerResult :=
  match stoi (m.sub_matches.getD 1 "") with
  | none => h.threw "std::out_of_range"
  | some scene_id =>
    match data.data with
    | .string palette_id =>
      match mapFind scene_id h.light_scenes with
      | none => h.returned
      | some scene =>
        if (mapFind palette_id scene.palettes).isSome then
          returned { h with
            light_scenes := mapSet scene_id
              ((scene.set_transition_params none (some palette_id) 0 0).set_palette_transition
                true) h.light_scenes }
        else h.returned
    | _ => h.threw "std::bad_variant_access"

/-- The handler after the segment `segment_id` of effect `effect_id` of scene `scene_id` has
been replaced by `segment`: the write through the shared pointers of the three maps. -/
def store_segment (h : DataReceiveHandler) (scene_id : Int) (scene : LightScene)
    (effect_id : Int) (effect : LightEffect) (segment_id : Int) (segment : LightSegment) :
    DataReceiveHandler :=
  { h with
    light_scenes := mapSet scene_id
      { scene with
        effects := mapSet effect_id
          { effect with segments := mapSet segment_id segment effect.segments }
          scene.effects } h.light_scenes }

/-- Method `scene_effect_segment_callback` (its log line that prints the first four colour
indices is left out). -/
def scene_effect_segment_callback (cache : PaletteMap) (h : DataReceiveHandler)
    (data : BlockCInputData) (m : MatchResult) : HandlerResult :=
  match stoi (m.sub_matches.getD 1 "") with
  | none => h.threw "std::out_of_range"
  | some scene_id =>
  match stoi (m.sub_matches.getD 2 "") with
  | none => h.threw "std::out_of_range"
  | some effect_id =>
  match stoi (m.sub_matches.getD 3 "") with
  | none => h.threw "std::out_of_range"
  | some segment_id =>
    let param_name := m.sub_matches.getD 4 ""
    match mapFind scene_id h.light_scenes with
    | none => h.returned
    | some scene =>
      match scene.get_light_effects effect_id with
      | none => h.returned
      | some effect =>
        match mapFind segment_id effect.segments with
        | none => h.returned
        | some segment =>
          if param_name = "color" then
            match data.data with
            | .vec_int color_vec =>
              match segment.update_param cache h.palettes_of "color" (.vec_int color_vec) with
              | some segment' =>
                returned (h.store_segment scene_id scene effect_id effect segment_id segment')
              | none => h.threw "std::bad_variant_access"
            | _ => h.threw "std::bad_variant_access"
          else if param_name = "dimmer_time_ratio" then
            match data.data with
            | .double value =>
              let ratio : ℚ := max (1 / 10) value
              match segment.update_param cache h.palettes_of "dimmer_time_ratio"
                  (.float ratio) with
              | some segment' =>
                returned (h.store_segment scene_id scene effect_id effect segment_id segment')
              | none => h.threw "std::bad_variant_access"
            | _ => h.threw "std::bad_variant_access"
          else h.returned

/-- Method `DataReceiveHandler::handle_input_data`. -/
def handle_input_data (cache : PaletteMap) (h : DataReceiveHandler) (data : BlockCInputData) :
    HandlerResult :=
  match DataDispatcher.match_pattern data with
  | some m =>
    if m.regex_name = "scene_load_effects" then h.scene_load_effects_callback data m
    else if m.regex_name = "scene_change_effect" then h.scene_change_effect_callback data m
    else if m.regex_name = "scene_change_palette" then h.scene_change_palette_callback data m
    else if m.regex_name = "scene_effect_segment" then
      scene_effect_segment_callback cache h data m
    else h.returned
  | none => h.threw "std::runtime_error"

/-- Method `DataReceiveHandler::scene_update`. -/
def scene_update (h : DataReceiveHandler) : DataReceiveHandler :=
  { h with light_scenes := h.light_scenes.map fun p => (p.1, p.2.update) }

end DataReceiveHandler

/-- A handler that owns the scene with the effects 0 and 1 as scene 1. -/
def handler_two_effects : DataReceiveHandler :=
  { light_scenes := [(1, scene_two_effects)], send_binary_enabled := true }

/-- A call of one of the two mutating methods of `LightSwitchFlgMaker`. -/
inductive MakerCall where
  | update_musical_change_flgs (new_musical_change_flgs : List (String × blockb_any_type))
  | exec_make_flgs

namespace LightSwitchFlgMaker

/-- The maker after one call. -/
def call (m : LightSwitchFlgMaker) : MakerCall → LightSwitchFlgMaker
  | .update_musical_change_flgs f => m.update_musical_change_flgs f
  | .exec_make_flgs => m.exec_make_flgs

/-- The maker after a sequence of calls. -/
def run (m : LightSwitchFlgMaker) (calls : List MakerCall) : LightSwitchFlgMaker :=
  calls.foldl call m

/-- The map `light_switch_flgs` holds exactly the six lighting flags. -/
def SixFlags (m : LightSwitchFlgMaker) : Prop :=
  ∃ b1 b2 b3 b4 b5 b6 : Bool,
    m.light_switch_flgs
      = [("color_shift_flg", b1), ("effect_change_flg", b2), ("lighting_end_flg", b3),
         ("lighting_scene_change_flg", b4), ("lighting_start_flg", b5),
         ("palette_change_flg", b6)]

end LightSwitchFlgMaker

namespace LightSegment

end LightSegment

/-- A fading segment whose fade-in runs from -2000000000 ms to 2000000000 ms in a cycle of
1000 ms, at ratio 1 and time 0: the entries are `int` values, their difference is not. -/
def segment_fade_overflow : LightSegment :=
  { LightSegment.new DEFAULT_COLOR_PALETTES 1 [0, 1, 2, 3] [1, 1, 1, 1] [1, 0, 0] 0 [0, 9] 0
      true [-2000000000, 2000000000, 0, 0, 1000] 1 with
    fade := true }

namespace LightSegment

/-- The invariant `direction = sign(move_speed)` in the form the constructor establishes
it: `direction` is `+1` when `move_speed >= 0` and `-1` otherwise. -/
def DirectionMatchesSpeed (s : LightSegment) : Prop :=
  s.direction = if 0 ≤ s.move_speed then 1 else -1

instance (s : LightSegment) : Decidable s.DirectionMatchesSpeed := by
  unfold DirectionMatchesSpeed
  infer_instance

/-- The test of `update_position` for a reflection off the right edge: edge-reflect mode,
the new position is not left of the range, and the end of the segment is past the right
edge. -/
def reflects_right (s : LightSegment) (fps : Int) : Prop :=
  s.is_edge_reflect = true
  ∧ ¬ (s.current_position + s.move_speed * (1 / (fps : ℚ)) < ((vecAt s.move_range 0 0 : Int) : ℚ))
  ∧ s.current_position + s.move_speed * (1 / (fps : ℚ)) + ((s.length.sum : Int) : ℚ) - 1
      > ((vecAt s.move_range 1 0 : Int) : ℚ)

end LightSegment

/-- A resting segment of length 3 at position 8 of the range `[0, 9]`, in edge-reflect mode:
its last LED lies past the right edge. -/
def segment_resting_past_edge : LightSegment :=
  LightSegment.new DEFAULT_COLOR_PALETTES 1 [0, 1, 2, 3] [1, 1, 1, 1] [3, 0, 0] 0 [0, 9] 8
    true [0, 100, 200, 100, 0] 1

namespace LightingSwitcher

/-- The tables the constructor fills and no method reassigns. -/
def Tables (s : LightingSwitcher) : Prop :=
  s.effect_ids = [1, 2, 3, 4, 5, 6, 7, 8]
  ∧ s.palette_ids = ["A", "B", "C", "D", "E"]
  ∧ s.segment_num = 10
  ∧ s.tempo_anchor = [60, 80, 100, 120, 140]
  ∧ s.dimmer_time_ratio_anchor = [3, 1, 7 / 10, 1 / 2, 3 / 10]

/-- The straight line through `(x0, y0)` and `(x1, y1)` at `t`. -/
def line_through (x0 y0 x1 y1 t : ℚ) : ℚ := y0 + (y1 - y0) * (t - x0) / (x1 - x0)

/-- The dimmer ratio of the specification: the piecewise-linear interpolation through
`(60, 3)`, `(80, 1)`, `(100, 0.7)`, `(120, 0.5)`, `(140, 0.3)`, equal to 3 below 60 and to
0.3 above 140. -/
def dimmer_ratio_curve (t : ℚ) : ℚ :=
  if t < 60 then 3
  else if t ≤ 80 then line_through 60 3 80 1 t
  else if t ≤ 100 then line_through 80 1 100 (7 / 10) t
  else if t ≤ 120 then line_through 100 (7 / 10) 120 (1 / 2) t
  else if t ≤ 140 then line_through 120 (1 / 2) 140 (3 / 10) t
  else 3 / 10

end LightingSwitcher

namespace LightingSwitcher

/-- Whether `light_switch_flag()` takes its palette-change branch in this state: the three
flags tested before `palette_change_flg` are false and `palette_change_flg` is true. -/
def takes_palette_change (s : LightingSwitcher) : Bool :=
  !flagOf s.light_switch_flgs "lighting_start_flg"
    && !flagOf s.light_switch_flgs "lighting_end_flg"
    && !flagOf s.light_switch_flgs "lighting_scene_change_flg"
    && flagOf s.light_switch_flgs "palette_change_flg"

/-- Whether `light_switch_flag()` takes its effect-change branch in this state: the four
flags tested before `effect_change_flg` are false and `effect_change_flg` is true. -/
def takes_effect_change (s : LightingSwitcher) : Bool :=
  !flagOf s.light_switch_flgs "lighting_start_flg"
    && !flagOf s.light_switch_flgs "lighting_end_flg"
    && !flagOf s.light_switch_flgs "lighting_scene_change_flg"
    && !flagOf s.light_switch_flgs "palette_change_flg"
    && flagOf s.light_switch_flgs "effect_change_flg"

/-- The number of `light_switch_flag()` calls in the sequence that take the palette-change
branch. -/
def paletteCount (s : LightingSwitcher) : List SwitcherCall → Nat
  | [] => 0
  | c :: t =>
    (match c with
      | .light_switch_flag => if s.takes_palette_change then 1 else 0
      | _ => 0) + paletteCount (s.call c).1 t

/-- The number of `light_switch_flag()` calls in the sequence that take the effect-change
branch. -/
def effectCount (s : LightingSwitcher) : List SwitcherCall → Nat
  | [] => 0
  | c :: t =>
    (match c with
      | .light_switch_flag => if s.takes_effect_change then 1 else 0
      | _ => 0) + effectCount (s.call c).1 t

/-- Invariant of a switcher after `p` palette changes and `e` effect changes: the constant
tables and the two rotation indices `p mod 5` and `e mod 8`. -/
def Rotated (s : LightingSwitcher) (p e : Nat) : Prop :=
  s.Tables ∧ s.current_palette_index = ((p % 5 : Nat) : Int)
  ∧ s.current_effect_index = ((e % 8 : Nat) : Int)

end LightingSwitcher

/-- A switcher that has received the 16-beat idle flag and changed the palette, and has now
received the 8-beat flag. -/
def calls_palette_then_effect : List SwitcherCall :=
  [.update_light_switch_flgs [("no_change_16beats_flg", .bool true)], .light_switch_flag,
   .update_light_switch_flgs [("no_change_8beats_flg", .bool true)]]

/-- A handler that owns scene 1 with the single effect 2, which holds the segment of scenario
S4 under the key 3. -/
def handler_one_segment : DataReceiveHandler :=
  { light_scenes :=
      [(1, (LightScene.new 1).add_effect 2 ((LightEffect.new 2 10 60).add_segment 3 segment_S4))]
    send_binary_enabled := true }

namespace LightSegment

/-- The local `total_segment_length` of `get_light_data`: the sum of the first three section
lengths, padded with the last one. -/
def total_segment_length (s : LightSegment) : Int := (takePad 3 (0 : Int) s.length).sum

/-- The local `base_rgb` of `get_light_data`: the palette colours of the four colour indices. -/
def base_rgb (s : LightSegment) (palette : ColorPalette) : List (List Int) :=
  (takePad 4 (0 : Int) s.color).map (rgb_of_index palette)

/-- The local `segment_transparencies` of `get_light_data`. -/
def segment_transparencies (s : LightSegment) : List ℚ := takePad 4 (1 : ℚ) s.transparency

end LightSegment

namespace PerformerSwitchDetector

/-- The band level of `calc_feature` read from `key` at `k` samples from the end of the
history (`k = 1` for the latest sample, `k = 11` for the sample 10 frames earlier). -/
def band_level (d : PerformerSwitchDetector) (key : String) (k : Nat) : ℚ :=
  asDouble (backAt (d.history.get key) k)

/-- The locals `total_now` (`k = 1`) and `total_past` (`k = 11`) of `calc_feature`: the
binary64 sum, from left to right, of the three band levels and the double nearest to
`1e-5`. -/
def total (d : PerformerSwitchDetector) (k : Nat) : ℚ :=
  f64 (f64 (f64 (d.band_level "volume_high" k + d.band_level "volume_mid" k)
    + d.band_level "volume_low" k) + f64 (1 / 10 ^ 5))

/-- The locals `ratio_now` (`k = 1`) and `ratio_past` (`k = 11`) of `calc_feature`. -/
def ratio (d : PerformerSwitchDetector) (k : Nat) : List ℚ :=
  [d.band_level "volume_high" k / d.total k + 1 / 10 ^ 5,
   d.band_level "volume_mid" k / d.total k + 1 / 10 ^ 5,
   d.band_level "volume_low" k / d.total k + 1 / 10 ^ 5]

end PerformerSwitchDetector

/-- A frame whose three band levels add up to the negative of the double nearest to
`1e-5`. -/
def frame_cancel : MusicFrame :=
  { beat_flg := false
    eq_levels := [0, -f64 (1 / 10 ^ 5), 0, 0, 0, 0]
    tempo := 120
    tempo_confidence := 1 / 2
    genre := 1
    surround_score := 0 }

/-- A performer-switch detector with a full history whose latest frame is `frame_cancel`:
fourteen calm frames, then the cancelling frame. -/
def performer_after_cancel : PerformerSwitchDetector :=
  (List.replicate 14 frame_calm ++ [frame_cancel]).foldl
    (fun d f => d.update_state
      (SectionProgressionDetector.input_frame f.beat_flg f.eq_levels f.tempo f.tempo_confidence))
    PerformerSwitchDetector.new

/-- An effect on 5 LEDs over the default palettes: the translucent segment 1 on LEDs 1..3,
the opaque one-LED segment 2 on LED 2, and the opaque one-LED segment 3 on LED 0. LED 4 is
covered by no segment. -/
def effect_three_layers : LightEffect :=
  (((LightEffect.new 4 5 20).add_segment 1
      (LightSegment.new DEFAULT_COLOR_PALETTES 1 [0, 1, 2, 3] [1 / 2, 1 / 2, 1 / 2, 1 / 2]
        [2, 1, 0] 0 [0, 4] 1 true [0, 100, 200, 100, 0] 1)).add_segment 3
      (LightSegment.new DEFAULT_COLOR_PALETTES 3 [2, 2, 2, 2] [1, 1, 1, 1] [1, 0, 0] 0 [0, 4] 0
        true [0, 100, 200, 100, 0] 1)).add_segment 2
      (LightSegment.new DEFAULT_COLOR_PALETTES 2 [4, 4, 4, 4] [1, 1, 1, 1] [1, 0, 0] 0 [0, 4] 2
        true [0, 100, 200, 100, 0] 1)

/-- An `update_idle_state` call that passes fresh detector objects with the given beat flag. -/
def idle_call (beat_flg : Bool) : IdleStateDetector.Call :=
  (SectionProgressionDetector.new, SongAlternationDetector.new, beat_flg)

/-- A beat stream: 31 frames without a beat, then `n` times a beat followed by a frame
without one. -/
def calls_spaced_beats (n : Nat) : List IdleStateDetector.Call :=
  List.replicate 31 (idle_call false)
    ++ (List.replicate n [idle_call true, idle_call false]).flatten

/-- The number of detect calls that return true in a sequence of calls on a detector. -/
def Detector.fireCount (d : Detector) : List DetectorCall → Nat
  | [] => 0
  | .detect :: t => (if d.detect.1 then 1 else 0) + Detector.fireCount d.detect.2 t
  | .update f :: t => Detector.fireCount (d.update f) t
  | .calc_feature :: t => Detector.fireCount d.calc_feature t

/-- The calls of a lifetime in which every detector is polled three times after it warmed
up on a change: after the jump frame, and twice more around further frames. -/
def calls_lifetime : List DetectorCall :=
  calls_fire ++ [DetectorCall.detect] ++ calls_again ++ [DetectorCall.detect]

/-! ## MusicDataHandler (`music_data_handler.cpp`) -/

/-- Struct `MusicAnalyzedData` (`blockb_types.hpp`). -/
structure MusicAnalyzedData where
  allpass_dB : ℚ
  LPF200_dB : ℚ
  BPF500_dB : ℚ
  BPF2000_dB : ℚ
  BPF4000_dB : ℚ
  HPF6000_dB : ℚ
  genreID : Int
  surround_score : Int
  beat : Int
  tempo : ℚ
  tempo_confidence : ℚ

/-- The arguments `MusicDataHandler::music_data_handle` passes to
`MusicToLightInterpretor::update` (the `int` member `beat` converts to `bool`). -/
def MusicAnalyzedData.frame (data : MusicAnalyzedData) : MusicFrame :=
  { beat_flg := decide (data.beat ≠ 0)
    eq_levels := [data.allpass_dB, data.LPF200_dB, data.BPF500_dB, data.BPF2000_dB,
      data.BPF4000_dB, data.HPF6000_dB]
    tempo := data.tempo
    tempo_confidence := data.tempo_confidence
    genre := data.genreID
    surround_score := data.surround_score }

/-- Class `MusicDataHandler` (the registered callbacks receive the commands; they are not
part of the state modelled here). -/
structure MusicDataHandler where
  interpretor : MusicToLightInterpretor
  light_switcher : LightingSwitcher

namespace MusicDataHandler

/-- Constructor `MusicDataHandler()`. -/
def new : MusicDataHandler :=
  { interpretor := MusicToLightInterpretor.new
    light_switcher := LightingSwitcher.new }

/-- The switcher of `music_data_handle` at the moment `light_switch_flag()` is called: after
`update_genre`, `update_tempo` and `update_light_switch_flgs` with the flags of the frame. -/
def flagged_switcher (h : MusicDataHandler) (data : MusicAnalyzedData) : LightingSwitcher :=
  let r := (h.interpretor.update (decide (data.beat ≠ 0))
    [data.allpass_dB, data.LPF200_dB, data.BPF500_dB, data.BPF2000_dB, data.BPF4000_dB,
      data.HPF6000_dB] data.tempo data.tempo_confidence data.genreID
    data.surround_score).detect_musical_change_flgs
  ((h.light_switcher.update_genre r.2.get_latest_genre).update_tempo
    r.2.get_latest_tempo).update_light_switch_flgs r.1

/-- Method `MusicDataHandler::music_data_handle`: the new state, the commands
`light_switch_data` passed to `notify_callbacks`, and the commands `dimmer_data` passed to
it afterwards (empty when `frame_count % 50 != 0`, where nothing is notified). -/
def music_data_handle (h : MusicDataHandler) (data : MusicAnalyzedData) :
    MusicDataHandler × List BlockBOutputData × List BlockBOutputData :=
  let eq_levels := [data.allpass_dB, data.LPF200_dB, data.BPF500_dB, data.BPF2000_dB,
    data.BPF4000_dB, data.HPF6000_dB]
  let r := (h.interpretor.update (decide (data.beat ≠ 0)) eq_levels data.tempo
    data.tempo_confidence data.genreID data.surround_score).detect_musical_change_flgs
  let musical_change_flgs := r.1
  let interpretor := r.2
  let sw1 := h.light_switcher.update_genre interpretor.get_latest_genre
  let sw2 := sw1.update_tempo interpretor.get_latest_tempo
  let sw3 := sw2.update_light_switch_flgs musical_change_flgs
  let light_switch := sw3.light_switch_flag
  let dimmer_data :=
    if Int.tmod interpretor.get_frame_count 50 = 0 then
      light_switch.1.adopt_dimmer_time_to_tempo
    else []
  ({ interpretor := interpretor, light_switcher := light_switch.1 }, light_switch.2, dimmer_data)

/-- The handler after a stream of analysed frames, starting from a fresh object. -/
def run (stream : List MusicAnalyzedData) : MusicDataHandler :=
  stream.foldl (fun h data => (h.music_data_handle data).1) new

/-- The musical flags `detect_musical_change_flgs` returns for the frame `data`. -/
def musical_change_flgs (h : MusicDataHandler) (data : MusicAnalyzedData) :
    List (String × blockb_any_type) :=
  (h.interpretor.process_frame data.frame).1

end MusicDataHandler

/-- Whether a command list holds a command with the given address. -/
def emits_address (out : List BlockBOutputData) (address : String) : Bool :=
  out.any (fun c => decide (c.address = address))

/-- The number of frames of a stream on which `light_switch_data` holds a
`/scene/1/load_effects` command. -/
def MusicDataHandler.loadCount (h : MusicDataHandler) : List MusicAnalyzedData → Nat
  | [] => 0
  | data :: t =>
    (if emits_address (h.music_data_handle data).2.1 "/scene/1/load_effects" then 1 else 0)
      + MusicDataHandler.loadCount (h.music_data_handle data).1 t

/-- The key of each detector in the flag map of `detect_musical_change_flgs`. -/
def DetectorKind.flag_name : DetectorKind → String
  | .songhook => "songhook_flg"
  | .performer_switch => "performer_switch_flg"
  | .highlight => "highlight_flg"
  | .song_alternation => "song_alternation_flg"

/-- The detector object of the given class owned by the interpreter. -/
def MusicToLightInterpretor.detector (s : MusicToLightInterpretor) : DetectorKind → Detector
  | .songhook => .songhook s.section_progress_detector.songhook_detector
  | .performer_switch => .performer_switch s.section_progress_detector.performer_switch_detector
  | .highlight => .highlight s.section_progress_detector.highlight_detector
  | .song_alternation => .song_alternation s.song_alternation_detector

/-- The detector of the given class after `MusicToLightInterpretor::update` has updated it
with frame `f`, before anything polls it: the three section detectors are updated and their
features recomputed by `SectionProgressionDetector::update_state`, the song-alternation
detector is updated by `update_history`. -/
def MusicToLightInterpretor.updated (s : MusicToLightInterpretor) (f : MusicFrame) :
    DetectorKind → Detector
  | .song_alternation => (s.detector .song_alternation).update f
  | k => ((s.detector k).update f).calc_feature

/-- Invariant of the interpreter after `n` frames: the frame count, the idle tracker in a
reachable state, and the four detectors with at most `n` samples per key. -/
def MusicToLightInterpretor.Warm (s : MusicToLightInterpretor) (n : Nat) : Prop :=
  s.frame_count = (n : Int)
  ∧ (∃ beats : List Bool, beats.length = n ∧ s.idle_state_detector.Tracks beats)
  ∧ ∀ k : DetectorKind, (s.detector k).Bounded n

/-- Invariant of the switcher inside the pipeline: the constant tables, the six lighting
flags of its flag maker, and a current effect id among the ids 1..8 of the table. -/
def LightingSwitcher.Ready (s : LightingSwitcher) : Prop :=
  s.Tables ∧ s.light_switch_flg_maker.SixFlags
  ∧ 1 ≤ s.current_effect_id ∧ s.current_effect_id ≤ 8

/-- Invariant of the handler after `n` frames. -/
def MusicDataHandler.Reached (h : MusicDataHandler) (n : Nat) : Prop :=
  h.interpretor.Warm n ∧ h.light_switcher.Ready

/-- An analysed frame without beat or change (the values of `frame_calm`). -/
def data_calm : MusicAnalyzedData :=
  { allpass_dB := 0, LPF200_dB := 10, BPF500_dB := 10, BPF2000_dB := 10, BPF4000_dB := 0,
    HPF6000_dB := 0, genreID := 1, surround_score := 0, beat := 0, tempo := 120,
    tempo_confidence := 1 / 2 }

/-- An analysed frame with a beat, another genre, a tempo jump and louder bands (the values
of `frame_jump`). -/
def data_jump : MusicAnalyzedData :=
  { allpass_dB := 5, LPF200_dB := 80, BPF500_dB := 20, BPF2000_dB := 20, BPF4000_dB := 0,
    HPF6000_dB := 0, genreID := 2, surround_score := 3, beat := 1, tempo := 150,
    tempo_confidence := 9 / 10 }

/-- A calm analysed frame that carries a beat. -/
def data_beat : MusicAnalyzedData := { data_calm with beat := 1 }

/-- A stream of 31 calm frames followed by 15 times a beat and a calm frame: the next beat
is the 16th counted one. -/
def stream_fifteen_beats : List MusicAnalyzedData :=
  List.replicate 31 data_calm ++ (List.replicate 15 [data_beat, data_calm]).flatten

/-! ## Wiring of Block B to Block C (`main_freeRTOS.cpp`) -/

/-- The command the callback registered on `MusicDataHandler` builds from a Block B output:
same address, same payload. -/
def BlockBOutputData.to_input (c : BlockBOutputData) : BlockCInputData :=
  { address := c.address, data := c.data }

/-- The handler after the registered callback has passed each command of `cmds`, in order,
to `handle_input_data`. -/
def DataReceiveHandler.receive_all (cache : PaletteMap) (h : DataReceiveHandler)
    (cmds : List BlockBOutputData) : DataReceiveHandler :=
  cmds.foldl (fun acc c => (DataReceiveHandler.handle_input_data cache acc c.to_input).handler) h

/-- A switcher that has received the 8-beat idle flag, changed to effect 2, and has now
received the 4-beat flag: its next `light_switch_flag()` call shifts the colours. -/
def calls_effect_then_shift : List SwitcherCall :=
  [.update_light_switch_flgs [("no_change_8beats_flg", .bool true)], .light_switch_flag,
   .update_tempo 90,
   .update_light_switch_flgs [("no_change_4beats_flg", .bool true)]]

/-- The colour indices of segment `segment_id` of effect `effect_id` of scene `scene_id`, when
the handler owns such a segment. -/
def DataReceiveHandler.segment_color (h : DataReceiveHandler)
    (scene_id effect_id segment_id : Int) : Option (List Int) :=
  (((mapFind scene_id h.light_scenes).bind (fun scene => mapFind effect_id scene.effects)).bind
    (fun effect => mapFind segment_id effect.segments)).map (fun segment => segment.color)

/-- A `float` that stands for the `int` channel `s` as far as the clamp to `[0, 255]` can
tell: equal to `s` inside the range, beyond the same end of the range outside. -/
def ChannelLike (x : ℚ) (s : Int) : Prop :=
  (x = (s : ℚ) ∧ 0 ≤ s ∧ s ≤ 255) ∨ (256 ≤ x ∧ 256 ≤ s) ∨ (x ≤ 0 ∧ s ≤ 0)

/-! # Properties -/

/-! ## Binary floating point -/

theorem pow2_eq (e : Int) : pow2 e = (2 : ℚ) ^ e := by
  unfold pow2
  split_ifs with h
  · obtain ⟨n, rfl⟩ := Int.eq_ofNat_of_zero_le h
    simp
  · push_neg at h
    obtain ⟨n, hn⟩ := Int.eq_ofNat_of_zero_le (show 0 ≤ -e by omega)
    have he : e = -(n : Int) := by omega
    subst he
    simp

theorem pow2_pos (e : Int) : 0 < pow2 e := by
  rw [pow2_eq]; exact zpow_pos (by norm_num) e

theorem pow2_le_iff (a b : Int) : pow2 a ≤ pow2 b ↔ a ≤ b := by
  rw [pow2_eq, pow2_eq]; exact zpow_le_zpow_iff_right₀ (by norm_num)

theorem pow2_lt_iff (a b : Int) : pow2 a < pow2 b ↔ a < b := by
  rw [pow2_eq, pow2_eq]; exact zpow_lt_zpow_iff_right₀ (by norm_num)

theorem pow2_add (a b : Int) : pow2 (a + b) = pow2 a * pow2 b := by
  rw [pow2_eq, pow2_eq, pow2_eq]; exact zpow_add₀ (by norm_num) a b

theorem pow2_sub (a b : Int) : pow2 (a - b) = pow2 a / pow2 b := by
  rw [pow2_eq, pow2_eq, pow2_eq]; exact zpow_sub₀ (by norm_num) a b

theorem pow2_natCast (n : Nat) : pow2 (n : Int) = ((2 ^ n : Nat) : ℚ) := by
  rw [pow2_eq]; simp

theorem log2Fuel_spec : ∀ (fuel n : Nat), 0 < n → n ≤ fuel →
    2 ^ log2Fuel fuel n ≤ n ∧ n < 2 ^ (log2Fuel fuel n + 1)
  | 0, n, h0, hf => by omega
  | fuel + 1, n, h0, hf => by
    unfold log2Fuel
    split_ifs with h
    · have : n = 1 := by omega
      subst this; simp
    · have ih := log2Fuel_spec fuel (n / 2) (by omega) (by omega)
      obtain ⟨h1, h2⟩ := ih
      constructor
      · rw [pow_succ]; omega
      · rw [pow_succ]; omega

theorem log2Nat_spec (n : Nat) (h : 0 < n) :
    2 ^ log2Nat n ≤ n ∧ n < 2 ^ (log2Nat n + 1) :=
  log2Fuel_spec n n h le_rfl

/-- The exponent `binade q` brackets a non-zero `q` between two powers of two. -/
theorem binade_spec (q : ℚ) (hq : q ≠ 0) :
    pow2 (binade q) ≤ |q| ∧ |q| < pow2 (binade q + 1) := by
  have hnum : 0 < q.num.natAbs := Int.natAbs_pos.mpr (Rat.num_ne_zero.mpr hq)
  have hden : 0 < q.den := q.den_pos
  obtain ⟨a1, a2⟩ := log2Nat_spec _ hnum
  obtain ⟨b1, b2⟩ := log2Nat_spec _ hden
  have habs : |q| = (q.num.natAbs : ℚ) / (q.den : ℚ) := by
    conv_lhs => rw [← Rat.num_div_den q]
    rw [abs_div, Nat.abs_cast, Nat.cast_natAbs, Int.cast_abs]
  have hdq : (0 : ℚ) < (q.den : ℚ) := by exact_mod_cast hden
  have a1q : ((2 ^ log2Nat q.num.natAbs : Nat) : ℚ) ≤ (q.num.natAbs : ℚ) := by exact_mod_cast a1
  have a2q : (q.num.natAbs : ℚ) < ((2 ^ (log2Nat q.num.natAbs + 1) : Nat) : ℚ) := by
    exact_mod_cast a2
  have b1q : ((2 ^ log2Nat q.den : Nat) : ℚ) ≤ (q.den : ℚ) := by exact_mod_cast b1
  have b2q : (q.den : ℚ) < ((2 ^ (log2Nat q.den + 1) : Nat) : ℚ) := by exact_mod_cast b2
  rw [← pow2_natCast] at a1q a2q b1q b2q
  -- bounds of |q| in terms of the exponent difference
  have hlo : pow2 ((log2Nat q.num.natAbs : Int) - (log2Nat q.den : Int) - 1) ≤ |q| := by
    rw [habs, le_div_iff₀ hdq]
    have : pow2 ((log2Nat q.num.natAbs : Int) - (log2Nat q.den : Int) - 1)
        * pow2 (((log2Nat q.den + 1 : Nat) : Int)) = pow2 (log2Nat q.num.natAbs : Int) := by
      rw [← pow2_add]; congr 1; push_cast; ring
    calc pow2 ((log2Nat q.num.natAbs : Int) - (log2Nat q.den : Int) - 1) * (q.den : ℚ)
        ≤ pow2 ((log2Nat q.num.natAbs : Int) - (log2Nat q.den : Int) - 1)
            * pow2 (((log2Nat q.den + 1 : Nat) : Int)) :=
          mul_le_mul_of_nonneg_left b2q.le (pow2_pos _).le
      _ = pow2 (log2Nat q.num.natAbs : Int) := this
      _ ≤ _ := a1q
  have hhi : |q| < pow2 ((log2Nat q.num.natAbs : Int) - (log2Nat q.den : Int) + 1) := by
    rw [habs, div_lt_iff₀ hdq]
    have : pow2 ((log2Nat q.num.natAbs : Int) - (log2Nat q.den : Int) + 1)
        * pow2 ((log2Nat q.den : Int)) = pow2 ((log2Nat q.num.natAbs + 1 : Nat) : Int) := by
      rw [← pow2_add]; congr 1; push_cast; ring
    calc (q.num.natAbs : ℚ) < pow2 ((log2Nat q.num.natAbs + 1 : Nat) : Int) := a2q
      _ = pow2 ((log2Nat q.num.natAbs : Int) - (log2Nat q.den : Int) + 1)
            * pow2 ((log2Nat q.den : Int)) := this.symm
      _ ≤ _ := mul_le_mul_of_nonneg_left b1q (pow2_pos _).le
  unfold binade
  split_ifs with h
  · exact ⟨h, hhi⟩
  · push_neg at h
    refine ⟨hlo, ?_⟩
    rw [sub_add_cancel]; exact h

theorem binade_ge (q : ℚ) (j : Int) (h : pow2 j ≤ |q|) : j ≤ binade q := by
  have hq : q ≠ 0 := by
    rintro rfl
    have := pow2_pos j
    simp at h; linarith
  have h2 := (binade_spec q hq).2
  have := lt_of_le_of_lt h h2
  rw [pow2_lt_iff] at this
  omega

theorem binade_lt (q : ℚ) (hq : q ≠ 0) (j : Int) (h : |q| < pow2 j) : binade q < j := by
  have h1 := (binade_spec q hq).1
  have := lt_of_le_of_lt h1 h
  rwa [pow2_lt_iff] at this

theorem roundHalfEven_intCast (n : Int) : roundHalfEven (n : ℚ) = n := by
  unfold roundHalfEven
  simp

theorem roundHalfEven_ge (k : Int) (q : ℚ) (h : (k : ℚ) ≤ q) : k ≤ roundHalfEven q := by
  have hf : k ≤ ⌊q⌋ := Int.le_floor.mpr h
  unfold roundHalfEven
  split_ifs <;> omega

theorem roundHalfEven_le (k : Int) (q : ℚ) (h : q ≤ (k : ℚ)) : roundHalfEven q ≤ k := by
  rcases eq_or_lt_of_le h with h | h
  · subst h; rw [roundHalfEven_intCast]
  · have hf : ⌊q⌋ < k := Int.floor_lt.mpr h
    unfold roundHalfEven
    split_ifs <;> omega

/-- Rounding to the nearest integer moves a value by at most one half. -/
theorem roundHalfEven_near (q : ℚ) : |(roundHalfEven q : ℚ) - q| ≤ 1 / 2 := by
  have h1 := Int.floor_le q
  have h2 := Int.lt_floor_add_one q
  unfold roundHalfEven
  split_ifs with a b c
  · rw [abs_le]; constructor <;> linarith
  · push_cast; rw [abs_le]; constructor <;> linarith
  · rw [abs_le]; push_neg at a b; constructor <;> linarith
  · push_cast; rw [abs_le]; push_neg at a b; constructor <;> linarith

theorem fround_zero (p : Nat) (emin : Int) : fround p emin 0 = 0 := by
  unfold fround; simp

theorem fround_nonpos (p : Nat) (emin : Int) (x : ℚ) (h : x ≤ 0) : fround p emin x ≤ 0 := by
  unfold fround
  split_ifs with h0
  · exact le_rfl
  · apply mul_nonpos_of_nonpos_of_nonneg _ (pow2_pos _).le
    have : roundHalfEven (x / pow2 (max (binade x) emin - ((p : Int) - 1))) ≤ (0 : Int) :=
      roundHalfEven_le 0 _ (by simpa using div_nonpos_of_nonpos_of_nonneg h (pow2_pos _).le)
    exact_mod_cast this

/-- Rounding does not go below a power of two that the argument reaches. -/
theorem fround_pow2_le (p : Nat) (emin : Int) (hp : 1 ≤ p) (j : Int) (hj : emin ≤ j) (x : ℚ)
    (h : pow2 j ≤ x) : pow2 j ≤ fround p emin x := by
  have hx : 0 < x := lt_of_lt_of_le (pow2_pos j) h
  have hje : j ≤ binade x := binade_ge x j (by rwa [abs_of_pos hx])
  have hmax : max (binade x) emin = binade x := max_eq_left (by omega)
  unfold fround
  rw [if_neg hx.ne', hmax]
  -- the quotient by the unit in the last place is at least 2 ^ (p - 1)
  have hlo : pow2 (binade x) ≤ x := by
    have := (binade_spec x hx.ne').1
    rwa [abs_of_pos hx] at this
  obtain ⟨k, hk⟩ := Nat.exists_eq_add_of_le hp
  have hk2 : ((p : Int) - 1) = (k : Int) := by omega
  have hq : ((2 ^ k : Nat) : ℚ) ≤ x / pow2 (binade x - ((p : Int) - 1)) := by
    rw [le_div_iff₀ (pow2_pos _), ← pow2_natCast, ← pow2_add, hk2]
    simpa using hlo
  have hr : ((2 ^ k : Nat) : Int) ≤ roundHalfEven (x / pow2 (binade x - ((p : Int) - 1))) :=
    roundHalfEven_ge _ _ (by exact_mod_cast hq)
  have hr2 : ((2 ^ k : Nat) : ℚ)
      ≤ (roundHalfEven (x / pow2 (binade x - ((p : Int) - 1))) : ℚ) := by exact_mod_cast hr
  calc pow2 j ≤ pow2 (binade x) := (pow2_le_iff _ _).mpr hje
    _ = ((2 ^ k : Nat) : ℚ) * pow2 (binade x - ((p : Int) - 1)) := by
        rw [← pow2_natCast, ← pow2_add, hk2]; congr 1; ring
    _ ≤ _ := mul_le_mul_of_nonneg_right hr2 (pow2_pos _).le

/-- Integers below `2 ^ p` in absolute value are values of the format. -/
theorem fround_intCast (p : Nat) (emin : Int) (he : emin ≤ (p : Int) - 1)
    (n : Int) (h : n.natAbs < 2 ^ p) : fround p emin (n : ℚ) = n := by
  by_cases h0 : n = 0
  · subst h0; simp [fround]
  have hq : (n : ℚ) ≠ 0 := by exact_mod_cast h0
  have hb : binade (n : ℚ) < (p : Int) := by
    apply binade_lt _ hq
    rw [pow2_natCast]
    have : |(n : ℚ)| = ((n.natAbs : Nat) : ℚ) := by
      rw [Nat.cast_natAbs, Int.cast_abs]
    rw [this]; exact_mod_cast h
  obtain ⟨k, hk⟩ := Int.eq_ofNat_of_zero_le
    (show 0 ≤ -(max (binade (n : ℚ)) emin - ((p : Int) - 1)) by
      have := max_le (show binade (n : ℚ) ≤ (p : Int) - 1 by omega) he
      omega)
  have hu : pow2 (max (binade (n : ℚ)) emin - ((p : Int) - 1)) = 1 / ((2 ^ k : Nat) : ℚ) := by
    have : max (binade (n : ℚ)) emin - ((p : Int) - 1) = -(k : Int) := by omega
    rw [this, pow2_eq, zpow_neg, zpow_natCast]; simp
  unfold fround
  rw [if_neg hq, hu]
  have hpos : ((2 ^ k : Nat) : ℚ) ≠ 0 := by positivity
  have : (n : ℚ) / (1 / ((2 ^ k : Nat) : ℚ)) = ((n * ((2 ^ k : Nat) : Int) : Int) : ℚ) := by
    push_cast; field_simp
  rw [this, roundHalfEven_intCast]
  push_cast; field_simp

/-- An integer below `2 ^ p` in absolute value, scaled by a power of two not smaller than
the least unit in the last place, is a value of the format. -/
theorem fround_scaled_int (p : Nat) (emin : Int) (n : Int) (k : Int) (h : n.natAbs < 2 ^ p)
    (hk : emin - ((p : Int) - 1) ≤ k) : fround p emin ((n : ℚ) * pow2 k) = (n : ℚ) * pow2 k := by
  by_cases h0 : n = 0
  · subst h0; simp [fround]
  have hn : (n : ℚ) ≠ 0 := by exact_mod_cast h0
  have hq : (n : ℚ) * pow2 k ≠ 0 := mul_ne_zero hn (pow2_pos k).ne'
  have hb : binade ((n : ℚ) * pow2 k) < (p : Int) + k := by
    apply binade_lt _ hq
    rw [pow2_add, pow2_natCast, abs_mul, abs_of_pos (pow2_pos k)]
    apply mul_lt_mul_of_pos_right _ (pow2_pos k)
    have : |(n : ℚ)| = ((n.natAbs : Nat) : ℚ) := by
      rw [Nat.cast_natAbs, Int.cast_abs]
    rw [this]
    exact_mod_cast h
  obtain ⟨j, hj⟩ := Int.eq_ofNat_of_zero_le
    (show 0 ≤ k - (max (binade ((n : ℚ) * pow2 k)) emin - ((p : Int) - 1)) by
      have := max_le (show binade ((n : ℚ) * pow2 k) ≤ k + ((p : Int) - 1) by omega)
        (show emin ≤ k + ((p : Int) - 1) by omega)
      omega)
  have hk2 : pow2 k = pow2 (max (binade ((n : ℚ) * pow2 k)) emin - ((p : Int) - 1))
      * ((2 ^ j : Nat) : ℚ) := by
    rw [← pow2_natCast, ← pow2_add, ← hj]
    congr 1
    ring
  unfold fround
  rw [if_neg hq]
  have hu := pow2_pos (max (binade ((n : ℚ) * pow2 k)) emin - ((p : Int) - 1))
  have hquot : (n : ℚ) * pow2 k / pow2 (max (binade ((n : ℚ) * pow2 k)) emin - ((p : Int) - 1))
      = ((n * ((2 ^ j : Nat) : Int) : Int) : ℚ) := by
    rw [div_eq_iff hu.ne']
    conv_lhs => rw [hk2]
    push_cast
    ring
  rw [hquot, roundHalfEven_intCast]
  conv_rhs => rw [hk2]
  push_cast
  ring

theorem f32_zero : f32 0 = 0 := fround_zero _ _

theorem f32_nonpos (x : ℚ) (h : x ≤ 0) : f32 x ≤ 0 := fround_nonpos _ _ x h

theorem f32_intCast (n : Int) (h : n.natAbs < 2 ^ 24) : f32 (n : ℚ) = n :=
  fround_intCast 24 (-126) (by decide) n h

theorem f32_one : f32 1 = 1 := by
  have := f32_intCast 1 (by decide)
  simpa using this

theorem f32_pow2_le (j : Int) (hj : -126 ≤ j) (x : ℚ) (h : pow2 j ≤ x) : pow2 j ≤ f32 x :=
  fround_pow2_le 24 (-126) (by decide) j hj x h

/-! ### Error bounds of the rounding -/

theorem fround_abs_err (p : Nat) (emin : Int) (x : ℚ) (hx : x ≠ 0) :
    |fround p emin x - x| ≤ pow2 (max (binade x) emin - ((p : Int) - 1)) / 2 := by
  unfold fround
  rw [if_neg hx]
  have hu := pow2_pos (max (binade x) emin - ((p : Int) - 1))
  have hr := roundHalfEven_near (x / pow2 (max (binade x) emin - ((p : Int) - 1)))
  have heq : (roundHalfEven (x / pow2 (max (binade x) emin - ((p : Int) - 1))) : ℚ)
        * pow2 (max (binade x) emin - ((p : Int) - 1)) - x
      = ((roundHalfEven (x / pow2 (max (binade x) emin - ((p : Int) - 1))) : ℚ)
          - x / pow2 (max (binade x) emin - ((p : Int) - 1)))
        * pow2 (max (binade x) emin - ((p : Int) - 1)) := by
    field_simp
  rw [heq, abs_mul, abs_of_pos hu]
  calc _ ≤ 1 / 2 * pow2 (max (binade x) emin - ((p : Int) - 1)) :=
        mul_le_mul_of_nonneg_right hr hu.le
    _ = _ := by ring

/-- The relative error of a rounding to `float` in the normal range is at most `2 ^ -24`. -/
theorem f32_rel_err (x : ℚ) (hx : pow2 (-126) ≤ x) : |f32 x - x| ≤ x / 2 ^ 24 := by
  have hpos : 0 < x := lt_of_lt_of_le (pow2_pos _) hx
  have he : -126 ≤ binade x := binade_ge x (-126) (by rwa [abs_of_pos hpos])
  have hmax : max (binade x) (-126) = binade x := max_eq_left he
  have herr := fround_abs_err 24 (-126) x hpos.ne'
  rw [hmax] at herr
  have hlo : pow2 (binade x) ≤ x := by
    have := (binade_spec x hpos.ne').1
    rwa [abs_of_pos hpos] at this
  have hu : pow2 (binade x - (((24 : Nat) : Int) - 1)) = pow2 (binade x) * (1 / 2 ^ 23) := by
    have h23 : pow2 (-23) = 1 / 2 ^ 23 := by decide!
    rw [← h23, ← pow2_add]
    congr 1
  rw [hu] at herr
  unfold f32
  calc |fround 24 (-126) x - x| ≤ pow2 (binade x) * (1 / 2 ^ 23) / 2 := herr
    _ = pow2 (binade x) / 2 ^ 24 := by ring
    _ ≤ x / 2 ^ 24 := by
        apply div_le_div_of_nonneg_right hlo
        positivity

theorem f32_rel_lower (x : ℚ) (hx : pow2 (-126) ≤ x) : x * (1 - 1 / 2 ^ 24) ≤ f32 x := by
  have h := abs_le.mp (f32_rel_err x hx)
  have : x * (1 - 1 / 2 ^ 24) = x - x / 2 ^ 24 := by ring
  rw [this]
  linarith [h.1]

theorem f32_rel_upper (x : ℚ) (hx : pow2 (-126) ≤ x) : f32 x ≤ x * (1 + 1 / 2 ^ 24) := by
  have h := abs_le.mp (f32_rel_err x hx)
  have : x * (1 + 1 / 2 ^ 24) = x + x / 2 ^ 24 := by ring
  rw [this]
  linarith [h.2]

/-- Rounding does not go above a power of two that bounds the argument. -/
theorem fround_le_pow2 (p : Nat) (emin : Int) (hp : 1 ≤ p) (j : Int)
    (hj : emin - ((p : Int) - 1) ≤ j)
    (x : ℚ) (hx0 : 0 ≤ x) (h : x ≤ pow2 j) : fround p emin x ≤ pow2 j := by
  rcases eq_or_lt_of_le hx0 with h0 | hpos
  · rw [← h0, fround_zero]
    exact (pow2_pos j).le
  have hb : binade x ≤ j := by
    have h1 := (binade_spec x hpos.ne').1
    rw [abs_of_pos hpos] at h1
    exact (pow2_le_iff _ _).mp (le_trans h1 h)
  obtain ⟨k, hk⟩ := Int.eq_ofNat_of_zero_le
    (show 0 ≤ j - (max (binade x) emin - ((p : Int) - 1)) by
      have := max_le (show binade x ≤ j + ((p : Int) - 1) by omega)
        (show emin ≤ j + ((p : Int) - 1) by omega)
      omega)
  have hu := pow2_pos (max (binade x) emin - ((p : Int) - 1))
  have hj2 : pow2 j = ((2 ^ k : Nat) : ℚ) * pow2 (max (binade x) emin - ((p : Int) - 1)) := by
    rw [← pow2_natCast, ← pow2_add, ← hk]
    congr 1
    ring
  unfold fround
  rw [if_neg hpos.ne']
  have hq : x / pow2 (max (binade x) emin - ((p : Int) - 1)) ≤ (((2 ^ k : Nat) : Int) : ℚ) := by
    rw [div_le_iff₀ hu]
    push_cast
    rw [hj2] at h
    push_cast at h
    exact h
  have hr := roundHalfEven_le _ _ hq
  have hr2 : (roundHalfEven (x / pow2 (max (binade x) emin - ((p : Int) - 1))) : ℚ)
      ≤ ((2 ^ k : Nat) : ℚ) := by exact_mod_cast hr
  rw [hj2]
  exact mul_le_mul_of_nonneg_right hr2 hu.le

theorem f32_le_pow2 (j : Int) (hj : -149 ≤ j) (x : ℚ) (hx0 : 0 ≤ x) (h : x ≤ pow2 j) :
    f32 x ≤ pow2 j :=
  fround_le_pow2 24 (-126) (by decide) j (by simpa using hj) x hx0 h

/-! ### Lemmas on the association list -/

theorem mapFind_mapSet_same {κ β : Type} [DecidableEq κ] [MapKey κ] (k : κ) (v : β)
    (m : List (κ × β)) : mapFind k (mapSet k v m) = some v := by
  induction m with
  | nil => simp [mapSet, mapFind]
  | cons e t ih =>
    obtain ⟨k', v'⟩ := e
    unfold mapSet
    by_cases h1 : k' = k
    · simp [h1, mapFind]
    · by_cases h2 : MapKey.klt k k' = true
      · simp [h1, h2, mapFind]
      · simp [h1, h2, mapFind, ih]

theorem mapFind_mapSet_other {κ β : Type} [DecidableEq κ] [MapKey κ] (k k0 : κ) (v : β)
    (m : List (κ × β)) (hne : k0 ≠ k) : mapFind k (mapSet k0 v m) = mapFind k m := by
  induction m with
  | nil => simp [mapSet, mapFind, hne]
  | cons e t ih =>
    obtain ⟨k', v'⟩ := e
    unfold mapSet
    by_cases h1 : k' = k0
    · have h3 : k' ≠ k := by rw [h1]; exact hne
      simp [h1, mapFind, hne]
    · by_cases h2 : MapKey.klt k0 k' = true
      · simp [h1, h2, mapFind, hne]
      · by_cases h3 : k' = k
        · subst h3
          simp [h1, h2, mapFind]
        · simp [h1, h2, mapFind, h3, ih]

theorem mem_mapSet {κ β : Type} [DecidableEq κ] [MapKey κ] (k : κ) (v : β)
    (m : List (κ × β)) (e : κ × β) (he : e ∈ mapSet k v m) : e = (k, v) ∨ e ∈ m := by
  induction m with
  | nil => simp [mapSet] at he; exact Or.inl he
  | cons e' t ih =>
    obtain ⟨k', v'⟩ := e'
    unfold mapSet at he
    by_cases h1 : k' = k
    · simp [h1] at he
      rcases he with he | he
      · exact Or.inl he
      · exact Or.inr (List.mem_cons_of_mem _ he)
    · by_cases h2 : MapKey.klt k k' = true
      · simp [h1, h2] at he
        rcases he with he | he | he
        · exact Or.inl he
        · exact Or.inr (by rw [he]; exact List.mem_cons_self _ _)
        · exact Or.inr (List.mem_cons_of_mem _ he)
      · simp [h1, h2] at he
        rcases he with he | he
        · exact Or.inr (by rw [he]; exact List.mem_cons_self _ _)
        · rcases ih he with h | h
          · exact Or.inl h
          · exact Or.inr (List.mem_cons_of_mem _ h)

theorem mapSet_mapSet_same {κ β : Type} [DecidableEq κ] [MapKey κ] (k : κ) (v1 v2 : β)
    (m : List (κ × β)) : mapSet k v2 (mapSet k v1 m) = mapSet k v2 m := by
  induction m with
  | nil => simp [mapSet]
  | cons e t ih =>
    obtain ⟨k', v'⟩ := e
    by_cases h1 : k' = k
    · simp [mapSet, h1]
    · by_cases h2 : MapKey.klt k k' = true
      · simp [mapSet, h1, h2]
      · simp [mapSet, h1, h2, ih]

theorem mem_of_mapFind {κ β : Type} [DecidableEq κ] (k : κ) (v : β)
    (m : List (κ × β)) (h : mapFind k m = some v) : (k, v) ∈ m := by
  induction m with
  | nil => simp [mapFind] at h
  | cons e t ih =>
    obtain ⟨k', v'⟩ := e
    unfold mapFind at h
    by_cases h1 : k' = k
    · simp [h1] at h
      simp [h1, h]
    · simp [h1] at h
      exact List.mem_cons_of_mem _ (ih h)

/-! ### Lemmas on `FrameHistory` -/

namespace FrameHistory

theorem append_maxlen (h : FrameHistory) (key : String) (value : blockb_any_type) :
    (h.append key value).maxlen = h.maxlen := by
  unfold append
  simp only
  split <;> rfl

/-- The sequence of the appended key after `append`: push at the back, drop the oldest
element when the capacity is exceeded. -/
theorem get_append_same (h : FrameHistory) (key : String) (value : blockb_any_type) :
    (h.append key value).get key =
      if (h.get key ++ [value]).length > h.maxlen then (h.get key ++ [value]).tail
      else h.get key ++ [value] := by
  have hq : (match mapFind key (match mapFind key h.data with
        | none => mapSet key [] h.data
        | some _ => h.data) with | none => [] | some q => q) = h.get key := by
    unfold get
    cases hf : mapFind key h.data with
    | none => simp [mapFind_mapSet_same]
    | some q => simp [hf]
  unfold append
  simp only
  rw [hq]
  split
  · simp [get, mapFind_mapSet_same]
  · simp [get, mapFind_mapSet_same]

/-- The method `append` leaves the sequences of the other keys untouched. -/
theorem get_append_other (h : FrameHistory) (key k : String) (value : blockb_any_type)
    (hne : key ≠ k) : (h.append key value).get k = h.get k := by
  have hd0 : mapFind k (match mapFind key h.data with
        | none => mapSet key [] h.data
        | some _ => h.data) = mapFind k h.data := by
    cases hf : mapFind key h.data with
    | none => simp [mapFind_mapSet_other _ _ _ _ hne]
    | some q => simp
  unfold append
  simp only
  split
  · simp [get, mapFind_mapSet_other _ _ _ _ hne, hd0]
  · simp [get, mapFind_mapSet_other _ _ _ _ hne, hd0]

theorem appendAll_snoc (h : FrameHistory) (ops : List (String × blockb_any_type))
    (op : String × blockb_any_type) :
    h.appendAll (ops ++ [op]) = (h.appendAll ops).append op.1 op.2 := by
  simp [appendAll, List.foldl_append]

theorem appendAll_maxlen (h : FrameHistory) (ops : List (String × blockb_any_type)) :
    (h.appendAll ops).maxlen = h.maxlen := by
  induction ops using List.reverseRecOn with
  | nil => rfl
  | append_singleton ops op ih => rw [appendAll_snoc, append_maxlen, ih]

/-- After any sequence of appends on a fresh history, a key holds the last `maxlen`
values appended to it. -/
theorem get_appendAll_new (maxlen : Nat) (ops : List (String × blockb_any_type))
    (k : String) :
    ((new maxlen).appendAll ops).get k =
      ((ops.filter (fun op => op.1 = k)).map Prod.snd).drop
        (((ops.filter (fun op => op.1 = k)).map Prod.snd).length - maxlen) := by
  induction ops using List.reverseRecOn with
  | nil => simp [appendAll, new, get, mapFind]
  | append_singleton ops op ih =>
    rw [appendAll_snoc]
    by_cases hk : op.1 = k
    · rw [← hk] at ih ⊢
      rw [get_append_same, ih, appendAll_maxlen]
      simp only [new, List.filter_append, List.map_append, List.length_append]
      simp only [List.filter_cons, List.filter_nil, decide_True, if_true, List.map_cons,
        List.map_nil, List.length_cons, List.length_nil, List.length_drop]
      generalize (List.map Prod.snd (List.filter (fun o => decide (o.1 = op.1)) ops)) = vals
      by_cases hlen : maxlen ≤ vals.length
      · have h1 : vals.length - (vals.length - maxlen) + (0 + 1) > maxlen := by omega
        rw [if_pos h1]
        have h2 : vals.length + (0 + 1) - maxlen = (vals.length - maxlen) + 1 := by omega
        rw [h2, ← List.drop_append_of_le_length (by omega : vals.length - maxlen ≤ vals.length)]
        rw [← List.drop_one, List.drop_drop]
      · have h1 : ¬ (vals.length - (vals.length - maxlen) + (0 + 1) > maxlen) := by omega
        rw [if_neg h1]
        have h2 : vals.length - maxlen = 0 := by omega
        have h3 : vals.length + (0 + 1) - maxlen = 0 := by omega
        rw [h2, h3]
        simp
    · rw [get_append_other _ _ _ _ hk, ih]
      simp [List.filter_append, hk]

end FrameHistory

/-- Claim C4: on a `FrameHistory` of capacity `maxlen`, after any sequence of appends
(to any keys, interleaved arbitrarily) in which key `k` received the values `vals`
(`N = vals.length` of them), `get(k)` has length `min N maxlen` and equals the last
`min N maxlen` values appended to `k`, in append order; with `maxlen = 3` and appends
`1, 2, 3, 4` to `"k"` the result is `[2, 3, 4]`. -/
theorem frame_history_retains_last_maxlen :
    (∀ (maxlen : Nat) (ops : List (String × blockb_any_type)) (k : String),
      (((FrameHistory.new maxlen).appendAll ops).get k).length
          = min ((ops.filter (fun op => op.1 = k)).map Prod.snd).length maxlen
      ∧ ((FrameHistory.new maxlen).appendAll ops).get k
          = ((ops.filter (fun op => op.1 = k)).map Prod.snd).drop
              (((ops.filter (fun op => op.1 = k)).map Prod.snd).length
                - min ((ops.filter (fun op => op.1 = k)).map Prod.snd).length maxlen))
    ∧ ((((((FrameHistory.new 3).append "k" (.int 1)).append "k" (.int 2)).append
          "k" (.int 3)).append "k" (.int 4)).get "k" = [.int 2, .int 3, .int 4]) := by
  refine ⟨fun maxlen ops k => ?_, by decide⟩
  rw [FrameHistory.get_appendAll_new]
  generalize (List.map Prod.snd (List.filter (fun o => decide (o.1 = k)) ops)) = vals
  constructor
  · rw [List.length_drop]; omega
  · have hsub : vals.length - min vals.length maxlen = vals.length - maxlen := by omega
    rw [hsub]

/-! ### Lighting switcher -/

theorem vecAt_natCast {α : Type} (v : List α) (n : Nat) (d : α) :
    vecAt v (n : Int) d = v.getD n d := by
  simp [vecAt]

namespace LightingSwitcher

/-- The `seg_id` loop of the colour-shift branch, run for the first `n` segments: the
effect id is untouched, the commands are those of segments `0 .. n-1` in order, and the
rows from `n` on still hold their old colour indices. -/
theorem color_shift_loop (s : LightingSwitcher) (n : Nat) :
    ((List.range n).foldl color_shift_step (s, [])).1.current_effect_id = s.current_effect_id
    ∧ ((List.range n).foldl color_shift_step (s, [])).2 = (List.range n).map s.color_shift_command
    ∧ ∀ j, n ≤ j →
        ((List.range n).foldl color_shift_step (s, [])).1.segment_color_ids.getD j []
          = s.segment_color_ids.getD j [] := by
  induction n with
  | zero => simp
  | succ n ih =>
    obtain ⟨h1, h2, h3⟩ := ih
    rw [List.range_succ, List.foldl_append]
    simp only [List.foldl_cons, List.foldl_nil, List.map_append, List.map_cons, List.map_nil]
    refine ⟨?_, ?_, ?_⟩
    · simp [color_shift_step, h1]
    · simp only [color_shift_step, h2, h1, vecAt_natCast, h3 n (le_refl n)]
      rfl
    · intro j hj
      simp only [color_shift_step]
      rw [List.getD_eq_getElem?_getD, List.getElem?_set_ne (by omega),
        ← List.getD_eq_getElem?_getD]
      exact h3 j (by omega)

end LightingSwitcher

/-- Claim C1: for every switcher state (with the constructor's constant tables) whose
`genre_id` is in `0..4`, and every assignment of the six lighting flags,
`light_switch_flag()` emits exactly the commands of the first true flag in the order
`lighting_start`, `lighting_end`, `lighting_scene_change`, `palette_change`,
`effect_change`, `color_shift`, and nothing when all six are false. -/
theorem light_switch_flag_first_true_flag (s : LightingSwitcher) (hv : s.Valid)
    (hlo : 0 ≤ s.genre_id) (_hhi : s.genre_id ≤ 4) :
    s.light_switch_flag.2 =
      if flagOf s.light_switch_flgs "lighting_start_flg" then
        [{ address := "/scene/1/load_effects"
           data := .string (["test_effects.json", "classic.json", "dance.json", "jazz.json",
             "pop&rock.json"].getD s.genre_id.toNat "") }]
      else if flagOf s.light_switch_flgs "lighting_end_flg" then
        [{ address := "/scene/1/change_effect", data := .int 0 }]
      else if flagOf s.light_switch_flgs "lighting_scene_change_flg" then
        [{ address := "/scene/1/load_effects"
           data := .string (["test_effects.json", "classic.json", "dance.json", "jazz.json",
             "pop&rock.json"].getD s.genre_id.toNat "") }]
      else if flagOf s.light_switch_flgs "palette_change_flg" then
        [{ address := "/scene/1/change_palette"
           data := .string (["A", "B", "C", "D", "E"].getD
             (((s.current_palette_index + 1) % 2 ^ 32) % 5).toNat "") }]
      else if flagOf s.light_switch_flgs "effect_change_flg" then
        [{ address := "/scene/1/change_effect"
           data := .int (([1, 2, 3, 4, 5, 6, 7, 8] : List Int).getD
             (((s.current_effect_index + 1) % 2 ^ 32) % 8).toNat 0) }]
      else if flagOf s.light_switch_flgs "color_shift_flg" then
        (List.range 10).map (fun seg_id =>
          { address := "/scene/1/effect/" ++ toString s.current_effect_id ++ "/segment/"
              ++ toString (seg_id : Int) ++ "/color"
            data := .vec_int ((s.segment_color_ids.getD seg_id []).map
              (fun c => Int.tmod (c + 1) 5)) })
      else [] := by
  obtain ⟨he, hp, hj, hn, _⟩ := hv
  have hidx : ∀ i : Int, 0 ≤ (i + 1) % 2 ^ 32 % 5 := fun i =>
    Int.emod_nonneg _ (by norm_num)
  have hidx8 : ∀ i : Int, 0 ≤ (i + 1) % 2 ^ 32 % 8 := fun i =>
    Int.emod_nonneg _ (by norm_num)
  unfold LightingSwitcher.light_switch_flag
  by_cases h1 : flagOf s.light_switch_flgs "lighting_start_flg" = true
  · simp [h1, vecAt, hlo, hj]
  by_cases h2 : flagOf s.light_switch_flgs "lighting_end_flg" = true
  · simp [h1, h2]
  by_cases h3 : flagOf s.light_switch_flgs "lighting_scene_change_flg" = true
  · simp [h1, h2, h3, vecAt, hlo, hj]
  by_cases h4 : flagOf s.light_switch_flgs "palette_change_flg" = true
  · simp [h1, h2, h3, h4, LightingSwitcher.get_next_palette_id, LightingSwitcher.nextIndex,
      vecAt, hp]
    intro hneg
    have hnn := hidx s.current_palette_index
    norm_num at hnn
    omega
  by_cases h5 : flagOf s.light_switch_flgs "effect_change_flg" = true
  · simp [h1, h2, h3, h4, h5, LightingSwitcher.get_next_effect_id,
      LightingSwitcher.nextIndex, vecAt, he]
    intro hneg
    have hnn := hidx8 s.current_effect_index
    norm_num at hnn
    omega
  by_cases h6 : flagOf s.light_switch_flgs "color_shift_flg" = true
  · simp only [h1, h2, h3, h4, h5, h6, Bool.false_eq_true, if_true, if_false, hn]
    have hloop := (LightingSwitcher.color_shift_loop s 10).2.1
    rw [show (10 : Int).toNat = 10 from rfl, hloop]
    rfl
  · simp [h1, h2, h3, h4, h5, h6]

/-- Scenario S6 through claim C1: with `lighting_scene_change_flg` and
`palette_change_flg` both true and `genre_id = 2`, exactly one command is emitted,
`/scene/1/load_effects` with payload `"dance.json"`. -/
theorem light_switch_flag_first_true_flag_witness :
    (flagOf switcher_S6.light_switch_flgs "lighting_scene_change_flg" = true
      ∧ flagOf switcher_S6.light_switch_flgs "palette_change_flg" = true
      ∧ switcher_S6.genre_id = 2)
    ∧ switcher_S6.light_switch_flag.2
        = [{ address := "/scene/1/load_effects", data := .string "dance.json" }] := by
  refine ⟨by decide, ?_⟩
  rw [light_switch_flag_first_true_flag switcher_S6 (by decide) (by decide) (by decide)]
  decide

/-! ### Segment movement -/

/-- Claim C9 as stated fails: on the S4 segment one `update_position(10)` does not leave
`direction = -1`, `move_speed = -10`, `current_position = 9`. -/
theorem update_position_S4_no_reflect_counterexample :
    ¬ ((segment_S4.update_position 10).direction = -1
        ∧ (segment_S4.update_position 10).move_speed = -10
        ∧ (segment_S4.update_position 10).current_position = 9) := by
  decide!

/-- Claim C9, amended: on the S4 segment (`move_speed = +10`, `move_range = [0, 9]`,
`length = [1, 0, 0]`, `current_position = 8`, edge-reflect mode) one `update_position(10)`
moves the segment to the right edge without reflecting, because the new right end
`9 + 1 - 1 = 9` does not exceed `move_range[1] = 9`: afterwards `direction = +1`,
`move_speed = +10` and `current_position = 9`. -/
theorem update_position_S4_reaches_edge :
    segment_S4.move_speed = 10 ∧ segment_S4.move_range = [0, 9]
      ∧ segment_S4.length = [1, 0, 0] ∧ segment_S4.current_position = 8
      ∧ segment_S4.is_edge_reflect = true
      ∧ (segment_S4.update_position 10).direction = 1
      ∧ (segment_S4.update_position 10).move_speed = 10
      ∧ (segment_S4.update_position 10).current_position = 9 := by
  decide!

theorem clampInt_range (x : Int) : 0 ≤ clampInt 0 255 x ∧ clampInt 0 255 x ≤ 255 := by
  unfold clampInt
  constructor
  · exact le_max_left _ _
  · exact max_le (by norm_num) (min_le_left _ _)

theorem clampInt_of_range (x : Int) (h0 : 0 ≤ x) (h1 : x ≤ 255) : clampInt 0 255 x = x := by
  unfold clampInt
  rw [min_eq_right h1, max_eq_right h0]

theorem isRGB_zero : IsRGB [0, 0, 0] := by
  refine ⟨rfl, ?_⟩
  intro x hx
  simp at hx
  subst hx
  norm_num

theorem isRGB_clamped (f : Int → Int) : IsRGB ([0, 1, 2].map (fun k => clampInt 0 255 (f k))) := by
  refine ⟨rfl, ?_⟩
  intro x hx
  simp only [List.map_cons, List.map_nil, List.mem_cons, List.mem_singleton,
    List.not_mem_nil, or_false] at hx
  rcases hx with h | h | h <;> rw [h] <;> exact clampInt_range _

theorem clamp_led_of_isRGB (c : List Int) (h : IsRGB c) : LightEffect.clamp_led c = c := by
  obtain ⟨hl, hr⟩ := h
  match c, hl with
  | [x, y, z], _ =>
    have hx := hr x (by simp)
    have hy := hr y (by simp)
    have hz := hr z (by simp)
    simp [LightEffect.clamp_led, clampInt_of_range, hx.1, hx.2, hy.1, hy.2, hz.1, hz.2]

theorem layer_f32_isRGB (cur ent : List Int × ℚ) : IsRGB (layer_f32 cur ent).1 := by
  unfold layer_f32
  simp only
  split
  · exact isRGB_clamped _
  · exact isRGB_zero

theorem foldl_layer_f32_isRGB (ents : List (List Int × ℚ)) (cur : List Int × ℚ)
    (h : IsRGB cur.1) : IsRGB (ents.foldl layer_f32 cur).1 := by
  induction ents generalizing cur with
  | nil => exact h
  | cons ent t ih => exact ih _ (layer_f32_isRGB cur ent)

/-- One step of the inner loop of `get_led_output`, seen from LED `i`: the LED is layered
with the entry when the entry is for `i`, and is untouched otherwise. -/
theorem apply_light_entry_cell (n : Nat) (buf : List (List Int) × List ℚ)
    (ent : Int × (List Int × ℚ)) (i : Nat) (h1 : buf.1.length = n) (h2 : buf.2.length = n)
    (hi : i < n) :
    led_cell (LightEffect.apply_light_entry (n : Int) buf ent) i
      = if ent.1 = (i : Int) then layer_f32 (led_cell buf i) ent.2 else led_cell buf i := by
  unfold LightEffect.apply_light_entry
  by_cases hr : 0 ≤ ent.1 ∧ ent.1 < (n : Int)
  · simp only [hr, and_self, if_true]
    obtain ⟨j, hj⟩ := Int.eq_ofNat_of_zero_le hr.1
    have hjn : j < n := by omega
    by_cases hij : ent.1 = (i : Int)
    · have hji : j = i := by omega
      subst hji
      simp only [hij, if_true, led_cell, vecAt_natCast, Int.toNat_ofNat, layer_f32, clampQ,
        List.getD_eq_getElem?_getD]
      rw [List.getElem?_set_self (by omega), List.getElem?_set_self (by omega)]
      rfl
    · have hji : j ≠ i := by omega
      simp only [hij, if_false, led_cell, hj, Int.toNat_ofNat, List.getD_eq_getElem?_getD]
      rw [List.getElem?_set_ne hji, List.getElem?_set_ne hji]
      have hcast : ¬ ((j : Int) = (i : Int)) := by omega
      rw [if_neg hcast]
  · have hij : ent.1 ≠ (i : Int) := by
      intro h
      apply hr
      omega
    simp [hr, hij]

theorem apply_light_entry_length (lc : Int) (buf : List (List Int) × List ℚ)
    (ent : Int × (List Int × ℚ)) :
    (LightEffect.apply_light_entry lc buf ent).1.length = buf.1.length
      ∧ (LightEffect.apply_light_entry lc buf ent).2.length = buf.2.length := by
  unfold LightEffect.apply_light_entry
  simp only
  split <;> simp

theorem foldl_apply_light_entry_length (lc : Int) (ents : List (Int × (List Int × ℚ)))
    (buf : List (List Int) × List ℚ) :
    (ents.foldl (LightEffect.apply_light_entry lc) buf).1.length = buf.1.length
      ∧ (ents.foldl (LightEffect.apply_light_entry lc) buf).2.length = buf.2.length := by
  induction ents generalizing buf with
  | nil => exact ⟨rfl, rfl⟩
  | cons ent t ih =>
    simp only [List.foldl_cons]
    rw [(ih _).1, (ih _).2]
    exact apply_light_entry_length lc buf ent

/-- The inner loop of `get_led_output` over a list of entries, seen from LED `i`: the
entries for `i` are layered in order. -/
theorem foldl_apply_light_entry_cell (n : Nat) (ents : List (Int × (List Int × ℚ)))
    (buf : List (List Int) × List ℚ) (i : Nat) (h1 : buf.1.length = n) (h2 : buf.2.length = n)
    (hi : i < n) :
    led_cell (ents.foldl (LightEffect.apply_light_entry (n : Int)) buf) i
      = ((ents.filter (fun ent => ent.1 = (i : Int))).map Prod.snd).foldl layer_f32
          (led_cell buf i) := by
  induction ents generalizing buf with
  | nil => rfl
  | cons ent t ih =>
    have hlen := apply_light_entry_length (n : Int) buf ent
    simp only [List.foldl_cons]
    rw [ih _ (by rw [hlen.1, h1]) (by rw [hlen.2, h2]), apply_light_entry_cell n buf ent i h1 h2 hi]
    by_cases hij : ent.1 = (i : Int)
    · simp [List.filter_cons, hij]
    · simp [List.filter_cons, hij]

/-- The outer loop of `get_led_output` over a list of segments, seen from LED `i`. -/
theorem foldl_apply_segment_cell (n : Nat) (palette : ColorPalette)
    (segs : List (Int × LightSegment)) (buf : List (List Int) × List ℚ) (i : Nat)
    (h1 : buf.1.length = n) (h2 : buf.2.length = n) (hi : i < n) :
    (segs.foldl (LightEffect.apply_segment (n : Int) palette) buf).1.length = n
    ∧ (segs.foldl (LightEffect.apply_segment (n : Int) palette) buf).2.length = n
    ∧ led_cell (segs.foldl (LightEffect.apply_segment (n : Int) palette) buf) i
      = (((segs.flatMap (fun seg => seg.2.get_light_data palette)).filter
            (fun ent => ent.1 = (i : Int))).map Prod.snd).foldl layer_f32 (led_cell buf i) := by
  induction segs generalizing buf with
  | nil => exact ⟨h1, h2, rfl⟩
  | cons seg t ih =>
    have hlen := foldl_apply_light_entry_length (n : Int) (seg.2.get_light_data palette) buf
    have hstep := foldl_apply_light_entry_cell n (seg.2.get_light_data palette) buf i h1 h2 hi
    simp only [List.foldl_cons, List.flatMap_cons, List.filter_append, List.map_append,
      List.foldl_append]
    have ih' := ih (LightEffect.apply_segment (n : Int) palette buf seg)
      (by unfold LightEffect.apply_segment; rw [hlen.1, h1])
      (by unfold LightEffect.apply_segment; rw [hlen.2, h2])
    refine ⟨ih'.1, ih'.2.1, ?_⟩
    rw [ih'.2.2]
    unfold LightEffect.apply_segment
    rw [hstep]

theorem foldl_apply_segment_length (lc : Int) (palette : ColorPalette)
    (segs : List (Int × LightSegment)) (buf : List (List Int) × List ℚ) :
    (segs.foldl (LightEffect.apply_segment lc palette) buf).1.length = buf.1.length := by
  induction segs generalizing buf with
  | nil => rfl
  | cons seg t ih =>
    simp only [List.foldl_cons]
    rw [ih]
    exact (foldl_apply_light_entry_length lc _ buf).1

/-- Every LED of the composite is the result of layering, over black with transparency 0,
the entries its segments produce for it, in ascending `segment_ID` order. -/
theorem get_led_output_cell (e : LightEffect) (cache : PaletteMap)
    (palettes_of : SceneRef → PaletteMap) (i : Nat) (hi : (i : Int) < e.led_count) :
    (e.get_led_output cache palettes_of)[i]?
      = some ((led_entries e cache palettes_of i).foldl layer_f32 ([0, 0, 0], 0)).1 := by
  obtain ⟨n, hn⟩ := Int.eq_ofNat_of_zero_le (by omega : 0 ≤ e.led_count)
  have hin : i < n := by omega
  unfold LightEffect.get_led_output led_entries
  simp only [hn, Int.toNat_ofNat]
  have hcell := foldl_apply_segment_cell n
    (resolve_palette cache palettes_of e.scene e.current_palette) e.sorted_segments
    (List.replicate n [0, 0, 0], List.replicate n 0) i (by simp) (by simp) hin
  obtain ⟨hl1, _, hc⟩ := hcell
  have hinit : led_cell (List.replicate n ([0, 0, 0] : List Int), List.replicate n (0 : ℚ)) i
      = ([0, 0, 0], 0) := by
    simp [led_cell, List.getElem?_replicate, hin]
  rw [hinit] at hc
  rw [List.getElem?_map]
  have hsome : ∃ c, (List.foldl (LightEffect.apply_segment (n : Int)
      (resolve_palette cache palettes_of e.scene e.current_palette))
      (List.replicate n [0, 0, 0], List.replicate n 0) e.sorted_segments).1[i]? = some c := by
    rw [List.getElem?_eq_getElem (by rw [hl1]; exact hin)]
    exact ⟨_, rfl⟩
  obtain ⟨c, hcs⟩ := hsome
  have hc1 := congrArg Prod.fst hc
  simp only [led_cell, List.getD_eq_getElem?_getD, hcs, Option.getD_some] at hc1
  rw [hcs, Option.map_some', hc1]
  rw [clamp_led_of_isRGB _ (foldl_layer_f32_isRGB _ _ isRGB_zero)]

/-- Claim C2: for every `LightEffect` with `led_count ≥ 0` (any segments, colours,
transparencies, lengths, positions and palettes), `get_led_output()` returns exactly
`led_count` RGB triples and every channel of every triple lies in `[0, 255]`. -/
theorem get_led_output_rgb_triples (e : LightEffect) (cache : PaletteMap)
    (palettes_of : SceneRef → PaletteMap) (hcount : 0 ≤ e.led_count) :
    ((e.get_led_output cache palettes_of).length : Int) = e.led_count
      ∧ ∀ c ∈ e.get_led_output cache palettes_of,
          c.length = 3 ∧ ∀ x ∈ c, 0 ≤ x ∧ x ≤ 255 := by
  have hlen : ((e.get_led_output cache palettes_of).length : Int) = e.led_count := by
    unfold LightEffect.get_led_output
    simp only [List.length_map, foldl_apply_segment_length, List.length_replicate]
    exact Int.toNat_of_nonneg hcount
  refine ⟨hlen, ?_⟩
  intro c hc
  obtain ⟨i, hi, hget⟩ := List.getElem_of_mem hc
  have hi' : (i : Int) < e.led_count := by omega
  have hcell := get_led_output_cell e cache palettes_of i hi'
  rw [List.getElem?_eq_getElem hi, hget] at hcell
  have hceq := Option.some.inj hcell
  rw [hceq]
  exact foldl_layer_f32_isRGB _ _ isRGB_zero

/-- Claim C2 at a four-LED effect with two overlapping segments. -/
theorem get_led_output_rgb_triples_witness :
    (0 : Int) ≤ effect_two_segments.led_count
    ∧ ((effect_two_segments.get_led_output DEFAULT_COLOR_PALETTES (fun _ => [])).length : Int)
        = effect_two_segments.led_count
    ∧ ∀ c ∈ effect_two_segments.get_led_output DEFAULT_COLOR_PALETTES (fun _ => []),
        c.length = 3 ∧ ∀ x ∈ c, 0 ≤ x ∧ x ≤ 255 :=
  ⟨by decide,
   get_led_output_rgb_triples effect_two_segments DEFAULT_COLOR_PALETTES (fun _ => [])
     (by decide)⟩

/-- Claim C3 as stated fails: the compositor evaluates the layering formula in `float`
arithmetic, and the exactly evaluated formula of the claim gives another colour. On the
one-LED effect with two segments of colour `[255, 0, 0]` and transparency `0.1f`, the
entries of LED 0 are the two segments' in `segment_ID` order, the formula of the claim
layered over them gives `[255, 0, 0]`, and `get_led_output` returns `[254, 0, 0]`. -/
theorem layering_exact_formula_counterexample :
    led_entries effect_red_twice [("A", [[255, 0, 0]])] (fun _ => []) 0
        = [([255, 0, 0], f32 (1 / 10)), ([255, 0, 0], f32 (1 / 10))]
    ∧ ((led_entries effect_red_twice [("A", [[255, 0, 0]])] (fun _ => []) 0).foldl layer_spec
        ([0, 0, 0], 0)).1 = [255, 0, 0]
    ∧ effect_red_twice.get_led_output [("A", [[255, 0, 0]])] (fun _ => []) = [[254, 0, 0]] := by
  decide!

/-- Claim C3, amended: in `get_led_output` the segments are applied in ascending
`segment_ID` order (the list the compositor walks is the segment map sorted by id), and
every LED `i` of the output is obtained by layering the entries produced for `i`, in that
order, over black with accumulated transparency 0, by the layering rule evaluated in
binary32 arithmetic (`layer_f32`): layering `(s, a_s)` over `(c, a)` gives
`a' = clamp(a_s + a (1 - a_s), 0, 1)` and, when `a' > 1e-6f`, the channels
`trunc((s[k] a_s + c[k] a (1 - a_s)) / a')` clamped to `[0, 255]`, otherwise black, every
sum, difference, product and quotient rounded to `float`. -/
theorem get_led_output_layers_in_id_order (e : LightEffect) (cache : PaletteMap)
    (palettes_of : SceneRef → PaletteMap) (i : Nat) (hi : (i : Int) < e.led_count) :
    (e.sorted_segments.Sorted (fun a b => a.1 ≤ b.1) ∧ e.sorted_segments.Perm e.segments)
    ∧ (e.get_led_output cache palettes_of)[i]?
        = some ((led_entries e cache palettes_of i).foldl layer_f32 ([0, 0, 0], 0)).1 := by
  haveI : IsTotal (Int × LightSegment) (fun a b => a.1 ≤ b.1) := ⟨fun a b => le_total a.1 b.1⟩
  haveI : IsTrans (Int × LightSegment) (fun a b => a.1 ≤ b.1) :=
    ⟨fun _ _ _ h1 h2 => le_trans h1 h2⟩
  refine ⟨⟨?_, ?_⟩, get_led_output_cell e cache palettes_of i hi⟩
  · exact List.sorted_insertionSort _ _
  · exact List.perm_insertionSort _ _

/-- Scenario S5 through claim C3: with `led_count = 1`, segment `A = [100, 0, 0]` at 0.5
and the higher-id segment `B = [0, 100, 0]` at 0.5 both on LED 0, the output is
`(33, 66, 0)`. -/
theorem get_led_output_layers_in_id_order_witness :
    (((0 : Nat) : Int) < effect_S5.led_count)
    ∧ led_entries effect_S5 cache_S5 (fun _ => []) 0 = [([100, 0, 0], 1 / 2), ([0, 100, 0], 1 / 2)]
    ∧ (effect_S5.get_led_output cache_S5 (fun _ => []))[0]? = some [33, 66, 0]
    ∧ effect_S5.get_led_output cache_S5 (fun _ => []) = [[33, 66, 0]] := by
  refine ⟨by decide, by decide!, ?_, by decide!⟩
  rw [(get_led_output_layers_in_id_order effect_S5 cache_S5 (fun _ => []) 0 (by decide)).2]
  decide!

/-! ### Detectors: warm-up and cooldown -/

namespace FrameHistory

/-- Under per-key length bounds `B` (and the capacity bound), one `append` keeps the
capacity bound and raises the bound of the appended key by one. -/
theorem append_bound (h : FrameHistory) (key : String) (value : blockb_any_type)
    (B : String → Nat) (hb : ∀ e ∈ h.data, e.2.length ≤ B e.1 ∧ e.2.length ≤ h.maxlen) :
    ∀ e ∈ (h.append key value).data,
      e.2.length ≤ (if e.1 = key then B key + 1 else B e.1) ∧ e.2.length ≤ h.maxlen := by
  have hd0 : ∀ e ∈ (match mapFind key h.data with
        | none => mapSet key [] h.data
        | some _ => h.data), e.2.length ≤ B e.1 ∧ e.2.length ≤ h.maxlen := by
    cases hf : mapFind key h.data with
    | none =>
      intro e he
      rcases mem_mapSet _ _ _ _ he with h1 | h1
      · rw [h1]; simp
      · exact hb e h1
    | some q => exact hb
  have hq : (h.get key).length ≤ B key ∧ (h.get key).length ≤ h.maxlen := by
    unfold get
    cases hf : mapFind key h.data with
    | none => simp
    | some q => exact hb (key, q) (mem_of_mapFind _ _ _ hf)
  have hq1 : (match mapFind key (match mapFind key h.data with
        | none => mapSet key [] h.data
        | some _ => h.data) with | none => [] | some q => q) = h.get key := by
    unfold get
    cases hf : mapFind key h.data with
    | none => simp [mapFind_mapSet_same]
    | some q => simp [hf]
  have hold : ∀ e : String × List blockb_any_type,
      e.2.length ≤ B e.1 ∧ e.2.length ≤ h.maxlen →
      e.2.length ≤ (if e.1 = key then B key + 1 else B e.1) ∧ e.2.length ≤ h.maxlen := by
    intro e he
    by_cases hk : e.1 = key
    · rw [if_pos hk]
      rw [hk] at he
      omega
    · rw [if_neg hk]
      exact he
  unfold append
  simp only
  rw [hq1]
  intro e he
  split at he
  · rename_i hgt
    simp only [mapSet_mapSet_same] at he
    rcases mem_mapSet _ _ _ _ he with h1 | h1
    · rw [h1]
      simp only [List.length_tail, List.length_append, List.length_singleton, if_true] at hgt ⊢
      omega
    · exact hold e (hd0 e h1)
  · rename_i hgt
    rcases mem_mapSet _ _ _ _ he with h1 | h1
    · rw [h1]
      simp only [List.length_append, List.length_singleton, if_true] at hgt ⊢
      omega
    · exact hold e (hd0 e h1)

/-- Bound bookkeeping over the appends of one update: the keys in `done` have been
appended once (bound `n + 1`), the others not yet (bound `n`). -/
theorem append_bound_done (h : FrameHistory) (key : String) (value : blockb_any_type)
    (n m : Nat) (done : List String) (hnew : key ∉ done)
    (hb : h.maxlen = m ∧ ∀ e ∈ h.data, e.2.length ≤ (if e.1 ∈ done then n + 1 else n)
      ∧ e.2.length ≤ m) :
    (h.append key value).maxlen = m ∧ ∀ e ∈ (h.append key value).data,
      e.2.length ≤ (if e.1 ∈ key :: done then n + 1 else n) ∧ e.2.length ≤ m := by
  obtain ⟨hm, hb⟩ := hb
  subst hm
  refine ⟨append_maxlen h key value, ?_⟩
  intro e he
  have hstep := append_bound h key value (fun k => if k ∈ done then n + 1 else n) hb e he
  simp only [if_neg hnew] at hstep
  refine ⟨?_, hstep.2⟩
  by_cases hk : e.1 = key
  · simp only [hk, if_true, List.mem_cons, true_or] at hstep ⊢
    exact hstep.1
  · have hiff : (e.1 ∈ key :: done) ↔ e.1 ∈ done := by simp [hk]
    simp only [hk, if_false] at hstep
    simp only [hiff]
    exact hstep.1

theorem bound_start (h : FrameHistory) (n : Nat)
    (hb : ∀ e ∈ h.data, e.2.length ≤ n ∧ e.2.length ≤ h.maxlen) :
    h.maxlen = h.maxlen ∧ ∀ e ∈ h.data,
      e.2.length ≤ (if e.1 ∈ ([] : List String) then n + 1 else n)
      ∧ e.2.length ≤ h.maxlen := by
  refine ⟨rfl, ?_⟩
  intro e he
  simpa using hb e he

theorem bound_finish (h : FrameHistory) (n m : Nat) (done : List String)
    (hb : h.maxlen = m ∧ ∀ e ∈ h.data,
      e.2.length ≤ (if e.1 ∈ done then n + 1 else n) ∧ e.2.length ≤ m) :
    h.maxlen = m ∧ ∀ e ∈ h.data, e.2.length ≤ n + 1 ∧ e.2.length ≤ m := by
  refine ⟨hb.1, ?_⟩
  intro e he
  have := hb.2 e he
  split at this <;> omega

theorem size_le_of_bound (h : FrameHistory) (n : Nat) (hb : ∀ e ∈ h.data, e.2.length ≤ n) :
    h.size ≤ n := by
  unfold size
  cases hd : h.data with
  | nil => simp
  | cons e t =>
    obtain ⟨k, q⟩ := e
    exact hb (k, q) (by rw [hd]; exact List.mem_cons_self _ _)

theorem get_length_le_of_bound (h : FrameHistory) (key : String) (n : Nat)
    (hb : ∀ e ∈ h.data, e.2.length ≤ n) : (h.get key).length ≤ n := by
  unfold get
  cases hf : mapFind key h.data with
  | none => simp
  | some q => exact hb (key, q) (mem_of_mapFind _ _ _ hf)

end FrameHistory

theorem mapAt_mapSet_same (m : List (String × blockb_any_type)) (key : String)
    (v : blockb_any_type) : mapAt (mapSet key v m) key = v := by
  simp [mapAt, mapFind_mapSet_same]

namespace Detector

theorem new_bounded (k : DetectorKind) : (new k).Bounded 0 ∧ (new k).kind = k := by
  cases k <;> refine ⟨⟨rfl, rfl, ?_, ?_⟩, rfl⟩ <;>
    first
      | (intro e he; exact absurd he (List.not_mem_nil e))
      | (intro _; decide)

theorem calc_feature_kind (d : Detector) : d.calc_feature.kind = d.kind := by
  cases d <;> rfl

theorem calc_feature_history (d : Detector) : d.calc_feature.history = d.history := by
  cases d <;>
    simp only [calc_feature, history, SonghookDetector.calc_feature,
      PerformerSwitchDetector.calc_feature, HighlightDetector.calc_feature,
      SongAlternationDetector.calc_feature] <;>
    split <;> rfl

theorem calc_feature_prev (d : Detector) :
    d.calc_feature.prev_detect_frame = d.prev_detect_frame := by
  cases d <;>
    simp only [calc_feature, prev_detect_frame, SonghookDetector.calc_feature,
      PerformerSwitchDetector.calc_feature, HighlightDetector.calc_feature,
      SongAlternationDetector.calc_feature] <;>
    split <;> rfl

theorem calc_feature_cooldown (d : Detector) :
    d.calc_feature.cooldown_frames = d.cooldown_frames := by
  cases d <;>
    simp only [calc_feature, cooldown_frames, SonghookDetector.calc_feature,
      PerformerSwitchDetector.calc_feature, HighlightDetector.calc_feature,
      SongAlternationDetector.calc_feature] <;>
    split <;> rfl

/-- Warm-up guard of `calc_feature`: with the history below the capacity of the class the
score is set to 0. -/
theorem calc_feature_score (d : Detector) (hcap : d.history.maxlen = d.kind.capacity)
    (hsize : d.history.size < d.history.maxlen) : d.calc_feature.score = 0 := by
  rw [hcap] at hsize
  cases d <;>
    simp only [kind, DetectorKind.capacity, history] at hsize <;>
    simp only [calc_feature, score, SonghookDetector.calc_feature,
      PerformerSwitchDetector.calc_feature, HighlightDetector.calc_feature,
      SongAlternationDetector.calc_feature, hsize, if_true, mapAt_mapSet_same, asInt]

theorem calc_feature_bounded (d : Detector) (n : Nat) (h : d.Bounded n) :
    d.calc_feature.Bounded n := by
  obtain ⟨h1, h2, h3, _⟩ := h
  refine ⟨?_, ?_, ?_, ?_⟩
  · rw [calc_feature_history, calc_feature_kind]; exact h1
  · rw [calc_feature_cooldown, calc_feature_kind]; exact h2
  · rw [calc_feature_history]; exact h3
  · intro hn
    rw [calc_feature_kind] at hn
    apply calc_feature_score d h1
    have := FrameHistory.size_le_of_bound d.history n (fun e he => (h3 e he).1)
    omega

theorem update_eq (d : Detector) (f : MusicFrame) :
    d.update f = (d.withHistory (d.appended f)).calc_feature := by
  cases d <;> rfl

theorem withHistory_facts (d : Detector) (h : FrameHistory) :
    (d.withHistory h).history = h ∧ (d.withHistory h).kind = d.kind
      ∧ (d.withHistory h).cooldown_frames = d.cooldown_frames
      ∧ (d.withHistory h).prev_detect_frame = d.prev_detect_frame
      ∧ (d.withHistory h).score = d.score := by
  cases d <;> exact ⟨rfl, rfl, rfl, rfl, rfl⟩

/-- The appends of one update add at most one sample to every key. -/
theorem appended_bound (d : Detector) (f : MusicFrame) (n : Nat)
    (hb : ∀ e ∈ d.history.data, e.2.length ≤ n ∧ e.2.length ≤ d.history.maxlen) :
    (d.appended f).maxlen = d.history.maxlen
      ∧ ∀ e ∈ (d.appended f).data, e.2.length ≤ n + 1 ∧ e.2.length ≤ d.history.maxlen := by
  cases d with
  | songhook x =>
    have b0 := FrameHistory.bound_start x.history n hb
    have b1 := FrameHistory.append_bound_done _ "tempo" (.double f.tempo) n _ [] (by decide) b0
    have b2 := FrameHistory.append_bound_done _ "surround_index"
      (.double (vecAt f.eq_levels 0 0)) n _ _ (by decide) b1
    have b3 := FrameHistory.append_bound_done _ "volume_high"
      (.double (vecAt f.eq_levels 1 0)) n _ _ (by decide) b2
    have b4 := FrameHistory.append_bound_done _ "volume_mid"
      (.double (vecAt f.eq_levels 2 0)) n _ _ (by decide) b3
    have b5 := FrameHistory.append_bound_done _ "volume_low"
      (.double (vecAt f.eq_levels 3 0)) n _ _ (by decide) b4
    exact FrameHistory.bound_finish _ n _ _ b5
  | performer_switch x =>
    have b0 := FrameHistory.bound_start x.history n hb
    have b1 := FrameHistory.append_bound_done _ "volume_high"
      (.double (vecAt f.eq_levels 1 0)) n _ [] (by decide) b0
    have b2 := FrameHistory.append_bound_done _ "volume_mid"
      (.double (vecAt f.eq_levels 2 0)) n _ _ (by decide) b1
    have b3 := FrameHistory.append_bound_done _ "volume_low"
      (.double (vecAt f.eq_levels 3 0)) n _ _ (by decide) b2
    exact FrameHistory.bound_finish _ n _ _ b3
  | highlight x =>
    have b0 := FrameHistory.bound_start x.history n hb
    have b1 := FrameHistory.append_bound_done _ "volume_high"
      (.double (vecAt f.eq_levels 1 0)) n _ [] (by decide) b0
    have b2 := FrameHistory.append_bound_done _ "volume_mid"
      (.double (vecAt f.eq_levels 2 0)) n _ _ (by decide) b1
    have b3 := FrameHistory.append_bound_done _ "volume_low"
      (.double (vecAt f.eq_levels 3 0)) n _ _ (by decide) b2
    have b4 := FrameHistory.append_bound_done _ "tempo_confidence"
      (.double f.tempo_confidence) n _ _ (by decide) b3
    exact FrameHistory.bound_finish _ n _ _ b4
  | song_alternation x =>
    have b0 := FrameHistory.bound_start x.history n hb
    have b1 := FrameHistory.append_bound_done _ "genre_id"
      (.string (toString f.genre)) n _ [] (by decide) b0
    have b2 := FrameHistory.append_bound_done _ "tempo" (.double f.tempo) n _ _ (by decide) b1
    have b3 := FrameHistory.append_bound_done _ "surround_index"
      (.double (f.surround_score : ℚ)) n _ _ (by decide) b2
    exact FrameHistory.bound_finish _ n _ _ b3

theorem update_kind (d : Detector) (f : MusicFrame) : (d.update f).kind = d.kind := by
  rw [update_eq, calc_feature_kind, (withHistory_facts d _).2.1]

theorem update_prev (d : Detector) (f : MusicFrame) :
    (d.update f).prev_detect_frame = d.prev_detect_frame := by
  rw [update_eq, calc_feature_prev, (withHistory_facts d _).2.2.2.1]

theorem update_bounded (d : Detector) (f : MusicFrame) (n : Nat) (h : d.Bounded n) :
    (d.update f).Bounded (n + 1) := by
  obtain ⟨h1, h2, h3, h4⟩ := h
  obtain ⟨w1, w2, w3, _, w5⟩ := withHistory_facts d (d.appended f)
  obtain ⟨a1, a2⟩ := appended_bound d f n h3
  rw [update_eq]
  apply calc_feature_bounded
  refine ⟨?_, ?_, ?_, ?_⟩
  · rw [w1, w2, a1]; exact h1
  · rw [w3, w2]; exact h2
  · rw [w1, a1]; exact a2
  · intro hn
    rw [w2] at hn
    rw [w5]
    exact h4 (by omega)

/-- The detect method of every class: it fires iff the score is at least 2 and more than
`cooldown_frames` frames lie between `prev_detect_frame` and `current_frame`; on firing it
stores `current_frame` in `prev_detect_frame`. -/
theorem detect_eq (d : Detector) :
    d.detect =
      if 2 ≤ d.score ∧ d.current_frame - d.prev_detect_frame > d.cooldown_frames then
        (true, d.withPrev d.current_frame)
      else (false, d) := by
  cases d with
  | songhook x =>
    simp only [detect, SonghookDetector.detect_songhook, score, mapAt, current_frame,
      prev_detect_frame, cooldown_frames, withPrev]
    cases hf : mapFind "hook_score" x.features with
    | none => simp [asInt]
    | some v => simp only [ge_iff_le]; split <;> rfl
  | performer_switch x =>
    simp only [detect, PerformerSwitchDetector.detect_performer_switch, score, mapAt,
      current_frame, prev_detect_frame, cooldown_frames, withPrev]
    cases hf : mapFind "switch_score" x.features with
    | none => simp [asInt]
    | some v => simp only [ge_iff_le]; split <;> rfl
  | highlight x =>
    simp only [detect, HighlightDetector.detect_highlight, score, mapAt, current_frame,
      prev_detect_frame, cooldown_frames, withPrev]
    cases hf : mapFind "highlight_score" x.features with
    | none => simp [asInt]
    | some v => simp only [ge_iff_le]; split <;> rfl
  | song_alternation x =>
    simp only [detect, SongAlternationDetector.detect_song_alternation, score, mapAt,
      current_frame, prev_detect_frame, cooldown_frames, withPrev]
    cases hf : mapFind "change_score" x.features with
    | none => simp [asInt]
    | some v => simp only [ge_iff_le]; split <;> rfl

theorem withPrev_facts (d : Detector) (p : Int) :
    (d.withPrev p).history = d.history ∧ (d.withPrev p).kind = d.kind
      ∧ (d.withPrev p).cooldown_frames = d.cooldown_frames
      ∧ (d.withPrev p).prev_detect_frame = p
      ∧ (d.withPrev p).score = d.score := by
  cases d <;> exact ⟨rfl, rfl, rfl, rfl, rfl⟩

theorem current_frame_bounds (d : Detector)
    (hb : ∀ e ∈ d.history.data, e.2.length ≤ d.history.maxlen) :
    -1 ≤ d.current_frame ∧ d.current_frame ≤ (d.history.maxlen : Int) - 1 := by
  cases d with
  | songhook x =>
    have := FrameHistory.get_length_le_of_bound x.history "tempo" _ hb
    simp only [current_frame, history] at this ⊢
    omega
  | performer_switch x =>
    have := FrameHistory.get_length_le_of_bound x.history "volume_high" _ hb
    simp only [current_frame, history] at this ⊢
    omega
  | highlight x =>
    have := FrameHistory.get_length_le_of_bound x.history "volume_high" _ hb
    simp only [current_frame, history] at this ⊢
    omega
  | song_alternation x =>
    have := FrameHistory.get_length_le_of_bound x.history "genre_id" _ hb
    simp only [current_frame, history] at this ⊢
    omega

theorem capacity_le_cooldown (k : DetectorKind) : (k.capacity : Int) ≤ k.cooldown := by
  cases k <;> decide

theorem detect_kind (d : Detector) : d.detect.2.kind = d.kind := by
  rw [detect_eq]
  split
  · exact (withPrev_facts d _).2.1
  · rfl

theorem detect_bounded (d : Detector) (n : Nat) (h : d.Bounded n) : d.detect.2.Bounded n := by
  rw [detect_eq]
  split
  · obtain ⟨h1, h2, h3, h4⟩ := h
    obtain ⟨w1, w2, w3, _, w5⟩ := withPrev_facts d d.current_frame
    exact ⟨by rw [w1, w2]; exact h1, by rw [w3, w2]; exact h2, by rw [w1]; exact h3,
      by rw [w2, w5]; exact h4⟩
  · exact h

/-- A detect call on a detector whose score is 0 returns false. -/
theorem detect_false_of_score_zero (d : Detector) (h : d.score = 0) : d.detect.1 = false := by
  rw [detect_eq, h]
  simp

/-- A detect call that returns false leaves the object unchanged. -/
theorem detect_unchanged_of_false (d : Detector) (h : d.detect.1 = false) : d.detect.2 = d := by
  rw [detect_eq] at h ⊢
  split at h
  · simp at h
  · rename_i hc
    rw [if_neg hc]

/-- Latch: once `prev_detect_frame` is at least -1 (which every firing establishes) the
detect method cannot fire, because `current_frame` never exceeds `capacity - 1` and the
capacity of each class is not larger than its cooldown. -/
theorem detect_false_of_prev (d : Detector) (n : Nat) (h : d.Bounded n)
    (hp : -1 ≤ d.prev_detect_frame) : d.detect.1 = false := by
  obtain ⟨h1, h2, h3, _⟩ := h
  have hcf := current_frame_bounds d (fun e he => (h3 e he).2)
  have hcc := capacity_le_cooldown d.kind
  rw [detect_eq]
  split
  · rename_i hc
    rw [h1] at hcf
    rw [h2] at hc
    omega
  · rfl

theorem detect_prev (d : Detector) (n : Nat) (h : d.Bounded n)
    (hp : -1 ≤ d.prev_detect_frame ∨ d.detect.1 = true) : -1 ≤ d.detect.2.prev_detect_frame := by
  have hcf := current_frame_bounds d (fun e he => (h.2.2.1 e he).2)
  rw [detect_eq] at hp ⊢
  split
  · rw [(withPrev_facts d _).2.2.2.1]
    exact hcf.1
  · rename_i hc
    rw [if_neg hc] at hp
    simpa using hp

/-- Over any sequence of calls the invariant is kept, with the update count added. -/
theorem run_bounded (calls : List DetectorCall) (d : Detector) (n : Nat) (h : d.Bounded n) :
    (d.run calls).Bounded (n + updateCount calls) ∧ (d.run calls).kind = d.kind := by
  induction calls generalizing d n with
  | nil => exact ⟨h, rfl⟩
  | cons c t ih =>
    cases c with
    | update f =>
      have := ih (d.update f) (n + 1) (update_bounded d f n h)
      simp only [run, List.foldl_cons, call, updateCount] at this ⊢
      rw [update_kind] at this
      rw [show n + (updateCount t + 1) = n + 1 + updateCount t by omega]
      exact this
    | calc_feature =>
      have := ih d.calc_feature n (calc_feature_bounded d n h)
      simp only [run, List.foldl_cons, call, updateCount] at this ⊢
      rw [calc_feature_kind] at this
      exact this
    | detect =>
      have := ih d.detect.2 n (detect_bounded d n h)
      simp only [run, List.foldl_cons, call, updateCount] at this ⊢
      rw [detect_kind] at this
      exact this

/-- Once latched (`prev_detect_frame ≥ -1`), a detector stays latched over any calls. -/
theorem run_prev (calls : List DetectorCall) (d : Detector) (n : Nat) (h : d.Bounded n)
    (hp : -1 ≤ d.prev_detect_frame) : -1 ≤ (d.run calls).prev_detect_frame := by
  induction calls generalizing d n with
  | nil => exact hp
  | cons c t ih =>
    cases c with
    | update f =>
      exact ih (d.update f) (n + 1) (update_bounded d f n h) (by rw [update_prev]; exact hp)
    | calc_feature =>
      exact ih d.calc_feature n (calc_feature_bounded d n h)
        (by rw [calc_feature_prev]; exact hp)
    | detect =>
      exact ih d.detect.2 n (detect_bounded d n h) (detect_prev d n h (Or.inl hp))

end Detector

/-- Claim C6: for each of the four detectors (history capacities Songhook 20,
PerformerSwitch 15, Highlight 30, SongAlternation 30) and every sequence of calls on a
fresh object containing fewer updates than the capacity, whatever the input values: the
score is 0 and the detect / flag-getter call returns false. -/
theorem detector_warm_up (k : DetectorKind) (calls : List DetectorCall)
    (hfew : updateCount calls < k.capacity) :
    ((Detector.new k).run calls).score = 0
      ∧ ((Detector.new k).run calls).detect.1 = false
      ∧ ((Detector.new k).run calls).history.maxlen = k.capacity := by
  obtain ⟨hb0, hk0⟩ := Detector.new_bounded k
  obtain ⟨hb, hk⟩ := Detector.run_bounded calls (Detector.new k) 0 hb0
  rw [hk0] at hk
  have hscore : ((Detector.new k).run calls).score = 0 := by
    apply hb.2.2.2
    rw [hk]
    omega
  refine ⟨hscore, Detector.detect_false_of_score_zero _ hscore, ?_⟩
  rw [hb.1, hk]

/-- Claim C5: for each of the four detectors (`cooldown_frames` 100, 80, 100, 50) and every
input stream: if the detect call made after the calls `calls1` (containing the first `F`
updates) returns true, then the detect call made after any further calls `calls2` that
bring the update count to `F'` with `F < F'` and `F' - F ≤ cooldown_frames` returns
false. -/
theorem detector_cooldown (k : DetectorKind) (calls1 calls2 : List DetectorCall)
    (hfire : ((Detector.new k).run calls1).detect.1 = true)
    (_hlater : 0 < updateCount calls2)
    (_hwithin : (updateCount calls2 : Int) ≤ k.cooldown) :
    ((((Detector.new k).run calls1).detect.2).run calls2).detect.1 = false
      ∧ ((Detector.new k).run calls1).cooldown_frames = k.cooldown := by
  obtain ⟨hb0, hk0⟩ := Detector.new_bounded k
  obtain ⟨hb1, hk1⟩ := Detector.run_bounded calls1 (Detector.new k) 0 hb0
  have hb2 := Detector.detect_bounded _ _ hb1
  have hp2 := Detector.detect_prev _ _ hb1 (Or.inr hfire)
  obtain ⟨hb3, _⟩ := Detector.run_bounded calls2 _ _ hb2
  have hp3 := Detector.run_prev calls2 _ _ hb2 hp2
  refine ⟨Detector.detect_false_of_prev _ _ hb3 hp3, ?_⟩
  rw [hb1.2.1, hk1, hk0]

/-- Claim C6 at fourteen updates (fewer than every capacity), the last with a frame that
makes a warm detector fire: all four detectors still have score 0 and answer false. -/
theorem detector_warm_up_witness :
    updateCount calls_warm = 14
    ∧ (∀ k : DetectorKind, updateCount calls_warm < k.capacity)
    ∧ (∀ k : DetectorKind, ((Detector.new k).run calls_warm).score = 0
        ∧ ((Detector.new k).run calls_warm).detect.1 = false) := by
  have hfew : ∀ k : DetectorKind, updateCount calls_warm < k.capacity := by
    intro k
    cases k <;> decide
  exact ⟨by decide, hfew, fun k =>
    ⟨(detector_warm_up k calls_warm (hfew k)).1, (detector_warm_up k calls_warm (hfew k)).2.1⟩⟩

/-- Claim C5 on a stream where each of the four detectors fires after the 30th update: two
updates later the score is again at least 2 for the song-alternation detector, yet every
detector answers false. -/
theorem detector_cooldown_witness :
    (∀ k : DetectorKind, ((Detector.new k).run calls_fire).detect.1 = true)
    ∧ updateCount calls_again = 2
    ∧ 2 ≤ ((((Detector.new .song_alternation).run calls_fire).detect.2).run calls_again).score
    ∧ (∀ k : DetectorKind,
        ((((Detector.new k).run calls_fire).detect.2).run calls_again).detect.1 = false) := by
  have hfire : ∀ k : DetectorKind, ((Detector.new k).run calls_fire).detect.1 = true := by
    intro k
    cases k <;> decide!
  refine ⟨hfire, by decide, by decide!, fun k => ?_⟩
  exact (detector_cooldown k calls_fire calls_again (hfire k) (by decide)
    (by cases k <;> decide)).1

/-! ### Idle tracker -/

namespace FrameHistory

/-- A history that only ever received one key holds at most that key. -/
theorem single_key_data (key : String) (maxlen : Nat) (vals : List blockb_any_type) :
    ((new maxlen).appendAll (vals.map (fun v => (key, v)))).data = []
      ∨ ∃ q, ((new maxlen).appendAll (vals.map (fun v => (key, v)))).data = [(key, q)] := by
  induction vals using List.reverseRecOn with
  | nil => exact Or.inl rfl
  | append_singleton vals v ih =>
    rw [List.map_append, List.map_cons, List.map_nil, appendAll_snoc]
    right
    rcases ih with h0 | ⟨q, hq⟩
    · unfold append
      simp only [h0, mapFind, mapSet, if_true]
      split <;> exact ⟨_, rfl⟩
    · unfold append
      simp only [hq, mapFind, mapSet, if_true]
      split <;> exact ⟨_, rfl⟩

theorem single_key_size (key : String) (maxlen : Nat) (vals : List blockb_any_type) :
    ((new maxlen).appendAll (vals.map (fun v => (key, v)))).size
      = (((new maxlen).appendAll (vals.map (fun v => (key, v)))).get key).length := by
  rcases single_key_data key maxlen vals with h0 | ⟨q, hq⟩
  · simp [size, get, h0, mapFind]
  · simp [size, get, hq, mapFind]

theorem single_key_get (key : String) (maxlen : Nat) (vals : List blockb_any_type) :
    ((new maxlen).appendAll (vals.map (fun v => (key, v)))).get key
      = vals.drop (vals.length - maxlen) := by
  rw [get_appendAll_new]
  have hf : (List.filter (fun op => decide (op.1 = key)) (vals.map (fun v => (key, v))))
      = vals.map (fun v => (key, v)) := by
    rw [List.filter_eq_self]
    intro a ha
    obtain ⟨v, _, hv⟩ := List.mem_map.mp ha
    simp [← hv]
  rw [hf, List.map_map]
  have hid : (Prod.snd ∘ fun v => (key, v)) = (id : blockb_any_type → blockb_any_type) := rfl
  rw [hid, List.map_id]

end FrameHistory

theorem beat_ops_eq (beats : List Bool) :
    beat_ops beats = (beats.map blockb_any_type.bool).map (fun v => ("beat_flg", v)) := by
  simp [beat_ops, List.map_map, Function.comp_def]

/-- The history of the idle tracker: its size is the number of samples, capped at 32. -/
theorem idle_history_size (beats : List Bool) :
    ((FrameHistory.new 32).appendAll (beat_ops beats)).size = min beats.length 32 := by
  rw [beat_ops_eq, FrameHistory.single_key_size, FrameHistory.single_key_get]
  simp only [List.length_drop, List.length_map]
  omega

/-- The sample two from the end of a full idle history is the previous frame's flag. -/
theorem idle_history_previous (beats : List Bool) (b : Bool) (hfull : 32 ≤ beats.length + 1) :
    (((FrameHistory.new 32).appendAll (beat_ops (beats ++ [b]))).get "beat_flg").length ≥ 2
    ∧ asBool (backAt (((FrameHistory.new 32).appendAll (beat_ops (beats ++ [b]))).get
        "beat_flg") 2) = beats.getLastD false := by
  rw [beat_ops_eq, FrameHistory.single_key_get]
  have hlen : ((beats ++ [b]).map blockb_any_type.bool).length = beats.length + 1 := by simp
  constructor
  · rw [List.length_drop, hlen]; omega
  · unfold backAt
    rw [List.getD_eq_getElem?_getD, List.getElem?_drop, List.length_drop, hlen]
    have hidx : beats.length + 1 - 32 + (beats.length + 1 - (beats.length + 1 - 32) - 2)
        = beats.length - 1 := by omega
    rw [hidx, List.getElem?_map, List.getElem?_append_left (by omega),
      List.getLastD_eq_getLast?, List.getLast?_eq_getElem?]
    cases hb : beats[beats.length - 1]? with
    | none => rfl
    | some v => rfl

namespace IdleStateDetector

theorem flags_of_sets (d : IdleStateDetector) (m : List (Int × Bool)) (v4 v8 v16 v32 : Bool)
    (h : d.idle_flags = mapSet 32 v32 (mapSet 16 v16 (mapSet 8 v8 (mapSet 4 v4 m)))) :
    d.flags = (v4, v8, v16, v32) := by
  simp only [flags, get_no_change_4beats_flg, get_no_change_8beats_flg,
    get_no_change_16beats_flg, get_no_change_32beats_flg, flag, h]
  rw [mapFind_mapSet_same]
  rw [mapFind_mapSet_other 16 32 _ _ (by decide), mapFind_mapSet_same]
  rw [mapFind_mapSet_other 8 32 _ _ (by decide), mapFind_mapSet_other 8 16 _ _ (by decide),
    mapFind_mapSet_same]
  rw [mapFind_mapSet_other 4 32 _ _ (by decide), mapFind_mapSet_other 4 16 _ _ (by decide),
    mapFind_mapSet_other 4 8 _ _ (by decide), mapFind_mapSet_same]

theorem new_tracks : new.Tracks [] :=
  ⟨rfl, rfl, by decide, by decide, fun _ => rfl⟩

theorem any_changes_eq (sec : SectionProgressionDetector) (alt : SongAlternationDetector) :
    (sec.get_songhook_flg.1 || sec.get_songhook_flg.2.get_performer_switch_flg.1
      || sec.get_songhook_flg.2.get_performer_switch_flg.2.get_highlight_flg.1
      || alt.get_change_flg.1) = polled_any_changes sec alt := rfl

theorem tmod_flag (c T : Int) (hc : 1 ≤ c) (hT : 0 ≤ T) :
    decide (c ≠ 0 ∧ Int.tmod c T = 0) = decide (c % T = 0) := by
  rw [Int.tmod_eq_emod (by omega) hT]
  have hne : c ≠ 0 := by omega
  simp [hne]

/-- One `update_idle_state` call on a tracker in a reachable state does what the
specification says, and keeps the state reachable. -/
theorem update_idle_state_step (d : IdleStateDetector) (beats : List Bool)
    (h : d.Tracks beats) (sec : SectionProgressionDetector) (alt : SongAlternationDetector)
    (b : Bool) :
    (d.update_idle_state sec alt b).1.Tracks (beats ++ [b])
    ∧ ((d.update_idle_state sec alt b).1.flags, (d.update_idle_state sec alt b).1.beat_counter)
        = update_idle_state_spec (beats.length + 1) (beats.getLastD false) b d.beat_counter
            d.flags (polled_any_changes sec alt) := by
  obtain ⟨hh, hcb, h0, h31, hz⟩ := h
  have hhist : d.history.append "beat_flg" (.bool b)
      = (FrameHistory.new 32).appendAll (beat_ops (beats ++ [b])) := by
    rw [hh]
    simp only [beat_ops, List.map_append, List.map_cons, List.map_nil,
      FrameHistory.appendAll_snoc]
  have hsize := idle_history_size (beats ++ [b])
  rw [List.length_append, List.length_singleton] at hsize
  unfold update_idle_state update_idle_state_spec
  simp only [hhist, hsize, any_changes_eq]
  by_cases hfew : beats.length + 1 < 32
  · have hmin : min (beats.length + 1) 32 < 32 := by omega
    simp only [hmin, hfew, if_true]
    refine ⟨⟨rfl, hcb, h0, h31, fun _ => hz (by omega)⟩, ?_⟩
    rw [flags_of_sets _ d.idle_flags false false false false rfl]
  · have hmin : ¬ (min (beats.length + 1) 32 < 32) := by omega
    obtain ⟨hlen2, hprev⟩ := idle_history_previous beats b (by omega)
    simp only [hmin, hfew, if_false, hlen2, if_true, hprev, hcb, List.foldl_cons,
      List.foldl_nil]
    have hlen32 : ∀ x : Bool, ¬ ((beats ++ [x]).length < 32) := by
      intro x
      rw [List.length_append, List.length_singleton]; omega
    by_cases hp : beats.getLastD false = true
    · simp only [hp, if_true]
      refine ⟨⟨rfl, rfl, ?_, ?_, fun hl => absurd hl (hlen32 _)⟩, ?_⟩
      · dsimp only
        split_ifs <;> omega
      · dsimp only
        split_ifs <;> omega
      · rw [flags_of_sets _ d.idle_flags false false false false rfl]
    · simp only [hp, if_false, Bool.false_eq_true]
      cases b with
      | true =>
        simp only [if_true]
        refine ⟨⟨rfl, rfl, ?_, ?_, fun hl => absurd hl (hlen32 _)⟩, ?_⟩
        · dsimp only
          split_ifs <;> omega
        · dsimp only
          split_ifs <;> omega
        · rw [flags_of_sets _ d.idle_flags _ _ _ _ rfl]
          rw [tmod_flag _ 4 (by omega) (by norm_num), tmod_flag _ 8 (by omega) (by norm_num),
            tmod_flag _ 16 (by omega) (by norm_num), tmod_flag _ 32 (by omega) (by norm_num)]
      | false =>
        simp only [if_false, Bool.false_eq_true]
        refine ⟨⟨rfl, rfl, ?_, ?_, fun hl => absurd hl (hlen32 _)⟩, rfl⟩
        · dsimp only
          split_ifs <;> omega
        · dsimp only
          split_ifs <;> omega

/-- Every state reached by `update_idle_state` calls on a fresh tracker is tracked by the
beat flags of the calls. -/
theorem run_tracks (calls : List Call) : (run calls).Tracks (calls.map (fun c => c.2.2)) := by
  induction calls using List.reverseRecOn with
  | nil => exact new_tracks
  | append_singleton calls c ih =>
    have hrun : run (calls ++ [c]) = ((run calls).update_idle_state c.1 c.2.1 c.2.2).1 := by
      simp [run, List.foldl_append]
    rw [hrun, List.map_append, List.map_cons, List.map_nil]
    exact (update_idle_state_step (run calls) _ ih c.1 c.2.1 c.2.2).1

end IdleStateDetector

/-- Claim C7: for every `update_idle_state` call on a tracker reached from a fresh one by
earlier calls, the four flags and `beat_counter` afterwards are those of the specification:
with fewer than 32 samples appended (this one included) all four flags are false; once 32
are present, if the previous frame's `beat_flg` is true all four flags become false and
`beat_counter` is not incremented; otherwise, if this frame's `beat_flg` is true,
`beat_counter` is incremented, `flag[T] = (beat_counter mod T = 0)` for `T` in
`{4, 8, 16, 32}`, and `beat_counter` is then reset to 0 if it has reached 32 (and in every
polled case it is reset to 0 when one of the four detectors fires). -/
theorem update_idle_state_matches_spec (calls : List IdleStateDetector.Call)
    (section_detector : SectionProgressionDetector)
    (song_alternation_detector : SongAlternationDetector) (beat_flg : Bool) :
    (((IdleStateDetector.run calls).update_idle_state section_detector
          song_alternation_detector beat_flg).1.flags,
      ((IdleStateDetector.run calls).update_idle_state section_detector
          song_alternation_detector beat_flg).1.beat_counter)
      = update_idle_state_spec (calls.length + 1) ((calls.map (fun c => c.2.2)).getLastD false)
          beat_flg (IdleStateDetector.run calls).beat_counter (IdleStateDetector.run calls).flags
          (polled_any_changes section_detector song_alternation_detector) := by
  have h := (IdleStateDetector.update_idle_state_step (IdleStateDetector.run calls) _
    (IdleStateDetector.run_tracks calls) section_detector song_alternation_detector beat_flg).2
  rw [List.length_map] at h
  exact h

/-! ### Interpreter: idle reset -/

theorem songhook_detect_unchanged (x : SonghookDetector) (h : x.detect_songhook.1 = false) :
    x.detect_songhook.2 = x := by
  have := Detector.detect_unchanged_of_false (.songhook x) h
  simpa [Detector.detect] using this

theorem performer_switch_detect_unchanged (x : PerformerSwitchDetector)
    (h : x.detect_performer_switch.1 = false) : x.detect_performer_switch.2 = x := by
  have := Detector.detect_unchanged_of_false (.performer_switch x) h
  simpa [Detector.detect] using this

theorem highlight_detect_unchanged (x : HighlightDetector) (h : x.detect_highlight.1 = false) :
    x.detect_highlight.2 = x := by
  have := Detector.detect_unchanged_of_false (.highlight x) h
  simpa [Detector.detect] using this

theorem song_alternation_detect_unchanged (x : SongAlternationDetector)
    (h : x.detect_song_alternation.1 = false) : x.detect_song_alternation.2 = x := by
  have := Detector.detect_unchanged_of_false (.song_alternation x) h
  simpa [Detector.detect] using this

namespace MusicToLightInterpretor

/-- The four detector flags in the map built by `detect_musical_change_flgs` are the
results of the four getters. -/
theorem reports_eq (s : MusicToLightInterpretor) :
    reports_musical_change s.detect_musical_change_flgs.1
      = (s.section_progress_detector.songhook_detector.detect_songhook.1
        || s.section_progress_detector.performer_switch_detector.detect_performer_switch.1
        || s.section_progress_detector.highlight_detector.detect_highlight.1
        || s.song_alternation_detector.detect_song_alternation.1) := by
  simp (disch := decide) only [reports_musical_change, detect_musical_change_flgs, boolFlagOf,
    mapFind_mapSet_other, mapFind_mapSet_same]
  rfl

theorem detect_musical_change_flgs_idle (s : MusicToLightInterpretor) :
    s.detect_musical_change_flgs.2.idle_state_detector = s.idle_state_detector := rfl

/-- When the idle tracker has polled the detectors and none fired, none of them fires when
polled again in the same frame. -/
theorem polled_twice (sec : SectionProgressionDetector) (alt : SongAlternationDetector)
    (h : polled_any_changes sec alt = false) :
    sec.get_songhook_flg.2.get_performer_switch_flg.2.get_highlight_flg.2 = sec
      ∧ alt.get_change_flg.2 = alt := by
  simp only [polled_any_changes, Bool.or_eq_false_iff] at h
  obtain ⟨⟨⟨h1, h2⟩, h3⟩, h4⟩ := h
  simp only [SectionProgressionDetector.get_songhook_flg,
    SectionProgressionDetector.get_performer_switch_flg,
    SectionProgressionDetector.get_highlight_flg, SongAlternationDetector.get_change_flg,
    songhook_detect_unchanged _ h1, performer_switch_detect_unchanged _ h2,
    highlight_detect_unchanged _ h3, song_alternation_detect_unchanged _ h4]
  exact ⟨trivial, trivial⟩

/-- One pipeline frame on an interpreter whose idle tracker is in a reachable state: the
tracker stays reachable, and its counter is 0 afterwards when a musical change is reported
or polled on this frame. -/
theorem process_frame_step (s : MusicToLightInterpretor) (beats : List Bool)
    (h : s.idle_state_detector.Tracks beats) (f : MusicFrame) :
    (s.process_frame f).2.idle_state_detector.Tracks (beats ++ [f.beat_flg])
    ∧ (reports_musical_change (s.process_frame f).1 = true ∨ fires_on_frame s f = true →
        (s.process_frame f).2.idle_state_detector.beat_counter = 0) := by
  have hstep := IdleStateDetector.update_idle_state_step s.idle_state_detector beats h
    (s.section_progress_detector.update_state f.beat_flg f.eq_levels f.tempo f.tempo_confidence)
    (s.song_alternation_detector.update_history (toString f.genre) f.tempo
      (f.surround_score : ℚ)) f.beat_flg
  obtain ⟨htr, hspec⟩ := hstep
  have hbc := congrArg Prod.snd hspec
  simp only at hbc
  refine ⟨htr, ?_⟩
  intro hflag
  show (s.idle_state_detector.update_idle_state _ _ f.beat_flg).1.beat_counter = 0
  rw [hbc]
  by_cases hfew : beats.length + 1 < 32
  · simp only [update_idle_state_spec, hfew, if_true]
    exact h.2.2.2.2 (by omega)
  · have hpoll : fires_on_frame s f = true := by
      rcases hflag with hrep | hp
      · by_contra hnp
        have hnp' : polled_any_changes
            (s.section_progress_detector.update_state f.beat_flg f.eq_levels f.tempo
              f.tempo_confidence)
            (s.song_alternation_detector.update_history (toString f.genre) f.tempo
              (f.surround_score : ℚ)) = false := by
          simpa [fires_on_frame] using hnp
        obtain ⟨hsec, halt⟩ := polled_twice _ _ hnp'
        have hsize : ¬ ((s.idle_state_detector.history.append "beat_flg"
            (.bool f.beat_flg)).size < 32) := by
          rw [h.1, ← FrameHistory.appendAll_snoc _ _ ("beat_flg", .bool f.beat_flg)]
          have := idle_history_size (beats ++ [f.beat_flg])
          simp only [beat_ops, List.map_append, List.map_cons, List.map_nil,
            List.length_append, List.length_singleton] at this
          simp only [beat_ops]
          rw [this]
          omega
        rw [process_frame, reports_eq] at hrep
        simp only [update, IdleStateDetector.update_idle_state, hsize, if_false, hsec, halt]
          at hrep
        rw [← polled_any_changes, hnp'] at hrep
        exact Bool.false_ne_true hrep
      · exact hp
    simp only [fires_on_frame] at hpoll
    simp only [update_idle_state_spec, hfew, if_false, hpoll, if_true]
    split_ifs <;> rfl

/-- The idle tracker of the interpreter after any stream is in a reachable state. -/
theorem interpretor_run_tracks (frames : List MusicFrame) :
    (run frames).idle_state_detector.Tracks (frames.map (fun f => f.beat_flg)) := by
  induction frames using List.reverseRecOn with
  | nil => exact IdleStateDetector.new_tracks
  | append_singleton frames f ih =>
    have hrun : run (frames ++ [f]) = ((run frames).process_frame f).2 := by
      simp [run, List.foldl_append]
    rw [hrun, List.map_append, List.map_cons, List.map_nil]
    exact (process_frame_step (run frames) _ ih f).1

end MusicToLightInterpretor

/-- Claim C8: for every input stream `frames` followed by a frame `f` (frame `F`): if any
of the songhook, performer-switch, highlight or song-alternation flags is true at `f`,
whether in the flag map reported for the frame or when the detectors are first polled after
their update with the frame, then the idle tracker's `beat_counter` is 0 once `f` has been
processed, that is when processing of frame `F + 1` begins. -/
theorem idle_counter_reset_on_musical_change (frames : List MusicFrame) (f : MusicFrame)
    (hflag : reports_musical_change ((MusicToLightInterpretor.run frames).process_frame f).1
        = true
      ∨ fires_on_frame (MusicToLightInterpretor.run frames) f = true) :
    (MusicToLightInterpretor.run (frames ++ [f])).idle_state_detector.beat_counter = 0 := by
  have hrun : MusicToLightInterpretor.run (frames ++ [f])
      = ((MusicToLightInterpretor.run frames).process_frame f).2 := by
    simp [MusicToLightInterpretor.run, List.foldl_append]
  rw [hrun]
  exact (MusicToLightInterpretor.process_frame_step _ _
    (MusicToLightInterpretor.interpretor_run_tracks frames) f).2 hflag

/-- Claim C8 on two streams. After 32 calm frames the jump frame (a beat with a song
alternation) is polled by the idle tracker, which counts the beat and resets the counter;
after 29 calm frames the jump frame is reported in the flag map while the tracker is still
warming up. In both cases the counter is 0 when the next frame begins, whereas a plain
beat as 33rd frame leaves it at 1. -/
theorem idle_counter_reset_on_musical_change_witness :
    fires_on_frame (MusicToLightInterpretor.run (List.replicate 32 frame_calm)) frame_jump = true
    ∧ (MusicToLightInterpretor.run (List.replicate 32 frame_calm
        ++ [frame_jump])).idle_state_detector.beat_counter = 0
    ∧ reports_musical_change ((MusicToLightInterpretor.run
        (List.replicate 29 frame_calm)).process_frame frame_jump).1 = true
    ∧ (MusicToLightInterpretor.run (List.replicate 29 frame_calm
        ++ [frame_jump])).idle_state_detector.beat_counter = 0
    ∧ (MusicToLightInterpretor.run (List.replicate 32 frame_calm
        ++ [{ frame_calm with beat_flg := true }])).idle_state_detector.beat_counter = 1 := by
  have h1 : fires_on_frame (MusicToLightInterpretor.run (List.replicate 32 frame_calm))
      frame_jump = true := by decide!
  have h2 : reports_musical_change ((MusicToLightInterpretor.run
      (List.replicate 29 frame_calm)).process_frame frame_jump).1 = true := by decide!
  exact ⟨h1, idle_counter_reset_on_musical_change _ _ (Or.inr h1), h2,
    idle_counter_reset_on_musical_change _ _ (Or.inl h2), by decide!⟩

/-! ### Dimming -/

/-- Claim C11 at the input on which the code leaves `[0, 1]`: a fading segment with
`dimmer_time = [-2000000000, 2000000000, 0, 0, 1000]`, ratio 1 and time 0. The time in the
cycle is `t = 0`, in the fade-in phase; the 32-bit difference `s1 - s0` of the phase bounds
wraps from 4000000000 to -294967296, `max(1.0f, duration)` is 1, and `apply_dimming()`
returns `(t - s0) / 1 = 2000000000`. -/
theorem apply_dimming_overflow :
    segment_fade_overflow.fade = true
    ∧ segment_fade_overflow.dimmer_time = [-2000000000, 2000000000, 0, 0, 1000]
    ∧ segment_fade_overflow.dimmer_time_ratio = 1
    ∧ segment_fade_overflow.time = 0
    ∧ wrap32 (2000000000 - -2000000000) = -294967296
    ∧ segment_fade_overflow.apply_dimming = 2000000000
    ∧ ¬ (segment_fade_overflow.apply_dimming ≤ 1) := by
  decide!

/-! ### Palette resolution of a segment -/

/-- Claim C15: for every colour-index list and every resolved palette, `calculate_rgb`
returns a list of length `max(4, number of colour indices)` whose `i`-th entry is
`palette[color[i]]` when `0 ≤ color[i] < palette length` and `[255, 0, 0]` otherwise; the
positions past the end of the colour list repeat the last entry (red when the colour list
is empty). -/
theorem calculate_rgb_entries (s : LightSegment) (cache : PaletteMap)
    (palettes_of : SceneRef → PaletteMap) (palette_name : String) :
    (s.calculate_rgb cache palettes_of palette_name).length = max 4 s.color.length
    ∧ (∀ i : Nat, i < s.color.length →
        (s.calculate_rgb cache palettes_of palette_name)[i]? =
          some (if 0 ≤ s.color.getD i 0 ∧ s.color.getD i 0
                < ((resolve_palette cache palettes_of s.scene palette_name).length : Int)
            then (resolve_palette cache palettes_of s.scene palette_name).getD
              (s.color.getD i 0).toNat [255, 0, 0]
            else [255, 0, 0]))
    ∧ (∀ i : Nat, s.color.length ≤ i → i < 4 →
        (s.calculate_rgb cache palettes_of palette_name)[i]? =
          some (if s.color.length = 0 then [255, 0, 0]
            else (s.calculate_rgb cache palettes_of palette_name).getD (s.color.length - 1)
              [255, 0, 0])) := by
  unfold LightSegment.calculate_rgb
  simp only
  generalize hp : resolve_palette cache palettes_of s.scene palette_name = palette
  have hlen : (s.color.map (LightSegment.rgb_of_index palette)).length = s.color.length :=
    List.length_map _ _
  refine ⟨?_, ?_, ?_⟩
  · rw [List.length_append, List.length_replicate, hlen]
    omega
  · intro i hi
    rw [List.getElem?_append_left (by rw [hlen]; exact hi), List.getElem?_map,
      List.getElem?_eq_getElem hi, Option.map_some']
    have hget : s.color.getD i 0 = s.color[i] := by
      rw [List.getD_eq_getElem?_getD, List.getElem?_eq_getElem hi, Option.getD_some]
    rw [hget]
    simp only [LightSegment.rgb_of_index, vecAt]
    split_ifs with h1 h2
    · rfl
    · exact absurd h1.1 h2
    · rfl
  · intro i hi h4
    rw [List.getElem?_append_right (by rw [hlen]; exact hi), List.getElem?_replicate,
      if_pos (by rw [hlen]; omega)]
    by_cases h0 : s.color.length = 0
    · have hnil : s.color = [] := List.length_eq_zero.mp h0
      simp [hnil]
    · rw [if_neg h0]
      have hlast : s.color.length - 1 < (s.color.map (LightSegment.rgb_of_index palette)).length := by
        rw [hlen]; omega
      rw [List.getD_eq_getElem?_getD, List.getElem?_append_left hlast,
        List.getLastD_eq_getLast?, List.getLast?_eq_getElem?, hlen]

/-- Scenario S3 through claim C15: `color = [0, 1, 2, 3]` with the default palette `A`
gives `[[255,0,0],[0,255,0],[0,0,255],[255,255,0]]`. -/
theorem calculate_rgb_entries_witness :
    segment_S4.color = [0, 1, 2, 3]
    ∧ (segment_S4.calculate_rgb DEFAULT_COLOR_PALETTES (fun _ => []) "A").length = 4
    ∧ segment_S4.calculate_rgb DEFAULT_COLOR_PALETTES (fun _ => []) "A"
        = [[255, 0, 0], [0, 255, 0], [0, 0, 255], [255, 255, 0]] :=
  ⟨by decide,
   (calculate_rgb_entries segment_S4 DEFAULT_COLOR_PALETTES (fun _ => []) "A").1,
   by decide⟩

/-! ### Colour shift -/

namespace LightingSwitcher

/-- The `seg_id` loop of the colour-shift branch, run for the first `n` segments: the rows
below `n` hold their shifted colour indices, the others their old ones. -/
theorem color_shift_loop_rows (s : LightingSwitcher) (n : Nat) :
    ((List.range n).foldl color_shift_step (s, [])).1.segment_color_ids.length
      = s.segment_color_ids.length
    ∧ ∀ j, ((List.range n).foldl color_shift_step (s, [])).1.segment_color_ids.getD j []
        = if j < n then (s.segment_color_ids.getD j []).map (fun c => Int.tmod (c + 1) 5)
          else s.segment_color_ids.getD j [] := by
  induction n with
  | zero => simp
  | succ n ih =>
    obtain ⟨hl, hrow⟩ := ih
    rw [List.range_succ, List.foldl_append]
    simp only [List.foldl_cons, List.foldl_nil]
    refine ⟨?_, ?_⟩
    · simp [color_shift_step, hl]
    · intro j
      have hn := hrow n
      rw [if_neg (lt_irrefl n)] at hn
      simp only [color_shift_step, vecAt_natCast, hn]
      by_cases hjn : j = n
      · subst hjn
        rw [if_pos (Nat.lt_succ_self j), List.getD_eq_getElem?_getD]
        by_cases hlt : j < s.segment_color_ids.length
        · rw [List.getElem?_set_self (by rw [hl]; exact hlt)]
          rfl
        · rw [List.getElem?_eq_none (by rw [List.length_set, hl]; omega)]
          rw [List.getD_eq_getElem?_getD, List.getElem?_eq_none (by omega)]
          rfl
      · rw [List.getD_eq_getElem?_getD, List.getElem?_set_ne (Ne.symm hjn),
          ← List.getD_eq_getElem?_getD, hrow j]
        by_cases hlt : j < n
        · rw [if_pos hlt, if_pos (by omega)]
        · rw [if_neg hlt, if_neg (by omega)]

/-- The colour-shift branch replaces every stored row by its shifted row. -/
theorem color_shift_rows (s : LightingSwitcher) (hn : s.segment_color_ids.length = 10) :
    ((List.range 10).foldl color_shift_step (s, [])).1.segment_color_ids
      = s.segment_color_ids.map (fun row => row.map (fun c => Int.tmod (c + 1) 5)) := by
  obtain ⟨hl, hrow⟩ := color_shift_loop_rows s 10
  apply List.ext_getElem?
  intro j
  by_cases hj : j < 10
  · have h := hrow j
    rw [if_pos hj, List.getD_eq_getElem?_getD, List.getD_eq_getElem?_getD,
      List.getElem?_eq_getElem (by rw [hl, hn]; exact hj),
      List.getElem?_eq_getElem (by rw [hn]; exact hj), Option.getD_some, Option.getD_some] at h
    rw [List.getElem?_map, List.getElem?_eq_getElem (by rw [hl, hn]; exact hj),
      List.getElem?_eq_getElem (by rw [hn]; exact hj), Option.map_some', h]
  · rw [List.getElem?_eq_none (by rw [hl, hn]; omega),
      List.getElem?_eq_none (by rw [List.length_map, hn]; omega)]

end LightingSwitcher

namespace LightingSwitcher

theorem color_shift_loop_consts (s : LightingSwitcher) (n : Nat) :
    ((List.range n).foldl color_shift_step (s, [])).1.effect_ids = s.effect_ids
    ∧ ((List.range n).foldl color_shift_step (s, [])).1.palette_ids = s.palette_ids
    ∧ ((List.range n).foldl color_shift_step (s, [])).1.json_name_list = s.json_name_list
    ∧ ((List.range n).foldl color_shift_step (s, [])).1.segment_num = s.segment_num := by
  induction n with
  | zero => exact ⟨rfl, rfl, rfl, rfl⟩
  | succ n ih =>
    rw [List.range_succ, List.foldl_append]
    simp only [List.foldl_cons, List.foldl_nil]
    exact ih

theorem takes_color_shift_iff (s : LightingSwitcher) :
    s.takes_color_shift = true ↔
      (flagOf s.light_switch_flgs "lighting_start_flg" = false
        ∧ flagOf s.light_switch_flgs "lighting_end_flg" = false
        ∧ flagOf s.light_switch_flgs "lighting_scene_change_flg" = false
        ∧ flagOf s.light_switch_flgs "palette_change_flg" = false
        ∧ flagOf s.light_switch_flgs "effect_change_flg" = false
        ∧ flagOf s.light_switch_flgs "color_shift_flg" = true) := by
  simp [takes_color_shift, and_assoc]

/-- A `light_switch_flag()` call that takes the colour-shift branch is the `seg_id` loop. -/
theorem light_switch_flag_of_shift (s : LightingSwitcher) (h : s.takes_color_shift = true) :
    s.light_switch_flag = (List.range s.segment_num.toNat).foldl color_shift_step (s, []) := by
  obtain ⟨h1, h2, h3, h4, h5, h6⟩ := (takes_color_shift_iff s).mp h
  simp [light_switch_flag, h1, h2, h3, h4, h5, h6]

/-- A `light_switch_flag()` call that does not take the colour-shift branch leaves the
stored colour indices and the constant tables alone. -/
theorem light_switch_flag_no_shift (s : LightingSwitcher) (h : s.takes_color_shift = false) :
    s.light_switch_flag.1.segment_color_ids = s.segment_color_ids
      ∧ s.light_switch_flag.1.effect_ids = s.effect_ids
      ∧ s.light_switch_flag.1.palette_ids = s.palette_ids
      ∧ s.light_switch_flag.1.json_name_list = s.json_name_list
      ∧ s.light_switch_flag.1.segment_num = s.segment_num := by
  unfold light_switch_flag
  split_ifs with h1 h2 h3 h4 h5 h6
  · exact ⟨rfl, rfl, rfl, rfl, rfl⟩
  · exact ⟨rfl, rfl, rfl, rfl, rfl⟩
  · exact ⟨rfl, rfl, rfl, rfl, rfl⟩
  · exact ⟨rfl, rfl, rfl, rfl, rfl⟩
  · exact ⟨rfl, rfl, rfl, rfl, rfl⟩
  · exfalso
    have : s.takes_color_shift = true := by
      rw [takes_color_shift_iff]
      simp_all
    rw [h] at this
    exact Bool.false_ne_true this
  · exact ⟨rfl, rfl, rfl, rfl, rfl⟩

theorem shifted_index_succ (k : Nat) :
    Int.tmod (shifted_index k + 1) 5 = shifted_index (k + 1) := by
  unfold shifted_index
  by_cases hk : k = 0
  · subst hk
    decide
  · rw [if_neg hk, if_neg (Nat.succ_ne_zero k)]
    rw [Int.tmod_eq_emod (by omega) (by norm_num)]
    push_cast
    omega

theorem shifted_index_succ_range (k : Nat) :
    0 ≤ shifted_index (k + 1) ∧ shifted_index (k + 1) ≤ 4
      ∧ shifted_index (k + 1) = (((k + 1 : Nat) : Int) - 1) % 5 := by
  unfold shifted_index
  rw [if_neg (Nat.succ_ne_zero k)]
  omega

/-- A colour shift on a switcher with `k` shifts behind it: the state has `k + 1` shifts
behind it. -/
theorem shift_shifted (s : LightingSwitcher) (k : Nat) (h : s.Shifted k)
    (hs : s.takes_color_shift = true) : s.light_switch_flag.1.Shifted (k + 1) := by
  obtain ⟨hv, hids⟩ := h
  obtain ⟨he, hp, hj, hn, hl⟩ := hv
  rw [light_switch_flag_of_shift s hs, hn, show (10 : Int).toNat = 10 from rfl]
  have hrows := color_shift_rows s hl
  obtain ⟨c1, c2, c3, c4⟩ := color_shift_loop_consts s 10
  refine ⟨⟨c1.trans he, c2.trans hp, c3.trans hj, c4.trans hn, ?_⟩, ?_⟩
  · rw [(color_shift_loop_rows s 10).1, hl]
  · rw [hrows, hids]
    simp only [List.map_replicate, shifted_index_succ]

/-- The commands of the colour-shift branch carry the rows stored by the call. -/
theorem color_shift_commands (s : LightingSwitcher) (hv : s.Valid)
    (hs : s.takes_color_shift = true) :
    s.light_switch_flag.2
      = (List.range 10).map (fun seg_id =>
          { address := "/scene/1/effect/" ++ toString s.current_effect_id ++ "/segment/"
              ++ toString (seg_id : Int) ++ "/color"
            data := .vec_int (s.light_switch_flag.1.segment_color_ids.getD seg_id []) }) := by
  obtain ⟨_, _, _, hn, _⟩ := hv
  rw [light_switch_flag_of_shift s hs, hn, show (10 : Int).toNat = 10 from rfl,
    (color_shift_loop s 10).2.1]
  apply List.map_congr_left
  intro seg_id hseg
  have hlt : seg_id < 10 := List.mem_range.mp hseg
  rw [(color_shift_loop_rows s 10).2 seg_id, if_pos hlt]
  rfl

theorem call_shifted (s : LightingSwitcher) (k : Nat) (h : s.Shifted k) (c : SwitcherCall) :
    (s.call c).1.Shifted (k + shiftCount s [c]) := by
  cases c with
  | update_genre g => exact h
  | update_tempo t => exact h
  | update_light_switch_flgs m => exact h
  | adopt_dimmer_time_to_tempo => exact h
  | light_switch_flag =>
    simp only [shiftCount, call, Nat.add_zero]
    by_cases hs : s.takes_color_shift = true
    · rw [if_pos hs]
      exact shift_shifted s k h hs
    · rw [if_neg hs, Nat.add_zero]
      have hs' : s.takes_color_shift = false := by simpa using hs
      obtain ⟨h1, h2, h3, h4, h5⟩ := light_switch_flag_no_shift s hs'
      obtain ⟨⟨he, hp, hj, hn, hl⟩, hids⟩ := h
      exact ⟨⟨h2.trans he, h3.trans hp, h4.trans hj, h5.trans hn, by rw [h1]; exact hl⟩,
        h1.trans hids⟩

theorem run_shifted (calls : List SwitcherCall) (s : LightingSwitcher) (k : Nat)
    (h : s.Shifted k) : (s.run calls).Shifted (k + shiftCount s calls) := by
  induction calls generalizing s k with
  | nil => exact h
  | cons c t ih =>
    have hstep := call_shifted s k h c
    have := ih (s.call c).1 _ hstep
    simp only [run, List.foldl_cons] at this ⊢
    have hcount : k + shiftCount s (c :: t)
        = k + shiftCount s [c] + shiftCount (s.call c).1 t := by
      simp only [shiftCount]
      omega
    rw [hcount]
    exact this

theorem new_shifted : new.Shifted 0 := ⟨by decide, rfl⟩

end LightingSwitcher

/-- Claim C20: on every `light_switch_flag()` call that takes the colour-shift branch (after
any sequence of calls on a fresh switcher), each stored colour index of every segment
becomes `(old + 1) mod 5`, and exactly one command
`/scene/1/effect/{current_effect_id}/segment/{s}/color` is emitted for each segment index
`s = 0..9` in ascending order, carrying the four new indices of `s`; when this is the
`k`-th colour shift since construction (`k ≥ 1`), every emitted index equals
`(k - 1) mod 5` and lies in `0..4`. -/
theorem color_shift_emits_shifted_indices (calls : List SwitcherCall)
    (hshift : (LightingSwitcher.new.run calls).takes_color_shift = true) :
    (LightingSwitcher.new.run calls).light_switch_flag.1.segment_color_ids
        = (LightingSwitcher.new.run calls).segment_color_ids.map
            (fun row => row.map (fun c => (c + 1) % 5))
    ∧ (∀ row ∈ (LightingSwitcher.new.run calls).segment_color_ids, row.length = 4)
    ∧ (LightingSwitcher.new.run calls).light_switch_flag.2
        = (List.range 10).map (fun seg_id =>
            { address := "/scene/1/effect/"
                ++ toString (LightingSwitcher.new.run calls).current_effect_id ++ "/segment/"
                ++ toString (seg_id : Int) ++ "/color"
              data := .vec_int ((LightingSwitcher.new.run calls).light_switch_flag.1
                |>.segment_color_ids.getD seg_id []) })
    ∧ (∀ seg_id, seg_id < 10 →
        (LightingSwitcher.new.run calls).light_switch_flag.1.segment_color_ids.getD seg_id []
          = List.replicate 4
              ((((LightingSwitcher.shiftCount LightingSwitcher.new calls + 1 : Nat) : Int) - 1)
                % 5))
    ∧ 0 ≤ (((LightingSwitcher.shiftCount LightingSwitcher.new calls + 1 : Nat) : Int) - 1) % 5
    ∧ (((LightingSwitcher.shiftCount LightingSwitcher.new calls + 1 : Nat) : Int) - 1) % 5
        ≤ 4 := by
  have hreach := LightingSwitcher.run_shifted calls LightingSwitcher.new 0
    LightingSwitcher.new_shifted
  rw [Nat.zero_add] at hreach
  generalize LightingSwitcher.new.run calls = s at hreach hshift ⊢
  generalize LightingSwitcher.shiftCount LightingSwitcher.new calls = k at hreach ⊢
  have hnext := LightingSwitcher.shift_shifted s k hreach hshift
  obtain ⟨hv, hids⟩ := hreach
  obtain ⟨_, hids'⟩ := hnext
  obtain ⟨hr0, hr4, hreq⟩ := LightingSwitcher.shifted_index_succ_range k
  have hcmd := LightingSwitcher.color_shift_commands s hv hshift
  refine ⟨?_, ?_, ?_, ?_, ?_, ?_⟩
  · rw [hids', hids]
    simp only [List.map_replicate]
    congr 2
    rw [← LightingSwitcher.shifted_index_succ k, Int.tmod_eq_emod _ (by norm_num)]
    unfold LightingSwitcher.shifted_index
    split_ifs <;> omega
  · intro row hrow
    rw [hids] at hrow
    rw [List.eq_of_mem_replicate hrow, List.length_replicate]
  · exact hcmd
  · intro seg_id hseg
    rw [hids', ← hreq, List.getD_eq_getElem?_getD, List.getElem?_replicate, if_pos hseg,
      Option.getD_some]
  · rw [← hreq]; exact hr0
  · rw [← hreq]; exact hr4

/-- Claim C20 on a switcher that has shifted colours twice (with an effect change to effect
2 in between): the third colour shift emits, for the segments 0..9 of effect 2, the four
indices `(3 - 1) mod 5 = 2`. -/
theorem color_shift_emits_shifted_indices_witness :
    (LightingSwitcher.new.run calls_two_shifts).takes_color_shift = true
    ∧ LightingSwitcher.shiftCount LightingSwitcher.new calls_two_shifts = 2
    ∧ (LightingSwitcher.new.run calls_two_shifts).light_switch_flag.2
        = (List.range 10).map (fun seg_id =>
            { address := "/scene/1/effect/2/segment/" ++ toString (seg_id : Int) ++ "/color"
              data := .vec_int [2, 2, 2, 2] })
    ∧ (∀ seg_id, seg_id < 10 →
        (LightingSwitcher.new.run calls_two_shifts).light_switch_flag.1.segment_color_ids.getD
            seg_id []
          = List.replicate 4
              ((((LightingSwitcher.shiftCount LightingSwitcher.new calls_two_shifts + 1 : Nat)
                : Int) - 1) % 5)) :=
  ⟨by decide, by decide, by decide,
   (color_shift_emits_shifted_indices calls_two_shifts (by decide)).2.2.2.1⟩

/-! ### Binary frame length -/

theorem led_bytes_length (color : List Int) : (led_bytes color).length = 4 := by
  unfold led_bytes
  split <;> rfl

theorem flatMap_led_bytes_length (l : List (List Int)) :
    (l.flatMap led_bytes).length = 4 * l.length := by
  induction l with
  | nil => rfl
  | cons c t ih =>
    rw [List.flatMap_cons, List.length_append, ih, led_bytes_length, List.length_cons]
    omega

theorem vector_slicing_length_le (vec : List (List Int)) (start n : Int) :
    ((vector_slicing vec start (start + n)).length : Int) ≤ max n 0 := by
  unfold vector_slicing
  simp only
  split_ifs <;> simp only [List.length_nil, List.length_take, List.length_drop] <;> omega

theorem vector_slicing_length_full (vec : List (List Int)) (start n : Int) (hs : 0 ≤ start)
    (hn : 0 ≤ n) (hfit : start + n ≤ (vec.length : Int)) :
    ((vector_slicing vec start (start + n)).length : Int) = n := by
  unfold vector_slicing
  simp only
  split_ifs <;> simp only [List.length_nil, List.length_take, List.length_drop] <;> omega

/-- The buffers `make_color_binary` produces for the two groups of the strip topology. -/
theorem make_color_binary_eq (colors : List (List Int)) :
    make_color_binary colors
      = [if group_slice colors 0 ≠ [] then (group_slice colors 0).flatMap led_bytes
          else [0, 0, 0, 0],
         if group_slice colors 1 ≠ [] then (group_slice colors 1).flatMap led_bytes
          else [0, 0, 0, 0]] := by
  rfl

/-- Claim C12 as stated fails: for the one-LED colour list `[[1, 2, 3]]`, group 0 of the
topology has `N = 205 > 0` LEDs but its buffer is 4 bytes long, not `4 * 205`. -/
theorem make_color_binary_short_list_counterexample :
    ¬ (∀ (colors : List (List Int)) (g : Nat) (N : Int),
        DEFAULT_LED_SEP_COUNT[g]? = some N → 0 < N →
          (((make_color_binary colors).getD g []).length : Int) = 4 * N) := by
  intro h
  have h0 := h [[1, 2, 3]] 0 205 (by decide) (by decide)
  revert h0
  decide

/-- Claim C12, amended: for every LED colour list and every group `g` of
`DEFAULT_LED_SEP_COUNT` with `N = sep_count[g]` LEDs, the buffer produced for `g` holds 4
bytes for every LED of the slice of the list that falls into the group (never more than
`N` LEDs), so it is exactly `4 * N` bytes long when `N > 0` and the list reaches the end of
the group; a group whose LED slice is empty gets exactly the 4-byte buffer `0, 0, 0, 0`. -/
theorem make_color_binary_group_length (colors : List (List Int)) (g : Nat) (N : Int)
    (hg : DEFAULT_LED_SEP_COUNT[g]? = some N) :
    (group_slice colors g ≠ [] →
        ((make_color_binary colors).getD g []).length = 4 * (group_slice colors g).length
        ∧ ((group_slice colors g).length : Int) ≤ N)
    ∧ (0 < N → group_offset g + N ≤ (colors.length : Int) →
        (((make_color_binary colors).getD g []).length : Int) = 4 * N)
    ∧ (group_slice colors g = [] → (make_color_binary colors).getD g [] = [0, 0, 0, 0]) := by
  have hcases : (g = 0 ∧ N = 205) ∨ (g = 1 ∧ N = 0) := by
    match g, hg with
    | 0, hg => left; exact ⟨rfl, by simpa [DEFAULT_LED_SEP_COUNT] using hg.symm⟩
    | 1, hg => right; exact ⟨rfl, by simpa [DEFAULT_LED_SEP_COUNT] using hg.symm⟩
    | n + 2, hg => simp [DEFAULT_LED_SEP_COUNT] at hg
  have hbuf : (make_color_binary colors).getD g []
      = if group_slice colors g ≠ [] then (group_slice colors g).flatMap led_bytes
        else [0, 0, 0, 0] := by
    rw [make_color_binary_eq]
    rcases hcases with ⟨h, _⟩ | ⟨h, _⟩ <;> subst h <;>
      simp only [List.getD_cons_zero, List.getD_cons_succ]
  have hN : vecAt DEFAULT_LED_SEP_COUNT g 0 = N := by
    rcases hcases with ⟨h1, h2⟩ | ⟨h1, h2⟩ <;> subst h1 <;> subst h2 <;> rfl
  have hoff : 0 ≤ group_offset g := by
    rcases hcases with ⟨h1, _⟩ | ⟨h1, _⟩ <;> subst h1 <;> decide
  have hle := vector_slicing_length_le colors (group_offset g) N
  refine ⟨?_, ?_, ?_⟩
  · intro hne
    rw [hbuf, if_pos hne, flatMap_led_bytes_length]
    refine ⟨rfl, ?_⟩
    have hpos : 0 < (group_slice colors g).length := List.length_pos.mpr hne
    unfold group_slice at hpos ⊢
    rw [hN] at hpos ⊢
    omega
  · intro hpos hfit
    have hfull := vector_slicing_length_full colors (group_offset g) N hoff (le_of_lt hpos) hfit
    have hne : group_slice colors g ≠ [] := by
      intro hnil
      unfold group_slice at hnil
      rw [hN] at hnil
      rw [hnil] at hfull
      simp at hfull
      omega
    rw [hbuf, if_pos hne, flatMap_led_bytes_length]
    unfold group_slice
    rw [hN]
    push_cast
    omega
  · intro hnil
    rw [hbuf, if_neg (by simpa using hnil)]

/-- Claim C12 (amended) at a 205-LED colour list: group 0 gets `4 * 205 = 820` bytes and
the empty group 1 gets the sentinel `0, 0, 0, 0`. -/
theorem make_color_binary_group_length_witness :
    DEFAULT_LED_SEP_COUNT[0]? = some 205 ∧ DEFAULT_LED_SEP_COUNT[1]? = some 0
    ∧ (((make_color_binary (List.replicate 205 [300, 20, -5])).getD 0 []).length : Int)
        = 4 * 205
    ∧ (make_color_binary (List.replicate 205 [300, 20, -5])).getD 1 [] = [0, 0, 0, 0]
    ∧ led_bytes [300, 20, -5] = [255, 20, 0, 0] :=
  ⟨by decide, by decide,
   (make_color_binary_group_length (List.replicate 205 [300, 20, -5]) 0 205 (by decide)).2.1
     (by decide) (by rw [List.length_replicate]; decide),
   (make_color_binary_group_length (List.replicate 205 [300, 20, -5]) 1 0 (by decide)).2.2
     (by unfold group_slice vector_slicing; simp only [List.length_replicate]; decide),
   by decide⟩

/-! ### Segment round trip -/

theorem LightSegment.to_dict_lookups (s : LightSegment) :
    mapFind "segment_ID" s.to_dict = some (.int s.segment_ID)
    ∧ mapFind "color" s.to_dict = some (.vec_int s.color)
    ∧ mapFind "transparency" s.to_dict = some (.vec_float s.transparency)
    ∧ mapFind "length" s.to_dict = some (.vec_int s.length)
    ∧ mapFind "move_speed" s.to_dict = some (.float s.move_speed)
    ∧ mapFind "move_range" s.to_dict = some (.vec_int s.move_range)
    ∧ mapFind "initial_position" s.to_dict = some (.int s.initial_position)
    ∧ mapFind "current_position" s.to_dict = some (.float s.current_position)
    ∧ mapFind "is_edge_reflect" s.to_dict = some (.bool s.is_edge_reflect)
    ∧ mapFind "dimmer_time" s.to_dict = some (.vec_int s.dimmer_time)
    ∧ mapFind "dimmer_time_ratio" s.to_dict = some (.float s.dimmer_time_ratio)
    ∧ mapFind "gradient" s.to_dict = some (.bool s.gradient)
    ∧ mapFind "fade" s.to_dict = some (.bool s.fade)
    ∧ mapFind "gradient_colors" s.to_dict = some (.vec_int s.gradient_colors) := by
  unfold LightSegment.to_dict
  simp (disch := decide) only [mapFind_mapSet_other, mapFind_mapSet_same, and_self]

theorem LightSegment.from_dict_to_dict_eq (cache : PaletteMap) (s : LightSegment) :
    LightSegment.from_dict cache s.to_dict = some (LightSegment.restored cache s) := by
  obtain ⟨h1, h2, h3, h4, h5, h6, h7, _, h9, h10, h11, h12, h13, h14⟩ := s.to_dict_lookups
  unfold LightSegment.from_dict LightSegment.dict_get LightSegment.dict_get_or
  rw [h1, h2, h3, h4, h5, h6, h7, h9, h10, h11, h12, h13, h14]
  rfl

theorem segment_S4_moved_time : segment_S4_moved.time = 1 / 60 := by
  decide!

/-- Claim C14 as stated fails: the segment of scenario S4 after one frame at 60 fps has
`time = 1/60`, while `from_dict` of its `to_dict` has `time = 0`, so the result is not the
segment with only `current_position` reset. -/
theorem from_dict_to_dict_time_counterexample :
    segment_S4_moved.time = 1 / 60
    ∧ (LightSegment.from_dict DEFAULT_COLOR_PALETTES segment_S4_moved.to_dict).map
        (fun r => r.time) = some 0
    ∧ LightSegment.from_dict DEFAULT_COLOR_PALETTES segment_S4_moved.to_dict
        ≠ some { segment_S4_moved with
                  current_position := (segment_S4_moved.initial_position : ℚ) } := by
  have ht := segment_S4_moved_time
  have hr := LightSegment.from_dict_to_dict_eq DEFAULT_COLOR_PALETTES segment_S4_moved
  refine ⟨ht, ?_, ?_⟩
  · rw [hr]
    rfl
  · rw [hr]
    intro h
    have h2 := congrArg (fun o : Option LightSegment => o.map (fun r => r.time)) h
    simp only [Option.map_some', LightSegment.restored] at h2
    rw [ht] at h2
    revert h2
    norm_num

/-- Claim C14, amended: for every LightSegment `s`, `from_dict(s.to_dict())` returns a
segment that equals `s` on the serialized members `segment_ID`, `color`, `transparency`,
`length`, `move_speed`, `initial_position`, `is_edge_reflect`, `dimmer_time`,
`dimmer_time_ratio`, `gradient`, `fade` and `gradient_colors`; its `current_position` is
`initial_position`; its `move_range` is that of `s` with the first two entries ordered
(equal to that of `s` when it has fewer than two entries or is an ordered pair); and the
members that are not serialized are rebuilt by the constructor: `time` is 0, `direction`
is the sign of `move_speed`, `rgb_color` is recomputed from `color` against palette `A`
without a scene, `total_length` is the sum of `length`, and the scene reference is unset. -/
theorem from_dict_to_dict_round_trip (cache : PaletteMap) (s : LightSegment) :
    ∃ r, LightSegment.from_dict cache s.to_dict = some r
      ∧ r.segment_ID = s.segment_ID ∧ r.color = s.color ∧ r.transparency = s.transparency
      ∧ r.length = s.length ∧ r.move_speed = s.move_speed
      ∧ r.initial_position = s.initial_position ∧ r.is_edge_reflect = s.is_edge_reflect
      ∧ r.dimmer_time = s.dimmer_time ∧ r.dimmer_time_ratio = s.dimmer_time_ratio
      ∧ r.gradient = s.gradient ∧ r.fade = s.fade ∧ r.gradient_colors = s.gradient_colors
      ∧ r.current_position = (s.initial_position : ℚ)
      ∧ r.move_range = LightSegment.ordered_range s.move_range
      ∧ (s.move_range.length < 2
          ∨ (s.move_range.length = 2 ∧ vecAt s.move_range 0 0 ≤ vecAt s.move_range 1 0) →
          r.move_range = s.move_range)
      ∧ r.time = 0
      ∧ r.direction = (if 0 ≤ s.move_speed then 1 else -1)
      ∧ r.rgb_color = { s with scene := none }.calculate_rgb cache (fun _ => []) "A"
      ∧ r.total_length = s.length.sum
      ∧ r.scene = none := by
  refine ⟨LightSegment.restored cache s, LightSegment.from_dict_to_dict_eq cache s,
    rfl, rfl, rfl, rfl, rfl, rfl, rfl, rfl, rfl, rfl, rfl, rfl, rfl, rfl, ?_,
    rfl, rfl, rfl, rfl, rfl⟩
  intro h
  show LightSegment.ordered_range s.move_range = s.move_range
  unfold LightSegment.ordered_range
  rcases h with h | ⟨h2, hle⟩
  · rw [if_neg (by omega)]
  · rw [if_pos (by omega)]
    match hm : s.move_range, h2 with
    | [a, b], _ =>
      rw [hm] at hle
      have hab : a ≤ b := by simpa [vecAt] using hle
      simp [vecAt, hab]

/-! ### Scene invariant -/

theorem mapFind_mapErase_other {κ β : Type} [DecidableEq κ] (k c : κ) (m : List (κ × β))
    (hne : c ≠ k) : mapFind c (mapErase k m) = mapFind c m := by
  induction m with
  | nil => rfl
  | cons e t ih =>
    obtain ⟨k', v'⟩ := e
    unfold mapErase
    by_cases h1 : k' = k
    · have h2 : k' ≠ c := by rw [h1]; exact fun h => hne h.symm
      rw [if_pos h1]
      show mapFind c t = if k' = c then some v' else mapFind c t
      rw [if_neg h2]
    · rw [if_neg h1]
      show (if k' = c then some v' else mapFind c (mapErase k t))
        = if k' = c then some v' else mapFind c t
      rw [ih]

theorem mapErase_sublist {κ β : Type} [DecidableEq κ] (k : κ) (m : List (κ × β)) :
    (mapErase k m).Sublist m := by
  induction m with
  | nil => exact List.Sublist.refl _
  | cons e t ih =>
    obtain ⟨k', v'⟩ := e
    unfold mapErase
    split_ifs
    · exact List.sublist_cons_self _ _
    · exact ih.cons₂ _

theorem mapFind_map_isSome {κ β γ : Type} [DecidableEq κ] (f : κ × β → γ) (k : κ)
    (m : List (κ × β)) :
    (mapFind k (m.map fun p => (p.1, f p))).isSome = (mapFind k m).isSome := by
  induction m with
  | nil => rfl
  | cons e t ih =>
    obtain ⟨k', v'⟩ := e
    simp only [List.map_cons, mapFind]
    split_ifs
    · rfl
    · exact ih

theorem map_fst_map {κ β γ : Type} (f : κ × β → γ) (m : List (κ × β)) :
    (m.map fun p => (p.1, f p)).map Prod.fst = m.map Prod.fst := by
  simp [List.map_map, Function.comp_def]

theorem mapFind_isSome_iff_mem {κ β : Type} [DecidableEq κ] (k : κ) (m : List (κ × β)) :
    (mapFind k m).isSome = true ↔ k ∈ m.map Prod.fst := by
  induction m with
  | nil => simp [mapFind]
  | cons e t ih =>
    obtain ⟨k', v'⟩ := e
    simp only [mapFind, List.map_cons, List.mem_cons]
    split_ifs with h
    · simp [h]
    · rw [ih]
      constructor
      · exact Or.inr
      · rintro (h2 | h2)
        · exact absurd h2.symm h
        · exact h2

theorem mapSet_keys_sorted (k : Int) {β : Type} (v : β) (m : List (Int × β))
    (hs : (m.map Prod.fst).Pairwise (fun a b => a < b)) :
    ((mapSet k v m).map Prod.fst).Pairwise (fun a b => a < b)
    ∧ ∀ x ∈ (mapSet k v m).map Prod.fst, x = k ∨ x ∈ m.map Prod.fst := by
  induction m with
  | nil => simp [mapSet]
  | cons e t ih =>
    obtain ⟨k', v'⟩ := e
    simp only [List.map_cons, List.pairwise_cons] at hs
    obtain ⟨hhead, htail⟩ := hs
    obtain ⟨ih1, ih2⟩ := ih htail
    unfold mapSet
    by_cases h1 : k' = k
    · subst h1
      simp only [if_true, List.map_cons, List.pairwise_cons, List.mem_cons]
      exact ⟨⟨hhead, htail⟩, fun x hx => hx.imp_right Or.inr |>.elim Or.inl (fun h => Or.inr h)⟩
    · simp only [h1, if_false]
      by_cases h2 : MapKey.klt k k' = true
      · have hlt : k < k' := by simpa [MapKey.klt] using h2
        rw [if_pos h2]
        simp only [List.map_cons, List.pairwise_cons, List.mem_cons]
        refine ⟨⟨?_, hhead, htail⟩, ?_⟩
        · rintro x (hx | hx)
          · rw [hx]; exact hlt
          · exact lt_trans hlt (hhead x hx)
        · rintro x (hx | hx | hx)
          · exact Or.inl hx
          · exact Or.inr (Or.inl hx)
          · exact Or.inr (Or.inr hx)
      · have hge : ¬ k < k' := by simpa [MapKey.klt] using h2
        rw [if_neg h2]
        simp only [List.map_cons, List.pairwise_cons, List.mem_cons]
        refine ⟨⟨?_, ih1⟩, ?_⟩
        · intro x hx
          rcases ih2 x hx with hx | hx
          · rw [hx]; omega
          · exact hhead x hx
        · rintro x (hx | hx)
          · exact Or.inr (Or.inl hx)
          · exact (ih2 x hx).imp_right Or.inr

theorem mapFind_mapErase_same {β : Type} (k : Int) (m : List (Int × β))
    (hs : (m.map Prod.fst).Pairwise (fun a b => a < b)) : mapFind k (mapErase k m) = none := by
  induction m with
  | nil => rfl
  | cons e t ih =>
    obtain ⟨k', v'⟩ := e
    simp only [List.map_cons, List.pairwise_cons] at hs
    unfold mapErase
    by_cases h1 : k' = k
    · rw [if_pos h1]
      cases hf : mapFind k t with
      | none => rfl
      | some v =>
        have hmem : k ∈ t.map Prod.fst := by
          rw [← mapFind_isSome_iff_mem, hf]
          rfl
        have := hs.1 k hmem
        omega
    · rw [if_neg h1]
      show (if k' = k then some v' else mapFind k (mapErase k t)) = none
      rw [if_neg h1]
      exact ih hs.2

theorem mapFirstKey_least {β : Type} (m : List (Int × β))
    (hs : (m.map Prod.fst).Pairwise (fun a b => a < b)) (c : Int)
    (hc : mapFirstKey m = some c) :
    (mapFind c m).isSome = true ∧ ∀ k, (mapFind k m).isSome = true → c ≤ k := by
  match m, hs, hc with
  | (k0, v0) :: t, hs, hc =>
    simp only [mapFirstKey, Option.some.injEq] at hc
    subst hc
    simp only [List.map_cons, List.pairwise_cons] at hs
    refine ⟨by simp [mapFind], fun k hk => ?_⟩
    rw [mapFind_isSome_iff_mem] at hk
    simp only [List.map_cons, List.mem_cons] at hk
    rcases hk with hk | hk
    · omega
    · exact le_of_lt (hs.1 k hk)

namespace LightScene

theorem WellFormed.of_eq {s t : LightScene} (h : s.WellFormed) (he : t.effects = s.effects)
    (hc : t.current_effect_ID = s.current_effect_ID) : t.WellFormed := by
  unfold WellFormed at h ⊢
  rw [he, hc]
  exact h

theorem new_wellFormed (scene_ID : Int) : (LightScene.new scene_ID).WellFormed := by
  refine ⟨List.Pairwise.nil, fun c hc => ?_⟩
  simp [LightScene.new] at hc

theorem add_effect_wellFormed (s : LightScene) (h : s.WellFormed) (effect_ID : Int)
    (effect : LightEffect) : (s.add_effect effect_ID effect).WellFormed := by
  obtain ⟨hs, hc⟩ := h
  refine ⟨(mapSet_keys_sorted effect_ID _ s.effects hs).1, fun c hcur => ?_⟩
  show (mapFind c (mapSet effect_ID _ s.effects)).isSome = true
  by_cases hk : effect_ID = c
  · subst hk
    rw [mapFind_mapSet_same]
    rfl
  · rw [mapFind_mapSet_other _ _ _ _ hk]
    apply hc
    unfold add_effect at hcur
    dsimp only at hcur
    cases hcs : s.current_effect_ID with
    | none =>
      rw [hcs] at hcur
      exact absurd (Option.some.inj hcur) hk
    | some c0 =>
      rw [hcs] at hcur
      exact hcur

theorem remove_effect_wellFormed (s : LightScene) (h : s.WellFormed) (effect_ID : Int) :
    (s.remove_effect effect_ID).WellFormed := by
  obtain ⟨hs, hc⟩ := h
  have hsorted : ((mapErase effect_ID s.effects).map Prod.fst).Pairwise (fun a b => a < b) :=
    hs.sublist ((mapErase_sublist effect_ID s.effects).map Prod.fst)
  unfold remove_effect
  split_ifs with hfound hcur
  · exact ⟨hsorted, fun c hc2 => (mapFirstKey_least _ hsorted c hc2).1⟩
  · refine ⟨hsorted, fun c hc2 => ?_⟩
    have hc3 : s.current_effect_ID = some c := hc2
    have hne : c ≠ effect_ID := by
      intro heq
      rw [hc3, heq] at hcur
      exact hcur rfl
    show (mapFind c (mapErase effect_ID s.effects)).isSome = true
    rw [mapFind_mapErase_other _ _ _ hne]
    exact hc c hc3
  · exact ⟨hs, hc⟩

theorem switch_effect_wellFormed (s : LightScene) (h : s.WellFormed) (effect_ID : Int) :
    (s.switch_effect effect_ID).WellFormed := by
  unfold switch_effect
  split_ifs with hfound
  · refine ⟨h.1, fun c hc => ?_⟩
    have : effect_ID = c := Option.some.inj hc
    rw [← this]
    exact hfound
  · exact h

theorem set_palette_wellFormed (s : LightScene) (h : s.WellFormed) (palette_id : String) :
    (s.set_palette palette_id).WellFormed := by
  unfold set_palette
  split_ifs
  · obtain ⟨hs, hc⟩ := h
    refine ⟨?_, fun c hc2 => ?_⟩
    · show ((s.effects.map fun p => (p.1, p.2.set_palette palette_id)).map Prod.fst).Pairwise _
      rw [map_fst_map (fun p : Int × LightEffect => p.2.set_palette palette_id)]
      exact hs
    · show (mapFind c (s.effects.map fun p => (p.1, p.2.set_palette palette_id))).isSome = true
      rw [mapFind_map_isSome (fun p : Int × LightEffect => p.2.set_palette palette_id)]
      exact hc c hc2
  · exact h

theorem update_palette_wellFormed (s : LightScene) (h : s.WellFormed) (palette_id : String)
    (colors : ColorPalette) : (s.update_palette palette_id colors).WellFormed := by
  unfold update_palette
  dsimp only
  split_ifs
  · (apply set_palette_wellFormed; exact h.of_eq rfl rfl)
  · exact h.of_eq rfl rfl
  · exact h

theorem update_all_palettes_wellFormed (s : LightScene) (h : s.WellFormed)
    (new_palettes : PaletteMap) : (s.update_all_palettes new_palettes).WellFormed := by
  unfold update_all_palettes
  dsimp only
  split_ifs
  · (apply set_palette_wellFormed; exact h.of_eq rfl rfl)
  · cases mapFirstKey new_palettes with
    | none => exact h.of_eq rfl rfl
    | some k => (apply set_palette_wellFormed; exact h.of_eq rfl rfl)

theorem update_effect_transition_wellFormed (s : LightScene) (h : s.WellFormed) :
    s.update_effect_transition.WellFormed := by
  have hadv : s.advance_timer.WellFormed := by
    unfold advance_timer
    cases s.current_effect with
    | none => exact h
    | some e => exact h.of_eq rfl rfl
  unfold update_effect_transition
  dsimp only
  split_ifs
  · cases hn : s.advance_timer.next_effect_idx with
    | none => exact hadv.of_eq rfl rfl
    | some n =>
      dsimp only
      split_ifs
      · exact (switch_effect_wellFormed _ hadv n).of_eq rfl rfl
      · exact hadv.of_eq rfl rfl
  · exact hadv
  · exact h

theorem update_palette_transition_wellFormed (s : LightScene) (h : s.WellFormed) :
    s.update_palette_transition.WellFormed := by
  have hadv : s.advance_timer.WellFormed := by
    unfold advance_timer
    cases s.current_effect with
    | none => exact h
    | some e => exact h.of_eq rfl rfl
  unfold update_palette_transition
  dsimp only
  split_ifs
  · cases hn : s.advance_timer.next_palette_idx with
    | none => exact hadv.of_eq rfl rfl
    | some p => exact (set_palette_wellFormed _ hadv p).of_eq rfl rfl
  · exact hadv
  · exact h

theorem update_current_effect_wellFormed (s : LightScene) (h : s.WellFormed) :
    s.update_current_effect.WellFormed := by
  unfold update_current_effect
  cases hc : s.current_effect_ID with
  | none => exact h
  | some c =>
    dsimp only
    cases he : mapFind c s.effects with
    | none => exact h
    | some e =>
      dsimp only
      refine ⟨(mapSet_keys_sorted c _ s.effects h.1).1, fun c2 hc2 => ?_⟩
      have h4 : c = c2 := Option.some.inj hc2
      subst h4
      show (mapFind c (mapSet c e.update_all s.effects)).isSome = true
      rw [mapFind_mapSet_same]
      rfl

theorem update_wellFormed (s : LightScene) (h : s.WellFormed) : s.update.WellFormed :=
  update_current_effect_wellFormed _
    (update_palette_transition_wellFormed _ (update_effect_transition_wellFormed _ h))

theorem apply_wellFormed (s : LightScene) (h : s.WellFormed) (op : SceneOp) :
    (s.apply op).WellFormed := by
  cases op with
  | add_effect effect_ID effect => exact add_effect_wellFormed s h effect_ID effect
  | remove_effect effect_ID => exact remove_effect_wellFormed s h effect_ID
  | switch_effect effect_ID => exact switch_effect_wellFormed s h effect_ID
  | set_palette palette_id => exact set_palette_wellFormed s h palette_id
  | update_palette palette_id colors => exact update_palette_wellFormed s h palette_id colors
  | update_all_palettes new_palettes => exact update_all_palettes_wellFormed s h new_palettes
  | set_transition_params e p fade_in fade_out => exact h.of_eq rfl rfl
  | update => exact update_wellFormed s h

theorem run_wellFormed (ops : List SceneOp) (s : LightScene) (h : s.WellFormed) :
    (s.run ops).WellFormed := by
  induction ops generalizing s with
  | nil => exact h
  | cons op t ih => exact ih _ (apply_wellFormed s h op)

end LightScene

/-- Claim C19: in every scene reached from a freshly constructed `LightScene` by any
sequence of `add_effect`, `remove_effect`, `switch_effect`, `set_palette`, `update_palette`,
`update_all_palettes`, `set_transition_params` and `update` calls, a set `current_effect_ID`
is a key of `effects`; `remove_effect` of the current effect leaves `current_effect_ID`
unset when no effect remains and otherwise at a remaining key that is the smallest one; and
`switch_effect` to an id that is not a key changes nothing. -/
theorem scene_current_effect_is_key (scene_ID : Int) (ops : List SceneOp) :
    (∀ c, ((LightScene.new scene_ID).run ops).current_effect_ID = some c →
        (mapFind c ((LightScene.new scene_ID).run ops).effects).isSome = true)
    ∧ (∀ c, ((LightScene.new scene_ID).run ops).current_effect_ID = some c →
        ((((LightScene.new scene_ID).run ops).remove_effect c).effects = [] →
          (((LightScene.new scene_ID).run ops).remove_effect c).current_effect_ID = none)
        ∧ (mapFind c (((LightScene.new scene_ID).run ops).remove_effect c).effects) = none
        ∧ ∀ d, (((LightScene.new scene_ID).run ops).remove_effect c).current_effect_ID = some d →
            (mapFind d (((LightScene.new scene_ID).run ops).remove_effect c).effects).isSome
              = true
            ∧ ∀ k, (mapFind k
                (((LightScene.new scene_ID).run ops).remove_effect c).effects).isSome = true →
              d ≤ k)
    ∧ (∀ effect_ID, mapFind effect_ID ((LightScene.new scene_ID).run ops).effects = none →
        ((LightScene.new scene_ID).run ops).switch_effect effect_ID
          = (LightScene.new scene_ID).run ops) := by
  have hw := LightScene.run_wellFormed ops _ (LightScene.new_wellFormed scene_ID)
  generalize (LightScene.new scene_ID).run ops = s at hw
  refine ⟨hw.2, fun c hc => ?_, fun effect_ID hnone => ?_⟩
  · have hfound : (mapFind c s.effects).isSome = true := hw.2 c hc
    have hrem : s.remove_effect c
        = { s with effects := mapErase c s.effects
                   current_effect_ID := mapFirstKey (mapErase c s.effects) } := by
      unfold LightScene.remove_effect
      rw [if_pos hfound, if_pos hc]
    have hsorted : ((mapErase c s.effects).map Prod.fst).Pairwise (fun a b => a < b) :=
      hw.1.sublist ((mapErase_sublist c s.effects).map Prod.fst)
    rw [hrem]
    refine ⟨fun hnil => ?_, ?_, fun d hd => mapFirstKey_least _ hsorted d hd⟩
    · show mapFirstKey (mapErase c s.effects) = none
      have hnil2 : mapErase c s.effects = [] := hnil
      rw [hnil2]
      rfl
    · show mapFind c (mapErase c s.effects) = none
      exact mapFind_mapErase_same c s.effects hw.1
  · unfold LightScene.switch_effect
    rw [hnone]
    rfl

/-! ### Transition closure -/

namespace LightScene

theorem mapFind_mapSet_isSome {β : Type} (e c : Int) (v : β) (m : List (Int × β))
    (h : (mapFind e m).isSome = true) : (mapFind e (mapSet c v m)).isSome = true := by
  by_cases hk : c = e
  · subst hk
    rw [mapFind_mapSet_same]
    rfl
  · rw [mapFind_mapSet_other _ _ _ _ hk]
    exact h

theorem update_current_effect_eq (s : LightScene) (c : Int) (eff : LightEffect)
    (hc : s.current_effect_ID = some c) (hfind : mapFind c s.effects = some eff) :
    s.update_current_effect = { s with effects := mapSet c eff.update_all s.effects } := by
  unfold update_current_effect
  rw [hc]
  dsimp only
  rw [hfind]

theorem pending_continue (s : LightScene) (e c F : Int) (fade_in fade_out t : ℚ)
    (h : s.Pending e c F fade_in fade_out t)
    (hlt : f32 (t + timer_step F) < f32 (fade_out + fade_in)) :
    s.update.Pending e c F fade_in fade_out (f32 (t + timer_step F)) := by
  obtain ⟨ha, hp, hn, hfi, hfo, ht, hc, ⟨eff, hfind, hfps⟩, hekey⟩ := h
  have hcur : s.current_effect = some eff := by
    unfold current_effect
    rw [hc]
    exact hfind
  have hadv : s.advance_timer
      = { s with transition_start_time := f32 (t + timer_step F) } := by
    unfold advance_timer timer_step
    rw [hcur]
    dsimp only
    rw [ht, hfps]
  have h1 : s.update_effect_transition
      = { s with transition_start_time := f32 (t + timer_step F) } := by
    unfold update_effect_transition
    rw [if_pos ha, hadv]
    dsimp only
    rw [hfi, hfo, if_neg (not_le.mpr hlt)]
  have h2 : s.update_effect_transition.update_palette_transition
      = { s with transition_start_time := f32 (t + timer_step F) } := by
    rw [h1]
    unfold update_palette_transition
    dsimp only
    rw [hp]
    rfl
  unfold update
  rw [h2]
  have h3 := update_current_effect_eq { s with transition_start_time := f32 (t + timer_step F) }
    c eff hc hfind
  rw [h3]
  refine ⟨ha, hp, hn, hfi, hfo, rfl, hc, ⟨eff.update_all, ?_, hfps⟩, ?_⟩
  · exact mapFind_mapSet_same c _ s.effects
  · exact mapFind_mapSet_isSome e c _ s.effects hekey

theorem pending_complete (s : LightScene) (e c F : Int) (fade_in fade_out t : ℚ)
    (h : s.Pending e c F fade_in fade_out t)
    (hge : f32 (fade_out + fade_in) ≤ f32 (t + timer_step F)) :
    s.update.Completed e := by
  obtain ⟨ha, hp, hn, hfi, hfo, ht, hc, ⟨eff, hfind, hfps⟩, hekey⟩ := h
  have hcur : s.current_effect = some eff := by
    unfold current_effect
    rw [hc]
    exact hfind
  have hadv : s.advance_timer
      = { s with transition_start_time := f32 (t + timer_step F) } := by
    unfold advance_timer timer_step
    rw [hcur]
    dsimp only
    rw [ht, hfps]
  have h1 : s.update_effect_transition
      = { s with
          current_effect_ID := some e
          effect_transition_active := false
          next_effect_idx := none
          transition_start_time := 0 } := by
    unfold update_effect_transition
    rw [if_pos ha, hadv]
    dsimp only
    rw [hfi, hfo, if_pos hge, hn]
    dsimp only
    rw [hekey]
    unfold switch_effect
    dsimp only
    rw [hekey]
    rfl
  have h2 : s.update_effect_transition.update_palette_transition
      = s.update_effect_transition := by
    rw [h1]
    unfold update_palette_transition
    dsimp only
    rw [hp]
    rfl
  unfold update
  rw [h2, h1]
  obtain ⟨eff2, hfind2⟩ := Option.isSome_iff_exists.mp hekey
  have h3 := update_current_effect_eq
    { s with
      current_effect_ID := some e
      effect_transition_active := false
      next_effect_idx := none
      transition_start_time := 0 } e eff2 rfl hfind2
  rw [h3]
  exact ⟨rfl, hp, rfl⟩

theorem completed_update (s : LightScene) (e : Int) (h : s.Completed e) :
    s.update.Completed e := by
  obtain ⟨ha, hp, hc⟩ := h
  have h1 : s.update_effect_transition = s := by
    unfold update_effect_transition
    rw [ha]
    rfl
  have h2 : s.update_palette_transition = s := by
    unfold update_palette_transition
    rw [hp]
    rfl
  unfold update
  rw [h1, h2]
  unfold update_current_effect
  rw [hc]
  dsimp only
  cases mapFind e s.effects with
  | none => exact ⟨ha, hp, hc⟩
  | some eff => exact ⟨ha, hp, rfl⟩

end LightScene

namespace LightScene

theorem set_transition_params_pending (s0 : LightScene) (e c : Int) (fade_in fade_out : ℚ)
    (eff : LightEffect) (hcur : s0.current_effect_ID = some c)
    (heff : mapFind c s0.effects = some eff) (he : (mapFind e s0.effects).isSome = true) :
    (s0.set_transition_params (some e) none fade_in fade_out).Pending e c eff.fps
      fade_in fade_out 0 :=
  ⟨rfl, rfl, rfl, rfl, rfl, rfl, hcur, ⟨eff, heff, rfl⟩, he⟩

/-- While the timer stays below the threshold the transition stays pending, and the timer
of the scene is the binary32 accumulation `timer_after`. -/
theorem updates_pending (s : LightScene) (e c F : Int) (fade_in fade_out : ℚ)
    (h : s.Pending e c F fade_in fade_out 0) (k : Nat)
    (hk : ∀ j : Nat, j < k → timer_after F (j + 1) < f32 (fade_out + fade_in)) :
    (s.updates k).Pending e c F fade_in fade_out (timer_after F k) := by
  induction k with
  | zero => exact h
  | succ k ih =>
    have ih2 := ih (fun j hj => hk j (by omega))
    exact pending_continue _ e c F fade_in fade_out _ ih2 (hk k (by omega))

theorem updates_completed (s : LightScene) (e c F : Int) (fade_in fade_out : ℚ)
    (h : s.Pending e c F fade_in fade_out 0) (m : Nat)
    (hbelow : ∀ j : Nat, j < m → timer_after F (j + 1) < f32 (fade_out + fade_in))
    (hreach : f32 (fade_out + fade_in) ≤ timer_after F (m + 1)) (k : Nat) (hk : m < k) :
    (s.updates k).Completed e := by
  induction k with
  | zero => omega
  | succ k ih =>
    by_cases hprev : m < k
    · exact completed_update _ e (ih hprev)
    · have hkm : k = m := by omega
      subst hkm
      have hpend := updates_pending s e c F fade_in fade_out h k hbelow
      exact pending_complete _ e c F fade_in fade_out _ hpend hreach

/-- At the frame rate `2 ^ 30` the timer counts in steps of `2 ^ -30` up to `2 ^ -6` and
stays there: the sum `2 ^ -6 + 2 ^ -30` lies halfway between two `float`s and rounds back
to `2 ^ -6`. -/
theorem timer_after_fast_clock (k : Nat) :
    ∃ j : Nat, j ≤ 2 ^ 24 ∧ timer_after (2 ^ 30) k = (j : ℚ) * pow2 (-30) := by
  have hstep : timer_step (2 ^ 30) = pow2 (-30) := by decide!
  induction k with
  | zero => exact ⟨0, by norm_num, by simp [timer_after]⟩
  | succ k ih =>
    obtain ⟨j, hj, ht⟩ := ih
    show ∃ j : Nat, j ≤ 2 ^ 24 ∧ f32 (timer_after (2 ^ 30) k + timer_step (2 ^ 30)) = _
    rw [ht, hstep]
    by_cases hlt : j + 1 < 2 ^ 24
    · refine ⟨j + 1, by omega, ?_⟩
      have hsum : (j : ℚ) * pow2 (-30) + pow2 (-30) = (((j + 1 : Nat) : Int) : ℚ) * pow2 (-30) := by
        push_cast
        ring
      rw [hsum]
      have := fround_scaled_int 24 (-126) (((j + 1 : Nat) : Int)) (-30) (by omega) (by decide)
      simpa [f32] using this
    · by_cases heq : j + 1 = 2 ^ 24
      · refine ⟨j + 1, by omega, ?_⟩
        have hj2 : j = 2 ^ 24 - 1 := by omega
        subst hj2
        decide!
      · refine ⟨j, hj, ?_⟩
        have hj2 : j = 2 ^ 24 := by omega
        subst hj2
        decide!

/-- The `float` quotient `1.0f / fps` is at least `(1 / F) (1 - 2 ^ -24)` for a frame rate
`0 < F < 2 ^ 24`. -/
theorem timer_step_lower (F : Int) (hF : 0 < F) (hF2 : F < 2 ^ 24) :
    1 / (F : ℚ) * (1 - 1 / 2 ^ 24) ≤ timer_step F ∧ pow2 (-126) ≤ timer_step F := by
  have hFq : (0 : ℚ) < (F : ℚ) := by exact_mod_cast hF
  have hFq2 : (F : ℚ) ≤ 2 ^ 24 := by exact_mod_cast hF2.le
  have hinv : (1 : ℚ) / 2 ^ 24 ≤ 1 / (F : ℚ) := one_div_le_one_div_of_le hFq hFq2
  have h126 : pow2 (-126) ≤ 1 / 2 ^ 25 := by decide!
  have hstep : timer_step F = f32 (1 / (F : ℚ)) := by
    unfold timer_step
    rw [f32_intCast F (by omega)]
  have h1 : 1 / (F : ℚ) * (1 - 1 / 2 ^ 24) ≤ timer_step F := by
    rw [hstep]
    exact f32_rel_lower _ (le_trans h126 (le_trans (by norm_num) hinv))
  refine ⟨h1, le_trans h126 (le_trans ?_ h1)⟩
  calc (1 : ℚ) / 2 ^ 25 = 1 / 2 ^ 24 * (1 / 2) := by norm_num
    _ ≤ 1 / (F : ℚ) * (1 - 1 / 2 ^ 24) :=
        mul_le_mul hinv (by norm_num) (by norm_num) (by positivity)

/-- The accumulated `float` timer falls behind the exact time `n / F` by a relative error
of at most `(n + 1) 2 ^ -24`. -/
theorem timer_after_lower (F : Int) (hF : 0 < F) (hF2 : F < 2 ^ 24) (n : Nat) :
    (n : ℚ) * (1 / (F : ℚ) * (1 - 1 / 2 ^ 24)) * (1 - 1 / 2 ^ 24) ^ n ≤ timer_after F n := by
  obtain ⟨hs, hs126⟩ := timer_step_lower F hF hF2
  have hFq : (0 : ℚ) < (F : ℚ) := by exact_mod_cast hF
  have hslo : (0 : ℚ) ≤ 1 / (F : ℚ) * (1 - 1 / 2 ^ 24) := by
    apply mul_nonneg (by positivity) (by norm_num)
  have hε0 : (0 : ℚ) ≤ 1 - 1 / 2 ^ 24 := by norm_num
  have hε1 : (1 : ℚ) - 1 / 2 ^ 24 ≤ 1 := by norm_num
  induction n with
  | zero => simp [timer_after]
  | succ n ih =>
    have hpow0 : (0 : ℚ) ≤ (1 - 1 / 2 ^ 24) ^ n := pow_nonneg hε0 n
    have hpow1 : ((1 : ℚ) - 1 / 2 ^ 24) ^ n ≤ 1 := pow_le_one₀ hε0 hε1
    have ht0 : 0 ≤ timer_after F n :=
      le_trans (mul_nonneg (mul_nonneg (by positivity) hslo) hpow0) ih
    have hsum : pow2 (-126) ≤ timer_after F n + timer_step F := by linarith
    have hround := f32_rel_lower _ hsum
    show _ ≤ f32 (timer_after F n + timer_step F)
    refine le_trans ?_ hround
    have h1 : ((n : ℚ) + 1) * (1 / (F : ℚ) * (1 - 1 / 2 ^ 24)) * (1 - 1 / 2 ^ 24) ^ n
        ≤ timer_after F n + timer_step F := by
      have h2 : 1 / (F : ℚ) * (1 - 1 / 2 ^ 24) * (1 - 1 / 2 ^ 24) ^ n
          ≤ 1 / (F : ℚ) * (1 - 1 / 2 ^ 24) := by
        calc _ ≤ 1 / (F : ℚ) * (1 - 1 / 2 ^ 24) * 1 :=
              mul_le_mul_of_nonneg_left hpow1 hslo
          _ = _ := by ring
      have h3 : ((n : ℚ) + 1) * (1 / (F : ℚ) * (1 - 1 / 2 ^ 24)) * (1 - 1 / 2 ^ 24) ^ n
          = (n : ℚ) * (1 / (F : ℚ) * (1 - 1 / 2 ^ 24)) * (1 - 1 / 2 ^ 24) ^ n
            + 1 / (F : ℚ) * (1 - 1 / 2 ^ 24) * (1 - 1 / 2 ^ 24) ^ n := by ring
      rw [h3]
      linarith
    calc ((n + 1 : Nat) : ℚ) * (1 / (F : ℚ) * (1 - 1 / 2 ^ 24)) * (1 - 1 / 2 ^ 24) ^ (n + 1)
        = (((n : ℚ) + 1) * (1 / (F : ℚ) * (1 - 1 / 2 ^ 24)) * (1 - 1 / 2 ^ 24) ^ n)
            * (1 - 1 / 2 ^ 24) := by
          push_cast
          ring
      _ ≤ (timer_after F n + timer_step F) * (1 - 1 / 2 ^ 24) :=
          mul_le_mul_of_nonneg_right h1 hε0

/-- For `0 < F < 2 ^ 24` and `0 ≤ T` with `T F ≤ 4000`, the `float` timer has reached the
`float` threshold after `⌈T F⌉ + 1` additions. -/
theorem timer_reaches (F : Int) (T : ℚ) (hF : 0 < F) (hF2 : F < 2 ^ 24) (hT : 0 ≤ T)
    (hTF : T * (F : ℚ) ≤ 4000) : f32 T ≤ timer_after F (⌈T * (F : ℚ)⌉ + 1).toNat := by
  have hFq : (0 : ℚ) < (F : ℚ) := by exact_mod_cast hF
  have hFq2 : (F : ℚ) ≤ 2 ^ 24 := by exact_mod_cast hF2.le
  have hx0 : 0 ≤ T * (F : ℚ) := mul_nonneg hT hFq.le
  have hc0 : 0 ≤ ⌈T * (F : ℚ)⌉ := Int.ceil_nonneg hx0
  have hc1 : ⌈T * (F : ℚ)⌉ ≤ 4000 := Int.ceil_le.mpr (by exact_mod_cast hTF)
  obtain ⟨N, hN⟩ := Int.eq_ofNat_of_zero_le (show 0 ≤ ⌈T * (F : ℚ)⌉ + 1 by omega)
  rw [hN, Int.toNat_ofNat]
  have hN1 : 1 ≤ N := by omega
  have hN2 : N ≤ 4001 := by omega
  have hNq1 : (1 : ℚ) ≤ (N : ℚ) := by exact_mod_cast hN1
  have hNq2 : (N : ℚ) ≤ 4001 := by exact_mod_cast hN2
  have hNx : T * (F : ℚ) + 1 ≤ (N : ℚ) := by
    have h1 : T * (F : ℚ) ≤ (⌈T * (F : ℚ)⌉ : ℚ) := Int.le_ceil _
    have h2 : ((⌈T * (F : ℚ)⌉ + 1 : Int) : ℚ) = (N : ℚ) := by rw [hN]; simp
    push_cast at h2
    linarith
  -- the timer after N additions
  have hlow := timer_after_lower F hF hF2 N
  have hbern : (1 : ℚ) - (N : ℚ) * (1 / 2 ^ 24) ≤ (1 - 1 / 2 ^ 24) ^ N := by
    have := one_add_mul_le_pow (show (-2 : ℚ) ≤ -(1 / 2 ^ 24) by norm_num) N
    have h2 : (1 : ℚ) + (N : ℚ) * -(1 / 2 ^ 24) = 1 - (N : ℚ) * (1 / 2 ^ 24) := by ring
    have h3 : (1 : ℚ) + -(1 / 2 ^ 24) = 1 - 1 / 2 ^ 24 := by ring
    rw [h2, h3] at this
    exact this
  have hcoef : (0 : ℚ) ≤ (N : ℚ) * (1 / (F : ℚ) * (1 - 1 / 2 ^ 24)) := by
    apply mul_nonneg (by linarith)
    apply mul_nonneg (by positivity) (by norm_num)
  have hL : (N : ℚ) * (1 / (F : ℚ) * (1 - 1 / 2 ^ 24)) * (1 - (N : ℚ) * (1 / 2 ^ 24))
      ≤ timer_after F N :=
    le_trans (mul_le_mul_of_nonneg_left hbern hcoef) hlow
  refine le_trans ?_ hL
  have hLeq : (N : ℚ) * (1 / (F : ℚ) * (1 - 1 / 2 ^ 24)) * (1 - (N : ℚ) * (1 / 2 ^ 24))
      = ((N : ℚ) * (1 - 1 / 2 ^ 24) * (1 - (N : ℚ) * (1 / 2 ^ 24))) / (F : ℚ) := by
    rw [div_eq_mul_one_div
      ((N : ℚ) * (1 - 1 / 2 ^ 24) * (1 - (N : ℚ) * (1 / 2 ^ 24))) (F : ℚ)]
    ring
  rw [hLeq, le_div_iff₀ hFq]
  -- the numerator is at least N (1 - (N + 1) / 2 ^ 24)
  have hnum : (N : ℚ) - ((N : ℚ) * ((N : ℚ) + 1)) * (1 / 2 ^ 24)
      ≤ (N : ℚ) * (1 - 1 / 2 ^ 24) * (1 - (N : ℚ) * (1 / 2 ^ 24)) := by
    have : (N : ℚ) * (1 - 1 / 2 ^ 24) * (1 - (N : ℚ) * (1 / 2 ^ 24))
        = (N : ℚ) - ((N : ℚ) * ((N : ℚ) + 1)) * (1 / 2 ^ 24)
          + (N : ℚ) * (N : ℚ) * (1 / 2 ^ 24) * (1 / 2 ^ 24) := by ring
    rw [this]
    have : (0 : ℚ) ≤ (N : ℚ) * (N : ℚ) * (1 / 2 ^ 24) * (1 / 2 ^ 24) := by positivity
    linarith
  have hNN : (N : ℚ) * ((N : ℚ) + 1) ≤ 4001 * 4002 :=
    mul_le_mul hNq2 (by linarith) (by linarith) (by norm_num)
  by_cases hnorm : pow2 (-126) ≤ T
  · have hup := f32_rel_upper T hnorm
    have h1 : f32 T * (F : ℚ) ≤ T * (1 + 1 / 2 ^ 24) * (F : ℚ) :=
      mul_le_mul_of_nonneg_right hup hFq.le
    refine le_trans h1 (le_trans ?_ hnum)
    have h2 : T * (1 + 1 / 2 ^ 24) * (F : ℚ) = T * (F : ℚ) + T * (F : ℚ) * (1 / 2 ^ 24) := by
      ring
    rw [h2]
    have h3 : T * (F : ℚ) * (1 / 2 ^ 24) ≤ 4000 * (1 / 2 ^ 24) :=
      mul_le_mul_of_nonneg_right hTF (by norm_num)
    have h4 : (N : ℚ) * ((N : ℚ) + 1) * (1 / 2 ^ 24) ≤ 4001 * 4002 * (1 / 2 ^ 24) :=
      mul_le_mul_of_nonneg_right hNN (by norm_num)
    have h5 : (4000 : ℚ) * (1 / 2 ^ 24) + 4001 * 4002 * (1 / 2 ^ 24) ≤ 1 := by norm_num
    linarith
  · push_neg at hnorm
    have hup := f32_le_pow2 (-126) (by decide) T hT hnorm.le
    have h126 : pow2 (-126) ≤ 1 / 2 ^ 126 := by decide!
    have h1 : f32 T * (F : ℚ) ≤ 1 / 2 ^ 126 * 2 ^ 24 :=
      mul_le_mul (le_trans hup h126) hFq2 hFq.le (by norm_num)
    refine le_trans h1 (le_trans ?_ hnum)
    have h4 : (N : ℚ) * ((N : ℚ) + 1) * (1 / 2 ^ 24) ≤ 4001 * 4002 * (1 / 2 ^ 24) :=
      mul_le_mul_of_nonneg_right hNN (by norm_num)
    have h5 : (1 : ℚ) / 2 ^ 126 * 2 ^ 24 + 4001 * 4002 * (1 / 2 ^ 24) ≤ 1 := by norm_num
    linarith

end LightScene

/-- Claim C13 as stated fails. On the scene with effects 0 and 1 at 2 frames per second:
(a) `set_transition_params(7, none, 0, 0)` makes an effect transition pending although 7 is
no effect, and after 0 or 1 calls of `update` (`T * F = 0`) the current effect is still 0,
not 7; after 1 call the transition is no longer active; (b)
`set_transition_params(1, "B", 1, 1)` makes an effect and a palette transition pending with
`T * F = 4`, and after each of 0..5 calls of `update` the effect transition is still
active, completing only at the 6th call. (c) On the scene with effects 0 and 1 at `2 ^ 30`
frames per second, after `set_transition_params(1, none, 1/2, 1/2)` the effect transition
is still active after every number of calls of `update`: the `float` timer stalls at
`2 ^ -6` and never reaches `T = 1`. -/
theorem transition_closure_counterexample :
    (scene_two_effects.set_transition_params (some 7) none 0 0).effect_transition_active = true
    ∧ (∀ k < 2, ((scene_two_effects.set_transition_params (some 7) none 0 0).updates
        k).current_effect_ID = some 0)
    ∧ ((scene_two_effects.set_transition_params (some 7) none 0 0).updates
        1).effect_transition_active = false
    ∧ (scene_two_effects.set_transition_params (some 1) (some "B") 1
        1).effect_transition_active = true
    ∧ ⌈((1 : ℚ) + 1) * ((2 : Int) : ℚ)⌉ + 1 = 5
    ∧ (∀ k < 6, ((scene_two_effects.set_transition_params (some 1) (some "B") 1 1).updates
        k).effect_transition_active = true
        ∧ ((scene_two_effects.set_transition_params (some 1) (some "B") 1 1).updates
        k).current_effect_ID = some 0)
    ∧ ((scene_two_effects.set_transition_params (some 1) (some "B") 1 1).updates
        6).effect_transition_active = false
    ∧ ((scene_two_effects.set_transition_params (some 1) (some "B") 1 1).updates
        6).current_effect_ID = some 1
    ∧ (∀ k : Nat, ((scene_fast_clock.set_transition_params (some 1) none (1 / 2)
        (1 / 2)).updates k).effect_transition_active = true
        ∧ ((scene_fast_clock.set_transition_params (some 1) none (1 / 2)
        (1 / 2)).updates k).current_effect_ID = some 0) := by
  refine ⟨by decide!, by decide!, by decide!, by decide!, by decide!, by decide!, by decide!,
    by decide!, fun k => ?_⟩
  have hpend := LightScene.set_transition_params_pending scene_fast_clock 1 0 (1 / 2) (1 / 2)
    ((LightEffect.new 0 10 (2 ^ 30)).set_current_palette "A") rfl rfl (by decide!)
  have hfps : ((LightEffect.new 0 10 (2 ^ 30)).set_current_palette "A").fps = 2 ^ 30 := rfl
  rw [hfps] at hpend
  have hT : f32 ((1 : ℚ) / 2 + 1 / 2) = 1 := by decide!
  have h := LightScene.updates_pending _ 1 0 (2 ^ 30) (1 / 2) (1 / 2) hpend k (fun j _ => by
    obtain ⟨i, hi, ht⟩ := LightScene.timer_after_fast_clock (j + 1)
    rw [ht, hT]
    have h30 : pow2 (-30) = 1 / 2 ^ 30 := by decide!
    rw [h30]
    have hi2 : (i : ℚ) ≤ 2 ^ 24 := by exact_mod_cast hi
    have : (i : ℚ) * (1 / 2 ^ 30) ≤ 2 ^ 24 * (1 / 2 ^ 30) :=
      mul_le_mul_of_nonneg_right hi2 (by positivity)
    have h2 : (2 : ℚ) ^ 24 * (1 / 2 ^ 30) < 1 := by norm_num
    linarith)
  exact ⟨h.1, h.2.2.2.2.2.2.1⟩

/-- The completing call of a pending effect transition: if the `float` timer is below the
`float` sum `fade_out + fade_in` after each of the calls `1..m` of `update()` and reaches
it at call `m + 1`, then after each of the first `m` calls the transition is active, the
current effect is still `c` and the timer is the binary32 accumulation `timer_after`, and
after call `m + 1` and after every later one the transition has completed. -/
theorem transition_first_reach (s0 : LightScene) (e c : Int) (fade_in fade_out : ℚ)
    (eff : LightEffect) (m : Nat) (hcur : s0.current_effect_ID = some c)
    (heff : mapFind c s0.effects = some eff) (he : (mapFind e s0.effects).isSome = true)
    (hbelow : ∀ j : Nat, j < m →
      LightScene.timer_after eff.fps (j + 1) < f32 (fade_out + fade_in))
    (hreach : f32 (fade_out + fade_in) ≤ LightScene.timer_after eff.fps (m + 1)) :
    (∀ k : Nat, k ≤ m →
        ((s0.set_transition_params (some e) none fade_in fade_out).updates
          k).effect_transition_active = true
        ∧ ((s0.set_transition_params (some e) none fade_in fade_out).updates
          k).current_effect_ID = some c
        ∧ ((s0.set_transition_params (some e) none fade_in fade_out).updates
          k).transition_start_time = LightScene.timer_after eff.fps k)
    ∧ (∀ k : Nat, m < k →
        ((s0.set_transition_params (some e) none fade_in fade_out).updates
          k).effect_transition_active = false
        ∧ ((s0.set_transition_params (some e) none fade_in fade_out).updates
          k).current_effect_ID = some e) := by
  have hpend := LightScene.set_transition_params_pending s0 e c fade_in fade_out eff hcur heff he
  refine ⟨fun k hk => ?_, fun k hk => ?_⟩
  · have h := LightScene.updates_pending _ e c eff.fps fade_in fade_out hpend k
      (fun j hj => hbelow j (by omega))
    exact ⟨h.1, h.2.2.2.2.2.2.1, h.2.2.2.2.2.1⟩
  · have h := LightScene.updates_completed _ e c eff.fps fade_in fade_out hpend m hbelow hreach
      k hk
    exact ⟨h.1, h.2.2⟩

/-- Claim C13, amended: for every scene whose current effect `c` exists and has a frame
rate `0 < F < 2 ^ 24`, once `set_transition_params(e, no palette, fade_in, fade_out)` with
`e` a key of `effects` has made an effect transition pending (and no palette transition),
with `fade_in + fade_out = T >= 0` and `T * F <= 4000`, the transition completes at some
call `n` of `update()` with `1 <= n <= ceil(T * F) + 1`: before that call the transition
is active and the current effect is still `c`; after that call and after every later one,
in particular after `ceil(T * F) + 1` calls, `effect_transition_active` is false and
`current_effect_ID = e`. The timer is the `float` accumulation of `1.0f / F`, whose
rounding errors stay below one frame as long as `T * F <= 4000`. -/
theorem effect_transition_completes (s0 : LightScene) (e c : Int) (fade_in fade_out : ℚ)
    (eff : LightEffect) (hT : 0 ≤ fade_in + fade_out) (hcur : s0.current_effect_ID = some c)
    (heff : mapFind c s0.effects = some eff) (hF : 0 < eff.fps) (hF2 : eff.fps < 2 ^ 24)
    (hTF : (fade_in + fade_out) * (eff.fps : ℚ) ≤ 4000)
    (he : (mapFind e s0.effects).isSome = true) :
    ∃ n : Nat, 1 ≤ n ∧ (n : Int) ≤ ⌈(fade_in + fade_out) * (eff.fps : ℚ)⌉ + 1
      ∧ (∀ k : Nat, k < n →
          ((s0.set_transition_params (some e) none fade_in fade_out).updates
            k).effect_transition_active = true
          ∧ ((s0.set_transition_params (some e) none fade_in fade_out).updates
            k).current_effect_ID = some c)
      ∧ (∀ k : Nat, n ≤ k →
          ((s0.set_transition_params (some e) none fade_in fade_out).updates
            k).effect_transition_active = false
          ∧ ((s0.set_transition_params (some e) none fade_in fade_out).updates
            k).current_effect_ID = some e) := by
  have hreachN := LightScene.timer_reaches eff.fps (fade_in + fade_out) hF hF2 hT hTF
  have hFq : (0 : ℚ) ≤ (eff.fps : ℚ) := by exact_mod_cast hF.le
  have hc0 : 0 ≤ ⌈(fade_in + fade_out) * (eff.fps : ℚ)⌉ := Int.ceil_nonneg (mul_nonneg hT hFq)
  obtain ⟨N, hN⟩ := Int.eq_ofNat_of_zero_le
    (show 0 ≤ ⌈(fade_in + fade_out) * (eff.fps : ℚ)⌉ + 1 by omega)
  rw [hN, Int.toNat_ofNat, add_comm fade_in fade_out] at hreachN
  have hN1 : 1 ≤ N := by omega
  have hex : ∃ j : Nat, f32 (fade_out + fade_in) ≤ LightScene.timer_after eff.fps (j + 1) :=
    ⟨N - 1, by rw [Nat.sub_add_cancel hN1]; exact hreachN⟩
  have hfirst := transition_first_reach s0 e c fade_in fade_out eff (Nat.find hex) hcur heff he
    (fun j hj => not_le.mp (Nat.find_min hex hj)) (Nat.find_spec hex)
  have hle : Nat.find hex ≤ N - 1 :=
    Nat.find_min' hex (by rw [Nat.sub_add_cancel hN1]; exact hreachN)
  refine ⟨Nat.find hex + 1, by omega, by rw [hN]; push_cast; omega, fun k hk => ?_,
    fun k hk => ?_⟩
  · have h := hfirst.1 k (by omega)
    exact ⟨h.1, h.2.1⟩
  · exact hfirst.2 k (by omega)

/-- Claim C13 (amended) on the scene with effects 0 and 1 at 60 frames per second, with
`fade_in = fade_out = 1/2` (`T * F = 60`): the transition to effect 1 completes at a call
`n <= 61`. The `float` timer is below 1 after each of the first 60 calls and reaches it at
call 61, so the transition is still active after 60 calls and completes at call 61 (in
exact arithmetic the 60th call would complete it). -/
theorem effect_transition_completes_witness :
    ((0 : ℚ) ≤ 1 / 2 + 1 / 2 ∧ ((1 : ℚ) / 2 + 1 / 2) * ((60 : Int) : ℚ) ≤ 4000)
    ∧ (∃ n : Nat, 1 ≤ n ∧ (n : Int) ≤ ⌈((1 : ℚ) / 2 + 1 / 2) * ((60 : Int) : ℚ)⌉ + 1
      ∧ (∀ k : Nat, k < n →
          ((scene_sixty_fps.set_transition_params (some 1) none (1 / 2) (1 / 2)).updates
            k).effect_transition_active = true
          ∧ ((scene_sixty_fps.set_transition_params (some 1) none (1 / 2) (1 / 2)).updates
            k).current_effect_ID = some 0)
      ∧ (∀ k : Nat, n ≤ k →
          ((scene_sixty_fps.set_transition_params (some 1) none (1 / 2) (1 / 2)).updates
            k).effect_transition_active = false
          ∧ ((scene_sixty_fps.set_transition_params (some 1) none (1 / 2) (1 / 2)).updates
            k).current_effect_ID = some 1))
    ∧ ((scene_sixty_fps.set_transition_params (some 1) none (1 / 2) (1 / 2)).updates
        60).effect_transition_active = true
    ∧ ((scene_sixty_fps.set_transition_params (some 1) none (1 / 2) (1 / 2)).updates
        61).effect_transition_active = false
    ∧ ((scene_sixty_fps.set_transition_params (some 1) none (1 / 2) (1 / 2)).updates
        61).current_effect_ID = some 1 :=
  have hbelow : ∀ j : Nat, j < 60 →
      LightScene.timer_after 60 (j + 1) < f32 ((1 : ℚ) / 2 + 1 / 2) := by decide!
  have hreach : f32 ((1 : ℚ) / 2 + 1 / 2) ≤ LightScene.timer_after 60 61 := by decide!
  have hfirst := transition_first_reach scene_sixty_fps 1 0 (1 / 2) (1 / 2)
    ((LightEffect.new 0 10 60).set_current_palette "A") 60 rfl rfl (by decide!) hbelow hreach
  ⟨⟨by norm_num, by norm_num⟩,
   effect_transition_completes scene_sixty_fps 1 0 (1 / 2) (1 / 2)
     ((LightEffect.new 0 10 60).set_current_palette "A") (by norm_num) rfl rfl (by decide)
     (by decide)
     (by
       show ((1 : ℚ) / 2 + 1 / 2) * ((60 : Int) : ℚ) ≤ 4000
       norm_num)
     (by decide!),
   (hfirst.1 60 (le_refl 60)).1, (hfirst.2 61 (by decide)).1, (hfirst.2 61 (by decide)).2⟩

/-! ### Address dispatch -/

theorem regex_match_items_nil (input : List Char) (caps : List (List Char)) :
    regex_match_items [] input = some caps ↔ input = [] ∧ caps = [] := by
  cases input with
  | nil => simp [regex_match_items, eq_comm]
  | cons x xs => simp [regex_match_items]

theorem regex_match_items_chars (l : List Char) (items : List RegexItem) (input : List Char)
    (caps : List (List Char)) :
    regex_match_items (l.map RegexItem.char ++ items) input = some caps
      ↔ ∃ tail, input = l ++ tail ∧ regex_match_items items tail = some caps := by
  induction l generalizing input with
  | nil => simp
  | cons c l ih =>
    cases input with
    | nil => simp [regex_match_items]
    | cons x xs =>
      simp only [List.map_cons, List.cons_append, regex_match_items, List.cons.injEq]
      by_cases hx : x = c
      · subst hx
        simp only [if_true, true_and]
        exact ih xs
      · simp only [hx, if_false, false_and, exists_false]
        simp

theorem regex_try_lengths_some (cont : List Char → Option (List (List Char)))
    (input : List Char) (n : Nat) (caps : List (List Char))
    (h : regex_try_lengths cont input n = some caps) :
    ∃ k caps', 0 < k ∧ k ≤ n ∧ cont (input.drop k) = some caps'
      ∧ caps = input.take k :: caps' := by
  induction n with
  | zero => simp [regex_try_lengths] at h
  | succ k ih =>
    unfold regex_try_lengths at h
    cases hc : cont (input.drop (k + 1)) with
    | some caps' =>
      rw [hc] at h
      exact ⟨k + 1, caps', by omega, le_refl _, hc, (Option.some.inj h).symm⟩
    | none =>
      rw [hc] at h
      obtain ⟨j, caps', hj, hle, hcont, hcaps⟩ := ih h
      exact ⟨j, caps', hj, by omega, hcont, hcaps⟩

theorem takeWhile_append_stop (cls : Char → Bool) (d tail : List Char)
    (hd : ∀ c ∈ d, cls c = true) (ht : ∀ x xs, tail = x :: xs → cls x = false) :
    (d ++ tail).takeWhile cls = d := by
  induction d with
  | nil =>
    cases tail with
    | nil => rfl
    | cons x xs => simp [List.takeWhile, ht x xs rfl]
  | cons c d ih =>
    have hc : cls c = true := hd c (List.mem_cons_self _ _)
    have ih2 := ih (fun c' hc' => hd c' (List.mem_cons_of_mem _ hc'))
    rw [List.cons_append, List.takeWhile_cons, hc, if_pos rfl, ih2]

theorem regex_group_forward (cls : Char → Bool) (items : List RegexItem)
    (d tail : List Char) (caps : List (List Char)) (hne : d ≠ [])
    (hd : ∀ c ∈ d, cls c = true) (ht : ∀ x xs, tail = x :: xs → cls x = false)
    (hrest : regex_match_items items tail = some caps) :
    regex_match_items (.group cls :: items) (d ++ tail) = some (d :: caps) := by
  unfold regex_match_items
  rw [takeWhile_append_stop cls d tail hd ht]
  obtain ⟨k, hk⟩ : ∃ k, d.length = k + 1 := by
    cases d with
    | nil => exact absurd rfl hne
    | cons c d => exact ⟨d.length, rfl⟩
  rw [hk]
  unfold regex_try_lengths
  rw [← hk, List.drop_left, hrest, List.take_left]

theorem regex_group_backward (cls : Char → Bool) (items : List RegexItem)
    (input : List Char) (caps : List (List Char))
    (h : regex_match_items (.group cls :: items) input = some caps) :
    ∃ d tail caps', d ≠ [] ∧ (∀ c ∈ d, cls c = true) ∧ input = d ++ tail
      ∧ regex_match_items items tail = some caps' ∧ caps = d :: caps' := by
  unfold regex_match_items at h
  obtain ⟨k, caps', hk, hle, hcont, hcaps⟩ := regex_try_lengths_some _ _ _ _ h
  refine ⟨input.take k, input.drop k, caps', ?_, ?_, (List.take_append_drop k input).symm,
    hcont, hcaps⟩
  · intro hnil
    have hlen : (input.takeWhile cls).length ≤ input.length :=
      (List.takeWhile_sublist cls).length_le
    have h2 : (input.take k).length = 0 := by rw [hnil]; rfl
    rw [List.length_take] at h2
    omega
  · intro c hc
    have hpre : input.take k = (input.takeWhile cls).take k := by
      conv_lhs => rw [← List.takeWhile_append_dropWhile cls input]
      rw [List.take_append_of_le_length hle]
    rw [hpre] at hc
    exact List.mem_takeWhile_imp (List.mem_of_mem_take hc)

theorem regex_group_sep (cls : Char → Bool) (x : Char) (xs : List Char)
    (items : List RegexItem) (input : List Char) (caps : List (List Char))
    (hx : cls x = false) :
    regex_match_items (.group cls :: ((x :: xs).map RegexItem.char ++ items)) input = some caps
      ↔ ∃ d tail caps', (d ≠ [] ∧ ∀ c ∈ d, cls c = true) ∧ input = d ++ ((x :: xs) ++ tail)
          ∧ regex_match_items items tail = some caps' ∧ caps = d :: caps' := by
  constructor
  · intro h
    obtain ⟨d, tail0, caps', hne, hd, hin, hrest, hcaps⟩ := regex_group_backward _ _ _ _ h
    obtain ⟨tail, htail, hrest2⟩ := (regex_match_items_chars _ _ _ _).mp hrest
    exact ⟨d, tail, caps', ⟨hne, hd⟩, by rw [hin, htail], hrest2, hcaps⟩
  · rintro ⟨d, tail, caps', ⟨hne, hd⟩, hin, hrest, hcaps⟩
    rw [hin, hcaps]
    refine regex_group_forward cls _ d _ caps' hne hd ?_ ?_
    · intro y ys hy
      have : x = y := by
        simp only [List.cons_append, List.cons.injEq] at hy
        exact hy.1
      rw [← this]
      exact hx
    · exact (regex_match_items_chars _ _ _ _).mpr ⟨tail, rfl, hrest⟩

theorem regex_group_end (cls : Char → Bool) (input : List Char) (caps : List (List Char)) :
    regex_match_items [.group cls] input = some caps
      ↔ (input ≠ [] ∧ ∀ c ∈ input, cls c = true) ∧ caps = [input] := by
  constructor
  · intro h
    obtain ⟨d, tail, caps', hne, hd, hin, hrest, hcaps⟩ := regex_group_backward _ _ _ _ h
    obtain ⟨htail, hcaps'⟩ := (regex_match_items_nil _ _).mp hrest
    rw [htail, List.append_nil] at hin
    rw [hin, hcaps, hcaps']
    exact ⟨⟨hne, hd⟩, rfl⟩
  · rintro ⟨⟨hne, hd⟩, hcaps⟩
    rw [hcaps]
    have h := regex_group_forward cls [] input [] [] hne hd (fun x xs hx => by simp at hx)
      ((regex_match_items_nil _ _).mpr ⟨rfl, rfl⟩)
    rw [List.append_nil] at h
    exact h

theorem digits_split_unique (d1 d2 t1 t2 : List Char) (h1 : ∀ c ∈ d1, regex_digit c = true)
    (h2 : ∀ c ∈ d2, regex_digit c = true) (h : d1 ++ '/' :: t1 = d2 ++ '/' :: t2) :
    d1 = d2 ∧ t1 = t2 := by
  have hslash : regex_digit '/' = false := by decide
  induction d1 generalizing d2 with
  | nil =>
    cases d2 with
    | nil => exact ⟨rfl, by simpa using h⟩
    | cons c d2 =>
      simp only [List.nil_append, List.cons_append, List.cons.injEq] at h
      have := h2 c (List.mem_cons_self _ _)
      rw [← h.1, hslash] at this
      exact absurd this (by decide)
  | cons c d1 ih =>
    cases d2 with
    | nil =>
      simp only [List.nil_append, List.cons_append, List.cons.injEq] at h
      have := h1 c (List.mem_cons_self _ _)
      rw [h.1, hslash] at this
      exact absurd this (by decide)
    | cons c2 d2 =>
      simp only [List.cons_append, List.cons.injEq] at h
      obtain ⟨hd, ht⟩ := ih d2 (fun x hx => h1 x (List.mem_cons_of_mem _ hx))
        (fun x hx => h2 x (List.mem_cons_of_mem _ hx)) h.2
      exact ⟨by rw [h.1, hd], ht⟩

/-- What the patterns `/scene/(\d+)/<verb>` match. -/
theorem scene_verb_iff (verb : List Char) (input : List Char) (caps : List (List Char)) :
    regex_match_items ("/scene/".data.map RegexItem.char
        ++ (.group regex_digit :: (('/' :: verb).map RegexItem.char ++ []))) input = some caps
      ↔ ∃ sid, IsDigits sid ∧ input = "/scene/".data ++ (sid ++ '/' :: verb) ∧ caps = [sid] := by
  rw [regex_match_items_chars]
  constructor
  · rintro ⟨tail, hin, h⟩
    obtain ⟨d, tail2, caps', hd, htail, hrest, hcaps⟩ :=
      (regex_group_sep regex_digit '/' verb [] tail caps (by decide)).mp h
    obtain ⟨ht2, hc2⟩ := (regex_match_items_nil _ _).mp hrest
    refine ⟨d, hd, ?_, by rw [hcaps, hc2]⟩
    rw [hin, htail, ht2, List.append_nil]
  · rintro ⟨sid, hd, hin, hcaps⟩
    refine ⟨sid ++ '/' :: verb, hin, ?_⟩
    refine (regex_group_sep regex_digit '/' verb [] _ caps (by decide)).mpr
      ⟨sid, [], [], hd, by rw [List.append_nil], (regex_match_items_nil _ _).mpr ⟨rfl, rfl⟩,
        hcaps⟩

/-- What the pattern `/scene/(\d+)/effect/(\d+)/segment/(\d+)/(.+)` matches. -/
theorem segment_pattern_iff (input : List Char) (caps : List (List Char)) :
    regex_match_items ("/scene/".data.map RegexItem.char
        ++ (.group regex_digit :: (('/' :: "effect/".data).map RegexItem.char
        ++ (.group regex_digit :: (('/' :: "segment/".data).map RegexItem.char
        ++ (.group regex_digit :: (('/' :: []).map RegexItem.char
        ++ [.group regex_any]))))))) input = some caps
      ↔ ∃ sid eid gid rest, IsDigits sid ∧ IsDigits eid ∧ IsDigits gid ∧ IsRest rest
          ∧ input = "/scene/".data ++ (sid ++ (('/' :: "effect/".data)
              ++ (eid ++ (('/' :: "segment/".data) ++ (gid ++ (('/' :: []) ++ rest))))))
          ∧ caps = [sid, eid, gid, rest] := by
  rw [regex_match_items_chars]
  constructor
  · rintro ⟨tail, hin, h⟩
    obtain ⟨sid, tail1, caps1, hsid, htail, h1, hcaps⟩ :=
      (regex_group_sep regex_digit '/' _ _ tail caps (by decide)).mp h
    obtain ⟨eid, tail2, caps2, heid, htail1, h2, hcaps1⟩ :=
      (regex_group_sep regex_digit '/' _ _ tail1 caps1 (by decide)).mp h1
    obtain ⟨gid, tail3, caps3, hgid, htail2, h3, hcaps2⟩ :=
      (regex_group_sep regex_digit '/' _ _ tail2 caps2 (by decide)).mp h2
    obtain ⟨hrest, hcaps3⟩ := (regex_group_end regex_any tail3 caps3).mp h3
    refine ⟨sid, eid, gid, tail3, hsid, heid, hgid, hrest, ?_, ?_⟩
    · rw [hin, htail, htail1, htail2]
    · rw [hcaps, hcaps1, hcaps2, hcaps3]
  · rintro ⟨sid, eid, gid, rest, hsid, heid, hgid, hrest, hin, hcaps⟩
    refine ⟨_, hin, ?_⟩
    refine (regex_group_sep regex_digit '/' _ _ _ caps (by decide)).mpr
      ⟨sid, _, [eid, gid, rest], hsid, rfl, ?_, hcaps⟩
    refine (regex_group_sep regex_digit '/' _ _ _ _ (by decide)).mpr
      ⟨eid, _, [gid, rest], heid, rfl, ?_, rfl⟩
    refine (regex_group_sep regex_digit '/' _ _ _ _ (by decide)).mpr
      ⟨gid, _, [rest], hgid, rfl, ?_, rfl⟩
    exact (regex_group_end regex_any rest [rest]).mpr ⟨hrest, rfl⟩

theorem scene_verb_no_match (v1 v2 : List Char) (hne : v2 ≠ v1) (sid : List Char)
    (hsid : IsDigits sid) :
    regex_match_items ("/scene/".data.map RegexItem.char
        ++ (.group regex_digit :: (('/' :: v1).map RegexItem.char ++ [])))
      ("/scene/".data ++ (sid ++ '/' :: v2)) = none := by
  cases h : regex_match_items ("/scene/".data.map RegexItem.char
        ++ (.group regex_digit :: (('/' :: v1).map RegexItem.char ++ [])))
      ("/scene/".data ++ (sid ++ '/' :: v2)) with
  | none => rfl
  | some caps =>
    obtain ⟨sid2, hsid2, hin, _⟩ := (scene_verb_iff v1 _ caps).mp h
    have h2 := List.append_cancel_left hin
    exact absurd (digits_split_unique sid sid2 v2 v1 hsid.2 hsid2.2 h2).2 hne

/-- An address of one of the three forms `/scene/<digits>/<verb>`. -/
theorem match_pattern_verb (data : BlockCInputData) (sid : List Char) (hsid : IsDigits sid) :
    (data.address = scene_address sid "load_effects" →
      DataDispatcher.match_pattern data
        = some ⟨"scene_load_effects", [data.address, String.mk sid]⟩)
    ∧ (data.address = scene_address sid "change_effect" →
      DataDispatcher.match_pattern data
        = some ⟨"scene_change_effect", [data.address, String.mk sid]⟩)
    ∧ (data.address = scene_address sid "change_palette" →
      DataDispatcher.match_pattern data
        = some ⟨"scene_change_palette", [data.address, String.mk sid]⟩) := by
  have hdata : ∀ verb : String, (scene_address sid verb).data
      = "/scene/".data ++ (sid ++ '/' :: verb.data) := fun verb => by
    unfold scene_address
    rw [List.append_assoc]
  have hyes : ∀ verb : String, regex_match_items ("/scene/".data.map RegexItem.char
        ++ (.group regex_digit :: (('/' :: verb.data).map RegexItem.char ++ [])))
      (scene_address sid verb).data = some [sid] := fun verb =>
    (scene_verb_iff verb.data _ _).mpr ⟨sid, hsid, hdata verb, rfl⟩
  have hno : ∀ v1 v2 : String, v2.data ≠ v1.data →
      regex_match_items ("/scene/".data.map RegexItem.char
        ++ (.group regex_digit :: (('/' :: v1.data).map RegexItem.char ++ [])))
      (scene_address sid v2).data = none := fun v1 v2 hne => by
    rw [hdata v2]
    exact scene_verb_no_match v1.data v2.data hne sid hsid
  have y1 := hyes "load_effects"
  have y2 := hyes "change_effect"
  have y3 := hyes "change_palette"
  have n21 := hno "load_effects" "change_effect" (by decide)
  have n31 := hno "load_effects" "change_palette" (by decide)
  have n32 := hno "change_effect" "change_palette" (by decide)
  refine ⟨fun h => ?_, fun h => ?_, fun h => ?_⟩
  · unfold DataDispatcher.match_pattern DataDispatcher.regex_patterns
      DataDispatcher.match_first regex_match
    rw [h]
    erw [y1]
    rfl
  · unfold DataDispatcher.match_pattern DataDispatcher.regex_patterns
      DataDispatcher.match_first regex_match
    rw [h]
    erw [n21]
    unfold DataDispatcher.match_first regex_match
    erw [y2]
    rfl
  · unfold DataDispatcher.match_pattern DataDispatcher.regex_patterns
      DataDispatcher.match_first regex_match
    rw [h]
    erw [n31]
    unfold DataDispatcher.match_first regex_match
    erw [n32]
    unfold DataDispatcher.match_first regex_match
    erw [y3]
    rfl

/-- The loop of `match_pattern` unrolled over the four patterns. -/
theorem match_pattern_unfold (data : BlockCInputData) :
    DataDispatcher.match_pattern data
      = match regex_match_items ("/scene/".data.map RegexItem.char
          ++ (.group regex_digit :: (('/' :: "load_effects".data).map RegexItem.char ++ [])))
          data.address.data with
        | some caps => some ⟨"scene_load_effects", data.address :: caps.map String.mk⟩
        | none =>
        match regex_match_items ("/scene/".data.map RegexItem.char
          ++ (.group regex_digit :: (('/' :: "change_effect".data).map RegexItem.char ++ [])))
          data.address.data with
        | some caps => some ⟨"scene_change_effect", data.address :: caps.map String.mk⟩
        | none =>
        match regex_match_items ("/scene/".data.map RegexItem.char
          ++ (.group regex_digit :: (('/' :: "change_palette".data).map RegexItem.char ++ [])))
          data.address.data with
        | some caps => some ⟨"scene_change_palette", data.address :: caps.map String.mk⟩
        | none =>
        match regex_match_items ("/scene/".data.map RegexItem.char
          ++ (.group regex_digit :: (('/' :: "effect/".data).map RegexItem.char
          ++ (.group regex_digit :: (('/' :: "segment/".data).map RegexItem.char
          ++ (.group regex_digit :: (('/' :: []).map RegexItem.char
          ++ [.group regex_any]))))))) data.address.data with
        | some caps => some ⟨"scene_effect_segment", data.address :: caps.map String.mk⟩
        | none => none := by
  unfold DataDispatcher.match_pattern DataDispatcher.regex_patterns
  simp only [DataDispatcher.match_first, regex_match]
  cases h1 : regex_match_items (regex_chars "/scene/" ++ [.group regex_digit]
      ++ regex_chars "/load_effects") data.address.data with
  | some caps => erw [h1]; rfl
  | none =>
    erw [h1]
    simp only [Option.map_none']
    cases h2 : regex_match_items (regex_chars "/scene/" ++ [.group regex_digit]
        ++ regex_chars "/change_effect") data.address.data with
    | some caps => erw [h2]; rfl
    | none =>
      erw [h2]
      simp only [Option.map_none']
      cases h3 : regex_match_items (regex_chars "/scene/" ++ [.group regex_digit]
          ++ regex_chars "/change_palette") data.address.data with
      | some caps => erw [h3]; rfl
      | none =>
        erw [h3]
        simp only [Option.map_none']
        cases h4 : regex_match_items (regex_chars "/scene/" ++ [.group regex_digit]
            ++ regex_chars "/effect/" ++ [.group regex_digit] ++ regex_chars "/segment/"
            ++ [.group regex_digit] ++ regex_chars "/" ++ [.group regex_any])
            data.address.data with
        | some caps => erw [h4]; rfl
        | none => erw [h4]; rfl

theorem segment_address_data (sid eid gid rest : List Char) :
    (segment_address sid eid gid rest).data
      = "/scene/".data ++ (sid ++ (('/' :: "effect/".data)
          ++ (eid ++ (('/' :: "segment/".data) ++ (gid ++ (('/' :: []) ++ rest)))))) := by
  unfold segment_address
  simp only [List.append_assoc]
  rfl

theorem scene_verb_no_match_segment (v1 : List Char) (hv : v1.head? ≠ some 'e')
    (sid eid gid rest : List Char) (hsid : IsDigits sid) :
    regex_match_items ("/scene/".data.map RegexItem.char
        ++ (.group regex_digit :: (('/' :: v1).map RegexItem.char ++ [])))
      (segment_address sid eid gid rest).data = none := by
  cases h : regex_match_items ("/scene/".data.map RegexItem.char
        ++ (.group regex_digit :: (('/' :: v1).map RegexItem.char ++ [])))
      (segment_address sid eid gid rest).data with
  | none => rfl
  | some caps =>
    obtain ⟨sid2, hsid2, hin, _⟩ := (scene_verb_iff v1 _ caps).mp h
    rw [segment_address_data] at hin
    have h2 := List.append_cancel_left hin
    have h3 := (digits_split_unique sid sid2 _ v1 hsid.2 hsid2.2 h2).2
    rw [← h3] at hv
    exact absurd rfl hv

/-- An address of the form `/scene/<digits>/effect/<digits>/segment/<digits>/<rest>`. -/
theorem match_pattern_segment (data : BlockCInputData) (sid eid gid rest : List Char)
    (hsid : IsDigits sid) (heid : IsDigits eid) (hgid : IsDigits gid) (hrest : IsRest rest)
    (haddr : data.address = segment_address sid eid gid rest) :
    DataDispatcher.match_pattern data
      = some ⟨"scene_effect_segment",
          [data.address, String.mk sid, String.mk eid, String.mk gid, String.mk rest]⟩ := by
  rw [match_pattern_unfold, haddr,
    scene_verb_no_match_segment _ (by decide) sid eid gid rest hsid,
    scene_verb_no_match_segment _ (by decide) sid eid gid rest hsid,
    scene_verb_no_match_segment _ (by decide) sid eid gid rest hsid,
    (segment_pattern_iff _ _).mpr ⟨sid, eid, gid, rest, hsid, heid, hgid, hrest,
      segment_address_data sid eid gid rest, rfl⟩]
  rfl

/-- Claim C16 as stated fails: the address `/scene/1/effect/22/segment/3/co\nlor` has
three digit ids and a non-empty rest, but the rest holds a line terminator, which `.` does
not match, so `match_pattern` returns no match. -/
theorem match_pattern_line_terminator_counterexample :
    IsDigits "1".data ∧ IsDigits "22".data ∧ IsDigits "3".data ∧ "co\nlor".data ≠ []
    ∧ segment_address "1".data "22".data "3".data "co\nlor".data
        = "/scene/1/effect/22/segment/3/co\nlor"
    ∧ DataDispatcher.match_pattern
        ⟨segment_address "1".data "22".data "3".data "co\nlor".data, .vec_int [0, 0, 0, 0]⟩
        = none := by
  decide

/-- Claim C16, amended: for every address, `match_pattern` returns the name and the
sub-matches (the whole address, then the captured groups) of the first of the four patterns
that the whole address matches: `/scene/<digits>/load_effects` gives `scene_load_effects`,
`/scene/<digits>/change_effect` gives `scene_change_effect`,
`/scene/<digits>/change_palette` gives `scene_change_palette`, each with the scene id
captured, and `/scene/<digits>/effect/<digits>/segment/<digits>/<rest>` with a non-empty
rest that holds no line terminator (`\n`, `\r`) gives `scene_effect_segment` with the three
ids and the parameter name captured; every address of none of these forms gets no match. -/
theorem match_pattern_first_match (data : BlockCInputData) :
    (∀ sid, IsDigits sid →
      (data.address = scene_address sid "load_effects" →
        DataDispatcher.match_pattern data
          = some ⟨"scene_load_effects", [data.address, String.mk sid]⟩)
      ∧ (data.address = scene_address sid "change_effect" →
        DataDispatcher.match_pattern data
          = some ⟨"scene_change_effect", [data.address, String.mk sid]⟩)
      ∧ (data.address = scene_address sid "change_palette" →
        DataDispatcher.match_pattern data
          = some ⟨"scene_change_palette", [data.address, String.mk sid]⟩))
    ∧ (∀ sid eid gid rest, IsDigits sid → IsDigits eid → IsDigits gid → IsRest rest →
        data.address = segment_address sid eid gid rest →
        DataDispatcher.match_pattern data
          = some ⟨"scene_effect_segment",
              [data.address, String.mk sid, String.mk eid, String.mk gid, String.mk rest]⟩)
    ∧ ((∀ sid, IsDigits sid →
          data.address ≠ scene_address sid "load_effects"
          ∧ data.address ≠ scene_address sid "change_effect"
          ∧ data.address ≠ scene_address sid "change_palette") →
        (∀ sid eid gid rest, IsDigits sid → IsDigits eid → IsDigits gid → IsRest rest →
          data.address ≠ segment_address sid eid gid rest) →
        DataDispatcher.match_pattern data = none) := by
  refine ⟨fun sid hsid => match_pattern_verb data sid hsid,
    fun sid eid gid rest hsid heid hgid hrest haddr =>
      match_pattern_segment data sid eid gid rest hsid heid hgid hrest haddr, ?_⟩
  · intro hverb hseg
    have hform : ∀ (verb : String) (sid : List Char),
        data.address.data = "/scene/".data ++ (sid ++ '/' :: verb.data) →
        data.address = scene_address sid verb := fun verb sid h => by
      apply String.ext
      rw [h]
      unfold scene_address
      rw [List.append_assoc]
    rw [match_pattern_unfold]
    cases h1 : regex_match_items ("/scene/".data.map RegexItem.char
        ++ (.group regex_digit :: (('/' :: "load_effects".data).map RegexItem.char ++ [])))
        data.address.data with
    | some caps =>
      obtain ⟨sid, hsid, hin, _⟩ := (scene_verb_iff _ _ caps).mp h1
      exact absurd (hform "load_effects" sid hin) (hverb sid hsid).1
    | none =>
      cases h2 : regex_match_items ("/scene/".data.map RegexItem.char
          ++ (.group regex_digit :: (('/' :: "change_effect".data).map RegexItem.char ++ [])))
          data.address.data with
      | some caps =>
        obtain ⟨sid, hsid, hin, _⟩ := (scene_verb_iff _ _ caps).mp h2
        exact absurd (hform "change_effect" sid hin) (hverb sid hsid).2.1
      | none =>
        cases h3 : regex_match_items ("/scene/".data.map RegexItem.char
            ++ (.group regex_digit :: (('/' :: "change_palette".data).map RegexItem.char
            ++ []))) data.address.data with
        | some caps =>
          obtain ⟨sid, hsid, hin, _⟩ := (scene_verb_iff _ _ caps).mp h3
          exact absurd (hform "change_palette" sid hin) (hverb sid hsid).2.2
        | none =>
          cases h4 : regex_match_items ("/scene/".data.map RegexItem.char
              ++ (.group regex_digit :: (('/' :: "effect/".data).map RegexItem.char
              ++ (.group regex_digit :: (('/' :: "segment/".data).map RegexItem.char
              ++ (.group regex_digit :: (('/' :: []).map RegexItem.char
              ++ [.group regex_any]))))))) data.address.data with
          | some caps =>
            obtain ⟨sid, eid, gid, rest, hsid, heid, hgid, hrest, hin, _⟩ :=
              (segment_pattern_iff _ caps).mp h4
            refine absurd ?_ (hseg sid eid gid rest hsid heid hgid hrest)
            apply String.ext
            rw [hin, segment_address_data]
          | none => rfl

/-- Claim C16 (amended) at concrete addresses: a `change_effect` address and a segment
address are dispatched with their captures. -/
theorem match_pattern_first_match_witness :
    DataDispatcher.match_pattern ⟨"/scene/12/change_effect", .int 3⟩
      = some ⟨"scene_change_effect", ["/scene/12/change_effect", "12"]⟩
    ∧ DataDispatcher.match_pattern ⟨"/scene/1/effect/22/segment/3/color", .vec_int [1, 1, 1, 1]⟩
      = some ⟨"scene_effect_segment",
          ["/scene/1/effect/22/segment/3/color", "1", "22", "3", "color"]⟩ :=
  ⟨((match_pattern_first_match ⟨"/scene/12/change_effect", .int 3⟩).1 "12".data
      (by decide)).2.1 (by decide),
   (match_pattern_first_match ⟨"/scene/1/effect/22/segment/3/color", .vec_int [1, 1, 1, 1]⟩).2.1
      "1".data "22".data "3".data "color".data (by decide) (by decide) (by decide) (by decide)
      (by decide)⟩

/-! ### Command handling -/

namespace DataReceiveHandler

theorem handle_load_effects (cache : PaletteMap) (h : DataReceiveHandler)
    (data : BlockCInputData) (sid : List Char) (hsid : IsDigits sid)
    (haddr : data.address = scene_address sid "load_effects") :
    handle_input_data cache h data
      = h.scene_load_effects_callback data
          ⟨"scene_load_effects", [data.address, String.mk sid]⟩ := by
  unfold handle_input_data
  rw [(match_pattern_verb data sid hsid).1 haddr]
  rfl

theorem handle_change_effect (cache : PaletteMap) (h : DataReceiveHandler)
    (data : BlockCInputData) (sid : List Char) (hsid : IsDigits sid)
    (haddr : data.address = scene_address sid "change_effect") :
    handle_input_data cache h data
      = h.scene_change_effect_callback data
          ⟨"scene_change_effect", [data.address, String.mk sid]⟩ := by
  unfold handle_input_data
  rw [(match_pattern_verb data sid hsid).2.1 haddr]
  rfl

theorem handle_change_palette (cache : PaletteMap) (h : DataReceiveHandler)
    (data : BlockCInputData) (sid : List Char) (hsid : IsDigits sid)
    (haddr : data.address = scene_address sid "change_palette") :
    handle_input_data cache h data
      = h.scene_change_palette_callback data
          ⟨"scene_change_palette", [data.address, String.mk sid]⟩ := by
  unfold handle_input_data
  rw [(match_pattern_verb data sid hsid).2.2 haddr]
  rfl

theorem scene_load_effects_thrown (h : DataReceiveHandler) (data : BlockCInputData)
    (m : MatchResult) (what : String)
    (ht : (h.scene_load_effects_callback data m).thrown = some what) :
    (h.scene_load_effects_callback data m).handler = h
      ∧ (h.scene_load_effects_callback data m).outputs = [] := by
  obtain ⟨address, payload⟩ := data
  revert ht
  unfold scene_load_effects_callback
  cases stoi (m.sub_matches.getD 1 "") <;> cases payload <;> simp [threw]

theorem scene_change_effect_thrown (h : DataReceiveHandler) (data : BlockCInputData)
    (m : MatchResult) (what : String)
    (ht : (h.scene_change_effect_callback data m).thrown = some what) :
    (h.scene_change_effect_callback data m).handler = h
      ∧ (h.scene_change_effect_callback data m).outputs = [] := by
  obtain ⟨address, payload⟩ := data
  revert ht
  unfold scene_change_effect_callback
  cases stoi (m.sub_matches.getD 1 "") with
  | none => simp [threw]
  | some scene_id =>
    cases payload with
    | int effect_id =>
      dsimp only
      cases mapFind scene_id h.light_scenes with
      | none => simp [returned]
      | some scene =>
        dsimp only
        cases scene.get_light_effects effect_id with
        | none => simp [returned]
        | some e =>
          dsimp only
          split_ifs <;> simp [returned]
    | _ => simp [threw]

theorem scene_change_palette_thrown (h : DataReceiveHandler) (data : BlockCInputData)
    (m : MatchResult) (what : String)
    (ht : (h.scene_change_palette_callback data m).thrown = some what) :
    (h.scene_change_palette_callback data m).handler = h
      ∧ (h.scene_change_palette_callback data m).outputs = [] := by
  obtain ⟨address, payload⟩ := data
  revert ht
  unfold scene_change_palette_callback
  cases stoi (m.sub_matches.getD 1 "") with
  | none => simp [threw]
  | some scene_id =>
    cases payload with
    | string palette_id =>
      dsimp only
      cases mapFind scene_id h.light_scenes with
      | none => simp [returned]
      | some scene =>
        dsimp only
        split_ifs <;> simp [returned]
    | _ => simp [threw]

theorem scene_effect_segment_thrown (cache : PaletteMap) (h : DataReceiveHandler)
    (data : BlockCInputData) (m : MatchResult) (what : String)
    (ht : (scene_effect_segment_callback cache h data m).thrown = some what) :
    (scene_effect_segment_callback cache h data m).handler = h
      ∧ (scene_effect_segment_callback cache h data m).outputs = [] := by
  obtain ⟨address, payload⟩ := data
  revert ht
  unfold scene_effect_segment_callback
  cases stoi (m.sub_matches.getD 1 "") with
  | none => simp [threw]
  | some scene_id =>
  cases stoi (m.sub_matches.getD 2 "") with
  | none => simp [threw]
  | some effect_id =>
  cases stoi (m.sub_matches.getD 3 "") with
  | none => simp [threw]
  | some segment_id =>
    dsimp only
    cases mapFind scene_id h.light_scenes with
    | none => simp [returned]
    | some scene =>
      dsimp only
      cases scene.get_light_effects effect_id with
      | none => simp [returned]
      | some effect =>
        dsimp only
        cases mapFind segment_id effect.segments with
        | none => simp [returned]
        | some segment =>
          dsimp only
          split_ifs
          · cases payload with
            | vec_int color_vec =>
              dsimp only
              cases segment.update_param cache h.palettes_of "color" (.vec_int color_vec)
                <;> simp [returned, threw]
            | _ => simp [threw]
          · cases payload with
            | double value =>
              dsimp only
              cases segment.update_param cache h.palettes_of "dimmer_time_ratio"
                (.float (max (1 / 10) value)) <;> simp [returned, threw]
            | _ => simp [threw]
          · simp [returned]

/-- Whenever an exception leaves `handle_input_data`, the handler is unchanged and no
message has been emitted. -/
theorem handle_input_data_thrown (cache : PaletteMap) (h : DataReceiveHandler)
    (data : BlockCInputData) (what : String)
    (ht : (handle_input_data cache h data).thrown = some what) :
    (handle_input_data cache h data).handler = h
      ∧ (handle_input_data cache h data).outputs = [] := by
  unfold handle_input_data at ht ⊢
  cases hm : DataDispatcher.match_pattern data with
  | none => exact ⟨rfl, rfl⟩
  | some m =>
    rw [hm] at ht
    dsimp only at ht ⊢
    split_ifs at ht ⊢
    · exact scene_load_effects_thrown h data m what ht
    · exact scene_change_effect_thrown h data m what ht
    · exact scene_change_palette_thrown h data m what ht
    · exact scene_effect_segment_thrown cache h data m what ht
    · exact ⟨rfl, rfl⟩

end DataReceiveHandler

namespace DataReceiveHandler

theorem handle_segment (cache : PaletteMap) (h : DataReceiveHandler)
    (data : BlockCInputData) (sid eid gid rest : List Char)
    (hsid : IsDigits sid) (heid : IsDigits eid) (hgid : IsDigits gid) (hrest : IsRest rest)
    (haddr : data.address = segment_address sid eid gid rest) :
    handle_input_data cache h data
      = scene_effect_segment_callback cache h data
          ⟨"scene_effect_segment",
            [data.address, String.mk sid, String.mk eid, String.mk gid, String.mk rest]⟩ := by
  unfold handle_input_data
  rw [match_pattern_segment data sid eid gid rest hsid heid hgid hrest haddr]
  rfl

end DataReceiveHandler

/-- Claim C17 as stated fails: on a handler that owns scene 1, the command `/scene/1/stop`,
whose address matches no pattern, makes `handle_input_data` throw `std::runtime_error`, and
the command `/scene/1/change_effect` with a string payload makes it throw
`std::bad_variant_access`. -/
theorem handle_input_data_throws_counterexample :
    DataDispatcher.match_pattern ⟨"/scene/1/stop", .int 0⟩ = none
    ∧ (DataReceiveHandler.handle_input_data DEFAULT_COLOR_PALETTES handler_two_effects
        ⟨"/scene/1/stop", .int 0⟩).thrown = some "std::runtime_error"
    ∧ (DataReceiveHandler.handle_input_data DEFAULT_COLOR_PALETTES handler_two_effects
        ⟨"/scene/1/change_effect", .string "1"⟩).thrown = some "std::bad_variant_access" := by
  decide

/-- Claim C17, amended: `handle_input_data` lets errors escape, but never after a change.
For a command whose address matches none of the four patterns it throws
`std::runtime_error`; for a `load_effects` or `change_palette` command whose payload is not
a string and for a `change_effect` command whose payload is not an int it throws as well
(`std::bad_variant_access`, or `std::out_of_range` when the scene id does not fit an
int); whenever an exception leaves the call, every scene, effect and segment is unchanged
and no message has been emitted. It returns normally for a `load_effects`, `change_effect`
or `change_palette` command whose scene id fits an int and whose payload is a string, an int
or a string respectively. -/
theorem handle_input_data_errors (cache : PaletteMap) (h : DataReceiveHandler)
    (data : BlockCInputData) :
    (DataDispatcher.match_pattern data = none →
      DataReceiveHandler.handle_input_data cache h data = h.threw "std::runtime_error")
    ∧ (∀ what, (DataReceiveHandler.handle_input_data cache h data).thrown = some what →
        (DataReceiveHandler.handle_input_data cache h data).handler = h
        ∧ (DataReceiveHandler.handle_input_data cache h data).outputs = [])
    ∧ (∀ sid, IsDigits sid →
        (data.address = scene_address sid "load_effects" → (∀ v, data.data ≠ .string v) →
          (DataReceiveHandler.handle_input_data cache h data).thrown
            = some (if (stoi (String.mk sid)).isSome then "std::bad_variant_access"
                else "std::out_of_range"))
        ∧ (data.address = scene_address sid "change_effect" → (∀ v, data.data ≠ .int v) →
          (DataReceiveHandler.handle_input_data cache h data).thrown
            = some (if (stoi (String.mk sid)).isSome then "std::bad_variant_access"
                else "std::out_of_range"))
        ∧ (data.address = scene_address sid "change_palette" → (∀ v, data.data ≠ .string v) →
          (DataReceiveHandler.handle_input_data cache h data).thrown
            = some (if (stoi (String.mk sid)).isSome then "std::bad_variant_access"
                else "std::out_of_range")))
    ∧ (∀ sid, IsDigits sid → (stoi (String.mk sid)).isSome = true →
        (data.address = scene_address sid "load_effects" → (∃ v, data.data = .string v) →
          (DataReceiveHandler.handle_input_data cache h data).thrown = none)
        ∧ (data.address = scene_address sid "change_effect" → (∃ v, data.data = .int v) →
          (DataReceiveHandler.handle_input_data cache h data).thrown = none)
        ∧ (data.address = scene_address sid "change_palette" → (∃ v, data.data = .string v) →
          (DataReceiveHandler.handle_input_data cache h data).thrown = none)) := by
  refine ⟨fun hnone => ?_, fun what ht =>
    DataReceiveHandler.handle_input_data_thrown cache h data what ht, fun sid hsid => ?_,
    fun sid hsid hfit => ?_⟩
  · unfold DataReceiveHandler.handle_input_data
    rw [hnone]
  · obtain ⟨address, payload⟩ := data
    refine ⟨fun haddr hbad => ?_, fun haddr hbad => ?_, fun haddr hbad => ?_⟩
    · rw [DataReceiveHandler.handle_load_effects cache h _ sid hsid haddr]
      unfold DataReceiveHandler.scene_load_effects_callback
      simp only [List.getD_cons_succ, List.getD_cons_zero]
      cases stoi (String.mk sid) with
      | none => rfl
      | some n =>
        cases payload with
        | string v => exact absurd rfl (hbad v)
        | _ => rfl
    · rw [DataReceiveHandler.handle_change_effect cache h _ sid hsid haddr]
      unfold DataReceiveHandler.scene_change_effect_callback
      simp only [List.getD_cons_succ, List.getD_cons_zero]
      cases stoi (String.mk sid) with
      | none => rfl
      | some n =>
        cases payload with
        | int v => exact absurd rfl (hbad v)
        | _ => rfl
    · rw [DataReceiveHandler.handle_change_palette cache h _ sid hsid haddr]
      unfold DataReceiveHandler.scene_change_palette_callback
      simp only [List.getD_cons_succ, List.getD_cons_zero]
      cases stoi (String.mk sid) with
      | none => rfl
      | some n =>
        cases payload with
        | string v => exact absurd rfl (hbad v)
        | _ => rfl
  · obtain ⟨n, hn⟩ := Option.isSome_iff_exists.mp hfit
    refine ⟨fun haddr hgood => ?_, fun haddr hgood => ?_, fun haddr hgood => ?_⟩
    · cases hthrown : (DataReceiveHandler.handle_input_data cache h data).thrown with
      | none => rfl
      | some what =>
        exfalso
        obtain ⟨v, hv⟩ := hgood
        rw [DataReceiveHandler.handle_load_effects cache h _ sid hsid haddr] at hthrown
        unfold DataReceiveHandler.scene_load_effects_callback at hthrown
        simp only [List.getD_cons_succ, List.getD_cons_zero, hn, hv] at hthrown
        exact absurd hthrown (by simp)
    · obtain ⟨v, hv⟩ := hgood
      rw [DataReceiveHandler.handle_change_effect cache h _ sid hsid haddr]
      unfold DataReceiveHandler.scene_change_effect_callback
      simp only [List.getD_cons_succ, List.getD_cons_zero, hn, hv]
      cases mapFind n h.light_scenes with
      | none => rfl
      | some scene =>
        dsimp only
        cases scene.get_light_effects v with
        | none => rfl
        | some e =>
          dsimp only
          split_ifs <;> rfl
    · obtain ⟨v, hv⟩ := hgood
      rw [DataReceiveHandler.handle_change_palette cache h _ sid hsid haddr]
      unfold DataReceiveHandler.scene_change_palette_callback
      simp only [List.getD_cons_succ, List.getD_cons_zero, hn, hv]
      cases mapFind n h.light_scenes with
      | none => rfl
      | some scene =>
        dsimp only
        split_ifs <;> rfl

/-! ### The `change_effect` command -/

/-- Claim C18: for every `/scene/<sid>/change_effect` command with int payload `id`, the
call returns normally; if scene `sid` does not exist, or `id` is not an effect of that
scene, or `id` equals the scene's `current_effect_ID`, the handler (every scene) is
unchanged; otherwise the scene gets `next_effect_idx = id`, no pending palette,
`fade_in_time = fade_out_time = 0` and `effect_transition_active = true`, while its
`current_effect_ID`, effects and palettes are not changed, and every other scene is
unchanged. -/
theorem change_effect_command (cache : PaletteMap) (h : DataReceiveHandler)
    (data : BlockCInputData) (sid : List Char) (effect_id : Int) (hsid : IsDigits sid)
    (haddr : data.address = scene_address sid "change_effect")
    (hdata : data.data = .int effect_id) :
    ((∀ n scene, stoi (String.mk sid) = some n → mapFind n h.light_scenes = some scene →
        mapFind effect_id scene.effects = none ∨ scene.current_effect_ID = some effect_id) →
      (DataReceiveHandler.handle_input_data cache h data).handler = h)
    ∧ (∀ n scene, stoi (String.mk sid) = some n → mapFind n h.light_scenes = some scene →
        (mapFind effect_id scene.effects).isSome = true →
        scene.current_effect_ID ≠ some effect_id →
        (DataReceiveHandler.handle_input_data cache h data).thrown = none
        ∧ (∃ scene', mapFind n (DataReceiveHandler.handle_input_data cache h data).handler.light_scenes
              = some scene'
            ∧ scene'.next_effect_idx = some effect_id ∧ scene'.next_palette_idx = none
            ∧ scene'.fade_in_time = 0 ∧ scene'.fade_out_time = 0
            ∧ scene'.effect_transition_active = true
            ∧ scene'.palette_transition_active = false
            ∧ scene'.current_effect_ID = scene.current_effect_ID
            ∧ scene'.effects = scene.effects ∧ scene'.palettes = scene.palettes
            ∧ scene'.current_palette = scene.current_palette)
        ∧ ∀ k, k ≠ n →
            mapFind k (DataReceiveHandler.handle_input_data cache h data).handler.light_scenes
              = mapFind k h.light_scenes) := by
  obtain ⟨address, payload⟩ := data
  simp only at hdata
  subst hdata
  rw [DataReceiveHandler.handle_change_effect cache h _ sid hsid haddr]
  unfold DataReceiveHandler.scene_change_effect_callback
  simp only [List.getD_cons_succ, List.getD_cons_zero]
  cases hs : stoi (String.mk sid) with
  | none =>
    refine ⟨fun _ => rfl, fun n scene hn => ?_⟩
    exact absurd hn (by simp)
  | some scene_id =>
    dsimp only
    cases hscene : mapFind scene_id h.light_scenes with
    | none =>
      refine ⟨fun _ => rfl, fun n scene hn hfind => ?_⟩
      have hn2 : scene_id = n := Option.some.inj hn
      rw [← hn2, hscene] at hfind
      exact absurd hfind (by simp)
    | some scene0 =>
      dsimp only
      unfold LightScene.get_light_effects
      cases heff : mapFind effect_id scene0.effects with
      | none =>
        refine ⟨fun _ => rfl, fun n scene hn hfind hsome => ?_⟩
        have hn2 : scene_id = n := Option.some.inj hn
        rw [← hn2, hscene] at hfind
        have hsc : scene0 = scene := Option.some.inj hfind
        rw [← hsc, heff] at hsome
        exact absurd hsome (by simp)
      | some e =>
        dsimp only
        by_cases hcur : scene0.current_effect_ID = some effect_id
        · rw [if_pos hcur]
          refine ⟨fun _ => rfl, fun n scene hn hfind _ hne => ?_⟩
          have hn2 : scene_id = n := Option.some.inj hn
          rw [← hn2, hscene] at hfind
          have hsc : scene0 = scene := Option.some.inj hfind
          rw [← hsc] at hne
          exact absurd hcur hne
        · rw [if_neg hcur]
          refine ⟨fun hall => ?_, fun n scene hn hfind _ _ => ?_⟩
          · rcases hall scene_id scene0 rfl hscene with h1 | h1
            · rw [heff] at h1
              exact absurd h1 (by simp)
            · exact absurd h1 hcur
          · have hn2 : scene_id = n := Option.some.inj hn
            subst hn2
            rw [hscene] at hfind
            have hsc : scene0 = scene := Option.some.inj hfind
            subst hsc
            refine ⟨rfl, ⟨_, mapFind_mapSet_same scene_id _ h.light_scenes,
              rfl, rfl, rfl, rfl, rfl, rfl, rfl, rfl, rfl, rfl⟩, fun k hk => ?_⟩
            exact mapFind_mapSet_other k scene_id _ h.light_scenes (fun heq => hk heq.symm)

/-- Claim C18 on the handler that owns scene 1 with the effects 0 (current) and 1: the
command `/scene/1/change_effect` with payload 1 makes the transition to effect 1 pending
and leaves `current_effect_ID` at 0. -/
theorem change_effect_command_witness :
    ∃ scene', mapFind 1 (DataReceiveHandler.handle_input_data DEFAULT_COLOR_PALETTES
          handler_two_effects ⟨"/scene/1/change_effect", .int 1⟩).handler.light_scenes
        = some scene'
      ∧ scene'.next_effect_idx = some 1 ∧ scene'.next_palette_idx = none
      ∧ scene'.fade_in_time = 0 ∧ scene'.fade_out_time = 0
      ∧ scene'.effect_transition_active = true
      ∧ scene'.palette_transition_active = false
      ∧ scene'.current_effect_ID = some 0
      ∧ scene'.effects = scene_two_effects.effects
      ∧ scene'.palettes = scene_two_effects.palettes
      ∧ scene'.current_palette = scene_two_effects.current_palette :=
  ((change_effect_command DEFAULT_COLOR_PALETTES handler_two_effects
    ⟨"/scene/1/change_effect", .int 1⟩ "1".data 1 (by decide) (by decide) rfl).2
    1 scene_two_effects (by decide) rfl (by decide) (by decide)).2.1

/-! ### The musical-to-lighting flag map -/

namespace LightSwitchFlgMaker

theorem exec_make_flgs_of_sixFlags (m : LightSwitchFlgMaker) (h : m.SixFlags) :
    m.exec_make_flgs.light_switch_flgs
      = [("color_shift_flg", boolFlagOf m.musical_change_flgs "no_change_4beats_flg"),
         ("effect_change_flg", boolFlagOf m.musical_change_flgs "no_change_8beats_flg"),
         ("lighting_end_flg", boolFlagOf m.musical_change_flgs "silence_start_flg"),
         ("lighting_scene_change_flg",
           boolFlagOf m.musical_change_flgs "song_alternation_flg"),
         ("lighting_start_flg", boolFlagOf m.musical_change_flgs "silence_break_flg"),
         ("palette_change_flg", boolFlagOf m.musical_change_flgs "no_change_16beats_flg")] := by
  obtain ⟨b1, b2, b3, b4, b5, b6, hb⟩ := h
  unfold exec_make_flgs
  dsimp only
  rw [hb]
  rfl

theorem new_sixFlags : LightSwitchFlgMaker.new.SixFlags :=
  ⟨false, false, false, false, false, false, by decide⟩

theorem call_sixFlags (m : LightSwitchFlgMaker) (h : m.SixFlags) (c : MakerCall) :
    (m.call c).SixFlags := by
  cases c with
  | update_musical_change_flgs f => exact h
  | exec_make_flgs => exact ⟨_, _, _, _, _, _, exec_make_flgs_of_sixFlags m h⟩

theorem run_sixFlags (calls : List MakerCall) (m : LightSwitchFlgMaker) (h : m.SixFlags) :
    (m.run calls).SixFlags := by
  induction calls generalizing m with
  | nil => exact h
  | cons c t ih => exact ih _ (call_sixFlags m h c)

end LightSwitchFlgMaker

/-- Claim C24: after any sequence of earlier calls on a fresh `LightSwitchFlgMaker`, once
the musical flags `flgs` are supplied, `exec_make_flgs` returns the map with exactly the
six lighting flags, where `lighting_start_flg = silence_break_flg`,
`lighting_end_flg = silence_start_flg`, `lighting_scene_change_flg = song_alternation_flg`,
`palette_change_flg = no_change_16beats_flg`, `effect_change_flg = no_change_8beats_flg` and
`color_shift_flg = no_change_4beats_flg`, a missing or non-boolean musical flag being read
as false; the returned map is the same whatever the earlier calls were, and calling it
again without new flags returns it again. -/
theorem exec_make_flgs_pure (calls : List MakerCall) (flgs : List (String × blockb_any_type)) :
    (((LightSwitchFlgMaker.new.run calls).update_musical_change_flgs
        flgs).exec_make_flgs.light_switch_flgs
      = [("color_shift_flg", boolFlagOf flgs "no_change_4beats_flg"),
         ("effect_change_flg", boolFlagOf flgs "no_change_8beats_flg"),
         ("lighting_end_flg", boolFlagOf flgs "silence_start_flg"),
         ("lighting_scene_change_flg", boolFlagOf flgs "song_alternation_flg"),
         ("lighting_start_flg", boolFlagOf flgs "silence_break_flg"),
         ("palette_change_flg", boolFlagOf flgs "no_change_16beats_flg")])
    ∧ (((LightSwitchFlgMaker.new.run calls).update_musical_change_flgs
        flgs).exec_make_flgs.exec_make_flgs.light_switch_flgs
      = ((LightSwitchFlgMaker.new.run calls).update_musical_change_flgs
        flgs).exec_make_flgs.light_switch_flgs)
    ∧ (∀ key, mapFind key flgs = none → boolFlagOf flgs key = false)
    ∧ (∀ key v, mapFind key flgs = some v → (∀ b, v ≠ .bool b) → boolFlagOf flgs key = false)
    ∧ (∀ key b, mapFind key flgs = some (.bool b) → boolFlagOf flgs key = b) := by
  have h6 := LightSwitchFlgMaker.run_sixFlags calls _ LightSwitchFlgMaker.new_sixFlags
  have h1 := LightSwitchFlgMaker.exec_make_flgs_of_sixFlags
    ((LightSwitchFlgMaker.new.run calls).update_musical_change_flgs flgs) h6
  refine ⟨h1, ?_, ?_, ?_, ?_⟩
  · have h7 : (((LightSwitchFlgMaker.new.run calls).update_musical_change_flgs
        flgs).exec_make_flgs).SixFlags := ⟨_, _, _, _, _, _, h1⟩
    rw [LightSwitchFlgMaker.exec_make_flgs_of_sixFlags _ h7, h1]
    rfl
  · intro key hk
    unfold boolFlagOf
    rw [hk]
  · intro key v hk hv
    unfold boolFlagOf
    rw [hk]
    cases v with
    | bool b => exact absurd rfl (hv b)
    | _ => rfl
  · intro key b hk
    unfold boolFlagOf
    rw [hk]

/-! ### Tempo classes and dimmer period -/

/-- Claim C25: for every tempo, `TempoClassifier::calc_feature` returns `very_slow` if
`tempo < 60`, `slow` if `60 <= tempo < 80`, `mid_slow` if `80 <= tempo < 100`, `mid` if
`100 <= tempo < 120`, `mid_fast` if `120 <= tempo < 140` and `fast` if `tempo >= 140`; the
tempos 50, 70, 95, 119, 139, 200 give `very_slow`, `slow`, `mid_slow`, `mid`, `mid_fast`,
`fast`. -/
theorem tempo_classifier_classes (tempo : ℚ) :
    (tempo < 60 → TempoClassifier.calc_feature tempo = "very_slow")
    ∧ (60 ≤ tempo → tempo < 80 → TempoClassifier.calc_feature tempo = "slow")
    ∧ (80 ≤ tempo → tempo < 100 → TempoClassifier.calc_feature tempo = "mid_slow")
    ∧ (100 ≤ tempo → tempo < 120 → TempoClassifier.calc_feature tempo = "mid")
    ∧ (120 ≤ tempo → tempo < 140 → TempoClassifier.calc_feature tempo = "mid_fast")
    ∧ (140 ≤ tempo → TempoClassifier.calc_feature tempo = "fast")
    ∧ ([50, 70, 95, 119, 139, 200].map TempoClassifier.calc_feature
        = ["very_slow", "slow", "mid_slow", "mid", "mid_fast", "fast"])
    ∧ (TempoClassifier.new.update_tempo_class tempo).get_class
        = TempoClassifier.calc_feature tempo := by
  refine ⟨fun h => ?_, fun h1 h2 => ?_, fun h1 h2 => ?_, fun h1 h2 => ?_, fun h1 h2 => ?_,
    fun h => ?_, by decide!, rfl⟩
  · unfold TempoClassifier.calc_feature
    rw [if_pos h]
  · unfold TempoClassifier.calc_feature
    rw [if_neg (not_lt.mpr h1), if_pos h2]
  · unfold TempoClassifier.calc_feature
    rw [if_neg (by linarith), if_neg (not_lt.mpr h1), if_pos h2]
  · unfold TempoClassifier.calc_feature
    rw [if_neg (by linarith), if_neg (by linarith), if_neg (not_lt.mpr h1), if_pos h2]
  · unfold TempoClassifier.calc_feature
    rw [if_neg (by linarith), if_neg (by linarith), if_neg (by linarith),
      if_neg (not_lt.mpr h1), if_pos h2]
  · unfold TempoClassifier.calc_feature
    rw [if_neg (by linarith), if_neg (by linarith), if_neg (by linarith),
      if_neg (by linarith), if_neg (not_lt.mpr h)]

theorem roundToInt_intCast (n : Int) : roundToInt (n : ℚ) = n := by
  unfold roundToInt
  split_ifs with h
  · rw [Int.floor_eq_iff]
    constructor <;> linarith
  · rw [Int.ceil_eq_iff]
    constructor <;> linarith

/-- Claim C26: for every tempo, after `update_dimmer_time(tempo)` the call
`get_period_percentage()` returns 100 if `tempo <= 0`, 500 if `0 < tempo < 60`, 300 if
`60 <= tempo < 80`, 200 if `80 <= tempo < 100`, 100 if `100 <= tempo < 120`, 60 if
`120 <= tempo < 140` and 30 if `tempo >= 140`, whatever the adaptor held before; the tempos
50, 70, 95, 119, 139, 200 give 500, 300, 200, 100, 60, 30. -/
theorem dimmer_period_percentage (d : DimmerTimeAdaptor) (tempo : ℚ) :
    (tempo ≤ 0 → (d.update_dimmer_time tempo).get_period_percentage = 100)
    ∧ (0 < tempo → tempo < 60 → (d.update_dimmer_time tempo).get_period_percentage = 500)
    ∧ (60 ≤ tempo → tempo < 80 → (d.update_dimmer_time tempo).get_period_percentage = 300)
    ∧ (80 ≤ tempo → tempo < 100 → (d.update_dimmer_time tempo).get_period_percentage = 200)
    ∧ (100 ≤ tempo → tempo < 120 → (d.update_dimmer_time tempo).get_period_percentage = 100)
    ∧ (120 ≤ tempo → tempo < 140 → (d.update_dimmer_time tempo).get_period_percentage = 60)
    ∧ (140 ≤ tempo → (d.update_dimmer_time tempo).get_period_percentage = 30)
    ∧ ([50, 70, 95, 119, 139, 200].map
          (fun t => (d.update_dimmer_time t).get_period_percentage)
        = [500, 300, 200, 100, 60, 30]) := by
  have h100 : roundToInt (100 : ℚ) = 100 := by exact_mod_cast roundToInt_intCast 100
  have h500 : roundToInt (500 : ℚ) = 500 := by exact_mod_cast roundToInt_intCast 500
  have h300 : roundToInt (300 : ℚ) = 300 := by exact_mod_cast roundToInt_intCast 300
  have h200 : roundToInt (200 : ℚ) = 200 := by exact_mod_cast roundToInt_intCast 200
  have h60 : roundToInt (60 : ℚ) = 60 := by exact_mod_cast roundToInt_intCast 60
  have h30 : roundToInt (30 : ℚ) = 30 := by exact_mod_cast roundToInt_intCast 30
  have hget : ∀ t, (d.update_dimmer_time t).get_period_percentage
      = roundToInt (DimmerTimeAdaptor.calc_feature t) := fun t => rfl
  refine ⟨fun h => ?_, fun h1 h2 => ?_, fun h1 h2 => ?_, fun h1 h2 => ?_, fun h1 h2 => ?_,
    fun h1 h2 => ?_, fun h => ?_, ?_⟩
  · rw [hget]
    unfold DimmerTimeAdaptor.calc_feature
    rw [if_pos h, h100]
  · rw [hget]
    unfold DimmerTimeAdaptor.calc_feature
    rw [if_neg (not_le.mpr h1), if_pos h2, h500]
  · rw [hget]
    unfold DimmerTimeAdaptor.calc_feature
    rw [if_neg (by linarith), if_neg (not_lt.mpr h1), if_pos h2, h300]
  · rw [hget]
    unfold DimmerTimeAdaptor.calc_feature
    rw [if_neg (by linarith), if_neg (by linarith), if_neg (not_lt.mpr h1), if_pos h2, h200]
  · rw [hget]
    unfold DimmerTimeAdaptor.calc_feature
    rw [if_neg (by linarith), if_neg (by linarith), if_neg (by linarith),
      if_neg (not_lt.mpr h1), if_pos h2, h100]
  · rw [hget]
    unfold DimmerTimeAdaptor.calc_feature
    rw [if_neg (by linarith), if_neg (by linarith), if_neg (by linarith),
      if_neg (by linarith), if_neg (not_lt.mpr h1), if_pos h2, h60]
  · rw [hget]
    unfold DimmerTimeAdaptor.calc_feature
    rw [if_neg (by linarith), if_neg (by linarith), if_neg (by linarith),
      if_neg (by linarith), if_neg (by linarith), if_neg (not_lt.mpr h), h30]
  · simp only [List.map_cons, List.map_nil, hget]
    norm_num [DimmerTimeAdaptor.calc_feature, h100, h500, h300, h200, h60, h30]

/-! ### Binary frame layout -/

theorem flatMap_led_bytes_drop (l : List (List Int)) (j : Nat) :
    (l.flatMap led_bytes).drop (4 * j) = (l.drop j).flatMap led_bytes := by
  induction j generalizing l with
  | zero => rfl
  | succ j ih =>
    cases l with
    | nil => simp
    | cons c t =>
      rw [List.flatMap_cons, List.drop_succ_cons, ← ih t,
        show 4 * (j + 1) = (led_bytes c).length + 4 * j by rw [led_bytes_length]; omega,
        ← List.drop_drop, List.drop_left]

theorem flatMap_led_bytes_block (l : List (List Int)) (j : Nat) (hj : j < l.length) :
    ((l.flatMap led_bytes).drop (4 * j)).take 4 = led_bytes (l.getD j []) := by
  rw [flatMap_led_bytes_drop]
  obtain ⟨c, t, hc⟩ : ∃ c t, l.drop j = c :: t := by
    cases hd : l.drop j with
    | nil =>
      have := congrArg List.length hd
      simp at this
      omega
    | cons c t => exact ⟨c, t, rfl⟩
  have hget : l.getD j [] = c := by
    have h1 : (l.drop j)[0]? = some c := by rw [hc]; simp
    rw [List.getElem?_drop] at h1
    rw [List.getD_eq_getElem?_getD, show j = j + 0 from rfl, h1]
    rfl
  rw [hc, hget, List.flatMap_cons,
    show 4 = (led_bytes c).length from (led_bytes_length c).symm, List.take_left]

theorem toByte_clamp (x : Int) : ((toByte (clampInt 0 255 x) : Nat) : Int) = clampInt 0 255 x
    ∧ 0 ≤ clampInt 0 255 x ∧ clampInt 0 255 x ≤ 255 := by
  obtain ⟨h0, h1⟩ := clampInt_range x
  refine ⟨?_, h0, h1⟩
  unfold toByte
  rw [Int.toNat_of_nonneg (Int.emod_nonneg _ (by norm_num))]
  exact Int.emod_eq_of_lt h0 (by omega)

theorem group_slice_later_empty (colors : List (List Int)) (g : Nat) (hg : 1 ≤ g) :
    group_slice colors g = [] := by
  obtain ⟨n, rfl⟩ : ∃ n, g = n + 1 := ⟨g - 1, by omega⟩
  have hoff : group_offset (n + 1) = 205 := by
    cases n with
    | zero => rfl
    | succ n => simp [group_offset, DEFAULT_LED_SEP_COUNT]
  have hN : vecAt DEFAULT_LED_SEP_COUNT ((n + 1 : Nat) : Int) 0 = 0 := by
    cases n with
    | zero => rfl
    | succ n =>
      unfold vecAt DEFAULT_LED_SEP_COUNT
      rw [if_pos (by omega), Int.toNat_ofNat]
      rfl
  unfold group_slice vector_slicing
  rw [hoff, hN]
  simp only
  split_ifs <;> first | rfl | omega

/-- Claim C27: for every LED colour list, every group and every LED `j` of the group's
(then non-empty) slice, the buffer built by `make_color_binary` holds at offsets
`4j .. 4j+3` the four bytes `clamp(r), clamp(g), clamp(b), 0` when the LED entry has at
least three channels `r, g, b` (`clamp` limits a channel to `[0, 255]`), and `0, 0, 0, 0`
when the entry has fewer than three channels. -/
theorem make_color_binary_layout (colors : List (List Int)) (g j : Nat)
    (hj : j < (group_slice colors g).length) :
    4 * j + 4 ≤ ((make_color_binary colors).getD g []).length
    ∧ (3 ≤ ((group_slice colors g).getD j []).length →
        ((((make_color_binary colors).getD g []).drop (4 * j)).take 4).map
            (fun b : Nat => (b : Int))
          = [clampInt 0 255 (vecAt ((group_slice colors g).getD j []) 0 0),
             clampInt 0 255 (vecAt ((group_slice colors g).getD j []) 1 0),
             clampInt 0 255 (vecAt ((group_slice colors g).getD j []) 2 0), 0]
        ∧ ∀ k : Int, 0 ≤ clampInt 0 255 (vecAt ((group_slice colors g).getD j []) k 0)
            ∧ clampInt 0 255 (vecAt ((group_slice colors g).getD j []) k 0) ≤ 255)
    ∧ (((group_slice colors g).getD j []).length < 3 →
        (((make_color_binary colors).getD g []).drop (4 * j)).take 4 = [0, 0, 0, 0]) := by
  have hg : g = 0 := by
    by_contra hne
    rw [group_slice_later_empty colors g (by omega)] at hj
    simp at hj
  subst hg
  have hne : group_slice colors 0 ≠ [] := by
    intro hnil
    rw [hnil] at hj
    simp at hj
  have hbuf : (make_color_binary colors).getD 0 []
      = (group_slice colors 0).flatMap led_bytes := by
    rw [make_color_binary_eq, List.getD_cons_zero, if_pos hne]
  have hblock := flatMap_led_bytes_block (group_slice colors 0) j hj
  rw [hbuf]
  refine ⟨?_, fun h3 => ⟨?_, fun k => clampInt_range _⟩, fun h3 => ?_⟩
  · rw [flatMap_led_bytes_length]
    omega
  · rw [hblock]
    unfold led_bytes
    rw [if_pos h3]
    simp only [List.map_cons, List.map_nil, (toByte_clamp _).1]
    rfl
  · rw [hblock]
    unfold led_bytes
    rw [if_neg (by omega)]

/-- Claim C27 on the two-LED list `[[300, 20, -5], [1, 2]]`: the first LED is written as
`255, 20, 0, 0`, the second, which has two channels, as `0, 0, 0, 0`. -/
theorem make_color_binary_layout_witness :
    (((make_color_binary [[300, 20, -5], [1, 2]]).getD 0 []).drop (4 * 0)).take 4
        = [255, 20, 0, 0]
    ∧ (((make_color_binary [[300, 20, -5], [1, 2]]).getD 0 []).drop (4 * 1)).take 4
        = [0, 0, 0, 0] :=
  ⟨by decide,
   (make_color_binary_layout [[300, 20, -5], [1, 2]] 0 1 (by decide)).2.2 (by decide)⟩

/-! ### Dimming as a first-match cascade -/

/-- Claim C30 as stated fails: a resting segment (`move_speed = 0`, `direction = +1`) whose
end lies past the right edge reflects on the next `update_position` call, which sets
`direction = -1` and `move_speed = -|0| = 0`, so `direction` is `-1` although
`move_speed >= 0`. -/
theorem direction_resting_reflect_counterexample :
    segment_resting_past_edge.DirectionMatchesSpeed
    ∧ segment_resting_past_edge.is_edge_reflect = true
    ∧ segment_resting_past_edge.move_speed = 0
    ∧ (segment_resting_past_edge.update_position 60).move_speed = 0
    ∧ (segment_resting_past_edge.update_position 60).direction = -1
    ∧ ¬ (segment_resting_past_edge.update_position 60).DirectionMatchesSpeed := by
  decide!

/-- Claim C30, amended: the invariant `direction = +1` when `move_speed >= 0`, `-1`
otherwise, holds after construction and after `update_param("move_speed", v)`, and an
`update_position` call preserves it in wrap-around mode and in edge-reflect mode,
including a reflection off the left edge, and a reflection off the right edge when
`move_speed` is not 0; only a reflection off the right edge of a segment with
`move_speed = 0` breaks it. -/
theorem direction_matches_speed_preserved (s : LightSegment) (fps : Int)
    (h : s.DirectionMatchesSpeed) :
    (∀ cache segment_ID color transparency length move_speed move_range initial_position
        is_edge_reflect dimmer_time dimmer_time_ratio,
        (LightSegment.new cache segment_ID color transparency length move_speed move_range
          initial_position is_edge_reflect dimmer_time dimmer_time_ratio).DirectionMatchesSpeed)
    ∧ (∀ cache palettes_of v, ∃ s', s.update_param cache palettes_of "move_speed" (.float v)
        = some s' ∧ s'.DirectionMatchesSpeed ∧ s'.move_speed = v)
    ∧ (s.is_edge_reflect = false → (s.update_position fps).DirectionMatchesSpeed)
    ∧ (s.move_speed ≠ 0 → (s.update_position fps).DirectionMatchesSpeed)
    ∧ (¬ s.reflects_right fps → (s.update_position fps).DirectionMatchesSpeed)
    ∧ (s.reflects_right fps → s.move_speed = 0 →
        ¬ (s.update_position fps).DirectionMatchesSpeed) := by
  unfold LightSegment.DirectionMatchesSpeed at h
  refine ⟨fun _ _ _ _ _ _ _ _ _ _ _ => rfl, fun cache palettes_of v => ⟨_, rfl, rfl, rfl⟩,
    fun hw => ?_, fun hv => ?_,
    fun hr => ?_, fun hr hv => ?_⟩
  · unfold LightSegment.update_position
    simp only
    rw [if_neg (by rw [hw]; decide)]
    split_ifs <;> exact h
  · unfold LightSegment.update_position
    simp only
    split_ifs
    · unfold LightSegment.DirectionMatchesSpeed
      simp [abs_nonneg]
    · unfold LightSegment.DirectionMatchesSpeed
      have : ¬ (0 ≤ -|s.move_speed|) := by
        have := abs_pos.mpr hv
        linarith
      simp [this]
    all_goals exact h
  · unfold LightSegment.reflects_right at hr
    unfold LightSegment.update_position
    simp only
    split_ifs with h1 h2 h3
    · unfold LightSegment.DirectionMatchesSpeed
      simp [abs_nonneg]
    · exfalso
      apply hr
      refine ⟨h1, ?_, ?_⟩
      · push_cast at h2 ⊢
        exact h2
      · push_cast at h3 ⊢
        exact h3
    all_goals exact h
  · unfold LightSegment.reflects_right at hr
    obtain ⟨h1, h2, h3⟩ := hr
    unfold LightSegment.update_position
    simp only
    rw [if_pos h1, if_neg h2, if_pos h3]
    unfold LightSegment.DirectionMatchesSpeed
    simp [hv]

/-- Claim C30 (amended) on the moving segment of scenario S4: the invariant holds before
and after one frame at 60 fps. -/
theorem direction_matches_speed_preserved_witness :
    segment_S4.DirectionMatchesSpeed ∧ (segment_S4.update_position 60).DirectionMatchesSpeed :=
  ⟨by decide!, (direction_matches_speed_preserved segment_S4 60 (by decide!)).2.2.2.1
    (by decide!)⟩

/-! ### Dimmer ratio from tempo -/

namespace LightingSwitcher

theorem color_shift_loop_tables (s : LightingSwitcher) (n : Nat) :
    ((List.range n).foldl color_shift_step (s, [])).1.tempo_anchor = s.tempo_anchor
    ∧ ((List.range n).foldl color_shift_step (s, [])).1.dimmer_time_ratio_anchor
        = s.dimmer_time_ratio_anchor
    ∧ ((List.range n).foldl color_shift_step (s, [])).1.current_palette_index
        = s.current_palette_index
    ∧ ((List.range n).foldl color_shift_step (s, [])).1.current_effect_index
        = s.current_effect_index
    ∧ ((List.range n).foldl color_shift_step (s, [])).1.tempo = s.tempo := by
  induction n with
  | zero => exact ⟨rfl, rfl, rfl, rfl, rfl⟩
  | succ n ih =>
    rw [List.range_succ, List.foldl_append]
    simp only [List.foldl_cons, List.foldl_nil]
    exact ih

theorem light_switch_flag_tables (s : LightingSwitcher) (h : s.Tables) :
    s.light_switch_flag.1.Tables := by
  obtain ⟨h1, h2, h3, h4, h5⟩ := h
  unfold light_switch_flag
  split_ifs
  · exact ⟨h1, h2, h3, h4, h5⟩
  · exact ⟨h1, h2, h3, h4, h5⟩
  · exact ⟨h1, h2, h3, h4, h5⟩
  · exact ⟨h1, h2, h3, h4, h5⟩
  · exact ⟨h1, h2, h3, h4, h5⟩
  · obtain ⟨c1, c2, _, c4⟩ := color_shift_loop_consts s s.segment_num.toNat
    obtain ⟨t1, t2, _, _, _⟩ := color_shift_loop_tables s s.segment_num.toNat
    exact ⟨c1.trans h1, c2.trans h2, c4.trans h3, t1.trans h4, t2.trans h5⟩
  · exact ⟨h1, h2, h3, h4, h5⟩

theorem call_tables (s : LightingSwitcher) (h : s.Tables) (c : SwitcherCall) :
    (s.call c).1.Tables := by
  cases c with
  | update_genre g => exact h
  | update_tempo t => exact h
  | update_light_switch_flgs m => exact h
  | adopt_dimmer_time_to_tempo => exact h
  | light_switch_flag => exact light_switch_flag_tables s h

theorem run_tables (calls : List SwitcherCall) (s : LightingSwitcher) (h : s.Tables) :
    (s.run calls).Tables := by
  induction calls generalizing s with
  | nil => exact h
  | cons c t ih => exact ih _ (call_tables s h c)

theorem new_tables : LightingSwitcher.new.Tables := ⟨rfl, rfl, rfl, rfl, rfl⟩

theorem calc_dimmer_time_ratio_eq (s : LightingSwitcher) (h : s.Tables) :
    s.calc_dimmer_time_ratio = dimmer_ratio_curve (s.tempo : ℚ) := by
  obtain ⟨_, _, _, h4, h5⟩ := h
  unfold calc_dimmer_time_ratio dimmer_ratio_curve line_through
  rw [h4, h5]
  have hr : List.range 4 = [0, 1, 2, 3] := rfl
  simp only [List.length_cons, List.length_nil, Nat.reduceAdd, Nat.add_one_sub_one, hr]
  by_cases c1 : s.tempo < 60
  · have c1q : (s.tempo : ℚ) < 60 := by exact_mod_cast c1
    simp [vecAt, c1, c1q]
  · have c1q : ¬ (s.tempo : ℚ) < 60 := by exact_mod_cast c1
    by_cases c5 : s.tempo > 140
    · have c2q : ¬ (s.tempo : ℚ) ≤ 80 := by
        have : (80 : Int) < s.tempo := by omega
        exact_mod_cast not_le.mpr this
      have c3q : ¬ (s.tempo : ℚ) ≤ 100 := by
        have : (100 : Int) < s.tempo := by omega
        exact_mod_cast not_le.mpr this
      have c4q : ¬ (s.tempo : ℚ) ≤ 120 := by
        have : (120 : Int) < s.tempo := by omega
        exact_mod_cast not_le.mpr this
      have c5q : ¬ (s.tempo : ℚ) ≤ 140 := by exact_mod_cast not_le.mpr c5
      simp [vecAt, c1, c1q, c5, c2q, c3q, c4q, c5q]
    · by_cases c2 : s.tempo ≤ 80
      · have c2q : (s.tempo : ℚ) ≤ 80 := by exact_mod_cast c2
        simp [vecAt, c1, c1q, c5, c2, c2q, List.find?]
        ring
      · have c2q : ¬ (s.tempo : ℚ) ≤ 80 := by exact_mod_cast c2
        by_cases c3 : s.tempo ≤ 100
        · have c3q : (s.tempo : ℚ) ≤ 100 := by exact_mod_cast c3
          simp [vecAt, c1, c1q, c5, c2, c2q, c3, c3q, List.find?]
          ring
        · have c3q : ¬ (s.tempo : ℚ) ≤ 100 := by exact_mod_cast c3
          by_cases c4 : s.tempo ≤ 120
          · have c4q : (s.tempo : ℚ) ≤ 120 := by exact_mod_cast c4
            simp [vecAt, c1, c1q, c5, c2, c2q, c3, c3q, c4, c4q, List.find?]
            ring
          · have c4q : ¬ (s.tempo : ℚ) ≤ 120 := by exact_mod_cast c4
            have c5' : s.tempo ≤ 140 := by omega
            have c5q : (s.tempo : ℚ) ≤ 140 := by exact_mod_cast c5'
            simp [vecAt, c1, c1q, c5, c2, c2q, c3, c3q, c4, c4q, c5', c5q, List.find?]
            ring

end LightingSwitcher

namespace LightingSwitcher

theorem dimmer_ratio_curve_anchors :
    dimmer_ratio_curve 60 = 3 ∧ dimmer_ratio_curve 80 = 1 ∧ dimmer_ratio_curve 100 = 7 / 10
    ∧ dimmer_ratio_curve 120 = 1 / 2 ∧ dimmer_ratio_curve 140 = 3 / 10 := by
  unfold dimmer_ratio_curve line_through
  norm_num

theorem dimmer_ratio_curve_bounds (t : ℚ) :
    3 / 10 ≤ dimmer_ratio_curve t ∧ dimmer_ratio_curve t ≤ 3 := by
  unfold dimmer_ratio_curve line_through
  split_ifs <;> constructor <;> norm_num <;> linarith

theorem dimmer_ratio_curve_antitone (t1 t2 : ℚ) (h : t1 ≤ t2) :
    dimmer_ratio_curve t2 ≤ dimmer_ratio_curve t1 := by
  unfold dimmer_ratio_curve line_through
  split_ifs <;> norm_num <;> linarith

end LightingSwitcher

/-- Claim C22: after any sequence of calls on a fresh switcher, and so for every integer
tempo stored by `update_tempo`, `adopt_dimmer_time_to_tempo()` emits exactly 10 commands,
the `i`-th (`i = 0..9`) addressed
`/scene/1/effect/{current_effect_id}/segment/{i+1}/dimmer_time_ratio`, all carrying the
same ratio: the piecewise-linear interpolation through `(60, 3)`, `(80, 1)`, `(100, 0.7)`,
`(120, 0.5)`, `(140, 0.3)` at the tempo, 3 below 60 and 0.3 above 140; this ratio takes the
anchor value at each anchor, is non-increasing in the tempo and lies in `[0.3, 3]`. -/
theorem adopt_dimmer_time_commands (calls : List SwitcherCall) (tempo : Int) :
    ((LightingSwitcher.new.run calls).update_tempo tempo).tempo = tempo
    ∧ (LightingSwitcher.new.run calls).adopt_dimmer_time_to_tempo.length = 10
    ∧ (LightingSwitcher.new.run calls).adopt_dimmer_time_to_tempo
        = (List.range 10).map (fun i =>
            { address := "/scene/1/effect/"
                ++ toString (LightingSwitcher.new.run calls).current_effect_id ++ "/segment/"
                ++ toString ((i : Int) + 1) ++ "/dimmer_time_ratio"
              data := .double (LightingSwitcher.dimmer_ratio_curve
                ((LightingSwitcher.new.run calls).tempo : ℚ)) })
    ∧ (LightingSwitcher.dimmer_ratio_curve 60 = 3
        ∧ LightingSwitcher.dimmer_ratio_curve 80 = 1
        ∧ LightingSwitcher.dimmer_ratio_curve 100 = 7 / 10
        ∧ LightingSwitcher.dimmer_ratio_curve 120 = 1 / 2
        ∧ LightingSwitcher.dimmer_ratio_curve 140 = 3 / 10)
    ∧ (∀ t : Int, t < 60 → LightingSwitcher.dimmer_ratio_curve (t : ℚ) = 3)
    ∧ (∀ t : Int, 140 < t → LightingSwitcher.dimmer_ratio_curve (t : ℚ) = 3 / 10)
    ∧ (∀ t1 t2 : Int, t1 ≤ t2 →
        LightingSwitcher.dimmer_ratio_curve (t2 : ℚ)
          ≤ LightingSwitcher.dimmer_ratio_curve (t1 : ℚ))
    ∧ (∀ t : Int, 3 / 10 ≤ LightingSwitcher.dimmer_ratio_curve (t : ℚ)
        ∧ LightingSwitcher.dimmer_ratio_curve (t : ℚ) ≤ 3) := by
  have ht := LightingSwitcher.run_tables calls _ LightingSwitcher.new_tables
  have hcmd : (LightingSwitcher.new.run calls).adopt_dimmer_time_to_tempo
        = (List.range 10).map (fun i =>
            { address := "/scene/1/effect/"
                ++ toString (LightingSwitcher.new.run calls).current_effect_id ++ "/segment/"
                ++ toString ((i : Int) + 1) ++ "/dimmer_time_ratio"
              data := .double (LightingSwitcher.dimmer_ratio_curve
                ((LightingSwitcher.new.run calls).tempo : ℚ)) }) := by
    unfold LightingSwitcher.adopt_dimmer_time_to_tempo
    rw [ht.2.2.1, LightingSwitcher.calc_dimmer_time_ratio_eq _ ht]
    rfl
  refine ⟨rfl, ?_, hcmd, LightingSwitcher.dimmer_ratio_curve_anchors, fun t h => ?_,
    fun t h => ?_, fun t1 t2 h => ?_, fun t => LightingSwitcher.dimmer_ratio_curve_bounds _⟩
  · rw [hcmd, List.length_map, List.length_range]
  · have hq : (t : ℚ) < 60 := by exact_mod_cast h
    unfold LightingSwitcher.dimmer_ratio_curve
    rw [if_pos hq]
  · have hq : (140 : ℚ) < (t : ℚ) := by exact_mod_cast h
    unfold LightingSwitcher.dimmer_ratio_curve
    rw [if_neg (by linarith), if_neg (by linarith), if_neg (by linarith), if_neg (by linarith),
      if_neg (by linarith)]
  · exact LightingSwitcher.dimmer_ratio_curve_antitone _ _ (by exact_mod_cast h)

/-! ### Palette and effect rotation -/

namespace LightingSwitcher

theorem nextIndex_mod (k n : Nat) (hn : 0 < n) (hn32 : n < 2 ^ 32) :
    nextIndex ((k % n : Nat) : Int) n = (((k + 1) % n : Nat) : Int) := by
  unfold nextIndex
  have hlt : k % n < n := Nat.mod_lt _ hn
  have h1 : (((k % n : Nat) : Int) + 1) % (2 ^ 32 : Int) = ((k % n : Nat) : Int) + 1 := by
    apply Int.emod_eq_of_lt
    · omega
    · have : ((2 : Int) ^ 32) = ((2 ^ 32 : Nat) : Int) := by norm_num
      rw [this]
      omega
  rw [h1]
  have h2 : ((k % n : Nat) : Int) + 1 = ((k % n + 1 : Nat) : Int) := by push_cast; rfl
  rw [h2, ← Int.natCast_mod, Nat.mod_add_mod]

theorem light_switch_flag_palette (s : LightingSwitcher) (h : s.takes_palette_change = true) :
    s.light_switch_flag
      = (s.get_next_palette_id.1,
          [{ address := "/scene/1/change_palette", data := .string s.get_next_palette_id.2 }]) := by
  have h' : flagOf s.light_switch_flgs "lighting_start_flg" = false
      ∧ flagOf s.light_switch_flgs "lighting_end_flg" = false
      ∧ flagOf s.light_switch_flgs "lighting_scene_change_flg" = false
      ∧ flagOf s.light_switch_flgs "palette_change_flg" = true := by
    simpa [takes_palette_change, and_assoc] using h
  obtain ⟨h1, h2, h3, h4⟩ := h'
  simp [light_switch_flag, h1, h2, h3, h4]

theorem light_switch_flag_effect (s : LightingSwitcher) (h : s.takes_effect_change = true) :
    s.light_switch_flag
      = ({ s.get_next_effect_id.1 with current_effect_id := s.get_next_effect_id.2 },
          [{ address := "/scene/1/change_effect", data := .int s.get_next_effect_id.2 }]) := by
  have h' : flagOf s.light_switch_flgs "lighting_start_flg" = false
      ∧ flagOf s.light_switch_flgs "lighting_end_flg" = false
      ∧ flagOf s.light_switch_flgs "lighting_scene_change_flg" = false
      ∧ flagOf s.light_switch_flgs "palette_change_flg" = false
      ∧ flagOf s.light_switch_flgs "effect_change_flg" = true := by
    simpa [takes_effect_change, and_assoc] using h
  obtain ⟨h1, h2, h3, h4, h5⟩ := h'
  simp [light_switch_flag, h1, h2, h3, h4, h5]

/-- A `light_switch_flag()` call that does not take the palette-change branch leaves the
palette index alone; one that does not take the effect-change branch leaves the effect
index alone. -/
theorem light_switch_flag_other_branch (s : LightingSwitcher) :
    (s.takes_palette_change = false →
      s.light_switch_flag.1.current_palette_index = s.current_palette_index)
    ∧ (s.takes_effect_change = false →
      s.light_switch_flag.1.current_effect_index = s.current_effect_index) := by
  obtain ⟨_, _, l3, l4, _⟩ := color_shift_loop_tables s s.segment_num.toNat
  constructor
  · intro hp
    unfold light_switch_flag
    split_ifs with h1 h2 h3 h4 h5 h6
    · rfl
    · rfl
    · rfl
    · exfalso
      have : s.takes_palette_change = true := by simp [takes_palette_change, h1, h2, h3, h4]
      rw [hp] at this
      exact absurd this (by decide)
    · rfl
    · exact l3
    · rfl
  · intro he
    unfold light_switch_flag
    split_ifs with h1 h2 h3 h4 h5 h6
    · rfl
    · rfl
    · rfl
    · rfl
    · exfalso
      have : s.takes_effect_change = true := by
        simp [takes_effect_change, h1, h2, h3, h4, h5]
      rw [he] at this
      exact absurd this (by decide)
    · exact l4
    · rfl

theorem takes_palette_effect_exclusive (s : LightingSwitcher)
    (h : s.takes_palette_change = true) : s.takes_effect_change = false := by
  have h' : flagOf s.light_switch_flgs "palette_change_flg" = true := by
    have := h
    simp only [takes_palette_change, Bool.and_eq_true] at this
    exact this.2
  simp [takes_effect_change, h']

end LightingSwitcher

namespace LightingSwitcher

theorem call_rotated (s : LightingSwitcher) (p e : Nat) (h : s.Rotated p e) (c : SwitcherCall) :
    (s.call c).1.Rotated (p + paletteCount s [c]) (e + effectCount s [c]) := by
  cases c with
  | update_genre g => exact h
  | update_tempo t => exact h
  | update_light_switch_flgs m => exact h
  | adopt_dimmer_time_to_tempo => exact h
  | light_switch_flag =>
    obtain ⟨ht, hp, he⟩ := h
    have ht' := light_switch_flag_tables s ht
    simp only [paletteCount, effectCount, call, Nat.add_zero]
    refine ⟨ht', ?_, ?_⟩
    · by_cases hpc : s.takes_palette_change = true
      · rw [if_pos hpc, light_switch_flag_palette s hpc]
        show nextIndex s.current_palette_index s.palette_ids.length = _
        rw [hp, ht.2.1]
        exact nextIndex_mod p 5 (by decide) (by decide)
      · rw [if_neg hpc, Nat.add_zero,
          (light_switch_flag_other_branch s).1 (by simpa using hpc)]
        exact hp
    · by_cases hec : s.takes_effect_change = true
      · rw [if_pos hec, light_switch_flag_effect s hec]
        show nextIndex s.current_effect_index s.effect_ids.length = _
        rw [he, ht.1]
        exact nextIndex_mod e 8 (by decide) (by decide)
      · rw [if_neg hec, Nat.add_zero,
          (light_switch_flag_other_branch s).2 (by simpa using hec)]
        exact he

theorem run_rotated (calls : List SwitcherCall) (s : LightingSwitcher) (p e : Nat)
    (h : s.Rotated p e) :
    (s.run calls).Rotated (p + paletteCount s calls) (e + effectCount s calls) := by
  induction calls generalizing s p e with
  | nil => exact h
  | cons c t ih =>
    have hstep := call_rotated s p e h c
    have := ih (s.call c).1 _ _ hstep
    simp only [run, List.foldl_cons] at this ⊢
    have hp : p + paletteCount s (c :: t)
        = p + paletteCount s [c] + paletteCount (s.call c).1 t := by
      simp only [paletteCount]
      omega
    have he : e + effectCount s (c :: t)
        = e + effectCount s [c] + effectCount (s.call c).1 t := by
      simp only [effectCount]
      omega
    rw [hp, he]
    exact this

theorem new_rotated : LightingSwitcher.new.Rotated 0 0 := ⟨new_tables, rfl, rfl⟩

end LightingSwitcher

/-- Claim C21: after any sequence of calls on a fresh switcher in which `p` calls took the
palette-change branch and `e` calls took the effect-change branch, a `light_switch_flag()`
call that takes the palette-change branch (the `k`-th palette change, `k = p + 1`) emits
exactly `/scene/1/change_palette` with `palette_ids[k mod 5]` and leaves the effect
rotation alone; one that takes the effect-change branch (the `k`-th effect change,
`k = e + 1`) emits exactly `/scene/1/change_effect` with `effect_ids[k mod 8]`, sets
`current_effect_id` to the emitted id and leaves the palette rotation alone; a call that
takes another branch advances neither rotation. The palettes of changes 1..6 are
B, C, D, E, A, B and the effects of changes 1..9 are 2, ..., 8, 1, 2. -/
theorem rotation_sequential_wraparound (calls : List SwitcherCall) :
    ((LightingSwitcher.new.run calls).takes_palette_change = true →
      (LightingSwitcher.new.run calls).light_switch_flag.2
        = [{ address := "/scene/1/change_palette"
             data := .string (vecAt ["A", "B", "C", "D", "E"]
              (((LightingSwitcher.paletteCount LightingSwitcher.new calls + 1) % 5 : Nat) : Int)
              "") }]
      ∧ (LightingSwitcher.new.run calls).light_switch_flag.1.current_palette_index
          = (((LightingSwitcher.paletteCount LightingSwitcher.new calls + 1) % 5 : Nat) : Int)
      ∧ (LightingSwitcher.new.run calls).light_switch_flag.1.current_effect_index
          = (LightingSwitcher.new.run calls).current_effect_index)
    ∧ ((LightingSwitcher.new.run calls).takes_effect_change = true →
      (LightingSwitcher.new.run calls).light_switch_flag.2
        = [{ address := "/scene/1/change_effect"
             data := .int (vecAt [1, 2, 3, 4, 5, 6, 7, 8]
              (((LightingSwitcher.effectCount LightingSwitcher.new calls + 1) % 8 : Nat) : Int)
              0) }]
      ∧ (LightingSwitcher.new.run calls).light_switch_flag.1.current_effect_id
          = vecAt [1, 2, 3, 4, 5, 6, 7, 8]
              (((LightingSwitcher.effectCount LightingSwitcher.new calls + 1) % 8 : Nat) : Int)
              0
      ∧ (LightingSwitcher.new.run calls).light_switch_flag.1.current_effect_index
          = (((LightingSwitcher.effectCount LightingSwitcher.new calls + 1) % 8 : Nat) : Int)
      ∧ (LightingSwitcher.new.run calls).light_switch_flag.1.current_palette_index
          = (LightingSwitcher.new.run calls).current_palette_index)
    ∧ ((LightingSwitcher.new.run calls).takes_palette_change = false →
      (LightingSwitcher.new.run calls).light_switch_flag.1.current_palette_index
        = (LightingSwitcher.new.run calls).current_palette_index)
    ∧ ((LightingSwitcher.new.run calls).takes_effect_change = false →
      (LightingSwitcher.new.run calls).light_switch_flag.1.current_effect_index
        = (LightingSwitcher.new.run calls).current_effect_index)
    ∧ ((List.range 6).map (fun j => vecAt ["A", "B", "C", "D", "E"] (((j + 1) % 5 : Nat) : Int) "")
        = ["B", "C", "D", "E", "A", "B"])
    ∧ ((List.range 9).map
          (fun j => vecAt [(1 : Int), 2, 3, 4, 5, 6, 7, 8] (((j + 1) % 8 : Nat) : Int) 0)
        = [2, 3, 4, 5, 6, 7, 8, 1, 2]) := by
  have hrot := LightingSwitcher.run_rotated calls _ 0 0 LightingSwitcher.new_rotated
  rw [Nat.zero_add, Nat.zero_add] at hrot
  obtain ⟨⟨h1, h2, _, _, _⟩, hp, he⟩ := hrot
  have hother := LightingSwitcher.light_switch_flag_other_branch (LightingSwitcher.new.run calls)
  refine ⟨fun hpc => ?_, fun hec => ?_, hother.1, hother.2, by decide, by decide⟩
  · have hidx : LightingSwitcher.nextIndex (LightingSwitcher.new.run calls).current_palette_index
        (LightingSwitcher.new.run calls).palette_ids.length
        = (((LightingSwitcher.paletteCount LightingSwitcher.new calls + 1) % 5 : Nat) : Int) := by
      rw [hp, h2]
      exact LightingSwitcher.nextIndex_mod _ 5 (by decide) (by decide)
    refine ⟨?_, ?_, hother.2 (LightingSwitcher.takes_palette_effect_exclusive _ hpc)⟩
    · rw [LightingSwitcher.light_switch_flag_palette _ hpc]
      unfold LightingSwitcher.get_next_palette_id
      dsimp only
      rw [hidx, h2]
    · rw [LightingSwitcher.light_switch_flag_palette _ hpc]
      exact hidx
  · have hidx : LightingSwitcher.nextIndex (LightingSwitcher.new.run calls).current_effect_index
        (LightingSwitcher.new.run calls).effect_ids.length
        = (((LightingSwitcher.effectCount LightingSwitcher.new calls + 1) % 8 : Nat) : Int) := by
      rw [he, h1]
      exact LightingSwitcher.nextIndex_mod _ 8 (by decide) (by decide)
    have hnp : (LightingSwitcher.new.run calls).takes_palette_change = false := by
      cases hpc : (LightingSwitcher.new.run calls).takes_palette_change with
      | false => rfl
      | true =>
        rw [LightingSwitcher.takes_palette_effect_exclusive _ hpc] at hec
        exact absurd hec (by decide)
    refine ⟨?_, ?_, ?_, hother.1 hnp⟩
    · rw [LightingSwitcher.light_switch_flag_effect _ hec]
      unfold LightingSwitcher.get_next_effect_id
      dsimp only
      rw [hidx, h1]
    · rw [LightingSwitcher.light_switch_flag_effect _ hec]
      unfold LightingSwitcher.get_next_effect_id
      dsimp only
      rw [hidx, h1]
    · rw [LightingSwitcher.light_switch_flag_effect _ hec]
      exact hidx

/-- Claim C21 on a switcher that has changed the palette once and now holds the 8-beat
flag: the call is the first effect change and emits `/scene/1/change_effect` with effect
2. -/
theorem rotation_sequential_wraparound_witness :
    (LightingSwitcher.new.run calls_palette_then_effect).light_switch_flag.2
        = [{ address := "/scene/1/change_effect", data := .int 2 }]
    ∧ (LightingSwitcher.new.run calls_palette_then_effect).current_palette_index = 1 :=
  ⟨((rotation_sequential_wraparound calls_palette_then_effect).2.1 (by decide)).1,
   by decide⟩

/-! ### The `dimmer_time_ratio` command -/

theorem stoi_isDigits (s : String) (n : Int) (h : stoi s = some n) : IsDigits s.data := by
  unfold stoi at h
  split_ifs at h with hc
  exact hc.1

/-- Claim C23: for every `dimmer_time_ratio` command with double payload `v` addressed to
an existing scene, effect and segment, the call returns normally, the segment's
`dimmer_time_ratio` becomes `max(0.1, v)`, which is at least 0.1, no other field of that
segment changes, and every other segment, effect and scene, and every other field of the
effect and the scene addressed, is unchanged. -/
theorem dimmer_time_ratio_command (cache : PaletteMap) (h : DataReceiveHandler)
    (data : BlockCInputData) (sid eid gid : List Char) (v : ℚ) (a b c : Int)
    (scene : LightScene) (effect : LightEffect) (segment : LightSegment)
    (haddr : data.address = segment_address sid eid gid "dimmer_time_ratio".data)
    (hdata : data.data = .double v)
    (ha : stoi (String.mk sid) = some a) (hb : stoi (String.mk eid) = some b)
    (hc : stoi (String.mk gid) = some c)
    (hscene : mapFind a h.light_scenes = some scene)
    (heffect : mapFind b scene.effects = some effect)
    (hsegment : mapFind c effect.segments = some segment) :
    (DataReceiveHandler.handle_input_data cache h data).thrown = none
    ∧ (1 : ℚ) / 10 ≤ max (1 / 10) v
    ∧ mapFind a (DataReceiveHandler.handle_input_data cache h data).handler.light_scenes
        = some { scene with
            effects := mapSet b
              { effect with
                segments := mapSet c { segment with dimmer_time_ratio := max (1 / 10) v }
                  effect.segments } scene.effects }
    ∧ mapFind b (mapSet b
          { effect with
            segments := mapSet c { segment with dimmer_time_ratio := max (1 / 10) v }
              effect.segments } scene.effects)
        = some { effect with
            segments := mapSet c { segment with dimmer_time_ratio := max (1 / 10) v }
              effect.segments }
    ∧ mapFind c (mapSet c { segment with dimmer_time_ratio := max (1 / 10) v } effect.segments)
        = some { segment with dimmer_time_ratio := max (1 / 10) v }
    ∧ (∀ k, k ≠ c →
        mapFind k (mapSet c { segment with dimmer_time_ratio := max (1 / 10) v }
          effect.segments) = mapFind k effect.segments)
    ∧ (∀ k, k ≠ b →
        mapFind k (mapSet b
          { effect with
            segments := mapSet c { segment with dimmer_time_ratio := max (1 / 10) v }
              effect.segments } scene.effects) = mapFind k scene.effects)
    ∧ (∀ k, k ≠ a →
        mapFind k (DataReceiveHandler.handle_input_data cache h data).handler.light_scenes
          = mapFind k h.light_scenes) := by
  have hres : DataReceiveHandler.handle_input_data cache h data
      = DataReceiveHandler.returned (h.store_segment a scene b effect c
          { segment with dimmer_time_ratio := max (1 / 10) v }) := by
    obtain ⟨address, payload⟩ := data
    simp only at hdata
    subst hdata
    rw [DataReceiveHandler.handle_segment cache h _ sid eid gid "dimmer_time_ratio".data
      (stoi_isDigits _ _ ha) (stoi_isDigits _ _ hb) (stoi_isDigits _ _ hc) (by decide) haddr]
    unfold DataReceiveHandler.scene_effect_segment_callback
    simp only [List.getD_cons_succ, List.getD_cons_zero]
    rw [ha, hb, hc]
    dsimp only
    rw [hscene]
    unfold LightScene.get_light_effects
    dsimp only
    rw [heffect]
    dsimp only
    rw [hsegment]
    rfl
  rw [hres]
  refine ⟨rfl, le_max_left _ _, ?_, ?_, ?_, fun k hk => ?_, fun k hk => ?_, fun k hk => ?_⟩
  · exact mapFind_mapSet_same a _ h.light_scenes
  · exact mapFind_mapSet_same b _ scene.effects
  · exact mapFind_mapSet_same c _ effect.segments
  · exact mapFind_mapSet_other k c _ effect.segments (fun heq => hk heq.symm)
  · exact mapFind_mapSet_other k b _ scene.effects (fun heq => hk heq.symm)
  · exact mapFind_mapSet_other k a _ h.light_scenes (fun heq => hk heq.symm)

/-- Claim C23 on the handler with scene 1, effect 2 and segment 3: the command
`/scene/1/effect/2/segment/3/dimmer_time_ratio` with payload 0.05 returns normally and
leaves the other scenes alone; the stored ratio is `max(0.1, 0.05) = 0.1`. -/
theorem dimmer_time_ratio_command_witness :
    (DataReceiveHandler.handle_input_data DEFAULT_COLOR_PALETTES handler_one_segment
        ⟨"/scene/1/effect/2/segment/3/dimmer_time_ratio", .double (1 / 20)⟩).thrown = none
    ∧ ((mapFind 1 (DataReceiveHandler.handle_input_data DEFAULT_COLOR_PALETTES
          handler_one_segment
          ⟨"/scene/1/effect/2/segment/3/dimmer_time_ratio", .double (1 / 20)⟩).handler.light_scenes).bind
        fun scene => (mapFind 2 scene.effects).bind
          fun effect => (mapFind 3 effect.segments).map
            fun segment => segment.dimmer_time_ratio) = some (1 / 10) :=
  ⟨(dimmer_time_ratio_command DEFAULT_COLOR_PALETTES handler_one_segment
      ⟨"/scene/1/effect/2/segment/3/dimmer_time_ratio", .double (1 / 20)⟩
      "1".data "2".data "3".data (1 / 20) 1 2 3
      ((LightScene.new 1).add_effect 2 ((LightEffect.new 2 10 60).add_segment 3 segment_S4))
      (((LightEffect.new 2 10 60).add_segment 3 segment_S4).set_current_palette "A")
      segment_S4 (by decide) rfl (by decide) (by decide) (by decide) rfl rfl rfl).1,
   by decide!⟩

/-! ### LED indices of a segment -/

theorem truncToInt_intCast (n : Int) : truncToInt (n : ℚ) = n := by
  unfold truncToInt
  rw [Rat.num_intCast, Rat.den_intCast]
  exact Int.tdiv_one n

namespace LightSegment

theorem get_light_data_eq (s : LightSegment) (palette : ColorPalette) :
    s.get_light_data palette
      = if s.total_segment_length ≤ 0 then []
        else (intRange ⌊s.current_position⌋
            ⌊s.current_position + (s.total_segment_length : ℚ) - 1 / 10 ^ 9⌋).map
          (s.light_entry (s.base_rgb palette) s.segment_transparencies
            (takePad 3 (0 : Int) s.length) s.total_segment_length s.apply_dimming) := rfl

theorem light_entry_fst (s : LightSegment) (base : List (List Int)) (tr : List ℚ)
    (lens : List Int) (total : Int) (brightness : ℚ) (led_idx : Int) :
    (s.light_entry base tr lens total brightness led_idx).1 = led_idx := rfl

theorem get_light_data_keys (s : LightSegment) (palette : ColorPalette)
    (hL : 0 < s.total_segment_length) :
    (s.get_light_data palette).map Prod.fst
      = intRange ⌊s.current_position⌋
          ⌊s.current_position + (s.total_segment_length : ℚ) - 1 / 10 ^ 9⌋ := by
  rw [get_light_data_eq, if_neg (not_le.mpr hL), List.map_map]
  conv_rhs => rw [← List.map_id (intRange _ _)]
  apply List.map_congr_left
  intro a _
  rfl

theorem intRange_eq_map (lo hi : Int) :
    intRange lo hi
      = (List.range (hi - lo + 1).toNat).map (fun k : Nat => lo + (k : Int)) := by
  unfold intRange
  induction (List.range (hi - lo + 1).toNat) with
  | nil => rfl
  | cons a t ih =>
    simp only [List.map_cons, ← ih]
    rfl

end LightSegment

theorem PerformerSwitchDetector.calc_feature_full (d : PerformerSwitchDetector)
    (hfull : ¬ d.history.size < 15) :
    d.calc_feature
      = { d with features :=
            (mapSet "switch_score"
              (.int (boolToInt (cos_sim_below_090 (d.ratio 1) (d.ratio 11))
                + (if (List.zipWith (fun x y => |x - y|) (d.ratio 1) (d.ratio 11)).sum > 3 / 10
                    then 1 else 0)))
              (mapSet "volume_band_ratio_diff"
                (.double (List.zipWith (fun x y => |x - y|) (d.ratio 1) (d.ratio 11)).sum)
                (mapSet "band_balance_shift_flg"
                  (.bool (cos_sim_below_090 (d.ratio 1) (d.ratio 11))) d.features))) } := by
  unfold PerformerSwitchDetector.calc_feature
  rw [if_neg hfull]
  rfl

/-- Claim C33 at the input on which the guard fails: on the full history whose latest
frame has the band levels `-e, 0, 0`, with `e` the double nearest to `1e-5`, the binary64
sum `total_now = high + mid + low + 1e-5` is 0, and `calc_feature` divides the band levels
of the latest sample by it (its features are computed from `ratio 1`, whose entries are
the band levels over `total 1`). -/
theorem performer_total_zero_at_cancel :
    performer_after_cancel.history.size = 15
    ∧ performer_after_cancel.band_level "volume_high" 1 = -f64 (1 / 10 ^ 5)
    ∧ performer_after_cancel.band_level "volume_mid" 1 = 0
    ∧ performer_after_cancel.band_level "volume_low" 1 = 0
    ∧ f64 (1 / 10 ^ 5) = 5902958103587057 / 590295810358705651712
    ∧ performer_after_cancel.total 1 = 0
    ∧ performer_after_cancel.ratio 1
        = [performer_after_cancel.band_level "volume_high" 1 / 0 + 1 / 10 ^ 5,
           performer_after_cancel.band_level "volume_mid" 1 / 0 + 1 / 10 ^ 5,
           performer_after_cancel.band_level "volume_low" 1 / 0 + 1 / 10 ^ 5]
    ∧ mapFind "volume_band_ratio_diff" performer_after_cancel.calc_feature.features
        = some (.double (List.zipWith (fun x y => |x - y|) (performer_after_cancel.ratio 1)
            (performer_after_cancel.ratio 11)).sum) := by
  have hfull : ¬ performer_after_cancel.history.size < 15 := by decide!
  refine ⟨by decide!, by decide!, by decide!, by decide!, by decide!, by decide!, by decide!, ?_⟩
  rw [PerformerSwitchDetector.calc_feature_full performer_after_cancel hfull]
  simp (disch := decide) only [mapFind_mapSet_other, mapFind_mapSet_same]

/-! ### Opaque top layer -/

theorem truncToInt_ge (k : Int) (x : ℚ) (hk : 0 ≤ k) (h : (k : ℚ) ≤ x) : k ≤ truncToInt x := by
  have hx : 0 ≤ x := le_trans (by exact_mod_cast hk) h
  unfold truncToInt
  rw [Int.tdiv_eq_ediv (Rat.num_nonneg.mpr hx) (Int.ofNat_nonneg _), ← Rat.floor_def]
  exact Int.le_floor.mpr h

theorem truncToInt_nonpos (x : ℚ) (h : x ≤ 0) : truncToInt x ≤ 0 := by
  unfold truncToInt
  have hn : 0 ≤ -x.num := by
    have := Rat.num_nonpos.mpr h
    omega
  have h2 := Int.tdiv_nonneg hn (Int.ofNat_nonneg x.den)
  rw [Int.neg_tdiv] at h2
  omega

theorem channelLike_intCast (s : Int) : ChannelLike (s : ℚ) s := by
  unfold ChannelLike
  by_cases h0 : s ≤ 0
  · exact Or.inr (Or.inr ⟨by exact_mod_cast h0, h0⟩)
  · by_cases h1 : s ≤ 255
    · exact Or.inl ⟨rfl, by omega, h1⟩
    · exact Or.inr (Or.inl ⟨by exact_mod_cast (show (256 : Int) ≤ s by omega), by omega⟩)

theorem channelLike_f32 (x : ℚ) (s : Int) (h : ChannelLike x s) : ChannelLike (f32 x) s := by
  rcases h with ⟨hx, h0, h1⟩ | ⟨hx, hs⟩ | ⟨hx, hs⟩
  · refine Or.inl ⟨?_, h0, h1⟩
    rw [hx]
    exact f32_intCast s (by omega)
  · refine Or.inr (Or.inl ⟨?_, hs⟩)
    have h8 : pow2 8 = 256 := by decide!
    have := f32_pow2_le 8 (by decide) x (by rw [h8]; exact hx)
    rwa [h8] at this
  · exact Or.inr (Or.inr ⟨f32_nonpos x hx, hs⟩)

theorem channelLike_clamp (x : ℚ) (s : Int) (h : ChannelLike x s) :
    clampInt 0 255 (truncToInt x) = clampInt 0 255 s := by
  rcases h with ⟨hx, _, _⟩ | ⟨hx, hs⟩ | ⟨hx, hs⟩
  · rw [hx, truncToInt_intCast]
  · have := truncToInt_ge 256 x (by decide) (by exact_mod_cast hx)
    unfold clampInt
    omega
  · have := truncToInt_nonpos x hx
    unfold clampInt
    omega

theorem layer_f32_opaque (cur : List Int × ℚ) (col : List Int) :
    (layer_f32 cur (col, 1)).1 = [0, 1, 2].map (fun k => clampInt 0 255 (vecAt col k 0)) := by
  unfold layer_f32
  have h1 : clampQ 0 1 (f32 ((1 : ℚ) + f32 (cur.2 * f32 (1 - 1)))) = 1 := by
    rw [sub_self, f32_zero, mul_zero, f32_zero, add_zero, f32_one]
    unfold clampQ
    norm_num
  have hthr : (1 : ℚ) > f32 (1 / 10 ^ 6) := by decide!
  simp only [h1]
  rw [if_pos hthr]
  apply List.map_congr_left
  intro k _
  simp only [mul_one, sub_self, f32_zero, mul_zero, add_zero, div_one]
  exact channelLike_clamp _ _
    (channelLike_f32 _ _ (channelLike_f32 _ _ (channelLike_f32 _ _
      (channelLike_f32 _ _ (channelLike_intCast _)))))

theorem foldl_layer_f32_opaque_last (ents : List (List Int × ℚ)) (init : List Int × ℚ)
    (col : List Int) :
    ((ents ++ [(col, 1)]).foldl layer_f32 init).1
      = [0, 1, 2].map (fun k => clampInt 0 255 (vecAt col k 0)) := by
  rw [List.foldl_append]
  exact layer_f32_opaque _ col

theorem filter_key_unique {β : Type} (L : List (Int × β)) (hnd : (L.map Prod.fst).Nodup)
    (x : Int × β) (hx : x ∈ L) : L.filter (fun ent => ent.1 = x.1) = [x] := by
  induction L with
  | nil => simp at hx
  | cons a t ih =>
    simp only [List.map_cons, List.nodup_cons] at hnd
    obtain ⟨hnot, hnd'⟩ := hnd
    rcases List.mem_cons.mp hx with h | h
    · subst h
      rw [List.filter_cons_of_pos (by simp)]
      congr 1
      rw [List.filter_eq_nil_iff]
      intro b hb hbx
      apply hnot
      have : b.1 = x.1 := by simpa using hbx
      rw [← this]
      exact List.mem_map_of_mem _ hb
    · have hne : a.1 ≠ x.1 := by
        intro he
        apply hnot
        rw [he]
        exact List.mem_map_of_mem _ h
      rw [List.filter_cons_of_neg (by simpa using hne)]
      exact ih hnd' h

theorem intRange_nodup (lo hi : Int) : (intRange lo hi).Nodup := by
  rw [LightSegment.intRange_eq_map]
  apply List.Nodup.map _ (List.nodup_range _)
  intro a b hab
  simpa using hab

theorem get_light_data_keys_nodup (s : LightSegment) (palette : ColorPalette) :
    ((s.get_light_data palette).map Prod.fst).Nodup := by
  by_cases hL : 0 < s.total_segment_length
  · rw [LightSegment.get_light_data_keys s palette hL]
    exact intRange_nodup _ _
  · rw [LightSegment.get_light_data_eq, if_pos (not_lt.mp hL)]
    exact List.nodup_nil

/-- The entries for LED `i` end with the entry of the segment of largest id that covers it. -/
theorem led_entries_top (e : LightEffect) (cache : PaletteMap)
    (palettes_of : SceneRef → PaletteMap) (i : Nat)
    (hkeys : (e.segments.map Prod.fst).Nodup) (id : Int) (s : LightSegment)
    (ent : List Int × ℚ) (hseg : (id, s) ∈ e.segments)
    (hent : ((i : Int), ent)
      ∈ s.get_light_data (resolve_palette cache palettes_of e.scene e.current_palette))
    (htop : ∀ p ∈ e.segments, id < p.1 →
      ∀ x ∈ p.2.get_light_data (resolve_palette cache palettes_of e.scene e.current_palette),
        x.1 ≠ (i : Int)) :
    ∃ lower, led_entries e cache palettes_of i = lower ++ [ent] := by
  haveI : IsTotal (Int × LightSegment) (fun a b => a.1 ≤ b.1) := ⟨fun a b => le_total a.1 b.1⟩
  haveI : IsTrans (Int × LightSegment) (fun a b => a.1 ≤ b.1) :=
    ⟨fun _ _ _ h1 h2 => le_trans h1 h2⟩
  have hsorted : e.sorted_segments.Sorted (fun a b => a.1 ≤ b.1) :=
    List.sorted_insertionSort _ _
  have hperm : e.sorted_segments.Perm e.segments := List.perm_insertionSort _ _
  have hnd : (e.sorted_segments.map Prod.fst).Nodup :=
    (hperm.map Prod.fst).nodup_iff.mpr hkeys
  have hmem : (id, s) ∈ e.sorted_segments := hperm.mem_iff.mpr hseg
  obtain ⟨l1, l2, hsplit⟩ := List.append_of_mem hmem
  unfold led_entries
  rw [hsplit] at hsorted hnd ⊢
  have hl2 : ∀ p ∈ l2, id < p.1 := by
    intro p hp
    have hle : id ≤ p.1 := by
      have h2 := (List.pairwise_append.mp hsorted).2.1
      exact (List.pairwise_cons.mp h2).1 p hp
    have hne : id ≠ p.1 := by
      rw [List.map_append, List.map_cons] at hnd
      have h2 := (List.nodup_append.mp hnd).2.1
      have h3 := (List.nodup_cons.mp h2).1
      intro he
      apply h3
      show id ∈ List.map Prod.fst l2
      rw [he]
      exact List.mem_map_of_mem _ hp
    omega
  have hl2mem : ∀ p ∈ l2, p ∈ e.segments := by
    intro p hp
    apply hperm.mem_iff.mp
    rw [hsplit]
    exact List.mem_append_right _ (List.mem_cons_of_mem _ hp)
  have htail : (l2.flatMap (fun seg : Int × LightSegment => seg.2.get_light_data
      (resolve_palette cache palettes_of e.scene e.current_palette))).filter
      (fun x => x.1 = (i : Int)) = [] := by
    rw [List.filter_eq_nil_iff]
    intro x hx hxi
    obtain ⟨p, hp, hxp⟩ := List.mem_flatMap.mp hx
    exact htop p (hl2mem p hp) (hl2 p hp) x hxp (by simpa using hxi)
  have hmid := filter_key_unique _ (get_light_data_keys_nodup s
    (resolve_palette cache palettes_of e.scene e.current_palette)) ((i : Int), ent) hent
  simp only at hmid
  rw [List.flatMap_append, List.flatMap_cons, List.filter_append, List.filter_append, htail,
    hmid, List.append_nil, List.map_append]
  exact ⟨_, rfl⟩

theorem led_entries_none (e : LightEffect) (cache : PaletteMap)
    (palettes_of : SceneRef → PaletteMap) (i : Nat)
    (hnone : ∀ p ∈ e.segments,
      ∀ x ∈ p.2.get_light_data (resolve_palette cache palettes_of e.scene e.current_palette),
        x.1 ≠ (i : Int)) :
    led_entries e cache palettes_of i = [] := by
  have hperm : e.sorted_segments.Perm e.segments := List.perm_insertionSort _ _
  unfold led_entries
  rw [List.map_eq_nil_iff, List.filter_eq_nil_iff]
  intro x hx hxi
  obtain ⟨p, hp, hxp⟩ := List.mem_flatMap.mp hx
  exact hnone p (hperm.mem_iff.mp hp) x hxp (by simpa using hxi)

/-- Claim C38: in `get_led_output`, for every LED index `i` in `[0, led_count)` of an effect
whose segment map has distinct keys: if the segment of largest `segment_ID` among those whose
light data has an entry for `i` gives that entry the transparency value 1, the output colour
of LED `i` is that entry's colour with its three channels clamped to `[0, 255]`, whatever
the segments of smaller id produce; and an LED for which no segment has an entry is
`[0, 0, 0]`. -/
theorem opaque_top_layer_wins (e : LightEffect) (cache : PaletteMap)
    (palettes_of : SceneRef → PaletteMap) (i : Nat) (hi : (i : Int) < e.led_count)
    (hkeys : (e.segments.map Prod.fst).Nodup) :
    (∀ (id : Int) (s : LightSegment) (col : List Int),
        (id, s) ∈ e.segments →
        ((i : Int), (col, (1 : ℚ)))
          ∈ s.get_light_data (resolve_palette cache palettes_of e.scene e.current_palette) →
        (∀ p ∈ e.segments, id < p.1 →
          ∀ x ∈ p.2.get_light_data
              (resolve_palette cache palettes_of e.scene e.current_palette), x.1 ≠ (i : Int)) →
        (e.get_led_output cache palettes_of)[i]?
          = some ([0, 1, 2].map (fun k => clampInt 0 255 (vecAt col k 0))))
    ∧ ((∀ p ∈ e.segments,
          ∀ x ∈ p.2.get_light_data
              (resolve_palette cache palettes_of e.scene e.current_palette), x.1 ≠ (i : Int)) →
        (e.get_led_output cache palettes_of)[i]? = some [0, 0, 0]) := by
  constructor
  · intro id s col hseg hent htop
    obtain ⟨lower, hl⟩ := led_entries_top e cache palettes_of i hkeys id s (col, 1) hseg hent htop
    rw [get_led_output_cell e cache palettes_of i hi, hl, foldl_layer_f32_opaque_last]
  · intro hnone
    rw [get_led_output_cell e cache palettes_of i hi, led_entries_none e cache palettes_of i hnone]
    rfl

/-- Claim C38 at the five-LED effect: LED 2 is covered by the translucent segment 1 and by
the opaque segment 2, the largest id covering it (segment 3 lies on LED 0), and shows the
colour of segment 2; LED 4 is covered by no segment and is black. -/
theorem opaque_top_layer_wins_witness :
    (effect_three_layers.get_led_output DEFAULT_COLOR_PALETTES (fun _ => []))[2]?
        = some [0, 255, 255]
    ∧ (effect_three_layers.get_led_output DEFAULT_COLOR_PALETTES (fun _ => []))[4]?
        = some [0, 0, 0]
    ∧ led_entries effect_three_layers DEFAULT_COLOR_PALETTES (fun _ => []) 2
        = [([127, 127, 0], 1 / 2), ([0, 255, 255], 1)] := by
  refine ⟨?_, ?_, by decide!⟩
  · exact (opaque_top_layer_wins effect_three_layers DEFAULT_COLOR_PALETTES (fun _ => []) 2
      (by decide) (by decide)).1 2
      (LightSegment.new DEFAULT_COLOR_PALETTES 2 [4, 4, 4, 4] [1, 1, 1, 1] [1, 0, 0] 0 [0, 4] 2
        true [0, 100, 200, 100, 0] 1) [0, 255, 255]
      (mem_of_mapFind (2 : Int) _ effect_three_layers.segments rfl) (by decide!) (by decide!)
  · exact (opaque_top_layer_wins effect_three_layers DEFAULT_COLOR_PALETTES (fun _ => []) 4
      (by decide) (by decide)).2 (by decide!)

/-! ### Idle flags need a fresh beat -/

namespace IdleStateDetector

theorem run_snoc (calls : List Call) (c : Call) :
    run (calls ++ [c]) = ((run calls).update_idle_state c.1 c.2.1 c.2.2).1 := by
  simp [run, List.foldl_append]

/-- The flags and the counter after one more call, in the words of the specification. -/
theorem run_snoc_spec (calls : List Call) (c : Call) :
    ((run (calls ++ [c])).flags, (run (calls ++ [c])).beat_counter)
      = update_idle_state_spec (calls.length + 1) ((calls.map (fun c => c.2.2)).getLastD false)
          c.2.2 (run calls).beat_counter (run calls).flags (polled_any_changes c.1 c.2.1) := by
  rw [run_snoc]
  have h := (update_idle_state_step (run calls) _ (run_tracks calls) c.1 c.2.1 c.2.2).2
  rw [List.length_map] at h
  exact h

/-- A flag that is set after a call was set on a frame with a beat whose previous frame had
none. -/
theorem flags_fresh_beat (calls : List Call) :
    (run calls).flags ≠ (false, false, false, false) →
      (calls.map (fun c => c.2.2)).getLastD false = true
      ∧ ((calls.map (fun c => c.2.2)).dropLast).getLastD false = false := by
  induction calls using List.reverseRecOn with
  | nil =>
    intro h
    exact absurd (by decide) h
  | append_singleton calls c ih =>
    intro h
    have hspec := congrArg Prod.fst (run_snoc_spec calls c)
    simp only at hspec
    rw [hspec] at h
    rw [List.map_append, List.map_cons, List.map_nil, List.dropLast_concat,
      List.getLastD_concat]
    unfold update_idle_state_spec at h
    by_cases h1 : calls.length + 1 < 32
    · rw [if_pos h1] at h
      exact absurd rfl h
    · rw [if_neg h1] at h
      cases hp : (calls.map (fun c => c.2.2)).getLastD false with
      | true =>
        rw [hp] at h
        exact absurd rfl h
      | false =>
        rw [hp] at h
        simp only [Bool.false_eq_true, if_false] at h
        cases hb : c.2.2 with
        | true => exact ⟨rfl, rfl⟩
        | false =>
          rw [hb] at h
          simp only [Bool.false_eq_true, if_false] at h
          have := (ih h).1
          rw [hp] at this
          exact absurd this (by decide)

end IdleStateDetector

/-- On the stream of 31 frames without a beat followed by four spaced beats, the fourth beat
sets the 4-beat flag, and the frame after it clears the flag. -/
theorem idle_flag_after_four_beats :
    (IdleStateDetector.run (calls_spaced_beats 3 ++ [idle_call true])).flags
      = (true, false, false, false)
    ∧ (IdleStateDetector.run (calls_spaced_beats 4)).flags = (false, false, false, false) := by
  decide!

/-- Claim C39: for every stream of `update_idle_state` calls on a fresh tracker and after
every call `c` of it: if one of the four `no_change` flags (4, 8, 16, 32 beats) is true, then
the beat flag of `c` is true and the beat flag of the previous call is false (there is a
previous call); consequently, of two consecutive calls `c`, `c2`, at least one leaves all four
flags false. -/
theorem idle_flag_needs_fresh_beat (calls : List IdleStateDetector.Call)
    (c : IdleStateDetector.Call) :
    ((IdleStateDetector.run (calls ++ [c])).flags ≠ (false, false, false, false) →
        c.2.2 = true ∧ (calls.map (fun c => c.2.2)).getLast? = some false)
    ∧ ∀ c2 : IdleStateDetector.Call,
        (IdleStateDetector.run (calls ++ [c])).flags = (false, false, false, false)
        ∨ (IdleStateDetector.run (calls ++ [c] ++ [c2])).flags = (false, false, false, false) := by
  have hmain : ∀ (l : List IdleStateDetector.Call) (x : IdleStateDetector.Call),
      (IdleStateDetector.run (l ++ [x])).flags ≠ (false, false, false, false) →
        x.2.2 = true ∧ (l.map (fun c => c.2.2)).getLastD false = false := by
    intro l x h
    have := IdleStateDetector.flags_fresh_beat (l ++ [x]) h
    rw [List.map_append, List.map_cons, List.map_nil, List.dropLast_concat,
      List.getLastD_concat] at this
    exact this
  constructor
  · intro h
    obtain ⟨hb, hp⟩ := hmain calls c h
    refine ⟨hb, ?_⟩
    have hlen : ¬ (calls.length + 1 < 32) := by
      intro hfew
      have hspec := congrArg Prod.fst (IdleStateDetector.run_snoc_spec calls c)
      simp only [update_idle_state_spec, if_pos hfew] at hspec
      exact h hspec
    have hne : calls.map (fun c => c.2.2) ≠ [] := by
      intro he
      have : calls.length = 0 := by
        have := congrArg List.length he
        simpa using this
      omega
    rw [List.getLastD_eq_getLast?] at hp
    obtain ⟨v, hv⟩ := Option.isSome_iff_exists.mp
      (by rw [List.getLast?_isSome]; exact hne :
        ((calls.map (fun c => c.2.2)).getLast?).isSome = true)
    rw [hv] at hp ⊢
    simp only [Option.getD_some] at hp
    rw [hp]
  · intro c2
    by_cases h1 : (IdleStateDetector.run (calls ++ [c])).flags = (false, false, false, false)
    · exact Or.inl h1
    · right
      by_contra h2
      have hb := (hmain calls c h1).1
      have hp := (hmain (calls ++ [c]) c2 h2).2
      rw [List.map_append, List.map_cons, List.map_nil, List.getLastD_concat] at hp
      rw [hb] at hp
      exact absurd hp (by decide)

/-! ### Detectors fire once -/

namespace Detector

theorem current_frame_congr (d1 d2 : Detector) (hk : d1.kind = d2.kind)
    (hh : d1.history = d2.history) : d1.current_frame = d2.current_frame := by
  cases d1 <;> cases d2 <;> simp only [kind] at hk <;>
    first
      | exact absurd hk (by decide)
      | (simp only [history] at hh; simp only [current_frame, hh])

/-- One update appends one sample to the key the detect method reads, dropping the oldest
sample when the capacity is exceeded. -/
theorem update_current_frame (d : Detector) (f : MusicFrame) :
    (d.update f).current_frame
      = if d.current_frame + 2 > (d.history.maxlen : Int) then d.current_frame
        else d.current_frame + 1 := by
  rw [update_eq, current_frame_congr _ (d.withHistory (d.appended f)) (calc_feature_kind _)
    (calc_feature_history _)]
  cases d with
  | songhook x =>
    simp (disch := decide) only [withHistory, appended, current_frame, history,
      FrameHistory.get_append_other, FrameHistory.get_append_same]
    split_ifs with h1 h2 h2 <;>
      simp only [List.length_append, List.length_singleton, List.length_tail,
        Nat.add_sub_cancel] at h1 h2 ⊢ <;> omega
  | performer_switch x =>
    simp (disch := decide) only [withHistory, appended, current_frame, history,
      FrameHistory.get_append_other, FrameHistory.get_append_same]
    split_ifs with h1 h2 h2 <;>
      simp only [List.length_append, List.length_singleton, List.length_tail,
        Nat.add_sub_cancel] at h1 h2 ⊢ <;> omega
  | highlight x =>
    simp (disch := decide) only [withHistory, appended, current_frame, history,
      FrameHistory.get_append_other, FrameHistory.get_append_same]
    split_ifs with h1 h2 h2 <;>
      simp only [List.length_append, List.length_singleton, List.length_tail,
        Nat.add_sub_cancel] at h1 h2 ⊢ <;> omega
  | song_alternation x =>
    simp (disch := decide) only [withHistory, appended, current_frame, history,
      FrameHistory.get_append_other, FrameHistory.get_append_same]
    split_ifs with h1 h2 h2 <;>
      simp only [List.length_append, List.length_singleton, List.length_tail,
        Nat.add_sub_cancel] at h1 h2 ⊢ <;> omega

theorem detect_current_frame (d : Detector) : d.detect.2.current_frame = d.current_frame := by
  rw [detect_eq]
  split
  · exact current_frame_congr _ _ (withPrev_facts d _).2.1 (withPrev_facts d _).1
  · rfl

theorem new_current_frame (k : DetectorKind) : (new k).current_frame + 1 = 0 := by
  cases k <;> rfl

/-- After `n` updates the key read by the detect method holds `min n capacity` samples. -/
theorem run_current_frame (calls : List DetectorCall) (d : Detector) (n : Nat)
    (h : d.Bounded n) (hc : d.current_frame + 1 = ((min n d.kind.capacity : Nat) : Int)) :
    (d.run calls).current_frame + 1
      = ((min (n + updateCount calls) d.kind.capacity : Nat) : Int) := by
  induction calls generalizing d n with
  | nil => exact hc
  | cons c t ih =>
    cases c with
    | update f =>
      have hstep : (d.update f).current_frame + 1
          = ((min (n + 1) (d.update f).kind.capacity : Nat) : Int) := by
        rw [update_current_frame, update_kind, h.1]
        split_ifs <;> omega
      have := ih (d.update f) (n + 1) (update_bounded d f n h) hstep
      simp only [run, List.foldl_cons, call, updateCount] at this ⊢
      rw [update_kind] at this
      rw [show n + (updateCount t + 1) = n + 1 + updateCount t by omega]
      exact this
    | calc_feature =>
      have hstep : d.calc_feature.current_frame + 1
          = ((min n d.calc_feature.kind.capacity : Nat) : Int) := by
        rw [current_frame_congr _ d (calc_feature_kind d) (calc_feature_history d),
          calc_feature_kind]
        exact hc
      have := ih d.calc_feature n (calc_feature_bounded d n h) hstep
      simp only [run, List.foldl_cons, call, updateCount] at this ⊢
      rw [calc_feature_kind] at this
      exact this
    | detect =>
      have hstep : d.detect.2.current_frame + 1
          = ((min n d.detect.2.kind.capacity : Nat) : Int) := by
        rw [detect_current_frame, detect_kind]
        exact hc
      have := ih d.detect.2 n (detect_bounded d n h) hstep
      simp only [run, List.foldl_cons, call, updateCount] at this ⊢
      rw [detect_kind] at this
      exact this

theorem run_prev_eq (calls : List DetectorCall) (d : Detector) (n : Nat) (h : d.Bounded n)
    (hp : -1 ≤ d.prev_detect_frame) :
    (d.run calls).prev_detect_frame = d.prev_detect_frame := by
  induction calls generalizing d n with
  | nil => rfl
  | cons c t ih =>
    cases c with
    | update f =>
      have := ih (d.update f) (n + 1) (update_bounded d f n h) (by rw [update_prev]; exact hp)
      simp only [run, List.foldl_cons, call] at this ⊢
      rw [this, update_prev]
    | calc_feature =>
      have := ih d.calc_feature n (calc_feature_bounded d n h)
        (by rw [calc_feature_prev]; exact hp)
      simp only [run, List.foldl_cons, call] at this ⊢
      rw [this, calc_feature_prev]
    | detect =>
      have hun := detect_unchanged_of_false d (detect_false_of_prev d n h hp)
      have := ih d.detect.2 n (detect_bounded d n h) (by rw [hun]; exact hp)
      simp only [run, List.foldl_cons, call] at this ⊢
      rw [this, hun]

/-- A latched detector never fires again. -/
theorem fireCount_latched (calls : List DetectorCall) (d : Detector) (n : Nat)
    (h : d.Bounded n) (hp : -1 ≤ d.prev_detect_frame) : d.fireCount calls = 0 := by
  induction calls generalizing d n with
  | nil => rfl
  | cons c t ih =>
    cases c with
    | update f =>
      exact ih (d.update f) (n + 1) (update_bounded d f n h) (by rw [update_prev]; exact hp)
    | calc_feature =>
      exact ih d.calc_feature n (calc_feature_bounded d n h)
        (by rw [calc_feature_prev]; exact hp)
    | detect =>
      show (if d.detect.1 then 1 else 0) + d.detect.2.fireCount t = 0
      rw [detect_false_of_prev d n h hp,
        ih d.detect.2 n (detect_bounded d n h) (detect_prev d n h (Or.inl hp))]
      rfl

theorem fireCount_le_one (calls : List DetectorCall) (d : Detector) (n : Nat)
    (h : d.Bounded n) : d.fireCount calls ≤ 1 := by
  induction calls generalizing d n with
  | nil => exact Nat.zero_le _
  | cons c t ih =>
    cases c with
    | update f => exact ih (d.update f) (n + 1) (update_bounded d f n h)
    | calc_feature => exact ih d.calc_feature n (calc_feature_bounded d n h)
    | detect =>
      show (if d.detect.1 then 1 else 0) + d.detect.2.fireCount t ≤ 1
      cases hd : d.detect.1 with
      | true =>
        rw [fireCount_latched t d.detect.2 n (detect_bounded d n h)
          (detect_prev d n h (Or.inr hd))]
        simp
      | false =>
        have := ih d.detect.2 n (detect_bounded d n h)
        simpa using this

end Detector

/-- On the stream `calls_lifetime` every detector fires exactly once: at the first of its
three polls. -/
theorem detector_fires_once_example (k : DetectorKind) :
    (Detector.new k).fireCount calls_lifetime = 1
    ∧ ((Detector.new k).run calls_fire).detect.1 = true := by
  cases k <;> decide!

/-- Claim C34: each of the four detectors fires at most once in its lifetime: for every
sequence of update, `calc_feature` and detect calls on a fresh detector the detect call
returns true at most one time. A detect call that returns true stores
`prev_detect_frame = capacity - 1`, and on every later call `current_frame` is
`capacity - 1` and `prev_detect_frame` keeps that value, so the detect call returns
false. -/
theorem detector_fires_at_most_once (k : DetectorKind) (calls : List DetectorCall) :
    (Detector.new k).fireCount calls ≤ 1
    ∧ ∀ calls1 calls2 : List DetectorCall,
        ((Detector.new k).run calls1).detect.1 = true →
          ((Detector.new k).run calls1).detect.2.prev_detect_frame = (k.capacity : Int) - 1
          ∧ ((((Detector.new k).run calls1).detect.2).run calls2).current_frame
              = (k.capacity : Int) - 1
          ∧ ((((Detector.new k).run calls1).detect.2).run calls2).prev_detect_frame
              = (k.capacity : Int) - 1
          ∧ ((((Detector.new k).run calls1).detect.2).run calls2).detect.1 = false := by
  obtain ⟨hb0, hk0⟩ := Detector.new_bounded k
  refine ⟨Detector.fireCount_le_one calls _ 0 hb0, ?_⟩
  intro calls1 calls2 hfire
  obtain ⟨hb1, hk1⟩ := Detector.run_bounded calls1 (Detector.new k) 0 hb0
  rw [hk0] at hk1
  have hc1 := Detector.run_current_frame calls1 (Detector.new k) 0 hb0
    (by rw [Detector.new_current_frame]; simp)
  rw [hk0] at hc1
  have hfull : ¬ (0 + updateCount calls1 < k.capacity) := by
    intro hlt
    have hz := hb1.2.2.2 (by rw [hk1]; exact hlt)
    rw [Detector.detect_false_of_score_zero _ hz] at hfire
    exact Bool.false_ne_true hfire
  have hcf1 : ((Detector.new k).run calls1).current_frame = (k.capacity : Int) - 1 := by
    rw [Nat.min_eq_right (by omega)] at hc1
    omega
  have hb2 := Detector.detect_bounded _ _ hb1
  have hp2 : ((Detector.new k).run calls1).detect.2.prev_detect_frame
      = (k.capacity : Int) - 1 := by
    rw [Detector.detect_eq] at hfire ⊢
    split
    · rw [(Detector.withPrev_facts _ _).2.2.2.1, hcf1]
    · rename_i hc
      rw [if_neg hc] at hfire
      exact absurd hfire Bool.false_ne_true
  have hlatch : -1 ≤ ((Detector.new k).run calls1).detect.2.prev_detect_frame := by
    rw [hp2]
    omega
  obtain ⟨hb3, _⟩ := Detector.run_bounded calls2 _ _ hb2
  have hc2 := Detector.run_current_frame calls2 _ _ hb2
    (by rw [Detector.detect_current_frame, Detector.detect_kind, hk1]; exact hc1)
  rw [Detector.detect_kind, hk1, Nat.min_eq_right (by omega)] at hc2
  refine ⟨hp2, by omega, ?_, ?_⟩
  · rw [Detector.run_prev_eq calls2 _ _ hb2 hlatch, hp2]
  · exact Detector.detect_false_of_prev _ _ hb3 (Detector.run_prev calls2 _ _ hb2 hlatch)

/-! ### The pipeline of `MusicDataHandler` -/

namespace Detector

/-- A detector polled twice without an update in between answers false the second time. -/
theorem detect_twice (d : Detector) (n : Nat) (h : d.Bounded n) : d.detect.2.detect.1 = false := by
  cases hd : d.detect.1 with
  | false =>
    rw [detect_unchanged_of_false d hd]
    exact hd
  | true =>
    exact detect_false_of_prev _ n (detect_bounded d n h) (detect_prev d n h (Or.inr hd))

end Detector

namespace IdleStateDetector

theorem append_size (d : IdleStateDetector) (beats : List Bool) (h : d.Tracks beats)
    (b : Bool) : (d.history.append "beat_flg" (.bool b)).size = min (beats.length + 1) 32 := by
  have hhist : d.history.append "beat_flg" (.bool b)
      = (FrameHistory.new 32).appendAll (beat_ops (beats ++ [b])) := by
    rw [h.1]
    simp only [beat_ops, List.map_append, List.map_cons, List.map_nil,
      FrameHistory.appendAll_snoc]
  have hsize := idle_history_size (beats ++ [b])
  rw [List.length_append, List.length_singleton] at hsize
  rw [hhist, hsize]

/-- What `update_idle_state` does to the detector objects it is passed: nothing while the
tracker is warming up, one poll of each of the four detectors afterwards. -/
theorem update_idle_state_polls (d : IdleStateDetector) (beats : List Bool)
    (h : d.Tracks beats) (sec : SectionProgressionDetector) (alt : SongAlternationDetector)
    (b : Bool) :
    (beats.length + 1 < 32 → (d.update_idle_state sec alt b).2 = (sec, alt))
    ∧ (¬ beats.length + 1 < 32 →
        (d.update_idle_state sec alt b).2
          = ({ songhook_detector := sec.songhook_detector.detect_songhook.2
               performer_switch_detector :=
                 sec.performer_switch_detector.detect_performer_switch.2
               highlight_detector := sec.highlight_detector.detect_highlight.2 },
             alt.detect_song_alternation.2)) := by
  have hsize := append_size d beats h b
  constructor
  · intro hfew
    have hlt : (d.history.append "beat_flg" (.bool b)).size < 32 := by rw [hsize]; omega
    unfold update_idle_state
    simp only [hlt, if_true]
  · intro hfull
    have hlt : ¬ (d.history.append "beat_flg" (.bool b)).size < 32 := by rw [hsize]; omega
    unfold update_idle_state
    simp only [hlt, if_false]
    rfl

end IdleStateDetector

namespace MusicToLightInterpretor

/-- The entries of the flag map built by `detect_musical_change_flgs`. -/
theorem detect_flags (s : MusicToLightInterpretor) :
    boolFlagOf s.detect_musical_change_flgs.1 "highlight_flg"
        = s.section_progress_detector.highlight_detector.detect_highlight.1
    ∧ boolFlagOf s.detect_musical_change_flgs.1 "songhook_flg"
        = s.section_progress_detector.songhook_detector.detect_songhook.1
    ∧ boolFlagOf s.detect_musical_change_flgs.1 "performer_switch_flg"
        = s.section_progress_detector.performer_switch_detector.detect_performer_switch.1
    ∧ boolFlagOf s.detect_musical_change_flgs.1 "song_alternation_flg"
        = s.song_alternation_detector.detect_song_alternation.1
    ∧ boolFlagOf s.detect_musical_change_flgs.1 "no_change_4beats_flg"
        = s.idle_state_detector.get_no_change_4beats_flg
    ∧ boolFlagOf s.detect_musical_change_flgs.1 "no_change_8beats_flg"
        = s.idle_state_detector.get_no_change_8beats_flg
    ∧ boolFlagOf s.detect_musical_change_flgs.1 "no_change_16beats_flg"
        = s.idle_state_detector.get_no_change_16beats_flg
    ∧ boolFlagOf s.detect_musical_change_flgs.1 "no_change_32beats_flg"
        = s.idle_state_detector.get_no_change_32beats_flg
    ∧ mapFind "silence_break_flg" s.detect_musical_change_flgs.1 = some (.bool false)
    ∧ mapFind "silence_start_flg" s.detect_musical_change_flgs.1 = some (.bool false) := by
  simp (disch := decide) only [detect_musical_change_flgs, boolFlagOf,
    mapFind_mapSet_other, mapFind_mapSet_same]
  exact ⟨rfl, rfl, rfl, rfl, trivial, trivial, trivial, trivial, trivial, trivial⟩

theorem detect_state (s : MusicToLightInterpretor) :
    s.detect_musical_change_flgs.2
      = { s with
          section_progress_detector :=
            { songhook_detector := s.section_progress_detector.songhook_detector.detect_songhook.2
              performer_switch_detector :=
                s.section_progress_detector.performer_switch_detector.detect_performer_switch.2
              highlight_detector :=
                s.section_progress_detector.highlight_detector.detect_highlight.2 }
          song_alternation_detector := s.song_alternation_detector.detect_song_alternation.2 } :=
  rfl

end MusicToLightInterpretor

namespace MusicToLightInterpretor

theorem detector_kind (s : MusicToLightInterpretor) (k : DetectorKind) :
    (s.detector k).kind = k := by
  cases k <;> rfl

theorem updated_eq (s : MusicToLightInterpretor) (f : MusicFrame) (k : DetectorKind) :
    s.updated f k
      = if k = .song_alternation then (s.detector k).update f
        else ((s.detector k).update f).calc_feature := by
  cases k <;> rfl

theorem updated_bounded (s : MusicToLightInterpretor) (n : Nat)
    (h : ∀ k : DetectorKind, (s.detector k).Bounded n) (f : MusicFrame) (k : DetectorKind) :
    (s.updated f k).Bounded (n + 1) ∧ (s.updated f k).kind = k := by
  rw [updated_eq]
  split
  · exact ⟨Detector.update_bounded _ f n (h k),
      (Detector.update_kind _ f).trans (detector_kind s k)⟩
  · exact ⟨Detector.calc_feature_bounded _ _ (Detector.update_bounded _ f n (h k)),
      ((Detector.calc_feature_kind _).trans (Detector.update_kind _ f)).trans
        (detector_kind s k)⟩

theorem updated_prev (s : MusicToLightInterpretor) (f : MusicFrame) (k : DetectorKind) :
    (s.updated f k).prev_detect_frame = (s.detector k).prev_detect_frame := by
  rw [updated_eq]
  split
  · exact Detector.update_prev _ f
  · exact (Detector.calc_feature_prev _).trans (Detector.update_prev _ f)

theorem update_section (s : MusicToLightInterpretor) (f : MusicFrame) :
    (s.update f.beat_flg f.eq_levels f.tempo f.tempo_confidence f.genre
        f.surround_score).section_progress_detector
      = (s.idle_state_detector.update_idle_state
          (s.section_progress_detector.update_state f.beat_flg f.eq_levels f.tempo
            f.tempo_confidence)
          (s.song_alternation_detector.update_history (toString f.genre) f.tempo
            (f.surround_score : ℚ)) f.beat_flg).2.1 := rfl

theorem update_alternation (s : MusicToLightInterpretor) (f : MusicFrame) :
    (s.update f.beat_flg f.eq_levels f.tempo f.tempo_confidence f.genre
        f.surround_score).song_alternation_detector
      = (s.idle_state_detector.update_idle_state
          (s.section_progress_detector.update_state f.beat_flg f.eq_levels f.tempo
            f.tempo_confidence)
          (s.song_alternation_detector.update_history (toString f.genre) f.tempo
            (f.surround_score : ℚ)) f.beat_flg).2.2 := rfl

theorem updated_songhook (s : MusicToLightInterpretor) (f : MusicFrame) :
    s.updated f .songhook
      = .songhook (s.section_progress_detector.update_state f.beat_flg f.eq_levels f.tempo
          f.tempo_confidence).songhook_detector := by
  simp only [updated, detector, Detector.update, Detector.calc_feature,
    SectionProgressionDetector.update_state]

theorem updated_performer_switch (s : MusicToLightInterpretor) (f : MusicFrame) :
    s.updated f .performer_switch
      = .performer_switch (s.section_progress_detector.update_state f.beat_flg f.eq_levels
          f.tempo f.tempo_confidence).performer_switch_detector := by
  simp only [updated, detector, Detector.update, Detector.calc_feature,
    SectionProgressionDetector.update_state]

theorem updated_highlight (s : MusicToLightInterpretor) (f : MusicFrame) :
    s.updated f .highlight
      = .highlight (s.section_progress_detector.update_state f.beat_flg f.eq_levels f.tempo
          f.tempo_confidence).highlight_detector := by
  simp only [updated, detector, Detector.update, Detector.calc_feature,
    SectionProgressionDetector.update_state]

theorem updated_song_alternation (s : MusicToLightInterpretor) (f : MusicFrame) :
    s.updated f .song_alternation
      = .song_alternation (s.song_alternation_detector.update_history (toString f.genre)
          f.tempo (f.surround_score : ℚ)) := rfl

/-- One pipeline frame seen from one detector: while the idle tracker warms up (fewer than
32 frames) the flag reported for the frame is the first poll of the updated detector;
afterwards the tracker has polled it first and the reported flag is the second poll. -/
theorem process_frame_detector (s : MusicToLightInterpretor) (beats : List Bool)
    (htr : s.idle_state_detector.Tracks beats) (f : MusicFrame) (k : DetectorKind) :
    (beats.length + 1 < 32 →
        boolFlagOf (s.process_frame f).1 k.flag_name = (s.updated f k).detect.1
        ∧ (s.process_frame f).2.detector k = (s.updated f k).detect.2)
    ∧ (¬ beats.length + 1 < 32 →
        boolFlagOf (s.process_frame f).1 k.flag_name = (s.updated f k).detect.2.detect.1
        ∧ (s.process_frame f).2.detector k = (s.updated f k).detect.2.detect.2) := by
  have hpoll := IdleStateDetector.update_idle_state_polls s.idle_state_detector beats htr
    (s.section_progress_detector.update_state f.beat_flg f.eq_levels f.tempo f.tempo_confidence)
    (s.song_alternation_detector.update_history (toString f.genre) f.tempo
      (f.surround_score : ℚ)) f.beat_flg
  have hflags := detect_flags (s.update f.beat_flg f.eq_levels f.tempo f.tempo_confidence
    f.genre f.surround_score)
  obtain ⟨g1, g2, g3, g4, _⟩ := hflags
  have hstate := detect_state (s.update f.beat_flg f.eq_levels f.tempo f.tempo_confidence
    f.genre f.surround_score)
  rw [update_section, update_alternation] at hstate
  rw [update_section] at g1 g2 g3
  rw [update_alternation] at g4
  simp only [process_frame]
  constructor
  · intro hfew
    have hp := hpoll.1 hfew
    rw [hp] at hstate g1 g2 g3 g4
    simp only at g1 g2 g3 g4
    rw [hstate]
    cases k
    · rw [updated_songhook]
      simp only [DetectorKind.flag_name, Detector.detect, detector]
      exact ⟨g2, trivial⟩
    · rw [updated_performer_switch]
      simp only [DetectorKind.flag_name, Detector.detect, detector]
      exact ⟨g3, trivial⟩
    · rw [updated_highlight]
      simp only [DetectorKind.flag_name, Detector.detect, detector]
      exact ⟨g1, trivial⟩
    · rw [updated_song_alternation]
      simp only [DetectorKind.flag_name, Detector.detect, detector]
      exact ⟨g4, trivial⟩
  · intro hfull
    have hp := hpoll.2 hfull
    rw [hp] at hstate g1 g2 g3 g4
    simp only at g1 g2 g3 g4
    rw [hstate]
    cases k
    · rw [updated_songhook]
      simp only [DetectorKind.flag_name, Detector.detect, detector]
      exact ⟨g2, trivial⟩
    · rw [updated_performer_switch]
      simp only [DetectorKind.flag_name, Detector.detect, detector]
      exact ⟨g3, trivial⟩
    · rw [updated_highlight]
      simp only [DetectorKind.flag_name, Detector.detect, detector]
      exact ⟨g1, trivial⟩
    · rw [updated_song_alternation]
      simp only [DetectorKind.flag_name, Detector.detect, detector]
      exact ⟨g4, trivial⟩

end MusicToLightInterpretor

namespace MusicToLightInterpretor

theorem process_frame_count (s : MusicToLightInterpretor) (f : MusicFrame) :
    (s.process_frame f).2.frame_count = s.frame_count + 1 := rfl

theorem process_frame_latest (s : MusicToLightInterpretor) (f : MusicFrame) :
    (s.process_frame f).2.latest_genre = f.genre
    ∧ (s.process_frame f).2.latest_tempo = truncToInt f.tempo := ⟨rfl, rfl⟩

/-- One pipeline frame keeps the interpreter invariant. -/
theorem process_frame_warm (s : MusicToLightInterpretor) (n : Nat) (h : s.Warm n)
    (f : MusicFrame) : (s.process_frame f).2.Warm (n + 1) := by
  obtain ⟨hfc, ⟨beats, hlen, htr⟩, hb⟩ := h
  refine ⟨?_, ⟨beats ++ [f.beat_flg], ?_, (process_frame_step s beats htr f).1⟩, ?_⟩
  · rw [process_frame_count, hfc]
    push_cast
    rfl
  · rw [List.length_append, List.length_singleton, hlen]
  · intro k
    obtain ⟨hfew, hfull⟩ := process_frame_detector s beats htr f k
    have hu := (updated_bounded s n hb f k).1
    by_cases hc : beats.length + 1 < 32
    · rw [(hfew hc).2]
      exact Detector.detect_bounded _ _ hu
    · rw [(hfull hc).2]
      exact Detector.detect_bounded _ _ (Detector.detect_bounded _ _ hu)

/-- The flag reported for one detector on one pipeline frame: false once 32 frames have
been seen, false while the detector is below its capacity, false once the detector has
fired; and a detector that fires or has fired has `prev_detect_frame ≥ -1` afterwards. -/
theorem process_frame_flag (s : MusicToLightInterpretor) (n : Nat) (h : s.Warm n)
    (f : MusicFrame) (k : DetectorKind) :
    (32 ≤ n + 1 → boolFlagOf (s.process_frame f).1 k.flag_name = false)
    ∧ (n + 1 < k.capacity → boolFlagOf (s.process_frame f).1 k.flag_name = false)
    ∧ (-1 ≤ (s.detector k).prev_detect_frame →
        boolFlagOf (s.process_frame f).1 k.flag_name = false)
    ∧ (-1 ≤ (s.detector k).prev_detect_frame
        ∨ boolFlagOf (s.process_frame f).1 k.flag_name = true →
        -1 ≤ ((s.process_frame f).2.detector k).prev_detect_frame) := by
  obtain ⟨_, ⟨beats, hlen, htr⟩, hb⟩ := h
  obtain ⟨hfew, hfull⟩ := process_frame_detector s beats htr f k
  obtain ⟨hu, huk⟩ := updated_bounded s n hb f k
  have hup := updated_prev s f k
  rw [hlen] at hfew hfull
  refine ⟨?_, ?_, ?_, ?_⟩
  · intro h32
    rw [(hfull (by omega)).1]
    exact Detector.detect_twice _ _ hu
  · intro hcap
    have hz : (s.updated f k).score = 0 := hu.2.2.2 (by rw [huk]; exact hcap)
    have hd := Detector.detect_false_of_score_zero _ hz
    by_cases hc : n + 1 < 32
    · rw [(hfew hc).1]
      exact hd
    · rw [(hfull hc).1]
      exact Detector.detect_twice _ _ hu
  · intro hp
    by_cases hc : n + 1 < 32
    · rw [(hfew hc).1]
      exact Detector.detect_false_of_prev _ _ hu (by rw [hup]; exact hp)
    · rw [(hfull hc).1]
      exact Detector.detect_twice _ _ hu
  · intro hp
    by_cases hc : n + 1 < 32
    · rw [(hfew hc).2]
      rw [(hfew hc).1] at hp
      apply Detector.detect_prev _ _ hu
      rcases hp with hp | hp
      · exact Or.inl (by rw [hup]; exact hp)
      · exact Or.inr hp
    · rw [(hfull hc).2]
      rw [(hfull hc).1, Detector.detect_twice _ _ hu] at hp
      have hp' : -1 ≤ (s.detector k).prev_detect_frame := by
        rcases hp with hp | hp
        · exact hp
        · exact absurd hp Bool.false_ne_true
      exact Detector.detect_prev _ _ (Detector.detect_bounded _ _ hu)
        (Or.inl (Detector.detect_prev _ _ hu (Or.inl (by rw [hup]; exact hp'))))

theorem new_warm : MusicToLightInterpretor.new.Warm 0 := by
  refine ⟨rfl, ⟨[], rfl, IdleStateDetector.new_tracks⟩, ?_⟩
  intro k
  have := (Detector.new_bounded k).1
  cases k <;> exact this

end MusicToLightInterpretor

namespace LightingSwitcher

theorem color_shift_loop_maker (s : LightingSwitcher) (n : Nat) :
    ((List.range n).foldl color_shift_step (s, [])).1.light_switch_flg_maker
        = s.light_switch_flg_maker
    ∧ ((List.range n).foldl color_shift_step (s, [])).1.light_switch_flgs
        = s.light_switch_flgs := by
  induction n with
  | zero => exact ⟨rfl, rfl⟩
  | succ n ih =>
    rw [List.range_succ, List.foldl_append]
    simp only [List.foldl_cons, List.foldl_nil]
    exact ih

theorem light_switch_flag_maker (s : LightingSwitcher) :
    s.light_switch_flag.1.light_switch_flg_maker = s.light_switch_flg_maker := by
  unfold light_switch_flag
  split_ifs
  · rfl
  · rfl
  · rfl
  · rfl
  · rfl
  · exact (color_shift_loop_maker s _).1
  · rfl

theorem nextIndex_range (index : Int) (size : Nat) (hs : 0 < size) :
    0 ≤ nextIndex index size ∧ nextIndex index size < (size : Int) := by
  unfold nextIndex
  have hpos : (0 : Int) < (size : Int) := by exact_mod_cast hs
  exact ⟨Int.emod_nonneg _ (by omega), Int.emod_lt_of_pos _ hpos⟩

theorem next_effect_id_range (s : LightingSwitcher) (h : s.Tables) :
    1 ≤ s.get_next_effect_id.2 ∧ s.get_next_effect_id.2 ≤ 8 := by
  obtain ⟨h1, _⟩ := h
  have hr := nextIndex_range s.current_effect_index s.effect_ids.length (by rw [h1]; decide)
  unfold get_next_effect_id
  simp only
  generalize nextIndex s.current_effect_index s.effect_ids.length = idx at hr
  rw [h1] at hr ⊢
  simp only [List.length_cons, List.length_nil] at hr
  obtain ⟨k, hk⟩ := Int.eq_ofNat_of_zero_le hr.1
  subst hk
  rw [vecAt_natCast]
  have hk8 : k < 8 := by omega
  interval_cases k <;> decide

theorem light_switch_flag_effect_id (s : LightingSwitcher) (h : s.Tables)
    (hid : 1 ≤ s.current_effect_id ∧ s.current_effect_id ≤ 8) :
    1 ≤ s.light_switch_flag.1.current_effect_id ∧ s.light_switch_flag.1.current_effect_id ≤ 8 := by
  unfold light_switch_flag
  split_ifs
  · exact hid
  · exact hid
  · exact hid
  · exact hid
  · exact next_effect_id_range s h
  · rw [(color_shift_loop s _).1]
    exact hid
  · exact hid

theorem light_switch_flag_ready (s : LightingSwitcher) (h : s.Ready) :
    s.light_switch_flag.1.Ready := by
  obtain ⟨ht, hm, hid⟩ := h
  exact ⟨light_switch_flag_tables s ht, by rw [light_switch_flag_maker]; exact hm,
    light_switch_flag_effect_id s ht hid⟩

/-- The six lighting flags after `update_light_switch_flgs` in a pipeline state. -/
theorem update_light_switch_flgs_ready (s : LightingSwitcher) (h : s.Ready)
    (m : List (String × blockb_any_type)) :
    (s.update_light_switch_flgs m).Ready
    ∧ (s.update_light_switch_flgs m).light_switch_flgs
        = [("color_shift_flg", boolFlagOf m "no_change_4beats_flg"),
           ("effect_change_flg", boolFlagOf m "no_change_8beats_flg"),
           ("lighting_end_flg", boolFlagOf m "silence_start_flg"),
           ("lighting_scene_change_flg", boolFlagOf m "song_alternation_flg"),
           ("lighting_start_flg", boolFlagOf m "silence_break_flg"),
           ("palette_change_flg", boolFlagOf m "no_change_16beats_flg")] := by
  obtain ⟨ht, hm, hid⟩ := h
  have h1 := LightSwitchFlgMaker.exec_make_flgs_of_sixFlags
    (s.light_switch_flg_maker.update_musical_change_flgs m) hm
  exact ⟨⟨ht, ⟨_, _, _, _, _, _, h1⟩, hid⟩, h1⟩

theorem flagOf_six (b1 b2 b3 b4 b5 b6 : Bool) :
    flagOf [("color_shift_flg", b1), ("effect_change_flg", b2), ("lighting_end_flg", b3),
        ("lighting_scene_change_flg", b4), ("lighting_start_flg", b5),
        ("palette_change_flg", b6)] "color_shift_flg" = b1
    ∧ flagOf [("color_shift_flg", b1), ("effect_change_flg", b2), ("lighting_end_flg", b3),
        ("lighting_scene_change_flg", b4), ("lighting_start_flg", b5),
        ("palette_change_flg", b6)] "effect_change_flg" = b2
    ∧ flagOf [("color_shift_flg", b1), ("effect_change_flg", b2), ("lighting_end_flg", b3),
        ("lighting_scene_change_flg", b4), ("lighting_start_flg", b5),
        ("palette_change_flg", b6)] "lighting_end_flg" = b3
    ∧ flagOf [("color_shift_flg", b1), ("effect_change_flg", b2), ("lighting_end_flg", b3),
        ("lighting_scene_change_flg", b4), ("lighting_start_flg", b5),
        ("palette_change_flg", b6)] "lighting_scene_change_flg" = b4
    ∧ flagOf [("color_shift_flg", b1), ("effect_change_flg", b2), ("lighting_end_flg", b3),
        ("lighting_scene_change_flg", b4), ("lighting_start_flg", b5),
        ("palette_change_flg", b6)] "lighting_start_flg" = b5
    ∧ flagOf [("color_shift_flg", b1), ("effect_change_flg", b2), ("lighting_end_flg", b3),
        ("lighting_scene_change_flg", b4), ("lighting_start_flg", b5),
        ("palette_change_flg", b6)] "palette_change_flg" = b6 := by
  refine ⟨?_, ?_, ?_, ?_, ?_, ?_⟩ <;> simp [flagOf, mapFind]

/-- The commands of `light_switch_flag()` when neither `lighting_start_flg` nor
`lighting_end_flg` is set. -/
theorem light_switch_flag_out (s : LightingSwitcher)
    (h1 : flagOf s.light_switch_flgs "lighting_start_flg" = false)
    (h2 : flagOf s.light_switch_flgs "lighting_end_flg" = false) :
    s.light_switch_flag.2
      = if flagOf s.light_switch_flgs "lighting_scene_change_flg" then
          [{ address := "/scene/1/load_effects"
             data := .string (vecAt s.json_name_list s.genre_id "") }]
        else if flagOf s.light_switch_flgs "palette_change_flg" then
          [{ address := "/scene/1/change_palette", data := .string s.get_next_palette_id.2 }]
        else if flagOf s.light_switch_flgs "effect_change_flg" then
          [{ address := "/scene/1/change_effect", data := .int s.get_next_effect_id.2 }]
        else if flagOf s.light_switch_flgs "color_shift_flg" then
          (List.range s.segment_num.toNat).map s.color_shift_command
        else [] := by
  unfold light_switch_flag
  rw [h1, h2]
  simp only [Bool.false_eq_true, if_false]
  split_ifs
  · rfl
  · rfl
  · rfl
  · exact (color_shift_loop s _).2.1
  · rfl

end LightingSwitcher

namespace MusicDataHandler

theorem music_data_handle_eq (h : MusicDataHandler) (data : MusicAnalyzedData) :
    h.music_data_handle data
      = ({ interpretor := (h.interpretor.process_frame data.frame).2
           light_switcher := (h.flagged_switcher data).light_switch_flag.1 },
         (h.flagged_switcher data).light_switch_flag.2,
         if Int.tmod (h.interpretor.process_frame data.frame).2.frame_count 50 = 0 then
           (h.flagged_switcher data).light_switch_flag.1.adopt_dimmer_time_to_tempo
         else []) := rfl

theorem flagged_switcher_eq (h : MusicDataHandler) (data : MusicAnalyzedData) :
    h.flagged_switcher data
      = ((h.light_switcher.update_genre data.genreID).update_tempo
          (truncToInt data.tempo)).update_light_switch_flgs (h.musical_change_flgs data) := rfl

theorem handler_run_snoc (stream : List MusicAnalyzedData) (data : MusicAnalyzedData) :
    run (stream ++ [data]) = ((run stream).music_data_handle data).1 := by
  simp [run, List.foldl_append]

/-- The switcher on which `light_switch_flag()` is called holds the six lighting flags
made from the musical flags of the frame. -/
theorem flagged_switcher_ready (h : MusicDataHandler) (n : Nat) (hr : h.Reached n)
    (data : MusicAnalyzedData) :
    (h.flagged_switcher data).Ready
    ∧ (h.flagged_switcher data).light_switch_flgs
        = [("color_shift_flg", boolFlagOf (h.musical_change_flgs data) "no_change_4beats_flg"),
           ("effect_change_flg", boolFlagOf (h.musical_change_flgs data) "no_change_8beats_flg"),
           ("lighting_end_flg", boolFlagOf (h.musical_change_flgs data) "silence_start_flg"),
           ("lighting_scene_change_flg",
             boolFlagOf (h.musical_change_flgs data) "song_alternation_flg"),
           ("lighting_start_flg", boolFlagOf (h.musical_change_flgs data) "silence_break_flg"),
           ("palette_change_flg",
             boolFlagOf (h.musical_change_flgs data) "no_change_16beats_flg")] := by
  rw [flagged_switcher_eq]
  exact LightingSwitcher.update_light_switch_flgs_ready _ hr.2 _

/-- One `music_data_handle` call keeps the handler invariant. -/
theorem music_data_handle_reached (h : MusicDataHandler) (n : Nat) (hr : h.Reached n)
    (data : MusicAnalyzedData) : (h.music_data_handle data).1.Reached (n + 1) := by
  rw [music_data_handle_eq]
  exact ⟨MusicToLightInterpretor.process_frame_warm _ n hr.1 data.frame,
    LightingSwitcher.light_switch_flag_ready _ (flagged_switcher_ready h n hr data).1⟩

theorem new_reached : MusicDataHandler.new.Reached 0 :=
  ⟨MusicToLightInterpretor.new_warm,
   LightingSwitcher.new_tables, LightSwitchFlgMaker.new_sixFlags, by decide, by decide⟩

theorem run_reached (stream : List MusicAnalyzedData) : (run stream).Reached stream.length := by
  induction stream using List.reverseRecOn with
  | nil => exact new_reached
  | append_singleton stream data ih =>
    rw [handler_run_snoc, List.length_append, List.length_singleton]
    exact music_data_handle_reached _ _ ih data

/-- The silence flags of every frame are false, so are the start and end lighting flags. -/
theorem flagged_switcher_start_end (h : MusicDataHandler) (n : Nat) (hr : h.Reached n)
    (data : MusicAnalyzedData) :
    flagOf (h.flagged_switcher data).light_switch_flgs "lighting_start_flg" = false
    ∧ flagOf (h.flagged_switcher data).light_switch_flgs "lighting_end_flg" = false := by
  have hflags := (flagged_switcher_ready h n hr data).2
  obtain ⟨_, _, _, _, _, _, _, _, hb, hs⟩ := MusicToLightInterpretor.detect_flags
    (h.interpretor.update data.frame.beat_flg data.frame.eq_levels data.frame.tempo
      data.frame.tempo_confidence data.frame.genre data.frame.surround_score)
  have hb' : boolFlagOf (h.musical_change_flgs data) "silence_break_flg" = false := by
    show boolFlagOf (MusicToLightInterpretor.detect_musical_change_flgs _).1 _ = false
    unfold boolFlagOf
    rw [hb]
  have hs' : boolFlagOf (h.musical_change_flgs data) "silence_start_flg" = false := by
    show boolFlagOf (MusicToLightInterpretor.detect_musical_change_flgs _).1 _ = false
    unfold boolFlagOf
    rw [hs]
  rw [hflags, hb', hs']
  exact ⟨(LightingSwitcher.flagOf_six _ _ _ _ _ _).2.2.2.2.1,
    (LightingSwitcher.flagOf_six _ _ _ _ _ _).2.2.1⟩

end MusicDataHandler

/-- Claim C32: for every input stream and every frame of it, the flag map returned by
`detect_musical_change_flgs` holds `silence_break_flg = silence_start_flg = false`; hence
in the `MusicDataHandler` pipeline `lighting_start_flg` and `lighting_end_flg` are false
when `light_switch_flag()` is called, the call takes neither the lighting-start nor the
lighting-end branch (its commands are those of the remaining branches), and no command
notified for the frame is `/scene/1/change_effect` with payload 0. -/
theorem silence_flags_never_fire (stream : List MusicAnalyzedData) (data : MusicAnalyzedData) :
    mapFind "silence_break_flg" ((MusicDataHandler.run stream).musical_change_flgs data)
        = some (.bool false)
    ∧ mapFind "silence_start_flg" ((MusicDataHandler.run stream).musical_change_flgs data)
        = some (.bool false)
    ∧ flagOf ((MusicDataHandler.run stream).flagged_switcher data).light_switch_flgs
        "lighting_start_flg" = false
    ∧ flagOf ((MusicDataHandler.run stream).flagged_switcher data).light_switch_flgs
        "lighting_end_flg" = false
    ∧ ((MusicDataHandler.run stream).music_data_handle data).2.1
        = (if flagOf ((MusicDataHandler.run stream).flagged_switcher data).light_switch_flgs
              "lighting_scene_change_flg" then
            [{ address := "/scene/1/load_effects"
               data := .string
                 (vecAt ((MusicDataHandler.run stream).flagged_switcher data).json_name_list
                   ((MusicDataHandler.run stream).flagged_switcher data).genre_id "") }]
          else if flagOf ((MusicDataHandler.run stream).flagged_switcher data).light_switch_flgs
              "palette_change_flg" then
            [{ address := "/scene/1/change_palette"
               data := .string
                 ((MusicDataHandler.run stream).flagged_switcher data).get_next_palette_id.2 }]
          else if flagOf ((MusicDataHandler.run stream).flagged_switcher data).light_switch_flgs
              "effect_change_flg" then
            [{ address := "/scene/1/change_effect"
               data := .int
                 ((MusicDataHandler.run stream).flagged_switcher data).get_next_effect_id.2 }]
          else if flagOf ((MusicDataHandler.run stream).flagged_switcher data).light_switch_flgs
              "color_shift_flg" then
            (List.range ((MusicDataHandler.run stream).flagged_switcher data).segment_num.toNat).map
              ((MusicDataHandler.run stream).flagged_switcher data).color_shift_command
          else [])
    ∧ ∀ c ∈ ((MusicDataHandler.run stream).music_data_handle data).2.1
          ++ ((MusicDataHandler.run stream).music_data_handle data).2.2,
        c ≠ { address := "/scene/1/change_effect", data := .int 0 } := by
  have hr := MusicDataHandler.run_reached stream
  obtain ⟨hstart, hend⟩ := MusicDataHandler.flagged_switcher_start_end _ _ hr data
  obtain ⟨hready, _⟩ := MusicDataHandler.flagged_switcher_ready _ _ hr data
  obtain ⟨_, _, _, _, _, _, _, _, hb, hs⟩ := MusicToLightInterpretor.detect_flags
    ((MusicDataHandler.run stream).interpretor.update data.frame.beat_flg data.frame.eq_levels
      data.frame.tempo data.frame.tempo_confidence data.frame.genre data.frame.surround_score)
  have hout := LightingSwitcher.light_switch_flag_out _ hstart hend
  refine ⟨hb, hs, hstart, hend, ?_, ?_⟩
  · rw [MusicDataHandler.music_data_handle_eq]
    exact hout
  · intro c hc
    rw [MusicDataHandler.music_data_handle_eq, List.mem_append] at hc
    simp only at hc
    rcases hc with hc | hc
    · rw [hout] at hc
      split_ifs at hc
      · rw [List.mem_singleton.mp hc]
        intro he
        have ha := congrArg BlockBOutputData.address he
        simp only at ha
        exact absurd ha (by decide)
      · rw [List.mem_singleton.mp hc]
        intro he
        have ha := congrArg BlockBOutputData.address he
        simp only at ha
        exact absurd ha (by decide)
      · rw [List.mem_singleton.mp hc]
        intro he
        have hv := congrArg BlockBOutputData.data he
        simp only [blockb_any_type.int.injEq] at hv
        have := (LightingSwitcher.next_effect_id_range _ hready.1).1
        omega
      · obtain ⟨i, _, hi⟩ := List.mem_map.mp hc
        rw [← hi]
        intro he
        have hv := congrArg BlockBOutputData.data he
        simp [LightingSwitcher.color_shift_command] at hv
      · exact absurd hc (List.not_mem_nil c)
    · split_ifs at hc
      · unfold LightingSwitcher.adopt_dimmer_time_to_tempo at hc
        obtain ⟨i, _, hi⟩ := List.mem_map.mp hc
        rw [← hi]
        intro he
        have hv := congrArg BlockBOutputData.data he
        simp at hv
      · exact absurd hc (List.not_mem_nil c)

/-! ### Detections consumed by the idle tracker -/

theorem effect_address_ne_load (t : String) : "/scene/1/effect/" ++ t ≠ "/scene/1/load_effects" := by
  intro h
  have h1 := congrArg String.data h
  rw [String.data_append] at h1
  have h2 := congrArg (List.take 10) h1
  rw [List.take_append_of_le_length (by decide)] at h2
  exact absurd h2 (by decide)

namespace MusicToLightInterpretor

/-- The four detector flags are present in the flag map as booleans. -/
theorem detect_flags_find (s : MusicToLightInterpretor) (k : DetectorKind) :
    mapFind k.flag_name s.detect_musical_change_flgs.1
      = some (.bool (boolFlagOf s.detect_musical_change_flgs.1 k.flag_name)) := by
  cases k <;>
    simp (disch := decide) only [detect_musical_change_flgs, boolFlagOf, DetectorKind.flag_name,
      mapFind_mapSet_other, mapFind_mapSet_same]

end MusicToLightInterpretor

namespace MusicDataHandler

/-- A frame emits `/scene/1/load_effects` exactly when its reported song-alternation flag
is true. -/
theorem emits_load_eq (h : MusicDataHandler) (n : Nat) (hr : h.Reached n)
    (data : MusicAnalyzedData) :
    emits_address (h.music_data_handle data).2.1 "/scene/1/load_effects"
      = boolFlagOf (h.musical_change_flgs data) "song_alternation_flg" := by
  obtain ⟨hstart, hend⟩ := flagged_switcher_start_end h n hr data
  have hflags := (flagged_switcher_ready h n hr data).2
  have hout := LightingSwitcher.light_switch_flag_out _ hstart hend
  rw [music_data_handle_eq]
  simp only
  rw [hout, hflags]
  obtain ⟨f1, f2, _, f4, _, f6⟩ := LightingSwitcher.flagOf_six
    (boolFlagOf (h.musical_change_flgs data) "no_change_4beats_flg")
    (boolFlagOf (h.musical_change_flgs data) "no_change_8beats_flg")
    (boolFlagOf (h.musical_change_flgs data) "silence_start_flg")
    (boolFlagOf (h.musical_change_flgs data) "song_alternation_flg")
    (boolFlagOf (h.musical_change_flgs data) "silence_break_flg")
    (boolFlagOf (h.musical_change_flgs data) "no_change_16beats_flg")
  rw [f1, f2, f4, f6]
  cases boolFlagOf (h.musical_change_flgs data) "song_alternation_flg" with
  | true => simp [emits_address]
  | false =>
    simp only [Bool.false_eq_true, if_false]
    split_ifs
    · simp [emits_address]
    · simp [emits_address]
    · unfold emits_address
      rw [List.any_eq_false]
      intro c hc
      obtain ⟨i, _, hi⟩ := List.mem_map.mp hc
      rw [← hi]
      simp only [LightingSwitcher.color_shift_command, String.append_assoc, decide_eq_true_eq]
      exact effect_address_ne_load _
    · rfl

theorem musical_change_flgs_flag (h : MusicDataHandler) (n : Nat) (hr : h.Reached n)
    (data : MusicAnalyzedData) (k : DetectorKind) :
    (32 ≤ n + 1 → boolFlagOf (h.musical_change_flgs data) k.flag_name = false)
    ∧ (n + 1 < k.capacity → boolFlagOf (h.musical_change_flgs data) k.flag_name = false)
    ∧ (-1 ≤ (h.interpretor.detector k).prev_detect_frame →
        boolFlagOf (h.musical_change_flgs data) k.flag_name = false)
    ∧ (-1 ≤ (h.interpretor.detector k).prev_detect_frame
        ∨ boolFlagOf (h.musical_change_flgs data) k.flag_name = true →
        -1 ≤ ((h.music_data_handle data).1.interpretor.detector k).prev_detect_frame) :=
  MusicToLightInterpretor.process_frame_flag h.interpretor n hr.1 data.frame k

/-- Once the song-alternation detector has fired, no later frame emits
`/scene/1/load_effects`. -/
theorem loadCount_latched (stream : List MusicAnalyzedData) (h : MusicDataHandler) (n : Nat)
    (hr : h.Reached n)
    (hp : -1 ≤ (h.interpretor.detector .song_alternation).prev_detect_frame) :
    h.loadCount stream = 0 := by
  induction stream generalizing h n with
  | nil => rfl
  | cons data t ih =>
    obtain ⟨_, _, h3, h4⟩ := musical_change_flgs_flag h n hr data .song_alternation
    have hf : boolFlagOf (h.musical_change_flgs data) "song_alternation_flg" = false := h3 hp
    unfold loadCount
    rw [emits_load_eq h n hr data, hf,
      ih _ (n + 1) (music_data_handle_reached h n hr data) (h4 (Or.inl hp))]
    rfl

theorem loadCount_le_one (stream : List MusicAnalyzedData) (h : MusicDataHandler) (n : Nat)
    (hr : h.Reached n) : h.loadCount stream ≤ 1 := by
  induction stream generalizing h n with
  | nil => exact Nat.zero_le _
  | cons data t ih =>
    obtain ⟨_, _, _, h4⟩ := musical_change_flgs_flag h n hr data .song_alternation
    unfold loadCount
    rw [emits_load_eq h n hr data]
    cases hf : boolFlagOf (h.musical_change_flgs data) "song_alternation_flg" with
    | true =>
      rw [loadCount_latched t _ (n + 1) (music_data_handle_reached h n hr data)
        (h4 (Or.inr hf))]
      simp
    | false =>
      have := ih _ (n + 1) (music_data_handle_reached h n hr data)
      simpa using this

end MusicDataHandler

/-- On the stream of 29 calm frames followed by the jump frame, the 30th frame reports the
song alternation and emits `/scene/1/load_effects`. -/
theorem load_effects_at_frame_30 :
    emits_address ((MusicDataHandler.run (List.replicate 29 data_calm)).music_data_handle
      data_jump).2.1 "/scene/1/load_effects" = true
    ∧ MusicDataHandler.new.loadCount (List.replicate 29 data_calm ++ [data_jump, data_calm])
        = 1 := by
  decide!

/-- Claim C35: in the pipeline of `MusicDataHandler::music_data_handle` (`update` followed by
`detect_musical_change_flgs`), for every input stream and the frame after it, whose
`frame_count` is the length of the stream plus one: when `frame_count ≥ 32` each of
`highlight_flg`, `songhook_flg`, `performer_switch_flg` and `song_alternation_flg` is
reported false, being the second poll of a detector that the idle tracker has already
polled inside `update`; a `/scene/1/load_effects` command is emitted only at `frame_count`
30 or 31; and over the whole stream it is emitted at most once. -/
theorem polled_detections_not_reported (stream : List MusicAnalyzedData)
    (data : MusicAnalyzedData) :
    ((MusicDataHandler.run stream).music_data_handle data).1.interpretor.frame_count
        = (stream.length : Int) + 1
    ∧ (32 ≤ stream.length + 1 → ∀ k : DetectorKind,
        mapFind k.flag_name ((MusicDataHandler.run stream).musical_change_flgs data)
            = some (.bool false)
        ∧ boolFlagOf ((MusicDataHandler.run stream).musical_change_flgs data) k.flag_name
            = (((MusicDataHandler.run stream).interpretor.updated data.frame k).detect.2).detect.1)
    ∧ (emits_address ((MusicDataHandler.run stream).music_data_handle data).2.1
          "/scene/1/load_effects" = true →
        stream.length + 1 = 30 ∨ stream.length + 1 = 31)
    ∧ MusicDataHandler.new.loadCount (stream ++ [data]) ≤ 1 := by
  have hr := MusicDataHandler.run_reached stream
  refine ⟨?_, ?_, ?_, ?_⟩
  · have := (MusicDataHandler.music_data_handle_reached _ _ hr data).1.1
    rw [this]
    push_cast
    rfl
  · intro h32 k
    have hfalse := (MusicDataHandler.musical_change_flgs_flag _ _ hr data k).1 h32
    obtain ⟨_, ⟨beats, hlen, htr⟩, _⟩ := hr.1
    have hsecond := ((MusicToLightInterpretor.process_frame_detector _ beats htr data.frame
      k).2 (by rw [hlen]; omega)).1
    refine ⟨?_, hsecond⟩
    have hfind := MusicToLightInterpretor.detect_flags_find
      ((MusicDataHandler.run stream).interpretor.update data.frame.beat_flg
        data.frame.eq_levels data.frame.tempo data.frame.tempo_confidence data.frame.genre
        data.frame.surround_score) k
    have hfalse' : boolFlagOf (MusicToLightInterpretor.detect_musical_change_flgs
        ((MusicDataHandler.run stream).interpretor.update data.frame.beat_flg
          data.frame.eq_levels data.frame.tempo data.frame.tempo_confidence data.frame.genre
          data.frame.surround_score)).1 k.flag_name = false := hfalse
    rw [hfalse'] at hfind
    exact hfind
  · intro hemit
    rw [MusicDataHandler.emits_load_eq _ _ hr data] at hemit
    obtain ⟨h1, h2, _, _⟩ :=
      MusicDataHandler.musical_change_flgs_flag _ _ hr data .song_alternation
    have hge : ¬ (stream.length + 1 < 30) := by
      intro hlt
      have := h2 hlt
      rw [show DetectorKind.song_alternation.flag_name = "song_alternation_flg" from rfl,
        hemit] at this
      exact Bool.noConfusion this
    have hlt : ¬ (32 ≤ stream.length + 1) := by
      intro hle
      have := h1 hle
      rw [show DetectorKind.song_alternation.flag_name = "song_alternation_flg" from rfl,
        hemit] at this
      exact Bool.noConfusion this
    omega
  · exact MusicDataHandler.loadCount_le_one _ _ 0 MusicDataHandler.new_reached

/-! ### Nested idle flags -/

namespace IdleStateDetector

/-- The flags after any calls are nested: a set flag of a longer period implies the set
flag of each shorter period. -/
theorem run_flags_nested (calls : List Call) :
    ((run calls).flags.2.2.2 = true → (run calls).flags.2.2.1 = true)
    ∧ ((run calls).flags.2.2.1 = true → (run calls).flags.2.1 = true)
    ∧ ((run calls).flags.2.1 = true → (run calls).flags.1 = true) := by
  induction calls using List.reverseRecOn with
  | nil => decide
  | append_singleton calls c ih =>
    have hspec := congrArg Prod.fst (run_snoc_spec calls c)
    simp only at hspec
    rw [hspec]
    unfold update_idle_state_spec
    by_cases h1 : calls.length + 1 < 32
    · rw [if_pos h1]
      simp
    · rw [if_neg h1]
      by_cases h2 : (calls.map (fun c => c.2.2)).getLastD false = true
      · rw [if_pos h2]
        simp
      · rw [if_neg h2]
        by_cases h3 : c.2.2 = true
        · rw [if_pos h3]
          simp only [decide_eq_true_eq]
          refine ⟨?_, ?_, ?_⟩ <;> intro h <;> omega
        · rw [if_neg h3]
          exact ih

end IdleStateDetector

namespace MusicDataHandler

/-- In the pipeline an idle flag can be reported only from the 32nd frame on. -/
theorem idle_flag_frame (h : MusicDataHandler) (n : Nat) (hr : h.Reached n)
    (data : MusicAnalyzedData)
    (hflag : boolFlagOf (h.musical_change_flgs data) "no_change_16beats_flg" = true) :
    32 ≤ n + 1 := by
  obtain ⟨_, ⟨beats, hlen, htr⟩, _⟩ := hr.1
  by_contra hlt
  have hstep := (IdleStateDetector.update_idle_state_step h.interpretor.idle_state_detector
    beats htr
    (h.interpretor.section_progress_detector.update_state data.frame.beat_flg
      data.frame.eq_levels data.frame.tempo data.frame.tempo_confidence)
    (h.interpretor.song_alternation_detector.update_history (toString data.frame.genre)
      data.frame.tempo (data.frame.surround_score : ℚ)) data.frame.beat_flg).2
  have hfl := congrArg Prod.fst hstep
  simp only [update_idle_state_spec, if_pos (show beats.length + 1 < 32 by omega)] at hfl
  have h16 := (MusicToLightInterpretor.detect_flags
    (h.interpretor.update data.frame.beat_flg data.frame.eq_levels data.frame.tempo
      data.frame.tempo_confidence data.frame.genre data.frame.surround_score)).2.2.2.2.2.2.1
  have hflag' : boolFlagOf (MusicToLightInterpretor.detect_musical_change_flgs
      (h.interpretor.update data.frame.beat_flg data.frame.eq_levels data.frame.tempo
        data.frame.tempo_confidence data.frame.genre data.frame.surround_score)).1
      "no_change_16beats_flg" = true := hflag
  rw [h16] at hflag'
  have h3 := congrArg (fun p : Bool × Bool × Bool × Bool => p.2.2.1) hfl
  simp only at h3
  have h4 : (h.interpretor.update data.frame.beat_flg data.frame.eq_levels data.frame.tempo
      data.frame.tempo_confidence data.frame.genre
      data.frame.surround_score).idle_state_detector.get_no_change_16beats_flg = false := h3
  rw [h4] at hflag'
  exact Bool.false_ne_true hflag'

end MusicDataHandler

/-- On the stream of 31 calm frames and 15 spaced beats, the next beat is reported with the
16-beat idle flag (and with the 8-beat and 4-beat flags), and the frame emits exactly one
`/scene/1/change_palette` command. -/
theorem sixteen_beats_example :
    boolFlagOf ((MusicDataHandler.run stream_fifteen_beats).musical_change_flgs data_beat)
        "no_change_16beats_flg" = true
    ∧ boolFlagOf ((MusicDataHandler.run stream_fifteen_beats).musical_change_flgs data_beat)
        "no_change_8beats_flg" = true
    ∧ boolFlagOf ((MusicDataHandler.run stream_fifteen_beats).musical_change_flgs data_beat)
        "no_change_4beats_flg" = true
    ∧ ((MusicDataHandler.run stream_fifteen_beats).music_data_handle data_beat).2.1
        = [{ address := "/scene/1/change_palette", data := .string "B" }] := by
  decide!

/-- Claim C40: for every stream of `update_idle_state` calls on a fresh tracker and after
every call, the idle flags are nested (`no_change_32beats` implies `no_change_16beats`,
which implies `no_change_8beats`, which implies `no_change_4beats`) and
`0 ≤ beat_counter ≤ 31`. In the `MusicDataHandler` pipeline a frame whose 16-beat flag is
set (it is then at least the 32nd frame, and no song alternation is reported) makes
`light_switch_flag()` emit exactly one command, `/scene/1/change_palette` with the next
palette id: no `change_effect` and no colour-shift command; the commands notified afterwards
on a 50th frame are the ten `dimmer_time_ratio` commands. -/
theorem idle_flags_nested_palette_wins (calls : List IdleStateDetector.Call)
    (stream : List MusicAnalyzedData) (data : MusicAnalyzedData) :
    ((IdleStateDetector.run calls).get_no_change_32beats_flg = true →
        (IdleStateDetector.run calls).get_no_change_16beats_flg = true)
    ∧ ((IdleStateDetector.run calls).get_no_change_16beats_flg = true →
        (IdleStateDetector.run calls).get_no_change_8beats_flg = true)
    ∧ ((IdleStateDetector.run calls).get_no_change_8beats_flg = true →
        (IdleStateDetector.run calls).get_no_change_4beats_flg = true)
    ∧ 0 ≤ (IdleStateDetector.run calls).beat_counter
    ∧ (IdleStateDetector.run calls).beat_counter ≤ 31
    ∧ (boolFlagOf ((MusicDataHandler.run stream).musical_change_flgs data)
          "no_change_16beats_flg" = true →
        ((MusicDataHandler.run stream).flagged_switcher data).takes_palette_change = true
        ∧ ((MusicDataHandler.run stream).music_data_handle data).2.1
            = [{ address := "/scene/1/change_palette"
                 data := .string
                   ((MusicDataHandler.run stream).flagged_switcher data).get_next_palette_id.2 }]
        ∧ (∀ c ∈ ((MusicDataHandler.run stream).music_data_handle data).2.1,
            c.address ≠ "/scene/1/change_effect"
            ∧ ∀ seg_id : Nat, c ≠ ((MusicDataHandler.run stream).flagged_switcher
                data).color_shift_command seg_id)
        ∧ ((MusicDataHandler.run stream).music_data_handle data).2.2
            = (if Int.tmod ((stream.length : Int) + 1) 50 = 0 then
                (List.range 10).map (fun i : Nat =>
                  { address := "/scene/1/effect/"
                      ++ toString ((MusicDataHandler.run stream).music_data_handle
                          data).1.light_switcher.current_effect_id
                      ++ "/segment/" ++ toString ((i : Int) + 1) ++ "/dimmer_time_ratio"
                    data := .double ((MusicDataHandler.run stream).music_data_handle
                      data).1.light_switcher.calc_dimmer_time_ratio })
              else [])
        ∧ 32 ≤ stream.length + 1) := by
  obtain ⟨n1, n2, n3⟩ := IdleStateDetector.run_flags_nested calls
  obtain ⟨_, _, hc0, hc31, _⟩ := IdleStateDetector.run_tracks calls
  refine ⟨n1, n2, n3, hc0, hc31, ?_⟩
  intro h16
  have hr := MusicDataHandler.run_reached stream
  have h32 := MusicDataHandler.idle_flag_frame _ _ hr data h16
  obtain ⟨hstart, hend⟩ := MusicDataHandler.flagged_switcher_start_end _ _ hr data
  obtain ⟨hready, hflags⟩ := MusicDataHandler.flagged_switcher_ready _ _ hr data
  have halt : boolFlagOf ((MusicDataHandler.run stream).musical_change_flgs data)
      "song_alternation_flg" = false :=
    (MusicDataHandler.musical_change_flgs_flag _ _ hr data .song_alternation).1 h32
  obtain ⟨_, _, _, f4, _, f6⟩ := LightingSwitcher.flagOf_six
    (boolFlagOf ((MusicDataHandler.run stream).musical_change_flgs data) "no_change_4beats_flg")
    (boolFlagOf ((MusicDataHandler.run stream).musical_change_flgs data) "no_change_8beats_flg")
    (boolFlagOf ((MusicDataHandler.run stream).musical_change_flgs data) "silence_start_flg")
    (boolFlagOf ((MusicDataHandler.run stream).musical_change_flgs data) "song_alternation_flg")
    (boolFlagOf ((MusicDataHandler.run stream).musical_change_flgs data) "silence_break_flg")
    (boolFlagOf ((MusicDataHandler.run stream).musical_change_flgs data) "no_change_16beats_flg")
  rw [← hflags, halt] at f4
  rw [← hflags, h16] at f6
  have htakes : ((MusicDataHandler.run stream).flagged_switcher data).takes_palette_change
      = true := by
    simp [LightingSwitcher.takes_palette_change, hstart, hend, f4, f6]
  have hout : ((MusicDataHandler.run stream).music_data_handle data).2.1
      = [{ address := "/scene/1/change_palette"
           data := .string
             ((MusicDataHandler.run stream).flagged_switcher data).get_next_palette_id.2 }] := by
    rw [MusicDataHandler.music_data_handle_eq]
    simp only
    rw [LightingSwitcher.light_switch_flag_palette _ htakes]
  refine ⟨htakes, hout, ?_, ?_, h32⟩
  · intro c hc
    rw [hout] at hc
    rw [List.mem_singleton.mp hc]
    refine ⟨by simp only; decide, ?_⟩
    intro seg_id he
    have hd := congrArg BlockBOutputData.data he
    simp [LightingSwitcher.color_shift_command] at hd
  · have hfc := (MusicDataHandler.music_data_handle_reached _ _ hr data).1.1
    have hsw := (MusicDataHandler.music_data_handle_reached _ _ hr data).2.1.2.2.1
    rw [MusicDataHandler.music_data_handle_eq] at hfc hsw ⊢
    simp only at hfc hsw ⊢
    rw [hfc]
    push_cast
    split_ifs
    · unfold LightingSwitcher.adopt_dimmer_time_to_tempo
      rw [hsw]
      rfl
    · rfl

/-! ### Routing of the switcher commands -/

theorem toString_small (n : Int) (h0 : 0 ≤ n) (h10 : n ≤ 10) :
    IsDigits (toString n).data ∧ stoi (toString n) = some n := by
  interval_cases n <;> decide

theorem color_address_eq (id seg : Int) :
    "/scene/1/effect/" ++ toString id ++ "/segment/" ++ toString seg ++ "/color"
      = segment_address "1".data (toString id).data (toString seg).data "color".data := by
  apply String.ext
  simp only [String.data_append, segment_address_data, List.append_assoc]
  rfl

theorem dimmer_address_eq (id seg : Int) :
    "/scene/1/effect/" ++ toString id ++ "/segment/" ++ toString seg ++ "/dimmer_time_ratio"
      = segment_address "1".data (toString id).data (toString seg).data
          "dimmer_time_ratio".data := by
  apply String.ext
  simp only [String.data_append, segment_address_data, List.append_assoc]
  rfl

namespace DataReceiveHandler

/-- A `color` command of the switcher, addressed to segment `g` of effect `id` of scene 1. -/
theorem handle_color_command (cache : PaletteMap) (h : DataReceiveHandler) (id g : Int)
    (hid0 : 0 ≤ id) (hid : id ≤ 10) (hg0 : 0 ≤ g) (hg : g ≤ 10) (v : List Int) :
    handle_input_data cache h
        ⟨"/scene/1/effect/" ++ toString id ++ "/segment/" ++ toString g ++ "/color", .vec_int v⟩
      = match mapFind 1 h.light_scenes with
        | none => h.returned
        | some scene =>
          match mapFind id scene.effects with
          | none => h.returned
          | some effect =>
            match mapFind g effect.segments with
            | none => h.returned
            | some segment =>
              returned (h.store_segment 1 scene id effect g
                { segment with
                  color := v
                  rgb_color := LightSegment.calculate_rgb { segment with color := v } cache
                    h.palettes_of "A" }) := by
  obtain ⟨hE, hEs⟩ := toString_small id hid0 hid
  obtain ⟨hG, hGs⟩ := toString_small g hg0 hg
  rw [handle_segment cache h _ "1".data (toString id).data (toString g).data "color".data
    (by decide) hE hG (by decide) (color_address_eq id g)]
  have hm : ∀ a : String, (⟨"scene_effect_segment", [a, String.mk "1".data,
      String.mk (toString id).data, String.mk (toString g).data, String.mk "color".data]⟩ :
        MatchResult)
      = ⟨"scene_effect_segment", [a, "1", toString id, toString g, "color"]⟩ := fun _ => rfl
  rw [hm]
  unfold scene_effect_segment_callback
  simp only [List.getD_cons_zero, List.getD_cons_succ]
  rw [show stoi "1" = some 1 by decide, hEs, hGs]
  simp only [LightScene.get_light_effects, if_true]
  rfl

/-- A `dimmer_time_ratio` command of the switcher never throws. -/
theorem handle_dimmer_command (cache : PaletteMap) (h : DataReceiveHandler) (id g : Int)
    (hid0 : 0 ≤ id) (hid : id ≤ 10) (hg0 : 0 ≤ g) (hg : g ≤ 10) (v : ℚ) :
    handle_input_data cache h
        ⟨"/scene/1/effect/" ++ toString id ++ "/segment/" ++ toString g
          ++ "/dimmer_time_ratio", .double v⟩
      = match mapFind 1 h.light_scenes with
        | none => h.returned
        | some scene =>
          match mapFind id scene.effects with
          | none => h.returned
          | some effect =>
            match mapFind g effect.segments with
            | none => h.returned
            | some segment =>
              returned (h.store_segment 1 scene id effect g
                { segment with dimmer_time_ratio := max (1 / 10) v }) := by
  obtain ⟨hE, hEs⟩ := toString_small id hid0 hid
  obtain ⟨hG, hGs⟩ := toString_small g hg0 hg
  rw [handle_segment cache h _ "1".data (toString id).data (toString g).data
    "dimmer_time_ratio".data (by decide) hE hG (by decide) (dimmer_address_eq id g)]
  have hm : ∀ a : String, (⟨"scene_effect_segment", [a, String.mk "1".data,
      String.mk (toString id).data, String.mk (toString g).data,
      String.mk "dimmer_time_ratio".data]⟩ : MatchResult)
      = ⟨"scene_effect_segment", [a, "1", toString id, toString g, "dimmer_time_ratio"]⟩ :=
    fun _ => rfl
  rw [hm]
  unfold scene_effect_segment_callback
  simp only [List.getD_cons_zero, List.getD_cons_succ]
  rw [show stoi "1" = some 1 by decide, hEs, hGs]
  have hne : ¬ (("dimmer_time_ratio" : String) = "color") := by decide
  simp only [LightScene.get_light_effects, if_true, if_neg hne]
  rfl

end DataReceiveHandler

namespace LightingSwitcher

theorem new_ready : LightingSwitcher.new.Ready :=
  ⟨new_tables, LightSwitchFlgMaker.new_sixFlags, by decide, by decide⟩

theorem call_ready (s : LightingSwitcher) (h : s.Ready) (c : SwitcherCall) :
    (s.call c).1.Ready := by
  cases c with
  | update_genre g => exact h
  | update_tempo t => exact h
  | update_light_switch_flgs m => exact (update_light_switch_flgs_ready s h m).1
  | adopt_dimmer_time_to_tempo => exact h
  | light_switch_flag => exact light_switch_flag_ready s h

theorem run_ready (calls : List SwitcherCall) (s : LightingSwitcher) (h : s.Ready) :
    (s.run calls).Ready := by
  induction calls generalizing s with
  | nil => exact h
  | cons c t ih => exact ih _ (call_ready s h c)

/-- The commands `light_switch_flag()` can return, branch by branch. -/
theorem light_switch_flag_commands (s : LightingSwitcher) (c : BlockBOutputData)
    (hc : c ∈ s.light_switch_flag.2) :
    c = { address := "/scene/1/load_effects"
          data := .string (vecAt s.json_name_list s.genre_id "") }
    ∨ c = { address := "/scene/1/change_effect", data := .int 0 }
    ∨ c = { address := "/scene/1/change_palette", data := .string s.get_next_palette_id.2 }
    ∨ c = { address := "/scene/1/change_effect", data := .int s.get_next_effect_id.2 }
    ∨ ∃ seg : Nat, seg < s.segment_num.toNat ∧ c = s.color_shift_command seg := by
  unfold light_switch_flag at hc
  split_ifs at hc
  · exact Or.inl (List.mem_singleton.mp hc)
  · exact Or.inr (Or.inl (List.mem_singleton.mp hc))
  · exact Or.inl (List.mem_singleton.mp hc)
  · exact Or.inr (Or.inr (Or.inl (List.mem_singleton.mp hc)))
  · exact Or.inr (Or.inr (Or.inr (Or.inl (List.mem_singleton.mp hc))))
  · rw [(color_shift_loop s _).2.1] at hc
    obtain ⟨seg, hseg, he⟩ := List.mem_map.mp hc
    exact Or.inr (Or.inr (Or.inr (Or.inr ⟨seg, List.mem_range.mp hseg, he.symm⟩)))
  · exact absurd hc (List.not_mem_nil c)

end LightingSwitcher

namespace DataReceiveHandler

theorem handle_load_effects_string (cache : PaletteMap) (h : DataReceiveHandler) (v : String) :
    DataDispatcher.match_pattern ⟨"/scene/1/load_effects", .string v⟩
        = some ⟨"scene_load_effects", ["/scene/1/load_effects", "1"]⟩
    ∧ (handle_input_data cache h ⟨"/scene/1/load_effects", .string v⟩).thrown = none := by
  have hm := (match_pattern_verb ⟨"/scene/1/load_effects", .string v⟩ "1".data
    (by decide)).1
    (show "/scene/1/load_effects" = scene_address "1".data "load_effects" by decide)
  refine ⟨hm, ?_⟩
  unfold handle_input_data
  rw [hm]
  rfl

theorem handle_change_effect_int (cache : PaletteMap) (h : DataReceiveHandler) (v : Int) :
    DataDispatcher.match_pattern ⟨"/scene/1/change_effect", .int v⟩
        = some ⟨"scene_change_effect", ["/scene/1/change_effect", "1"]⟩
    ∧ (handle_input_data cache h ⟨"/scene/1/change_effect", .int v⟩).thrown = none := by
  have hm := (match_pattern_verb ⟨"/scene/1/change_effect", .int v⟩ "1".data
    (by decide)).2.1
    (show "/scene/1/change_effect" = scene_address "1".data "change_effect" by decide)
  refine ⟨hm, ?_⟩
  unfold handle_input_data
  rw [hm]
  have hs : stoi (String.mk "1".data) = some 1 := by decide
  simp only [scene_change_effect_callback, List.getD_cons_zero, List.getD_cons_succ, hs,
    if_neg (show ¬ ("scene_change_effect" : String) = "scene_load_effects" by decide), if_true]
  repeat' split
  all_goals rfl

theorem handle_change_palette_string (cache : PaletteMap) (h : DataReceiveHandler)
    (v : String) :
    DataDispatcher.match_pattern ⟨"/scene/1/change_palette", .string v⟩
        = some ⟨"scene_change_palette", ["/scene/1/change_palette", "1"]⟩
    ∧ (handle_input_data cache h ⟨"/scene/1/change_palette", .string v⟩).thrown = none := by
  have hm := (match_pattern_verb ⟨"/scene/1/change_palette", .string v⟩ "1".data
    (by decide)).2.2
    (show "/scene/1/change_palette" = scene_address "1".data "change_palette" by decide)
  refine ⟨hm, ?_⟩
  unfold handle_input_data
  rw [hm]
  have hs : stoi (String.mk "1".data) = some 1 := by decide
  simp only [scene_change_palette_callback, List.getD_cons_zero, List.getD_cons_succ, hs,
    if_neg (show ¬ ("scene_change_palette" : String) = "scene_load_effects" by decide),
    if_neg (show ¬ ("scene_change_palette" : String) = "scene_change_effect" by decide), if_true]
  repeat' split
  all_goals rfl

theorem handle_color_command_thrown (cache : PaletteMap) (h : DataReceiveHandler) (id g : Int)
    (hid0 : 0 ≤ id) (hid : id ≤ 10) (hg0 : 0 ≤ g) (hg : g ≤ 10) (v : List Int) :
    (handle_input_data cache h
        ⟨"/scene/1/effect/" ++ toString id ++ "/segment/" ++ toString g ++ "/color",
          .vec_int v⟩).thrown = none := by
  rw [handle_color_command cache h id g hid0 hid hg0 hg v]
  repeat' split
  all_goals rfl

theorem handle_dimmer_command_thrown (cache : PaletteMap) (h : DataReceiveHandler)
    (id g : Int) (hid0 : 0 ≤ id) (hid : id ≤ 10) (hg0 : 0 ≤ g) (hg : g ≤ 10) (v : ℚ) :
    (handle_input_data cache h
        ⟨"/scene/1/effect/" ++ toString id ++ "/segment/" ++ toString g
          ++ "/dimmer_time_ratio", .double v⟩).thrown = none := by
  rw [handle_dimmer_command cache h id g hid0 hid hg0 hg v]
  repeat' split
  all_goals rfl

theorem match_color_command (id g : Int) (hid0 : 0 ≤ id) (hid : id ≤ 10) (hg0 : 0 ≤ g)
    (hg : g ≤ 10) (v : blockc_input_type) :
    DataDispatcher.match_pattern
        ⟨"/scene/1/effect/" ++ toString id ++ "/segment/" ++ toString g ++ "/color", v⟩
      = some ⟨"scene_effect_segment",
          ["/scene/1/effect/" ++ toString id ++ "/segment/" ++ toString g ++ "/color", "1",
            toString id, toString g, "color"]⟩ :=
  match_pattern_segment _ "1".data (toString id).data (toString g).data "color".data
    (by decide) (toString_small id hid0 hid).1 (toString_small g hg0 hg).1 (by decide)
    (color_address_eq id g)

theorem match_dimmer_command (id g : Int) (hid0 : 0 ≤ id) (hid : id ≤ 10) (hg0 : 0 ≤ g)
    (hg : g ≤ 10) (v : blockc_input_type) :
    DataDispatcher.match_pattern
        ⟨"/scene/1/effect/" ++ toString id ++ "/segment/" ++ toString g
          ++ "/dimmer_time_ratio", v⟩
      = some ⟨"scene_effect_segment",
          ["/scene/1/effect/" ++ toString id ++ "/segment/" ++ toString g
            ++ "/dimmer_time_ratio", "1", toString id, toString g, "dimmer_time_ratio"]⟩ :=
  match_pattern_segment _ "1".data (toString id).data (toString g).data
    "dimmer_time_ratio".data (by decide) (toString_small id hid0 hid).1
    (toString_small g hg0 hg).1 (by decide) (dimmer_address_eq id g)

end DataReceiveHandler

theorem LightingSwitcher.adopt_dimmer_time_eq (s : LightingSwitcher)
    (hn : s.segment_num = 10) :
    s.adopt_dimmer_time_to_tempo
      = (List.range 10).map (fun i : Nat =>
          { address := "/scene/1/effect/" ++ toString s.current_effect_id ++ "/segment/"
              ++ toString ((i : Int) + 1) ++ "/dimmer_time_ratio"
            data := .double s.calc_dimmer_time_ratio }) := by
  unfold LightingSwitcher.adopt_dimmer_time_to_tempo
  rw [hn]
  rfl

/-- Claim C37: every command the switcher can emit is routable and well-shaped. For every
state the switcher reaches from its constructor through its public methods, each command
returned by `light_switch_flag()` or `adopt_dimmer_time_to_tempo()` is matched by
`DataDispatcher::match_pattern` to the intended pattern: `scene_load_effects`,
`scene_change_effect` or `scene_change_palette` with scene 1, or `scene_effect_segment` with
the captures scene 1, `current_effect_id` (one of 1..8), the segment number (0..9 for
`color`, 1..10 for `dimmer_time_ratio`) and the parameter name; its payload holds the
alternative the matching handler reads (string, int, string, `vector<int>`, double); and
`handle_input_data` returns normally on it, for every handler state. (The string of a
`load_effects` command is `json_name_list[genre_id]`; for a `genre_id` outside the table
that read is undefined in the source and yields the empty string here.) -/
theorem switcher_commands_routable(calls : List SwitcherCall) (c : BlockBOutputData)
    (hc : c ∈ (LightingSwitcher.new.run calls).light_switch_flag.2
          ++ (LightingSwitcher.new.run calls).adopt_dimmer_time_to_tempo) :
    ((DataDispatcher.match_pattern c.to_input
          = some ⟨"scene_load_effects", ["/scene/1/load_effects", "1"]⟩
        ∧ c.address = "/scene/1/load_effects" ∧ ∃ v, c.data = .string v)
      ∨ (DataDispatcher.match_pattern c.to_input
          = some ⟨"scene_change_effect", ["/scene/1/change_effect", "1"]⟩
        ∧ c.address = "/scene/1/change_effect" ∧ ∃ v, c.data = .int v)
      ∨ (DataDispatcher.match_pattern c.to_input
          = some ⟨"scene_change_palette", ["/scene/1/change_palette", "1"]⟩
        ∧ c.address = "/scene/1/change_palette" ∧ ∃ v, c.data = .string v)
      ∨ (∃ seg : Nat, seg < 10
        ∧ DataDispatcher.match_pattern c.to_input
          = some ⟨"scene_effect_segment",
              [c.address, "1", toString (LightingSwitcher.new.run calls).current_effect_id,
                toString (seg : Int), "color"]⟩
        ∧ c.address = "/scene/1/effect/"
            ++ toString (LightingSwitcher.new.run calls).current_effect_id ++ "/segment/"
            ++ toString (seg : Int) ++ "/color"
        ∧ ∃ v, c.data = .vec_int v)
      ∨ (∃ seg : Nat, 1 ≤ seg ∧ seg ≤ 10
        ∧ DataDispatcher.match_pattern c.to_input
          = some ⟨"scene_effect_segment",
              [c.address, "1", toString (LightingSwitcher.new.run calls).current_effect_id,
                toString (seg : Int), "dimmer_time_ratio"]⟩
        ∧ c.address = "/scene/1/effect/"
            ++ toString (LightingSwitcher.new.run calls).current_effect_id ++ "/segment/"
            ++ toString (seg : Int) ++ "/dimmer_time_ratio"
        ∧ ∃ v, c.data = .double v))
    ∧ 1 ≤ (LightingSwitcher.new.run calls).current_effect_id
    ∧ (LightingSwitcher.new.run calls).current_effect_id ≤ 8
    ∧ ∀ (cache : PaletteMap) (h : DataReceiveHandler),
        (DataReceiveHandler.handle_input_data cache h c.to_input).thrown = none := by
  obtain ⟨ht, _, hid1, hid8⟩ :=
    LightingSwitcher.run_ready calls _ LightingSwitcher.new_ready
  have hn : (LightingSwitcher.new.run calls).segment_num = 10 := ht.2.2.1
  refine ⟨?_, hid1, hid8, ?_⟩
  · rcases List.mem_append.mp hc with hc1 | hc2
    · rcases LightingSwitcher.light_switch_flag_commands _ c hc1 with
        h1 | h1 | h1 | h1 | ⟨seg, hseg, h1⟩
      · rw [h1]
        exact Or.inl ⟨(DataReceiveHandler.handle_load_effects_string [] ⟨[], true⟩ _).1, rfl,
          _, rfl⟩
      · rw [h1]
        exact Or.inr (Or.inl
          ⟨(DataReceiveHandler.handle_change_effect_int [] ⟨[], true⟩ _).1, rfl, _, rfl⟩)
      · rw [h1]
        exact Or.inr (Or.inr (Or.inl
          ⟨(DataReceiveHandler.handle_change_palette_string [] ⟨[], true⟩ _).1, rfl, _, rfl⟩))
      · rw [h1]
        exact Or.inr (Or.inl
          ⟨(DataReceiveHandler.handle_change_effect_int [] ⟨[], true⟩ _).1, rfl, _, rfl⟩)
      · rw [hn] at hseg
        have hseg10 : seg < 10 := hseg
        rw [h1]
        refine Or.inr (Or.inr (Or.inr (Or.inl ⟨seg, hseg10, ?_, rfl, _, rfl⟩)))
        exact DataReceiveHandler.match_color_command _ _ (by omega) (by omega) (by omega)
          (by omega) _
    · rw [LightingSwitcher.adopt_dimmer_time_eq _ hn] at hc2
      obtain ⟨i, hi, he⟩ := List.mem_map.mp hc2
      have hi10 : i < 10 := List.mem_range.mp hi
      rw [← he]
      refine Or.inr (Or.inr (Or.inr (Or.inr ⟨i + 1, by omega, by omega, ?_, ?_, _, rfl⟩)))
      · have := DataReceiveHandler.match_dimmer_command
          (LightingSwitcher.new.run calls).current_effect_id ((i : Int) + 1) (by omega)
          (by omega) (by omega) (by omega)
          (.double (LightingSwitcher.new.run calls).calc_dimmer_time_ratio)
        push_cast
        exact this
      · push_cast
        rfl
  · intro cache h
    rcases List.mem_append.mp hc with hc1 | hc2
    · rcases LightingSwitcher.light_switch_flag_commands _ c hc1 with
        h1 | h1 | h1 | h1 | ⟨seg, hseg, h1⟩
      · rw [h1]
        exact (DataReceiveHandler.handle_load_effects_string cache h _).2
      · rw [h1]
        exact (DataReceiveHandler.handle_change_effect_int cache h _).2
      · rw [h1]
        exact (DataReceiveHandler.handle_change_palette_string cache h _).2
      · rw [h1]
        exact (DataReceiveHandler.handle_change_effect_int cache h _).2
      · rw [hn] at hseg
        have hseg10 : seg < 10 := hseg
        rw [h1]
        exact DataReceiveHandler.handle_color_command_thrown cache h _ _ (by omega) (by omega)
          (by omega) (by omega) _
    · rw [LightingSwitcher.adopt_dimmer_time_eq _ hn] at hc2
      obtain ⟨i, hi, he⟩ := List.mem_map.mp hc2
      have hi10 : i < 10 := List.mem_range.mp hi
      rw [← he]
      exact DataReceiveHandler.handle_dimmer_command_thrown cache h _ _ (by omega) (by omega)
        (by omega) (by omega) _

/-- Claim C37 at the colour command for segment 3 of effect 2, emitted by a switcher that
changed to effect 2 and then received the 4-beat flag: it is routed to
`scene_effect_segment` with the captures `1`, `2`, `3`, `color`, and the handler with the
default scene returns normally on it. -/
theorem switcher_commands_routable_witness :
    (⟨"/scene/1/effect/2/segment/3/color", .vec_int [0, 0, 0, 0]⟩ : BlockBOutputData)
      ∈ (LightingSwitcher.new.run calls_effect_then_shift).light_switch_flag.2
          ++ (LightingSwitcher.new.run calls_effect_then_shift).adopt_dimmer_time_to_tempo
    ∧ DataDispatcher.match_pattern
        (⟨"/scene/1/effect/2/segment/3/color", .vec_int [0, 0, 0, 0]⟩ :
          BlockBOutputData).to_input
        = some ⟨"scene_effect_segment",
            ["/scene/1/effect/2/segment/3/color", "1", "2", "3", "color"]⟩
    ∧ (DataReceiveHandler.handle_input_data DEFAULT_COLOR_PALETTES
        (DataReceiveHandler.new DEFAULT_COLOR_PALETTES [])
        (⟨"/scene/1/effect/2/segment/3/color", .vec_int [0, 0, 0, 0]⟩ :
          BlockBOutputData).to_input).thrown = none := by
  have hmem : (⟨"/scene/1/effect/2/segment/3/color", .vec_int [0, 0, 0, 0]⟩ : BlockBOutputData)
      ∈ (LightingSwitcher.new.run calls_effect_then_shift).light_switch_flag.2
          ++ (LightingSwitcher.new.run calls_effect_then_shift).adopt_dimmer_time_to_tempo := by
    decide!
  exact ⟨hmem, by decide!,
    (switcher_commands_routable calls_effect_then_shift _ hmem).2.2.2 _ _⟩

/-! ### A colour shift on the default scene -/

namespace DataReceiveHandler

theorem default_scene_find (cache : PaletteMap) :
    mapFind 1 (DataReceiveHandler.new cache []).light_scenes
      = some (create_default_effects cache (LightScene.new 1) 8) := rfl

theorem default_effect_find (cache : PaletteMap) (id : Int) (h0 : 0 ≤ id) (h8 : id ≤ 8) :
    ∃ effect, mapFind id (create_default_effects cache (LightScene.new 1) 8).effects
        = some effect
      ∧ effect.segments = (create_default_segments cache
          (LightEffect.new id DEFAULT_LED_COUNT DEFAULT_FPS) 10).segments := by
  interval_cases id <;> exact ⟨_, rfl, rfl⟩

/-- The segments `create_default_segments` adds to an empty effect are keyed 1..10. -/
theorem default_segments_keys (cache : PaletteMap) (e : LightEffect) (he : e.segments = [])
    (g : Int) :
    (1 ≤ g ∧ g ≤ 10 → (mapFind g (create_default_segments cache e 10).segments).isSome = true)
    ∧ (¬ (1 ≤ g ∧ g ≤ 10) → mapFind g (create_default_segments cache e 10).segments = none) := by
  have hr : intRange 1 10 = [1, 2, 3, 4, 5, 6, 7, 8, 9, 10] := by decide
  unfold create_default_segments
  rw [hr]
  simp only [List.foldl_cons, List.foldl_nil, create_default_segment, LightEffect.add_segment, he]
  constructor
  · rintro ⟨h1, h10⟩
    interval_cases g <;>
      simp (disch := decide) only [mapFind_mapSet_other, mapFind_mapSet_same, Option.isSome_some]
  · intro hg
    have hne : ∀ k : Int, 1 ≤ k → k ≤ 10 → k ≠ g := by
      intro k hk1 hk2 he
      exact hg (he ▸ ⟨hk1, hk2⟩)
    rw [mapFind_mapSet_other _ _ _ _ (hne 10 (by decide) (by decide)),
      mapFind_mapSet_other _ _ _ _ (hne 9 (by decide) (by decide)),
      mapFind_mapSet_other _ _ _ _ (hne 8 (by decide) (by decide)),
      mapFind_mapSet_other _ _ _ _ (hne 7 (by decide) (by decide)),
      mapFind_mapSet_other _ _ _ _ (hne 6 (by decide) (by decide)),
      mapFind_mapSet_other _ _ _ _ (hne 5 (by decide) (by decide)),
      mapFind_mapSet_other _ _ _ _ (hne 4 (by decide) (by decide)),
      mapFind_mapSet_other _ _ _ _ (hne 3 (by decide) (by decide)),
      mapFind_mapSet_other _ _ _ _ (hne 2 (by decide) (by decide)),
      mapFind_mapSet_other _ _ _ _ (hne 1 (by decide) (by decide))]
    rfl

theorem receive_all_snoc (cache : PaletteMap) (h : DataReceiveHandler)
    (cmds : List BlockBOutputData) (c : BlockBOutputData) :
    receive_all cache h (cmds ++ [c])
      = (handle_input_data cache (receive_all cache h cmds) c.to_input).handler := by
  simp [receive_all, List.foldl_append]

/-- The handler after the colour commands for the segments `0 .. k-1` of effect `id` of
scene 1, on a scene whose effect `id` has the segments of `effect0`, none of them keyed 0:
the segments `1 .. k-1` carry the commanded colour indices, the rest is untouched. -/
theorem receive_color_prefix (cache : PaletteMap) (h0 : DataReceiveHandler)
    (s : LightingSwitcher) (scene0 : LightScene) (effect0 : LightEffect)
    (hid0 : 0 ≤ s.current_effect_id) (hid : s.current_effect_id ≤ 10)
    (hscene : mapFind 1 h0.light_scenes = some scene0)
    (heffect : mapFind s.current_effect_id scene0.effects = some effect0)
    (k : Nat) (hk : k ≤ 10) :
    ∃ scene effect,
      mapFind 1 (receive_all cache h0 ((List.range k).map s.color_shift_command)).light_scenes
        = some scene
      ∧ mapFind s.current_effect_id scene.effects = some effect
      ∧ (∀ e : Int, e ≠ s.current_effect_id →
          mapFind e scene.effects = mapFind e scene0.effects)
      ∧ (∀ g : Nat, g < k → ∀ seg0, mapFind (g : Int) effect0.segments = some seg0 →
          ∃ seg, mapFind (g : Int) effect.segments = some seg
            ∧ (s.color_shift_command g).data = .vec_int seg.color
            ∧ { seg with rgb_color := seg0.rgb_color } = { seg0 with color := seg.color })
      ∧ (∀ j : Int, (∀ g : Nat, g < k → j = (g : Int) → mapFind j effect0.segments = none) →
          mapFind j effect.segments = mapFind j effect0.segments) := by
  induction k with
  | zero =>
    refine ⟨scene0, effect0, hscene, heffect, fun _ _ => rfl, ?_, fun _ _ => rfl⟩
    intro g hg
    exact absurd hg (Nat.not_lt_zero g)
  | succ k ih =>
    obtain ⟨scene, effect, h1, h2, h3, h4, h5⟩ := ih (by omega)
    rw [List.range_succ, List.map_append, List.map_cons, List.map_nil, receive_all_snoc]
    have hcmd := handle_color_command cache
      (receive_all cache h0 ((List.range k).map s.color_shift_command))
      s.current_effect_id (k : Int) hid0 hid (by omega) (by omega)
      ((s.segment_color_ids.getD k []).map (fun c => Int.tmod (c + 1) 5))
    have hin : (s.color_shift_command k).to_input
        = ⟨"/scene/1/effect/" ++ toString s.current_effect_id ++ "/segment/"
            ++ toString (k : Int) ++ "/color",
          .vec_int ((s.segment_color_ids.getD k []).map (fun c => Int.tmod (c + 1) 5))⟩ := rfl
    rw [hin, hcmd, h1]
    simp only [h2]
    have hsame : mapFind (k : Int) effect.segments = mapFind (k : Int) effect0.segments := by
      apply h5
      intro g hg he
      have : g = k := by exact_mod_cast he.symm
      omega
    rw [hsame]
    cases hseg : mapFind (k : Int) effect0.segments with
    | none =>
      refine ⟨scene, effect, h1, h2, h3, ?_, ?_⟩
      · intro g hg seg0 hs0
        by_cases hgk : g = k
        · rw [hgk, hseg] at hs0
          exact absurd hs0 (by simp)
        · exact h4 g (by omega) seg0 hs0
      · intro j hj
        apply h5
        intro g hg he
        exact hj g (by omega) he
    | some seg0 =>
      refine ⟨_, _, mapFind_mapSet_same _ _ _, mapFind_mapSet_same _ _ _, ?_, ?_, ?_⟩
      · intro e he
        rw [mapFind_mapSet_other _ _ _ _ (Ne.symm he)]
        exact h3 e he
      · intro g hg seg0' hs0
        by_cases hgk : g = k
        · subst hgk
          rw [hseg] at hs0
          have hs0' := Option.some.inj hs0
          subst hs0'
          exact ⟨_, mapFind_mapSet_same _ _ _, rfl, rfl⟩
        · have hne : (k : Int) ≠ (g : Int) := by
            intro he
            exact hgk (by exact_mod_cast he.symm)
          obtain ⟨seg, hs1, hs2, hs3⟩ := h4 g (by omega) seg0' hs0
          exact ⟨seg, by rw [mapFind_mapSet_other _ _ _ _ hne]; exact hs1, hs2, hs3⟩
      · intro j hj
        have hne : (k : Int) ≠ j := by
          intro he
          have := hj k (by omega) he.symm
          rw [← he, hseg] at this
          exact absurd this (by simp)
        rw [mapFind_mapSet_other _ _ _ _ hne]
        apply h5
        intro g hg he
        exact hj g (by omega) he

end DataReceiveHandler

/-- Claim C36: on the default scene that `DataReceiveHandler` builds when given no scenes
(scene 1, effects 0..8, each with segments keyed 1..10), the ten colour commands of one
colour shift of a switcher (segments 0..9 of effect `current_effect_id`), passed in order
to `handle_input_data`, set the colour indices of exactly the segments 1..9 of that effect:
the command for segment 0 finds no segment and returns with the handler unchanged; each of
the segments 1..9 afterwards carries the colour indices of its command and differs from
the original segment in `color` and `rgb_color` only; segment 10 and every other effect are
the original ones, and no segment 0 appears. -/
theorem color_shift_on_default_scene (cache : PaletteMap) (calls : List SwitcherCall)
    (hshift : (LightingSwitcher.new.run calls).takes_color_shift = true) :
    (LightingSwitcher.new.run calls).light_switch_flag.2
        = (List.range 10).map (LightingSwitcher.new.run calls).color_shift_command
    ∧ DataReceiveHandler.handle_input_data cache (DataReceiveHandler.new cache [])
          ((LightingSwitcher.new.run calls).color_shift_command 0).to_input
        = (DataReceiveHandler.new cache []).returned
    ∧ ∃ scene0 effect0 scene effect,
        mapFind 1 (DataReceiveHandler.new cache []).light_scenes = some scene0
        ∧ mapFind (LightingSwitcher.new.run calls).current_effect_id scene0.effects
            = some effect0
        ∧ mapFind 1 ((DataReceiveHandler.new cache []).receive_all cache
            (LightingSwitcher.new.run calls).light_switch_flag.2).light_scenes = some scene
        ∧ mapFind (LightingSwitcher.new.run calls).current_effect_id scene.effects
            = some effect
        ∧ (∀ g : Nat, 1 ≤ g → g ≤ 9 → ∃ seg0 seg,
            mapFind (g : Int) effect0.segments = some seg0
            ∧ mapFind (g : Int) effect.segments = some seg
            ∧ ((LightingSwitcher.new.run calls).color_shift_command g).data = .vec_int seg.color
            ∧ { seg with rgb_color := seg0.rgb_color } = { seg0 with color := seg.color })
        ∧ (∃ seg10, mapFind 10 effect0.segments = some seg10
            ∧ mapFind 10 effect.segments = some seg10)
        ∧ mapFind 0 effect0.segments = none
        ∧ mapFind 0 effect.segments = none
        ∧ (∀ e : Int, e ≠ (LightingSwitcher.new.run calls).current_effect_id →
            mapFind e scene.effects = mapFind e scene0.effects) := by
  obtain ⟨ht, _, hid1, hid8⟩ :=
    LightingSwitcher.run_ready calls _ LightingSwitcher.new_ready
  have hn : (LightingSwitcher.new.run calls).segment_num = 10 := ht.2.2.1
  have hcmds : (LightingSwitcher.new.run calls).light_switch_flag.2
      = (List.range 10).map (LightingSwitcher.new.run calls).color_shift_command := by
    rw [LightingSwitcher.light_switch_flag_of_shift _ hshift, hn]
    exact (LightingSwitcher.color_shift_loop _ 10).2.1
  have hscene := DataReceiveHandler.default_scene_find cache
  obtain ⟨effect0, heffect, hsegs⟩ := DataReceiveHandler.default_effect_find cache
    (LightingSwitcher.new.run calls).current_effect_id (by omega) hid8
  have hkeys : ∀ g : Int,
      (1 ≤ g ∧ g ≤ 10 → (mapFind g effect0.segments).isSome = true)
      ∧ (¬ (1 ≤ g ∧ g ≤ 10) → mapFind g effect0.segments = none) := by
    intro g
    rw [hsegs]
    exact DataReceiveHandler.default_segments_keys cache _ rfl g
  have hzero : mapFind 0 effect0.segments = none := (hkeys 0).2 (by decide)
  refine ⟨hcmds, ?_, ?_⟩
  · have hcmd := DataReceiveHandler.handle_color_command cache
      (DataReceiveHandler.new cache []) (LightingSwitcher.new.run calls).current_effect_id 0
      (by omega) (by omega) (by decide) (by decide)
      (((LightingSwitcher.new.run calls).segment_color_ids.getD 0 []).map
        (fun c => Int.tmod (c + 1) 5))
    have hin : ((LightingSwitcher.new.run calls).color_shift_command 0).to_input
        = ⟨"/scene/1/effect/" ++ toString (LightingSwitcher.new.run calls).current_effect_id
            ++ "/segment/" ++ toString (0 : Int) ++ "/color",
          .vec_int (((LightingSwitcher.new.run calls).segment_color_ids.getD 0 []).map
            (fun c => Int.tmod (c + 1) 5))⟩ := rfl
    rw [hin, hcmd, hscene]
    simp only [heffect, hzero]
  · obtain ⟨scene, effect, h1, h2, h3, h4, h5⟩ := DataReceiveHandler.receive_color_prefix cache
      (DataReceiveHandler.new cache []) (LightingSwitcher.new.run calls) _ effect0
      (by omega) (by omega) hscene heffect 10 (le_refl 10)
    rw [← hcmds] at h1
    refine ⟨_, effect0, scene, effect, hscene, heffect, h1, h2, ?_, ?_, hzero, ?_, h3⟩
    · intro g hg1 hg9
      obtain ⟨seg0, hs0⟩ := Option.isSome_iff_exists.mp
        ((hkeys (g : Int)).1 ⟨by omega, by omega⟩)
      obtain ⟨seg, hs1, hs2, hs3⟩ := h4 g (by omega) seg0 hs0
      exact ⟨seg0, seg, hs0, hs1, hs2, hs3⟩
    · obtain ⟨seg10, hs10⟩ := Option.isSome_iff_exists.mp
        ((hkeys 10).1 ⟨by decide, by decide⟩)
      refine ⟨seg10, hs10, ?_⟩
      rw [h5 10 (fun g hg he => by omega)]
      exact hs10
    · rw [h5 0 (fun g _ _ => hzero)]
      exact hzero

/-- Claim C36 on the switcher that changed to effect 2 and then received the 4-beat flag,
over the default palettes: after the ten commands segment 3 of effect 2 has the colour
indices `[0, 0, 0, 0]` instead of `[3, 3, 3, 3]`, segment 10 keeps `[4, 4, 4, 4]`, there is
no segment 0, and segment 3 of effect 3 is untouched. -/
theorem color_shift_on_default_scene_witness :
    (LightingSwitcher.new.run calls_effect_then_shift).takes_color_shift = true
    ∧ (LightingSwitcher.new.run calls_effect_then_shift).current_effect_id = 2
    ∧ (DataReceiveHandler.new DEFAULT_COLOR_PALETTES []).segment_color 1 2 3
        = some [3, 3, 3, 3]
    ∧ (((DataReceiveHandler.new DEFAULT_COLOR_PALETTES []).receive_all DEFAULT_COLOR_PALETTES
          (LightingSwitcher.new.run calls_effect_then_shift).light_switch_flag.2).segment_color
          1 2 3 = some [0, 0, 0, 0])
    ∧ (((DataReceiveHandler.new DEFAULT_COLOR_PALETTES []).receive_all DEFAULT_COLOR_PALETTES
          (LightingSwitcher.new.run calls_effect_then_shift).light_switch_flag.2).segment_color
          1 2 10 = some [4, 4, 4, 4])
    ∧ (((DataReceiveHandler.new DEFAULT_COLOR_PALETTES []).receive_all DEFAULT_COLOR_PALETTES
          (LightingSwitcher.new.run calls_effect_then_shift).light_switch_flag.2).segment_color
          1 2 0 = none)
    ∧ (((DataReceiveHandler.new DEFAULT_COLOR_PALETTES []).receive_all DEFAULT_COLOR_PALETTES
          (LightingSwitcher.new.run calls_effect_then_shift).light_switch_flag.2).segment_color
          1 3 3 = some [3, 3, 3, 3])
    ∧ ((LightingSwitcher.new.run calls_effect_then_shift).light_switch_flag.2
        = (List.range 10).map (LightingSwitcher.new.run calls_effect_then_shift).color_shift_command
    ∧ DataReceiveHandler.handle_input_data DEFAULT_COLOR_PALETTES (DataReceiveHandler.new DEFAULT_COLOR_PALETTES [])
          ((LightingSwitcher.new.run calls_effect_then_shift).color_shift_command 0).to_input
        = (DataReceiveHandler.new DEFAULT_COLOR_PALETTES []).returned
    ∧ ∃ scene0 effect0 scene effect,
        mapFind 1 (DataReceiveHandler.new DEFAULT_COLOR_PALETTES []).light_scenes = some scene0
        ∧ mapFind (LightingSwitcher.new.run calls_effect_then_shift).current_effect_id scene0.effects
            = some effect0
        ∧ mapFind 1 ((DataReceiveHandler.new DEFAULT_COLOR_PALETTES []).receive_all DEFAULT_COLOR_PALETTES
            (LightingSwitcher.new.run calls_effect_then_shift).light_switch_flag.2).light_scenes = some scene
        ∧ mapFind (LightingSwitcher.new.run calls_effect_then_shift).current_effect_id scene.effects
            = some effect
        ∧ (∀ g : Nat, 1 ≤ g → g ≤ 9 → ∃ seg0 seg,
            mapFind (g : Int) effect0.segments = some seg0
            ∧ mapFind (g : Int) effect.segments = some seg
            ∧ ((LightingSwitcher.new.run calls_effect_then_shift).color_shift_command g).data = .vec_int seg.color
            ∧ { seg with rgb_color := seg0.rgb_color } = { seg0 with color := seg.color })
        ∧ (∃ seg10, mapFind 10 effect0.segments = some seg10
            ∧ mapFind 10 effect.segments = some seg10)
        ∧ mapFind 0 effect0.segments = none
        ∧ mapFind 0 effect.segments = none
        ∧ (∀ e : Int, e ≠ (LightingSwitcher.new.run calls_effect_then_shift).current_effect_id →
            mapFind e scene.effects = mapFind e scene0.effects)) :=
  ⟨by decide!, by decide!, by decide!, by decide!, by decide!, by decide!, by decide!,
   color_shift_on_default_scene DEFAULT_COLOR_PALETTES calls_effect_then_shift (by decide!)⟩

end Lighting
